import Mathlib

/-!
# Icinga 2 discovery component

A shallow embedding of `components/discovery/discoverycomponent.cpp` and the
properties of the peer-discovery layer that are checked against it.

Conventions of the embedding:

* An `Endpoint::Ptr` is a natural number (the address of the endpoint object);
  the endpoint objects live in `State.heap`, so that an endpoint keeps its
  fields after it has been unregistered.
* `std::set<string>` and `std::map<string, T>` are lists kept in key order
  (`setInsert`, `mapSet`), compared bytewise like `std::string::operator<`.
* `time(&t)` is an explicit argument `now : Int` of the handlers that read the
  clock; `time_t` values are integers, the one subtraction
  `now - RegistrationTTL` stays far from the limits of `time_t`.
* A C++ exception or a null-pointer dereference ends a handler with a `Fault`.
-/

namespace Icinga

/-! ## Ordered containers -/

/-- Lexicographic comparison of two character sequences, as
`std::string::operator<` does. -/
def ltChars : List Char → List Char → Bool
  | _, [] => false
  | [], _ :: _ => true
  | a :: as, b :: bs =>
    if a.toNat < b.toNat then true
    else if b.toNat < a.toNat then false
    else ltChars as bs

/-- The order of `std::string`. -/
def strLt (a b : String) : Bool := ltChars a.data b.data

/-- The call `set<string>::insert(t)`: the set stays in key order and holds
every string once. -/
def setInsert (t : String) : List String → List String
  | [] => [t]
  | x :: xs =>
    if strLt t x then t :: x :: xs
    else if t = x then x :: xs
    else x :: setInsert t xs

/-- The call `map<string, T>::find(k)`. -/
def mapFind {α : Type} : List (String × α) → String → Option α
  | [], _ => none
  | (k', v) :: rest, k => if k' = k then some v else mapFind rest k

/-- The call `map<string, T>::erase` of the entry with key `k`. -/
def mapErase {α : Type} (m : List (String × α)) (k : String) : List (String × α) :=
  m.filter (fun kv => decide (kv.1 ≠ k))

/-- The assignment `m[k] = v`: the entry of `k` is overwritten, or inserted at
its place in key order. -/
def mapSet {α : Type} (k : String) (v : α) : List (String × α) → List (String × α)
  | [] => [(k, v)]
  | (k', v') :: rest =>
    if strLt k k' then (k, v) :: (k', v') :: rest
    else if k = k' then (k, v) :: rest
    else (k', v') :: mapSet k v rest

/-! ## Configuration objects -/

/-- A `Dictionary` whose values are read with `GetString()`. -/
abbrev Dictionary := List (String × String)

/-- The value of a property of a configuration object: a string, or an object
that `dynamic_pointer_cast<Dictionary>` accepts (`dict`) or rejects (`other`). -/
inductive Property where
  | str (value : String)
  | dict (d : Dictionary)
  | other
  deriving DecidableEq, Repr

/-- A `ConfigObject`: its type ("endpoint", "role"), its name and its
properties. -/
structure ConfigObject where
  typ : String
  name : String
  properties : List (String × Property)
  deriving DecidableEq, Repr

/-- The set of all configuration objects. -/
abbrev Config := List ConfigObject

/-- The range `ConfigObject::GetObjects(type)`. -/
def GetObjects (cfg : Config) (type : String) : List ConfigObject :=
  cfg.filter (fun o => decide (o.typ = type))

/-- The lookup `ConfigObject::GetObject(type, name)`. -/
def GetObject (cfg : Config) (type name : String) : Option ConfigObject :=
  cfg.find? (fun o => decide (o.typ = type) && decide (o.name = name))

/-- The call `GetProperty(key, &object)` with an `Object::Ptr` result. -/
def ConfigObject.GetProperty (o : ConfigObject) (key : String) : Option Property :=
  mapFind o.properties key

/-- The call `GetProperty(key, &str)` with a `string` result. -/
def ConfigObject.GetPropertyString (o : ConfigObject) (key : String) : Option String :=
  match mapFind o.properties key with
  | some (.str v) => some v
  | _ => none

/-! ## Endpoints, messages and the state of the component -/

/-- Modelled from the spec: the connection state of an endpoint
(`disconnected | connecting | connected | closed`); the class `Endpoint` is
not part of the sources at hand. -/
inductive ConnState where
  | disconnected
  | connecting
  | connected
  | closed
  deriving DecidableEq, Repr

/-- Modelled from the spec: the attributes of an `Endpoint` (identity,
connection state, session flags, published and subscribed topics, the local
flag); the class `Endpoint` is not part of the sources at hand. -/
structure Endpoint where
  identity : String
  isLocal : Bool
  conn : ConnState
  sentWelcome : Bool
  receivedWelcome : Bool
  publications : List String
  subscriptions : List String
  deriving DecidableEq, Repr

/-- The test `endpoint->IsConnected()`. -/
def Endpoint.IsConnected (e : Endpoint) : Bool := decide (e.conn = ConnState.connected)

/-- The parameter block of a discovery message; every field may be absent. -/
structure DiscoveryMessage where
  identity : Option String
  node : Option String
  service : Option String
  publications : Option (List String)
  subscriptions : Option (List String)
  deriving DecidableEq, Repr

/-- A `RequestMessage`: the method and, for discovery messages, the
parameters. -/
structure RequestMessage where
  method : String
  params : Option DiscoveryMessage
  deriving DecidableEq, Repr

/-- A message handed to the transport by the endpoint manager. -/
inductive Sent where
  | unicast (source target : Nat) (request : RequestMessage)
  | multicast (source : Nat) (request : RequestMessage) (recipients : List Nat)
  deriving DecidableEq, Repr

/-- The class `ComponentDiscoveryInfo`: an entry of the peer directory. -/
structure ComponentDiscoveryInfo where
  Node : String
  Service : String
  Subscriptions : List String
  Publications : List String
  LastSeen : Int
  deriving DecidableEq, Repr

/-- How a handler ends when it does not return: a C++ exception that leaves
it, or the dereference of a null `Endpoint::Ptr`. -/
inductive Fault where
  | exception (what : String)
  | nullDeref
  deriving DecidableEq, Repr

/-- The state the discovery component works on: the endpoint manager
(identity, registry, what it sent, dropped and was asked to connect to), the
endpoint objects, the application's own address, and the component's fields
`m_DiscoveryEndpoint` and `m_Components`.  `established` records every firing
of `OnSessionEstablished` with the endpoint as the callback sees it. -/
structure State where
  localIdentity : String
  appNode : String
  appService : String
  discoveryEndpoint : Nat
  heap : Nat → Endpoint
  registry : List Nat
  components : List (String × ComponentDiscoveryInfo)
  sent : List Sent
  dropped : Nat
  connections : List (String × String)
  established : List (Nat × Endpoint)

/-! ## The endpoint and the endpoint manager -/

/-- Applies `f` to the endpoint object at address `e`. -/
def State.updateEndpoint (s : State) (e : Nat) (f : Endpoint → Endpoint) : State :=
  { s with heap := fun i => if i = e then f (s.heap i) else s.heap i }

/-- Modelled from the spec: `Endpoint::RegisterPublication` adds a topic to
the set of topics the endpoint publishes; the class `Endpoint` is not part of
the sources at hand. -/
def RegisterPublication (s : State) (e : Nat) (topic : String) : State :=
  s.updateEndpoint e (fun ep => { ep with publications := setInsert topic ep.publications })

/-- Modelled from the spec: `Endpoint::RegisterSubscription` adds a topic to
the set of topics the endpoint subscribes to; the class `Endpoint` is not part
of the sources at hand. -/
def RegisterSubscription (s : State) (e : Nat) (topic : String) : State :=
  s.updateEndpoint e (fun ep => { ep with subscriptions := setInsert topic ep.subscriptions })

/-- Modelled from the spec: `Endpoint::SetSentWelcome`, the session flag
`sentWelcome`; the class `Endpoint` is not part of the sources at hand. -/
def SetSentWelcome (s : State) (e : Nat) (value : Bool) : State :=
  s.updateEndpoint e (fun ep => { ep with sentWelcome := value })

/-- Modelled from the spec: `Endpoint::SetReceivedWelcome`, the session flag
`receivedWelcome`; the class `Endpoint` is not part of the sources at hand. -/
def SetReceivedWelcome (s : State) (e : Nat) (value : Bool) : State :=
  s.updateEndpoint e (fun ep => { ep with receivedWelcome := value })

/-- Modelled from the spec: `Endpoint::Stop` tears the endpoint down, its
connection state becomes `closed`; the class `Endpoint` is not part of the
sources at hand. -/
def Stop (s : State) (e : Nat) : State :=
  s.updateEndpoint e (fun ep => { ep with conn := ConnState.closed })

/-- The signal `endpoint->OnSessionEstablished(endpoint)`: the firing is
recorded together with the endpoint the callback receives. -/
def OnSessionEstablished (s : State) (e : Nat) : State :=
  { s with established := s.established ++ [(e, s.heap e)] }

/-- Modelled from the spec: `unregisterEndpoint(e)` removes `e` from the
registry and closes the transport if open; the class `EndpointManager` is not
part of the sources at hand. -/
def UnregisterEndpoint (s : State) (e : Nat) : State :=
  let s1 : State := { s with registry := s.registry.filter (fun i => decide (i ≠ e)) }
  s1.updateEndpoint e (fun ep =>
    if ep.conn = ConnState.connected ∨ ep.conn = ConnState.connecting
    then { ep with conn := ConnState.closed } else ep)

/-- Modelled from the spec: `lookup(identity)` returns a registered endpoint
with that identity, the first one in registry order, or nothing; the class
`EndpointManager` is not part of the sources at hand. -/
def GetEndpointByIdentity (s : State) (identity : String) : Option Nat :=
  s.registry.find? (fun i => decide ((s.heap i).identity = identity))

/-- Modelled from the spec: `forEachEndpoint(fn)` calls `fn` on a snapshot of
the registry; the class `EndpointManager` is not part of the sources at
hand. -/
def ForEachEndpoint (s : State) (fn : State → Nat → State) : State :=
  s.registry.foldl fn s

/-- Modelled from the spec: `sendUnicast(source, target, request)` sends iff
`target` has subscribed to `request.method`, otherwise drops silently and
records a metric; the class `EndpointManager` is not part of the sources at
hand. -/
def SendUnicastMessage (s : State) (source target : Nat) (request : RequestMessage) : State :=
  if request.method ∈ (s.heap target).subscriptions
  then { s with sent := s.sent ++ [Sent.unicast source target request] }
  else { s with dropped := s.dropped + 1 }

/-- Modelled from the spec: `sendMulticast(source, request)` delivers to every
registered endpoint whose subscription set contains `request.method`,
excluding `source`; the class `EndpointManager` is not part of the sources at
hand. -/
def SendMulticastMessage (s : State) (source : Nat) (request : RequestMessage) : State :=
  { s with sent := s.sent ++ [Sent.multicast source request
      (s.registry.filter (fun i =>
        decide (i ≠ source) && decide (request.method ∈ (s.heap i).subscriptions)))] }

/-- Modelled from the spec: `addConnection(address, port)` initiates an
outbound connection, the endpoint is created and registered once the handshake
succeeds; the attempt is recorded, and it throws where `connectFails` says so.
The class `EndpointManager` is not part of the sources at hand. -/
def AddConnection (connectFails : String → String → Bool) (s : State) (node service : String) :
    Except Fault State :=
  if connectFails node service then Except.error (Fault.exception "connect")
  else Except.ok { s with connections := s.connections ++ [(node, service)] }

/-! ## The discovery component -/

/-- The method `DiscoveryComponent::CheckExistingEndpoint`. -/
def CheckExistingEndpoint (s : State) (self other : Nat) : State :=
  if self = other then s
  else if !(s.heap other).IsConnected then s
  else if (s.heap self).identity = (s.heap other).identity then
    UnregisterEndpoint (Stop s other) other
  else s

/-- The method `DiscoveryComponent::DiscoveryEndpointHandler`: the topics of
one endpoint are added to the information object. -/
def DiscoveryEndpointHandler (s : State) (endpoint : Nat) (info : ComponentDiscoveryInfo) :
    ComponentDiscoveryInfo :=
  let info1 : ComponentDiscoveryInfo :=
    (s.heap endpoint).subscriptions.foldl
      (fun i t => { i with Subscriptions := setInsert t i.Subscriptions }) info
  (s.heap endpoint).publications.foldl
    (fun i t => { i with Publications := setInsert t i.Publications }) info1

/-- The method `DiscoveryComponent::GetComponentDiscoveryInfo`; `none` is the
result `false`. -/
def GetComponentDiscoveryInfo (s : State) (component : String) : Option ComponentDiscoveryInfo :=
  if component = s.localIdentity then
    let info : ComponentDiscoveryInfo :=
      s.registry.foldl (fun i e => DiscoveryEndpointHandler s e i)
        { Node := "", Service := "", Subscriptions := [], Publications := [], LastSeen := 0 }
    some { info with LastSeen := 0, Node := s.appNode, Service := s.appService }
  else mapFind s.components component

/-- The method `DiscoveryComponent::WelcomeMessageHandler`. -/
def WelcomeMessageHandler (s : State) (sender : Nat) : State :=
  if (s.heap sender).receivedWelcome then s
  else
    let s1 := SetReceivedWelcome s sender true
    if (s1.heap sender).sentWelcome then OnSessionEstablished s1 sender else s1

/-- The method `DiscoveryComponent::FinishDiscoverySetup`. -/
def FinishDiscoverySetup (s : State) (endpoint : Nat) : State :=
  if (s.heap endpoint).sentWelcome then s
  else
    let s1 := RegisterSubscription s endpoint "discovery::Welcome"
    let request : RequestMessage := { method := "discovery::Welcome", params := none }
    let s2 := SendUnicastMessage s1 s1.discoveryEndpoint endpoint request
    let s3 := SetSentWelcome s2 endpoint true
    if (s3.heap endpoint).receivedWelcome then OnSessionEstablished s3 endpoint else s3

/-- The method `DiscoveryComponent::SendDiscoveryMessage`; the recipient
`none` is the empty `Endpoint::Ptr`.  The request carries the parameter block
as it is when the message is handed to the endpoint manager. -/
def SendDiscoveryMessage (s : State) (method identity : String) (recipient : Option Nat) :
    State :=
  match GetComponentDiscoveryInfo s identity with
  | none => s
  | some info =>
    let hasAddress : Bool := decide (info.Node ≠ "") && decide (info.Service ≠ "")
    let params : DiscoveryMessage :=
      { identity := some identity
        node := if hasAddress then some info.Node else none
        service := if hasAddress then some info.Service else none
        subscriptions := some info.Subscriptions
        publications := some info.Publications }
    let request : RequestMessage := { method := method, params := some params }
    match recipient with
    | some r => SendUnicastMessage s s.discoveryEndpoint r request
    | none => SendMulticastMessage s s.discoveryEndpoint request

/-- The loop over the roles in `DiscoveryComponent::HasMessagePermission`;
`Match` is `Utility::Match(pattern, text)`. -/
def rolesLoop (Match : String → String → Bool) (messageType message : String) :
    List ConfigObject → Except Fault Bool
  | [] => Except.ok false
  | role :: rest =>
    match role.GetProperty messageType with
    | none => rolesLoop Match messageType message rest
    | some (Property.dict permissions) =>
      if permissions.any (fun is => Match is.2 message) then Except.ok true
      else rolesLoop Match messageType message rest
    | some _ => Except.error (Fault.exception "Object is not a dictionary.")

/-- The method `DiscoveryComponent::HasMessagePermission`; `roles` is `none`
for the null pointer. -/
def HasMessagePermission (cfg : Config) (Match : String → String → Bool)
    (roles : Option Dictionary) (messageType message : String) : Except Fault Bool :=
  match roles with
  | none => Except.ok false
  | some _ => rolesLoop Match messageType message (GetObjects cfg "role")

/-- The roles dictionary that `ProcessDiscoveryMessage` reads from the
endpoint configuration of `identity` (lines 371 to 380). -/
def senderRoles (cfg : Config) (identity : String) : Except Fault (Option Dictionary) :=
  match GetObject cfg "endpoint" identity with
  | none => Except.ok none
  | some endpointConfig =>
    match endpointConfig.GetProperty "roles" with
    | none => Except.ok none
    | some (Property.dict roles) => Except.ok (some roles)
    | some _ => Except.error (Fault.exception "Object is not a dictionary.")

/-- The statement `if (endpoint) endpoint->RegisterPublication(t)`. -/
def registerPublicationIf (endpoint : Option Nat) (s : State) (t : String) : State :=
  match endpoint with
  | some e => RegisterPublication s e t
  | none => s

/-- The statement `if (endpoint) endpoint->RegisterSubscription(t)`. -/
def registerSubscriptionIf (endpoint : Option Nat) (s : State) (t : String) : State :=
  match endpoint with
  | some e => RegisterSubscription s e t
  | none => s

/-- The loop over the publications of the message in
`ProcessDiscoveryMessage`. -/
def publicationsLoop (cfg : Config) (Match : String → String → Bool)
    (roles : Option Dictionary) (trusted : Bool) (endpoint : Option Nat) :
    List String → ComponentDiscoveryInfo → State → Except Fault (ComponentDiscoveryInfo × State)
  | [], info, s => Except.ok (info, s)
  | t :: rest, info, s =>
    match (if trusted then Except.ok true
           else HasMessagePermission cfg Match roles "publications" t) with
    | Except.error f => Except.error f
    | Except.ok permitted =>
      if permitted then
        publicationsLoop cfg Match roles trusted endpoint rest
          { info with Publications := setInsert t info.Publications }
          (registerPublicationIf endpoint s t)
      else publicationsLoop cfg Match roles trusted endpoint rest info s

/-- The loop over the subscriptions of the message in
`ProcessDiscoveryMessage`. -/
def subscriptionsLoop (cfg : Config) (Match : String → String → Bool)
    (roles : Option Dictionary) (trusted : Bool) (endpoint : Option Nat) :
    List String → ComponentDiscoveryInfo → State → Except Fault (ComponentDiscoveryInfo × State)
  | [], info, s => Except.ok (info, s)
  | t :: rest, info, s =>
    match (if trusted then Except.ok true
           else HasMessagePermission cfg Match roles "subscriptions" t) with
    | Except.error f => Except.error f
    | Except.ok permitted =>
      if permitted then
        subscriptionsLoop cfg Match roles trusted endpoint rest
          { info with Subscriptions := setInsert t info.Subscriptions }
          (registerSubscriptionIf endpoint s t)
      else subscriptionsLoop cfg Match roles trusted endpoint rest info s

/-- The object `ProcessDiscoveryMessage` starts from: `LastSeen` is the
current time, node and service are taken from the message when non-empty. -/
def freshInfo (now : Int) (message : DiscoveryMessage) : ComponentDiscoveryInfo :=
  { LastSeen := now
    Node := match message.node with
      | some node => if node ≠ "" then node else ""
      | none => ""
    Service := match message.service with
      | some service => if service ≠ "" then service else ""
      | none => ""
    Subscriptions := []
    Publications := [] }

/-- The method `DiscoveryComponent::ProcessDiscoveryMessage`, run at time
`now`. -/
def ProcessDiscoveryMessage (cfg : Config) (Match : String → String → Bool) (now : Int)
    (s : State) (identity : String) (message : DiscoveryMessage) (trusted : Bool) :
    Except Fault State :=
  if identity = s.localIdentity then Except.ok s
  else
    match senderRoles cfg identity with
    | Except.error f => Except.error f
    | Except.ok roles =>
      let endpoint := GetEndpointByIdentity s identity
      match publicationsLoop cfg Match roles trusted endpoint
          (message.publications.getD []) (freshInfo now message) s with
      | Except.error f => Except.error f
      | Except.ok (info1, s1) =>
        match subscriptionsLoop cfg Match roles trusted endpoint
            (message.subscriptions.getD []) info1 s1 with
        | Except.error f => Except.error f
        | Except.ok (info2, s2) =>
          let s3 : State :=
            { s2 with components := mapSet identity info2 (mapErase s2.components identity) }
          let s4 := SendDiscoveryMessage s3 "discovery::NewComponent" identity none
          match endpoint with
          | some e => if !trusted then Except.ok (FinishDiscoverySetup s4 e) else Except.ok s4
          | none => Except.ok s4

/-- A default-constructed `DiscoveryMessage`, which `request.GetParams` leaves
as it is when the request has no parameters. -/
def emptyMessage : DiscoveryMessage :=
  { identity := none, node := none, service := none,
    publications := none, subscriptions := none }

/-- The method `DiscoveryComponent::NewComponentMessageHandler`. -/
def NewComponentMessageHandler (cfg : Config) (Match : String → String → Bool) (now : Int)
    (s : State) (request : RequestMessage) : Except Fault State :=
  let message : DiscoveryMessage := request.params.getD emptyMessage
  match message.identity with
  | none => Except.ok s
  | some identity => ProcessDiscoveryMessage cfg Match now s identity message true

/-- The method `DiscoveryComponent::RegisterComponentMessageHandler`. -/
def RegisterComponentMessageHandler (cfg : Config) (Match : String → String → Bool)
    (now : Int) (s : State) (sender : Nat) (request : RequestMessage) : Except Fault State :=
  let message : DiscoveryMessage := request.params.getD emptyMessage
  ProcessDiscoveryMessage cfg Match now s (s.heap sender).identity message false

/-- The method `DiscoveryComponent::NewEndpointHandler`. -/
def NewEndpointHandler (s : State) (endpoint : Nat) : State :=
  if (s.heap endpoint).isLocal then OnSessionEstablished s endpoint
  else
    let s1 := RegisterPublication s endpoint "discovery::RegisterComponent"
    let s2 := RegisterPublication s1 endpoint "discovery::Welcome"
    let identity := (s2.heap endpoint).identity
    if identity = s2.localIdentity then
      UnregisterEndpoint (Stop s2 endpoint) endpoint
    else
      let s3 := ForEachEndpoint s2 (fun st other => CheckExistingEndpoint st endpoint other)
      let s4 := RegisterSubscription s3 endpoint "discovery::RegisterComponent"
      let s5 := SendDiscoveryMessage s4 "discovery::RegisterComponent" s4.localIdentity
        (some endpoint)
      let s6 := RegisterSubscription s5 endpoint "discovery::NewComponent"
      let s7 := SendDiscoveryMessage s6 "discovery::NewComponent" s6.localIdentity
        (some endpoint)
      let s8 := s7.components.foldl
        (fun st ic => SendDiscoveryMessage st "discovery::NewComponent" ic.1 (some endpoint)) s7
      match mapFind s8.components (s8.heap endpoint).identity with
      | none => s8
      | some info =>
        let s9 := info.Publications.foldl (fun st t => RegisterPublication st endpoint t) s8
        let s10 := info.Subscriptions.foldl (fun st t => RegisterSubscription st endpoint t) s9
        FinishDiscoverySetup s10 endpoint

/-- The first loop of `DiscoveryComponent::DiscoveryTimerHandler`: reconnect
to the configured endpoints that are not connected. -/
def reconnectLoop (connectFails : String → String → Bool) :
    List ConfigObject → State → Except Fault State
  | [], s => Except.ok s
  | object :: rest, s =>
    if (GetEndpointByIdentity s object.name).isSome then reconnectLoop connectFails rest s
    else
      match object.GetPropertyString "node", object.GetPropertyString "service" with
      | some node, some service =>
        match AddConnection connectFails s node service with
        | Except.error f => Except.error f
        | Except.ok s1 => reconnectLoop connectFails rest s1
      | _, _ => reconnectLoop connectFails rest s

/-- The assignment `info->LastSeen = now` on the directory entry of
`identity`. -/
def setLastSeen (s : State) (identity : String) (now : Int) : State :=
  { s with components := s.components.map (fun kv =>
      if kv.1 = identity then (kv.1, { kv.2 with LastSeen := now }) else kv) }

/-- The second loop of `DiscoveryComponent::DiscoveryTimerHandler`, over the
entries of `m_Components` from the iterator `i` on (`pending`); a pass writes
only the entry it visits, so the entries ahead are the ones of the map.  A
`continue` before `i++` leaves `pending` as it is.  Every pass uses one unit
of `fuel`; `none` means that the fuel did not suffice.  In the `catch` block
`endpoint->GetIdentity()` is evaluated, with `endpoint` possibly null. -/
def componentsLoop (cfg : Config) (RegistrationTTL : Int)
    (connectFails : String → String → Bool) (now : Int) :
    Nat → List (String × ComponentDiscoveryInfo) → State → Option (Except Fault State)
  | _, [], s => some (Except.ok s)
  | 0, _ :: _, _ => none
  | fuel + 1, (identity, info) :: rest, s =>
    if identity = s.localIdentity then
      componentsLoop cfg RegistrationTTL connectFails now fuel ((identity, info) :: rest) s
    else if (GetObject cfg "endpoint" identity).isSome then
      componentsLoop cfg RegistrationTTL connectFails now fuel ((identity, info) :: rest) s
    else if info.LastSeen < now - RegistrationTTL then
      componentsLoop cfg RegistrationTTL connectFails now fuel rest
        { s with components := mapErase s.components identity }
    else
      let s1 := SendDiscoveryMessage s "discovery::NewComponent" identity none
      let endpoint := GetEndpointByIdentity s1 identity
      if (match endpoint with
          | some e => (s1.heap e).IsConnected
          | none => false) then
        componentsLoop cfg RegistrationTTL connectFails now fuel rest (setLastSeen s1 identity now)
      else if info.Node ≠ "" ∧ info.Service ≠ "" then
        match AddConnection connectFails s1 info.Node info.Service with
        | Except.ok s2 => componentsLoop cfg RegistrationTTL connectFails now fuel rest s2
        | Except.error _ =>
          match endpoint with
          | none => some (Except.error Fault.nullDeref)
          | some _ => componentsLoop cfg RegistrationTTL connectFails now fuel rest s1
      else componentsLoop cfg RegistrationTTL connectFails now fuel rest s1

/-- The method `DiscoveryComponent::DiscoveryTimerHandler`, run at time `now`;
`RegistrationTTL` is the constant of that name. -/
def DiscoveryTimerHandler (cfg : Config) (RegistrationTTL : Int)
    (connectFails : String → String → Bool) (now : Int) (fuel : Nat) (s : State) :
    Option (Except Fault State) :=
  match reconnectLoop connectFails (GetObjects cfg "endpoint") s with
  | Except.error f => some (Except.error f)
  | Except.ok s1 => componentsLoop cfg RegistrationTTL connectFails now fuel s1.components s1

/-! ## Handshake sequences -/

/-- A call made on an endpoint during the welcome handshake. -/
inductive HandshakeCall where
  | welcome
  | finish
  deriving DecidableEq, Repr

/-- Runs a sequence of `WelcomeMessageHandler` and `FinishDiscoverySetup`
calls on the endpoint `e`. -/
def runHandshake (e : Nat) : List HandshakeCall → State → State
  | [], s => s
  | HandshakeCall.welcome :: calls, s => runHandshake e calls (WelcomeMessageHandler s e)
  | HandshakeCall.finish :: calls, s => runHandshake e calls (FinishDiscoverySetup s e)

/-- How often `OnSessionEstablished` has fired for the endpoint `e`. -/
def firedCount (s : State) (e : Nat) : Nat :=
  (s.established.filter (fun r => decide (r.1 = e))).length

/-! ## Auxiliary notions used in the statements -/

/-- The test of `CheckExistingEndpoint`: `other` is another, connected
endpoint with the identity of `self`. -/
def isDuplicate (s : State) (self other : Nat) : Bool :=
  decide (self ≠ other) && (s.heap other).IsConnected &&
    decide ((s.heap self).identity = (s.heap other).identity)

/-- The endpoint object after `Stop` and `UnregisterEndpoint`. -/
def stopped (ep : Endpoint) : Endpoint := { ep with conn := ConnState.closed }

/-- Whether `ProcessDiscoveryMessage` accepts the topic `t` of kind
`messageType`: the message is trusted, or `HasMessagePermission` returns
true. -/
def accepts (cfg : Config) (Match : String → String → Bool) (roles : Option Dictionary)
    (trusted : Bool) (messageType t : String) : Bool :=
  trusted ||
    (match HasMessagePermission cfg Match roles messageType t with
     | Except.ok b => b
     | Except.error _ => false)

/-- Adds the topics of `l` to the published topics of a directory entry. -/
def addPublications (l : List String) (info : ComponentDiscoveryInfo) : ComponentDiscoveryInfo :=
  l.foldl (fun i t => { i with Publications := setInsert t i.Publications }) info

/-- Adds the topics of `l` to the subscribed topics of a directory entry. -/
def addSubscriptions (l : List String) (info : ComponentDiscoveryInfo) : ComponentDiscoveryInfo :=
  l.foldl (fun i t => { i with Subscriptions := setInsert t i.Subscriptions }) info

/-- Registers the topics of `l` as publications of the endpoint, if there is
one. -/
def registerPublications (endpoint : Option Nat) (l : List String) (s : State) : State :=
  l.foldl (fun st t => registerPublicationIf endpoint st t) s

/-- Registers the topics of `l` as subscriptions of the endpoint, if there is
one. -/
def registerSubscriptions (endpoint : Option Nat) (l : List String) (s : State) : State :=
  l.foldl (fun st t => registerSubscriptionIf endpoint st t) s

/-- The directory entry that `ProcessDiscoveryMessage` builds when no
exception is thrown. -/
def processInfo (cfg : Config) (Match : String → String → Bool) (now : Int)
    (message : DiscoveryMessage) (trusted : Bool) (roles : Option Dictionary) :
    ComponentDiscoveryInfo :=
  addSubscriptions
    ((message.subscriptions.getD []).filter (accepts cfg Match roles trusted "subscriptions"))
    (addPublications
      ((message.publications.getD []).filter (accepts cfg Match roles trusted "publications"))
      (freshInfo now message))

/-- The state in which `ProcessDiscoveryMessage` ends for a non-local
identity when no exception is thrown. -/
def processResult (cfg : Config) (Match : String → String → Bool) (now : Int) (s : State)
    (identity : String) (message : DiscoveryMessage) (trusted : Bool)
    (roles : Option Dictionary) : State :=
  let endpoint := GetEndpointByIdentity s identity
  let s2 := registerSubscriptions endpoint
    ((message.subscriptions.getD []).filter (accepts cfg Match roles trusted "subscriptions"))
    (registerPublications endpoint
      ((message.publications.getD []).filter (accepts cfg Match roles trusted "publications"))
      s)
  let info := processInfo cfg Match now message trusted roles
  let s3 : State := { s2 with components := mapSet identity info (mapErase s2.components identity) }
  let s4 := SendDiscoveryMessage s3 "discovery::NewComponent" identity none
  match endpoint with
  | some e => if !trusted then FinishDiscoverySetup s4 e else s4
  | none => s4

/-- The directory with the `LastSeen` value of the entry of `identity`
blanked out. -/
def forgetLastSeen (identity : String) (m : List (String × ComponentDiscoveryInfo)) :
    List (String × ComponentDiscoveryInfo) :=
  m.map (fun kv => if kv.1 = identity then (kv.1, { kv.2 with LastSeen := 0 }) else kv)

/-- The test `endpoint && endpoint->IsConnected()` of the timer handler for
the endpoint found under `identity`. -/
def hasConnectedEndpoint (s : State) (identity : String) : Bool :=
  match GetEndpointByIdentity s identity with
  | some e => (s.heap e).IsConnected
  | none => false

/-- A directory entry with `LastSeen` set to `now`. -/
def touch (now : Int) (info : ComponentDiscoveryInfo) : ComponentDiscoveryInfo :=
  { info with LastSeen := now }

/-- The events that write the peer directory: an inbound
"discovery::NewComponent" (announce), an inbound
"discovery::RegisterComponent" from an endpoint (register), and the expiry of
the discovery timer, run with the given fuel. -/
inductive Event where
  | announce (request : RequestMessage)
  | register (sender : Nat) (request : RequestMessage)
  | tick (fuel : Nat)

/-- Runs the handler of one event at time `now`; `none` means that the fuel
of a tick did not suffice. -/
def step (cfg : Config) (Match : String → String → Bool) (RegistrationTTL : Int)
    (connectFails : String → String → Bool) (now : Int) (s : State) :
    Event → Option (Except Fault State)
  | Event.announce request => some (NewComponentMessageHandler cfg Match now s request)
  | Event.register sender request =>
    some (RegisterComponentMessageHandler cfg Match now s sender request)
  | Event.tick fuel => DiscoveryTimerHandler cfg RegistrationTTL connectFails now fuel s

/-- Runs the handlers of a sequence of timed events one after the other; the
result is the final state if every handler returned. -/
def run (cfg : Config) (Match : String → String → Bool) (RegistrationTTL : Int)
    (connectFails : String → String → Bool) : List (Int × Event) → State → Option State
  | [], s => some s
  | (now, ev) :: rest, s =>
    match step cfg Match RegistrationTTL connectFails now s ev with
    | some (Except.ok s1) => run cfg Match RegistrationTTL connectFails rest s1
    | _ => none

/-- The clock does not run backwards: the times of the events are
non-decreasing, starting from `t`. -/
def clockFrom (t : Int) : List (Int × Event) → Prop
  | [] => True
  | (now, _) :: rest => t ≤ now ∧ clockFrom now rest

/-- The identity whose directory entry a discovery message writes, if the
event is one. -/
def writtenIdentity (s : State) : Event → Option String
  | Event.announce request => (request.params.getD emptyMessage).identity
  | Event.register sender _ => some (s.heap sender).identity
  | Event.tick _ => none

/-- The time of the last event of a sequence that starts at time `t`. -/
def endTime (t : Int) : List (Int × Event) → Int
  | [] => t
  | (now, _) :: rest => endTime now rest

/-- Every `LastSeen` value of the directory is at most `t`: all of them were
read from the clock before or at time `t`. -/
def stampsAtMost (t : Int) (s : State) : Prop :=
  ∀ k i, mapFind s.components k = some i → i.LastSeen ≤ t

/-! ## Stages of `NewEndpointHandler` -/

/-- The state of `NewEndpointHandler` for a remote endpoint that is not a
loop-back connection, at the point where it looks the endpoint up in the
directory (line 158). -/
def beforeLookup (s : State) (endpoint : Nat) : State :=
  let s1 := RegisterPublication s endpoint "discovery::RegisterComponent"
  let s2 := RegisterPublication s1 endpoint "discovery::Welcome"
  let s3 := ForEachEndpoint s2 (fun st other => CheckExistingEndpoint st endpoint other)
  let s4 := RegisterSubscription s3 endpoint "discovery::RegisterComponent"
  let s5 := SendDiscoveryMessage s4 "discovery::RegisterComponent" s4.localIdentity
    (some endpoint)
  let s6 := RegisterSubscription s5 endpoint "discovery::NewComponent"
  let s7 := SendDiscoveryMessage s6 "discovery::NewComponent" s6.localIdentity
    (some endpoint)
  s7.components.foldl
    (fun st ic => SendDiscoveryMessage st "discovery::NewComponent" ic.1 (some endpoint)) s7

/-- The state of `NewEndpointHandler` after the cached topics of the
directory entry `info` have been registered on the endpoint (line 174). -/
def afterCachedTopics (s : State) (endpoint : Nat) (info : ComponentDiscoveryInfo) : State :=
  info.Subscriptions.foldl (fun st t => RegisterSubscription st endpoint t)
    (info.Publications.foldl (fun st t => RegisterPublication st endpoint t)
      (beforeLookup s endpoint))

/-- The state of `ProcessDiscoveryMessage` after the directory entry has been
replaced (line 415), when no exception is thrown. -/
def processStage (cfg : Config) (Match : String → String → Bool) (now : Int) (s : State)
    (identity : String) (message : DiscoveryMessage) (trusted : Bool)
    (roles : Option Dictionary) : State :=
  let endpoint := GetEndpointByIdentity s identity
  let s2 := registerSubscriptions endpoint
    ((message.subscriptions.getD []).filter (accepts cfg Match roles trusted "subscriptions"))
    (registerPublications endpoint
      ((message.publications.getD []).filter (accepts cfg Match roles trusted "publications"))
      s)
  let info := processInfo cfg Match now message trusted roles
  { s2 with components := mapSet identity info (mapErase s2.components identity) }

/-- The request that `SendDiscoveryMessage` builds from the information
object `info` of `identity`. -/
def discoveryRequest (method identity : String) (info : ComponentDiscoveryInfo) :
    RequestMessage :=
  let hasAddress : Bool := decide (info.Node ≠ "") && decide (info.Service ≠ "")
  { method := method
    params := some
      { identity := some identity
        node := if hasAddress then some info.Node else none
        service := if hasAddress then some info.Service else none
        subscriptions := some info.Subscriptions
        publications := some info.Publications } }

/-- Everything the discovery component reacts to: the events that write the
directory, an inbound "discovery::Welcome" from an endpoint, and a new
endpoint. -/
inductive Input where
  | event (ev : Event)
  | welcome (sender : Nat)
  | newEndpoint (endpoint : Nat)

/-- Runs the handler of one input at time `now`; `none` means that the fuel
of a tick did not suffice. -/
def stepInput (cfg : Config) (Match : String → String → Bool) (RegistrationTTL : Int)
    (connectFails : String → String → Bool) (now : Int) (s : State) :
    Input → Option (Except Fault State)
  | Input.event ev => step cfg Match RegistrationTTL connectFails now s ev
  | Input.welcome sender => some (Except.ok (WelcomeMessageHandler s sender))
  | Input.newEndpoint endpoint => some (Except.ok (NewEndpointHandler s endpoint))

/-- Runs the handlers of a sequence of timed inputs one after the other; the
result is the final state if every handler returned. -/
def runInputs (cfg : Config) (Match : String → String → Bool) (RegistrationTTL : Int)
    (connectFails : String → String → Bool) : List (Int × Input) → State → Option State
  | [], s => some s
  | (now, input) :: rest, s =>
    match stepInput cfg Match RegistrationTTL connectFails now s input with
    | some (Except.ok s1) => runInputs cfg Match RegistrationTTL connectFails rest s1
    | _ => none

/-! ## What a timer tick connects to and announces -/

/-- The address the first loop of the timer handler connects to for a
configured endpoint: none if an endpoint is registered under the name of the
object, or if the object lacks a node or a service. -/
def reconnectTarget (s : State) (object : ConfigObject) : Option (String × String) :=
  if (GetEndpointByIdentity s object.name).isSome then none
  else
    match object.GetPropertyString "node", object.GetPropertyString "service" with
    | some node, some service => some (node, service)
    | _, _ => none

/-- The connections of the state in which a tick ends, if it returns. -/
def connectionsAfter (r : Option (Except Fault State)) : Option (List (String × String)) :=
  match r with
  | some (Except.ok s) => some s.connections
  | _ => none

/-! ## Starting the discovery component -/

/-- Modelled from the spec: a freshly made `VirtualEndpoint`, the local
endpoint that represents this daemon itself, with no topics yet; the class
`VirtualEndpoint` is not part of the sources at hand. -/
def virtualEndpoint (identity : String) : Endpoint :=
  { identity := identity, isLocal := true, conn := ConnState.connected, sentWelcome := false,
    receivedWelcome := false, publications := [], subscriptions := [] }

/-- Modelled from the spec: `registerEndpoint(e)` adds `e` to the registry and
fires `onNewEndpoint(e)`, to which `Start` has connected `NewEndpointHandler`;
the class `EndpointManager` is not part of the sources at hand. -/
def RegisterEndpoint (s : State) (e : Nat) : State :=
  NewEndpointHandler { s with registry := s.registry ++ [e] } e

/-- The method `DiscoveryComponent::Start`; `d` is the address of the new
`VirtualEndpoint`.  The topic handlers and the timer decide which handler runs
when, they hold no state of their own. -/
def Start (s : State) (d : Nat) : State :=
  let s0 : State :=
    { s with
      discoveryEndpoint := d
      heap := fun i => if i = d then virtualEndpoint s.localIdentity else s.heap i }
  let s1 := RegisterPublication s0 d "discovery::RegisterComponent"
  let s2 := RegisterPublication s1 d "discovery::NewComponent"
  let s3 := ForEachEndpoint s2 (fun st endpoint => NewEndpointHandler st endpoint)
  RegisterEndpoint s3 d

/-! ## Counting messages -/

/-- Whether a sent message is a "discovery::Welcome" unicast to `e`. -/
def isWelcomeTo (e : Nat) : Sent → Bool
  | Sent.unicast _ target request =>
    decide (target = e) && decide (request.method = "discovery::Welcome")
  | Sent.multicast _ _ _ => false

/-- How many "discovery::Welcome" messages to `e` a list of sent messages
holds. -/
def welcomesTo (e : Nat) (l : List Sent) : Nat := l.countP (isWelcomeTo e)

/-- Whether a sent message is a multicast "discovery::NewComponent" about
`identity`. -/
def isAnnounceFor (identity : String) : Sent → Bool
  | Sent.unicast _ _ _ => false
  | Sent.multicast _ request _ =>
    decide (request.method = "discovery::NewComponent") &&
      decide (request.params.bind (fun p => p.identity) = some identity)

/-- How many multicast "discovery::NewComponent" messages about `identity` a
list of sent messages holds. -/
def announcesFor (identity : String) (l : List Sent) : Nat := l.countP (isAnnounceFor identity)

/-! ## Concrete states on which the theorems are instantiated -/

/-- A remote endpoint with the given identity and connection state, before
any handshake. -/
def remoteEndpoint (identity : String) (conn : ConnState) : Endpoint :=
  { identity := identity, isLocal := false, conn := conn, sentWelcome := false,
    receivedWelcome := false, publications := [], subscriptions := [] }

/-- The local virtual endpoint of the discovery component of daemon "A". -/
def localEndpoint : Endpoint :=
  { identity := "A", isLocal := true, conn := ConnState.connected, sentWelcome := false,
    receivedWelcome := false,
    publications := ["discovery::NewComponent", "discovery::RegisterComponent"],
    subscriptions := [] }

/-- Daemon "A" with its discovery endpoint (0), two connections from identity
"B" (1 is the older, 2 the newer), one from "C" (3) and a loop-back connection
that claims the identity "A" (4); the peer directory is empty. -/
def meshState : State :=
  { localIdentity := "A"
    appNode := "10.0.0.1"
    appService := "5665"
    discoveryEndpoint := 0
    heap := fun i =>
      if i = 0 then localEndpoint
      else if i = 1 then remoteEndpoint "B" ConnState.connected
      else if i = 2 then remoteEndpoint "B" ConnState.connected
      else if i = 3 then remoteEndpoint "C" ConnState.connected
      else if i = 4 then remoteEndpoint "A" ConnState.connected
      else remoteEndpoint "" ConnState.disconnected
    registry := [0, 1, 2, 3, 4]
    components := []
    sent := []
    dropped := 0
    connections := []
    established := [] }

/-- A matcher that agrees with `Utility::Match` on patterns without
wildcards: the text has to be the pattern. -/
def exactMatch (pattern text : String) : Bool := decide (pattern = text)

/-- A configuration in which the endpoint "C" is assigned the role "checker"
only; the role "admin" is assigned to nobody. -/
def roleConfig : Config :=
  [ { typ := "endpoint", name := "C",
      properties := [("roles", Property.dict [("_1", "checker")])] },
    { typ := "role", name := "admin",
      properties := [("publications", Property.dict [("_1", "admin::Shutdown")])] },
    { typ := "role", name := "checker",
      properties :=
        [("publications", Property.dict [("_1", "checker::Result")]),
         ("subscriptions", Property.dict [("_1", "checker::Assign")])] } ]

/-- The parameters of a discovery message that lists one topic the role
"checker" grants, one the role "admin" grants and one that no role grants. -/
def topicsMessage : DiscoveryMessage :=
  { identity := some "C"
    node := some "10.0.0.3"
    service := some "5665"
    publications := some ["checker::Result", "admin::Shutdown", "other::Topic"]
    subscriptions := some ["checker::Assign"] }

/-- The directory entry of `identity` after a handler has returned. -/
def entryAfter (r : Except Fault State) (identity : String) : Option ComponentDiscoveryInfo :=
  match r with
  | Except.ok s => mapFind s.components identity
  | Except.error _ => none

/-- The endpoint object at address `e` after a handler has returned. -/
def endpointAfter (r : Except Fault State) (e : Nat) : Option Endpoint :=
  match r with
  | Except.ok s => some (s.heap e)
  | Except.error _ => none

/-- The state `meshState` with a peer directory: "C" was last seen at time 0,
"D" at time 900 and "E", which has no address and no endpoint, at time 950. -/
def directoryState : State :=
  { meshState with
    components :=
      [ ("C", { Node := "10.0.0.3", Service := "5665", Subscriptions := [],
                Publications := [], LastSeen := 0 }),
        ("D", { Node := "10.0.0.4", Service := "5665", Subscriptions := [],
                Publications := [], LastSeen := 900 }),
        ("E", { Node := "", Service := "", Subscriptions := [],
                Publications := [], LastSeen := 950 }) ] }

/-- A tick at time 1000, the announcement of "C" at time 1010 and a tick at
time 1030. -/
def keepAliveEvents : List (Int × Event) :=
  [ (1000, Event.tick 3),
    (1010, Event.announce { method := "discovery::NewComponent", params := some topicsMessage }),
    (1030, Event.tick 3) ]

/-- An announcement and a registration that name the local identity "A", a
new endpoint, a welcome and a tick. -/
def selfAnnounceInputs : List (Int × Input) :=
  [ (1000, Input.event (Event.announce
      { method := "discovery::NewComponent",
        params := some { topicsMessage with identity := some "A" } })),
    (1001, Input.newEndpoint 4),
    (1002, Input.event (Event.register 4
      { method := "discovery::RegisterComponent", params := some topicsMessage })),
    (1003, Input.welcome 3),
    (1004, Input.event (Event.tick 3)) ]

/-- A peer list: the endpoints "B" and "D" are configured with node and
service. -/
def peerConfig : Config :=
  [ { typ := "endpoint", name := "B",
      properties := [("node", Property.str "10.0.0.2"), ("service", Property.str "5665")] },
    { typ := "endpoint", name := "D",
      properties := [("node", Property.str "10.0.0.4"), ("service", Property.str "5665")] } ]

/-- Daemon "A" after the connection to "B" was lost: the endpoint of "B" (1)
is still registered, in state `disconnected`; the directory is empty. -/
def lostPeerState : State :=
  { meshState with
    heap := fun i =>
      if i = 0 then localEndpoint
      else if i = 1 then remoteEndpoint "B" ConnState.disconnected
      else remoteEndpoint "" ConnState.disconnected
    registry := [0, 1] }

/-! ## The IDO exporter (compatido) -/

/-- An operand written with `operator<<` to the `stringstream` of a record: a
string, an `int`, a `double`, or the manipulator `std::setprecision(n)`. -/
inductive Item where
  | str (text : String)
  | int (n : Int)
  | dbl (x : Float)
  | setprecision (n : Nat)

/-- Modelled from the spec: what the exporter reads of a `Host` object; the
class `Host` is not part of the sources at hand.  `GetGroups` is the
dictionary of the groups of the host, if it has one, as the list of its
values in iteration order. -/
structure Host where
  GetName : String
  GetAlias : String
  GetGroups : Option (List String)
  IsReachable : Bool
  IsUp : Bool

/-- Modelled from the spec: the dictionary of a check result, read with
`Get`; the class `Dictionary` is not part of the sources at hand. -/
structure CheckResult where
  output : String
  schedule_start : Float
  schedule_end : Float
  execution_start : Float
  execution_end : Float
  performance_data_raw : String

/-- Modelled from the spec: what the exporter reads of a `Service` object;
the class `Service` is not part of the sources at hand. -/
structure Service where
  GetHost : Host
  GetAlias : String
  GetGroups : Option (List String)
  GetLastCheckResult : Option CheckResult
  GetState : Int
  GetStateType : Int
  GetCurrentCheckAttempt : Int
  GetMaxCheckAttempts : Int
  GetNextCheck : Float
  GetLastStateChange : Float
  GetLastHardStateChange : Float
  GetCheckInterval : Int
  GetRetryInterval : Int

/-- An element of a list handed to `CreateMessageList`: the name of a host,
or a pointer to a service. -/
inductive Member where
  | name (text : String)
  | service (s : Service)

/-- What the exporter uses and the sources at hand do not define, taken as
parameters: `GetTime k` is the value of the call number `k` of
`Utility::GetTime()`, `GetPid` the value of `Utility::GetPid()`,
`GetStartTime` the one of `IcingaApplication::GetStartTime()`, `StateUnknown`
the constant of that name, `formatDouble p x` the text `operator<<` writes for
the `double` `x` on a stream of precision `p`, `toInt` the conversion
`static_cast<int>`, and `CreateMessageList list type` the operands that the
function of that name writes to the stream. -/
structure Env where
  GetTime : Nat → Float
  GetPid : Int
  GetStartTime : Float
  StateUnknown : Int
  formatDouble : Nat → Float → String
  toInt : Float → Int
  CreateMessageList : List Member → Int → List Item

/-- The decimal digits of a natural number. -/
def showNat (n : Nat) : List Char := Nat.toDigits 10 n

/-- The text `operator<<` writes for an `int`. -/
def showInt : Int → List Char
  | Int.ofNat n => showNat n
  | Int.negSucc n => '-' :: showNat (n + 1)

/-- The text that the operands `items` leave in a `stringstream` of precision
`precision`. -/
def render (env : Env) : Nat → List Item → List Char
  | _, [] => []
  | precision, Item.str text :: rest => text.data ++ render env precision rest
  | precision, Item.int n :: rest => showInt n ++ render env precision rest
  | precision, Item.dbl x :: rest =>
    (env.formatDouble precision x).data ++ render env precision rest
  | _, Item.setprecision n :: rest => render env n rest

/-- The value of `message.str()` after `items` have been written to the
fresh `stringstream message`, whose precision is 6. -/
def messageStr (env : Env) (items : List Item) : String := ⟨render env 6 items⟩

/-- The exporter: the messages handed to `m_IdoSocket->SendMessage`, oldest
first, and how often `Utility::GetTime()` has been called. -/
structure Exporter where
  sent : List String
  timeCalls : Nat

/-- The call `m_IdoSocket->SendMessage(message)`. -/
def SendMessage (k : Exporter) (message : String) : Exporter :=
  { k with sent := k.sent ++ [message] }

/-- The operands written to `message` in `StartConfigDump`. -/
def startConfigDumpItems (env : Env) (k : Exporter) : List Item :=
  [ Item.str "\n\n",
    Item.int 900, Item.str ":", Item.str "\n",
    Item.int 245, Item.str "=", Item.str "RETAINED", Item.str "\n",
    Item.int 4, Item.str "=", Item.setprecision 17, Item.dbl (env.GetTime k.timeCalls),
      Item.str "\n",
    Item.int 999, Item.str "\n\n" ]

/-- The method `CompatIdoComponent::StartConfigDump`. -/
def StartConfigDump (env : Env) (k : Exporter) : Exporter :=
  SendMessage { k with timeCalls := k.timeCalls + 1 } (messageStr env (startConfigDumpItems env k))

/-- The operands written to `message` in `EndConfigDump`. -/
def endConfigDumpItems (env : Env) (k : Exporter) : List Item :=
  [ Item.str "\n\n",
    Item.int 901, Item.str ":", Item.str "\n",
    Item.int 4, Item.str "=", Item.setprecision 17, Item.dbl (env.GetTime k.timeCalls),
      Item.str "\n",
    Item.int 999, Item.str "\n\n" ]

/-- The method `CompatIdoComponent::EndConfigDump`. -/
def EndConfigDump (env : Env) (k : Exporter) : Exporter :=
  SendMessage { k with timeCalls := k.timeCalls + 1 } (messageStr env (endConfigDumpItems env k))

/-- The operands written to `message` in `DumpHostObject`. -/
def hostObjectItems (env : Env) (k : Exporter) (host : Host) : List Item :=
  [ Item.str "\n",
    Item.int 400, Item.str ":", Item.str "\n",
    Item.int 4, Item.str "=", Item.setprecision 17, Item.dbl (env.GetTime k.timeCalls),
      Item.str "\n",
    Item.int 174, Item.str "=", Item.str host.GetName, Item.str "\n",
    Item.int 258, Item.str "=", Item.str host.GetAlias, Item.str "\n",
    Item.int 159, Item.str "=", Item.str host.GetAlias, Item.str "\n",
    Item.int 158, Item.str "=", Item.str "", Item.str "\n",
    Item.int 266, Item.str "=", Item.str "", Item.str "\n",
    Item.int 160, Item.str "=", Item.str "", Item.str "\n",
    Item.int 163, Item.str "=", Item.str "", Item.str "\n",
    Item.int 177, Item.str "=", Item.str "", Item.str "\n",
    Item.int 162, Item.str "=", Item.str "", Item.str "\n",
    Item.int 166, Item.str "=", Item.str "", Item.str "\n",
    Item.int 161, Item.str "=", Item.int 1, Item.str "\n",
    Item.int 247, Item.str "=", Item.int 1, Item.str "\n",
    Item.int 173, Item.str "=", Item.int 1, Item.str "\n",
    Item.int 246, Item.str "=", Item.int 0, Item.str "\n",
    Item.int 176, Item.str "=", Item.int 0, Item.str "\n",
    Item.int 189, Item.str "=", Item.int 0, Item.str "\n",
    Item.int 192, Item.str "=", Item.int 0, Item.str "\n",
    Item.int 191, Item.str "=", Item.int 0, Item.str "\n",
    Item.int 190, Item.str "=", Item.int 0, Item.str "\n",
    Item.int 248, Item.str "=", Item.int 0, Item.str "\n",
    Item.int 167, Item.str "=", Item.int 0, Item.str "\n",
    Item.int 251, Item.str "=", Item.int 0, Item.str "\n",
    Item.int 252, Item.str "=", Item.int 0, Item.str "\n",
    Item.int 253, Item.str "=", Item.int 0, Item.str "\n",
    Item.int 183, Item.str "=", Item.int 0, Item.str "\n",
    Item.int 156, Item.str "=", Item.int 0, Item.str "\n",
    Item.int 230, Item.str "=", Item.int 0, Item.str "\n",
    Item.int 228, Item.str "=", Item.int 0, Item.str "\n",
    Item.int 229, Item.str "=", Item.int 0, Item.str "\n",
    Item.int 168, Item.str "=", Item.int 0, Item.str "\n",
    Item.int 169, Item.str "=", Item.int 0, Item.str "\n",
    Item.int 201, Item.str "=", Item.int 1, Item.str "\n",
    Item.int 8, Item.str "=", Item.int 1, Item.str "\n",
    Item.int 96, Item.str "=", Item.int 1, Item.str "\n",
    Item.int 164, Item.str "=", Item.int 0, Item.str "\n",
    Item.int 204, Item.str "=", Item.int 1, Item.str "\n",
    Item.int 203, Item.str "=", Item.int 1, Item.str "\n",
    Item.int 178, Item.str "=", Item.int 1, Item.str "\n",
    Item.int 165, Item.str "=", Item.int 0, Item.str "\n",
    Item.int 91, Item.str "=", Item.int 0, Item.str "\n",
    Item.int 186, Item.str "=", Item.str "i2_notes", Item.str "\n",
    Item.int 187, Item.str "=", Item.str "", Item.str "\n",
    Item.int 126, Item.str "=", Item.str "", Item.str "\n",
    Item.int 179, Item.str "=", Item.str "", Item.str "\n",
    Item.int 180, Item.str "=", Item.str "", Item.str "\n",
    Item.int 239, Item.str "=", Item.str "", Item.str "\n",
    Item.int 235, Item.str "=", Item.str "", Item.str "\n",
    Item.int 154, Item.str "=", Item.int 0, Item.str "\n",
    Item.int 240, Item.str "=", Item.dbl 0.0, Item.str "\n",
    Item.int 242, Item.str "=", Item.dbl 0.0, Item.str "\n",
    Item.int 155, Item.str "=", Item.int 0, Item.str "\n",
    Item.int 241, Item.str "=", Item.dbl 0.0, Item.str "\n",
    Item.int 243, Item.str "=", Item.dbl 0.0, Item.str "\n",
    Item.int 244, Item.str "=", Item.dbl 0.0, Item.str "\n",
    Item.int 200, Item.str "=", Item.str "i2_parent", Item.str "\n",
    Item.int 130, Item.str "=", Item.str "i2_contactgroup", Item.str "\n",
    Item.int 264, Item.str "=", Item.str "i2_contact", Item.str "\n",
    Item.int 262, Item.str "=", Item.str "i2_customvar", Item.str ":", Item.int 1, Item.str ":",
      Item.str "i2_custom_var_mod", Item.str "\n",
    Item.int 999, Item.str "\n\n" ]

/-- The method `CompatIdoComponent::DumpHostObject`. -/
def DumpHostObject (env : Env) (k : Exporter) (host : Host) : Exporter :=
  SendMessage { k with timeCalls := k.timeCalls + 1 } (messageStr env (hostObjectItems env k host))

/-- The operands written to `message` in `DumpHostStatus`; the three calls of
`Utility::GetTime()` are numbered in the order of the source text. -/
def hostStatusItems (env : Env) (k : Exporter) (host : Host) : List Item :=
  [ Item.str "\n",
    Item.int 212, Item.str ":", Item.str "\n",
    Item.int 1, Item.str "=", Item.str "", Item.str "\n",
    Item.int 2, Item.str "=", Item.str "", Item.str "\n",
    Item.int 3, Item.str "=", Item.str "", Item.str "\n",
    Item.int 4, Item.str "=", Item.setprecision 17, Item.dbl (env.GetTime k.timeCalls),
      Item.str "\n",
    Item.int 53, Item.str "=", Item.str host.GetName, Item.str "\n",
    Item.int 95, Item.str "=", Item.str "", Item.str "\n",
    Item.int 125, Item.str "=", Item.str "", Item.str "\n",
    Item.int 99, Item.str "=", Item.str "", Item.str "\n",
    Item.int 27, Item.str "=", Item.str "", Item.str "\n",
    Item.int 51, Item.str "=", Item.int 1, Item.str "\n",
    Item.int 115, Item.str "=", Item.int 1, Item.str "\n",
    Item.int 25, Item.str "=", Item.int 1, Item.str "\n",
    Item.int 76, Item.str "=", Item.int 1, Item.str "\n",
    Item.int 58, Item.str "=", Item.int (env.toInt (env.GetTime (k.timeCalls + 1))), Item.str "\n",
    Item.int 81, Item.str "=", Item.int (env.toInt (env.GetTime (k.timeCalls + 2))), Item.str "\n",
    Item.int 12, Item.str "=", Item.str "", Item.str "\n",
    Item.int 63, Item.str "=", Item.str "", Item.str "\n",
    Item.int 57, Item.str "=", Item.str "", Item.str "\n",
    Item.int 56, Item.str "=", Item.str "", Item.str "\n",
    Item.int 69, Item.str "=", Item.str "", Item.str "\n",
    Item.int 65, Item.str "=", Item.str "", Item.str "\n",
    Item.int 68, Item.str "=", Item.str "", Item.str "\n",
    Item.int 121, Item.str "=", Item.str "", Item.str "\n",
    Item.int 59, Item.str "=", Item.str "", Item.str "\n",
    Item.int 82, Item.str "=", Item.str "", Item.str "\n",
    Item.int 85, Item.str "=", Item.int 0, Item.str "\n",
    Item.int 88, Item.str "=", Item.int 0, Item.str "\n",
    Item.int 101, Item.str "=", Item.int 0, Item.str "\n",
    Item.int 7, Item.str "=", Item.str "", Item.str "\n",
    Item.int 26, Item.str "=", Item.int 0, Item.str "\n",
    Item.int 96, Item.str "=", Item.int 1, Item.str "\n",
    Item.int 38, Item.str "=", Item.str "", Item.str "\n",
    Item.int 8, Item.str "=", Item.str "", Item.str "\n",
    Item.int 47, Item.str "=", Item.str "", Item.str "\n",
    Item.int 54, Item.str "=", Item.str "", Item.str "\n",
    Item.int 98, Item.str "=", Item.str "", Item.str "\n",
    Item.int 71, Item.str "=", Item.str "", Item.str "\n",
    Item.int 42, Item.str "=", Item.str "", Item.str "\n",
    Item.int 113, Item.str "=", Item.int 0, Item.str "\n",
    Item.int 45, Item.str "=", Item.str "", Item.str "\n",
    Item.int 103, Item.str "=", Item.int 1, Item.str "\n",
    Item.int 91, Item.str "=", Item.int 0, Item.str "\n",
    Item.int 78, Item.str "=", Item.str "", Item.str "\n",
    Item.int 37, Item.str "=", Item.str "", Item.str "\n",
    Item.int 11, Item.str "=", Item.str "i2_virtual_check", Item.str "\n",
    Item.int 86, Item.str "=", Item.str "", Item.str "\n",
    Item.int 109, Item.str "=", Item.str "", Item.str "\n",
    Item.int 162, Item.str "=", Item.str "", Item.str "\n",
    Item.int 262, Item.str "=", Item.str "i2_customvar", Item.str ":", Item.str "1", Item.str ":",
      Item.str "i2_customvarmod", Item.str "\n",
    Item.int 999, Item.str "\n\n" ]

/-- The method `CompatIdoComponent::DumpHostStatus`.  The local variable
`state` is computed from `IsReachable` and `IsUp` and then not used. -/
def DumpHostStatus (env : Env) (k : Exporter) (host : Host) : Exporter :=
  SendMessage { k with timeCalls := k.timeCalls + 3 } (messageStr env (hostStatusItems env k host))

/-- The operands written to `message` in `DumpServiceObject`. -/
def serviceObjectItems (env : Env) (k : Exporter) (service : Service) : List Item :=
  [ Item.str "\n",
    Item.int 402, Item.str ":", Item.str "\n",
    Item.int 4, Item.str "=", Item.setprecision 17, Item.dbl (env.GetTime k.timeCalls),
      Item.str "\n",
    Item.int 174, Item.str "=", Item.str service.GetHost.GetName, Item.str "\n",
    Item.int 258, Item.str "=", Item.str service.GetAlias, Item.str "\n",
    Item.int 210, Item.str "=", Item.str service.GetAlias, Item.str "\n",
    Item.int 207, Item.str "=", Item.str "check_i2", Item.str "\n",
    Item.int 211, Item.str "=", Item.str "", Item.str "\n",
    Item.int 224, Item.str "=", Item.str "", Item.str "\n",
    Item.int 209, Item.str "=", Item.str "", Item.str "\n",
    Item.int 214, Item.str "=", Item.str "", Item.str "\n",
    Item.int 208, Item.str "=", Item.int 1, Item.str "\n",
    Item.int 226, Item.str "=", Item.int 1, Item.str "\n",
    Item.int 185, Item.str "=", Item.int 1, Item.str "\n",
    Item.int 246, Item.str "=", Item.int 0, Item.str "\n",
    Item.int 223, Item.str "=", Item.int 0, Item.str "\n",
    Item.int 196, Item.str "=", Item.int 0, Item.str "\n",
    Item.int 197, Item.str "=", Item.int 0, Item.str "\n",
    Item.int 193, Item.str "=", Item.int 0, Item.str "\n",
    Item.int 195, Item.str "=", Item.int 0, Item.str "\n",
    Item.int 194, Item.str "=", Item.int 0, Item.str "\n",
    Item.int 249, Item.str "=", Item.int 0, Item.str "\n",
    Item.int 232, Item.str "=", Item.int 0, Item.str "\n",
    Item.int 234, Item.str "=", Item.int 0, Item.str "\n",
    Item.int 233, Item.str "=", Item.int 0, Item.str "\n",
    Item.int 231, Item.str "=", Item.int 0, Item.str "\n",
    Item.int 221, Item.str "=", Item.int 0, Item.str "\n",
    Item.int 215, Item.str "=", Item.int 0, Item.str "\n",
    Item.int 254, Item.str "=", Item.int 0, Item.str "\n",
    Item.int 255, Item.str "=", Item.int 0, Item.str "\n",
    Item.int 256, Item.str "=", Item.int 0, Item.str "\n",
    Item.int 257, Item.str "=", Item.int 0, Item.str "\n",
    Item.int 184, Item.str "=", Item.int 0, Item.str "\n",
    Item.int 157, Item.str "=", Item.int 0, Item.str "\n",
    Item.int 202, Item.str "=", Item.int 1, Item.str "\n",
    Item.int 216, Item.str "=", Item.int 0, Item.str "\n",
    Item.int 217, Item.str "=", Item.int 0, Item.str "\n",
    Item.int 97, Item.str "=", Item.int 1, Item.str "\n",
    Item.int 212, Item.str "=", Item.int 0, Item.str "\n",
    Item.int 9, Item.str "=", Item.int 1, Item.str "\n",
    Item.int 206, Item.str "=", Item.int 1, Item.str "\n",
    Item.int 205, Item.str "=", Item.int 1, Item.str "\n",
    Item.int 225, Item.str "=", Item.int 0, Item.str "\n",
    Item.int 93, Item.str "=", Item.int 0, Item.str "\n",
    Item.int 213, Item.str "=", Item.int 0, Item.str "\n",
    Item.int 186, Item.str "=", Item.str "i2_notes", Item.str "\n",
    Item.int 187, Item.str "=", Item.str "", Item.str "\n",
    Item.int 126, Item.str "=", Item.str "", Item.str "\n",
    Item.int 179, Item.str "=", Item.str "", Item.str "\n",
    Item.int 180, Item.str "=", Item.str "", Item.str "\n",
    Item.int 130, Item.str "=", Item.str "i2_contactgroup", Item.str "\n",
    Item.int 264, Item.str "=", Item.str "i2_contact", Item.str "\n",
    Item.int 262, Item.str "=", Item.str "i2_customvar", Item.str ":", Item.int 1, Item.str ":",
      Item.str "i2_custom_var_mod", Item.str "\n",
    Item.int 999, Item.str "\n\n" ]

/-- The method `CompatIdoComponent::DumpServiceObject`. -/
def DumpServiceObject (env : Env) (k : Exporter) (service : Service) : Exporter :=
  SendMessage { k with timeCalls := k.timeCalls + 1 }
    (messageStr env (serviceObjectItems env k service))

/-- The value of a `String` variable that is assigned from the check result
only if there is one. -/
def checkResultString (cr : Option CheckResult) (get : CheckResult → String) : String :=
  match cr with
  | some c => get c
  | none => ""

/-- The value of a `double` variable that starts as -1 and is assigned from
the check result only if there is one. -/
def checkResultDouble (cr : Option CheckResult) (get : CheckResult → Float) : Float :=
  match cr with
  | some c => get c
  | none => -1

/-- The operands written to `message` in `DumpServiceStatus`. -/
def serviceStatusItems (env : Env) (k : Exporter) (service : Service) : List Item :=
  let cr := service.GetLastCheckResult
  let output : String := checkResultString cr CheckResult.output
  let perfdata : String := checkResultString cr CheckResult.performance_data_raw
  let schedule_start : Float := checkResultDouble cr CheckResult.schedule_start
  let schedule_end : Float := checkResultDouble cr CheckResult.schedule_end
  let execution_start : Float := checkResultDouble cr CheckResult.execution_start
  let execution_end : Float := checkResultDouble cr CheckResult.execution_end
  let execution_time : Float := execution_end - execution_start
  let latency : Float := (schedule_end - schedule_start) - execution_time
  let state : Int :=
    if service.GetState > env.StateUnknown then env.StateUnknown else service.GetState
  [ Item.str "\n",
    Item.int 213, Item.str ":", Item.str "\n",
    Item.int 1, Item.str "=", Item.str "", Item.str "\n",
    Item.int 2, Item.str "=", Item.str "", Item.str "\n",
    Item.int 3, Item.str "=", Item.str "", Item.str "\n",
    Item.int 4, Item.str "=", Item.setprecision 17, Item.dbl (env.GetTime k.timeCalls),
      Item.str "\n",
    Item.int 53, Item.str "=", Item.str service.GetHost.GetName, Item.str "\n",
    Item.int 114, Item.str "=", Item.str service.GetAlias, Item.str "\n",
    Item.int 95, Item.str "=", Item.str output, Item.str "\n",
    Item.int 125, Item.str "=", Item.str "", Item.str "\n",
    Item.int 99, Item.str "=", Item.str perfdata, Item.str "\n",
    Item.int 27, Item.str "=", Item.int state, Item.str "\n",
    Item.int 51, Item.str "=", Item.int (if service.GetLastCheckResult.isSome then 1 else 0),
      Item.str "\n",
    Item.int 115, Item.str "=", Item.str "1", Item.str "\n",
    Item.int 25, Item.str "=", Item.int service.GetCurrentCheckAttempt, Item.str "\n",
    Item.int 76, Item.str "=", Item.int service.GetMaxCheckAttempts, Item.str "\n",
    Item.int 61, Item.str "=", Item.int (env.toInt schedule_end), Item.str "\n",
    Item.int 83, Item.str "=", Item.int (env.toInt service.GetNextCheck), Item.str "\n",
    Item.int 12, Item.str "=", Item.str "", Item.str "\n",
    Item.int 63, Item.str "=", Item.int (env.toInt service.GetLastStateChange), Item.str "\n",
    Item.int 57, Item.str "=", Item.int (env.toInt service.GetLastHardStateChange), Item.str "\n",
    Item.int 56, Item.str "=", Item.str "", Item.str "\n",
    Item.int 66, Item.str "=", Item.str "", Item.str "\n",
    Item.int 70, Item.str "=", Item.str "", Item.str "\n",
    Item.int 67, Item.str "=", Item.str "", Item.str "\n",
    Item.int 64, Item.str "=", Item.str "", Item.str "\n",
    Item.int 121, Item.str "=", Item.int service.GetStateType, Item.str "\n",
    Item.int 62, Item.str "=", Item.str "", Item.str "\n",
    Item.int 84, Item.str "=", Item.str "", Item.str "\n",
    Item.int 85, Item.str "=", Item.int 0, Item.str "\n",
    Item.int 88, Item.str "=", Item.int 0, Item.str "\n",
    Item.int 101, Item.str "=", Item.int 0, Item.str "\n",
    Item.int 7, Item.str "=", Item.str "", Item.str "\n",
    Item.int 26, Item.str "=", Item.int 0, Item.str "\n",
    Item.int 97, Item.str "=", Item.str "", Item.str "\n",
    Item.int 38, Item.str "=", Item.str "", Item.str "\n",
    Item.int 9, Item.str "=", Item.str "", Item.str "\n",
    Item.int 47, Item.str "=", Item.str "", Item.str "\n",
    Item.int 54, Item.str "=", Item.str "", Item.str "\n",
    Item.int 98, Item.str "=", Item.str "", Item.str "\n",
    Item.int 71, Item.str "=", Item.dbl latency, Item.str "\n",
    Item.int 42, Item.str "=", Item.dbl execution_time, Item.str "\n",
    Item.int 113, Item.str "=", Item.int 0, Item.str "\n",
    Item.int 45, Item.str "=", Item.int 0, Item.str "\n",
    Item.int 103, Item.str "=", Item.int 1, Item.str "\n",
    Item.int 93, Item.str "=", Item.int 0, Item.str "\n",
    Item.int 80, Item.str "=", Item.int 0, Item.str "\n",
    Item.int 37, Item.str "=", Item.str "", Item.str "\n",
    Item.int 11, Item.str "=", Item.str "i2_check_service", Item.str "\n",
    Item.int 86, Item.str "=", Item.dbl (Float.ofInt service.GetCheckInterval / 60.0),
      Item.str "\n",
    Item.int 109, Item.str "=", Item.dbl (Float.ofInt service.GetRetryInterval / 60.0),
      Item.str "\n",
    Item.int 209, Item.str "=", Item.str "", Item.str "\n",
    Item.int 262, Item.str "=", Item.str "i2_customvar", Item.str ":", Item.str "1", Item.str ":",
      Item.str "i2_customvarmod", Item.str "\n",
    Item.int 999, Item.str "\n\n" ]

/-- The method `CompatIdoComponent::DumpServiceStatus`. -/
def DumpServiceStatus (env : Env) (k : Exporter) (service : Service) : Exporter :=
  SendMessage { k with timeCalls := k.timeCalls + 1 }
    (messageStr env (serviceStatusItems env k service))

/-- The operands written to `message` in `DumpProgramStatusData`. -/
def programStatusItems (env : Env) (k : Exporter) : List Item :=
  let start_time : Float := env.GetStartTime
  [ Item.str "\n",
    Item.int 211, Item.str ":", Item.str "\n",
    Item.int 1, Item.str "=", Item.str "", Item.str "\n",
    Item.int 2, Item.str "=", Item.str "", Item.str "\n",
    Item.int 3, Item.str "=", Item.str "", Item.str "\n",
    Item.int 4, Item.str "=", Item.setprecision 17, Item.dbl (env.GetTime k.timeCalls),
      Item.str "\n",
    Item.int 106, Item.str "=", Item.int (env.toInt start_time), Item.str "\n",
    Item.int 102, Item.str "=", Item.int env.GetPid, Item.str "\n",
    Item.int 28, Item.str "=", Item.str "1", Item.str "\n",
    Item.int 55, Item.str "=", Item.str "", Item.str "\n",
    Item.int 60, Item.str "=", Item.str "", Item.str "\n",
    Item.int 88, Item.str "=", Item.str "", Item.str "\n",
    Item.int 9, Item.str "=", Item.str "1", Item.str "\n",
    Item.int 97, Item.str "=", Item.str "1", Item.str "\n",
    Item.int 8, Item.str "=", Item.str "0", Item.str "\n",
    Item.int 96, Item.str "=", Item.str "0", Item.str "\n",
    Item.int 39, Item.str "=", Item.str "0", Item.str "\n",
    Item.int 47, Item.str "=", Item.str "1", Item.str "\n",
    Item.int 45, Item.str "=", Item.str "0", Item.str "\n",
    Item.int 103, Item.str "=", Item.str "1", Item.str "\n",
    Item.int 92, Item.str "=", Item.str "0", Item.str "\n",
    Item.int 94, Item.str "=", Item.str "0", Item.str "\n",
    Item.int 78, Item.str "=", Item.str "0", Item.str "\n",
    Item.int 80, Item.str "=", Item.str "0", Item.str "\n",
    Item.int 49, Item.str "=", Item.str "", Item.str "\n",
    Item.int 50, Item.str "=", Item.str "", Item.str "\n",
    Item.int 270, Item.str "=", Item.str "", Item.str "\n",
    Item.int 999, Item.str "\n\n" ]

/-- The method `CompatIdoComponent::DumpProgramStatusData`. -/
def DumpProgramStatusData (env : Env) (k : Exporter) : Exporter :=
  SendMessage { k with timeCalls := k.timeCalls + 1 } (messageStr env (programStatusItems env k))

/-! ## The dump of the configuration -/

/-- Modelled from the spec: the objects that `DynamicObject::GetObjects`,
`HostGroup::Exists`, `HostGroup::GetByName`, `ServiceGroup::Exists` and
`ServiceGroup::GetByName` answer from; these classes are not part of the
sources at hand.  `hosts` and `services` are in iteration order, `hostGroups`
and `serviceGroups` map the name of a group object to its alias. -/
structure Objects where
  hosts : List Host
  services : List Service
  hostGroups : List (String × String)
  serviceGroups : List (String × String)

/-- The statement `groups[key].push_back(v)` on a `map<String, vector<T>>`. -/
def pushBack {α : Type} (groups : List (String × List α)) (key : String) (v : α) :
    List (String × List α) :=
  mapSet key ((mapFind groups key).getD [] ++ [v]) groups

/-- The loop over the dictionary `dict` of the groups of an object, which
appends `v` to the members of every group named, if the dictionary is set. -/
def collectGroups {α : Type} (groups : List (String × List α)) (dict : Option (List String))
    (v : α) : List (String × List α) :=
  match dict with
  | some names => names.foldl (fun m group => pushBack m group v) groups
  | none => groups

/-- The loop of `DumpConfigObjects` over the hosts: the groups of the host are
collected in `hostgroups`, then the host is dumped. -/
def dumpHosts (env : Env) :
    List Host → List (String × List String) × Exporter →
      List (String × List String) × Exporter
  | [], acc => acc
  | host :: rest, acc =>
    dumpHosts env rest
      (collectGroups acc.1 host.GetGroups host.GetName, DumpHostObject env acc.2 host)

/-- The operands written to `message` for the host group `name` with the
members `hosts`. -/
def hostGroupItems (env : Env) (k : Exporter) (name groupAlias : String) (hosts : List String) :
    List Item :=
  [ Item.str "\n",
    Item.int 401, Item.str ":", Item.str "\n",
    Item.int 4, Item.str "=", Item.setprecision 17, Item.dbl (env.GetTime k.timeCalls),
      Item.str "\n",
    Item.int 172, Item.str "=", Item.str name, Item.str "\n",
    Item.int 170, Item.str "=", Item.str groupAlias, Item.str "\n" ] ++
  env.CreateMessageList (hosts.map Member.name) 171 ++
  [ Item.int 999, Item.str "\n\n" ]

/-- The loop of `DumpConfigObjects` over `hostgroups`: a group is dumped if
a host group object of its name exists. -/
def dumpHostGroups (env : Env) (objects : Objects) :
    List (String × List String) → Exporter → Exporter
  | [], k => k
  | hgt :: rest, k =>
    match mapFind objects.hostGroups hgt.1 with
    | some groupAlias =>
      dumpHostGroups env objects rest
        (SendMessage { k with timeCalls := k.timeCalls + 1 }
          (messageStr env (hostGroupItems env k hgt.1 groupAlias hgt.2)))
    | none => dumpHostGroups env objects rest k

/-- The loop of `DumpConfigObjects` over the services: the groups of the
service are collected in `servicegroups`, then the service is dumped. -/
def dumpServices (env : Env) :
    List Service → List (String × List Service) × Exporter →
      List (String × List Service) × Exporter
  | [], acc => acc
  | service :: rest, acc =>
    dumpServices env rest
      (collectGroups acc.1 service.GetGroups service, DumpServiceObject env acc.2 service)

/-- The operands written to `message` for the service group `name` with the
members `services`; the list `sglist` that the source builds is not used. -/
def serviceGroupItems (env : Env) (k : Exporter) (name groupAlias : String)
    (services : List Service) : List Item :=
  [ Item.str "\n",
    Item.int 403, Item.str ":", Item.str "\n",
    Item.int 4, Item.str "=", Item.setprecision 17, Item.dbl (env.GetTime k.timeCalls),
      Item.str "\n",
    Item.int 220, Item.str "=", Item.str name, Item.str "\n",
    Item.int 218, Item.str "=", Item.str groupAlias, Item.str "\n" ] ++
  env.CreateMessageList (services.map Member.service) 219 ++
  [ Item.int 999, Item.str "\n\n" ]

/-- The loop of `DumpConfigObjects` over `servicegroups`: a group is dumped
if a service group object of its name exists. -/
def dumpServiceGroups (env : Env) (objects : Objects) :
    List (String × List Service) → Exporter → Exporter
  | [], k => k
  | sgt :: rest, k =>
    match mapFind objects.serviceGroups sgt.1 with
    | some groupAlias =>
      dumpServiceGroups env objects rest
        (SendMessage { k with timeCalls := k.timeCalls + 1 }
          (messageStr env (serviceGroupItems env k sgt.1 groupAlias sgt.2)))
    | none => dumpServiceGroups env objects rest k

/-- The method `CompatIdoComponent::DumpConfigObjects`. -/
def DumpConfigObjects (env : Env) (objects : Objects) (k : Exporter) : Exporter :=
  let k1 := StartConfigDump env k
  let hosts := dumpHosts env objects.hosts ([], k1)
  let k3 := dumpHostGroups env objects hosts.1 hosts.2
  let services := dumpServices env objects.services ([], k3)
  let k5 := dumpServiceGroups env objects services.1 services.2
  EndConfigDump env k5

/-! ## The framing of a record -/

/-- The line `key=value` with its line end. -/
def attrLine (a : Nat × List Char) : List Char := showNat a.1 ++ '=' :: (a.2 ++ ['\n'])

/-- The text is a sequence of lines `key=value`, with an integer key and a
value without a line end, then the line `999`, then an empty line. -/
def AttributeLines (text : List Char) : Prop :=
  ∃ attrs : List (Nat × List Char),
    (∀ a ∈ attrs, '\n' ∉ a.2) ∧ text = (attrs.map attrLine).flatten ++ "999\n\n".data

/-- The text is a record of the given type code: empty lines, at least one,
the line `typecode:`, lines `key=value`, the line `999` and an empty line. -/
def Framed (typecode : Nat) (text : List Char) : Prop :=
  ∃ blank : Nat, 0 < blank ∧ ∃ body : List Char, AttributeLines body ∧
    text = List.replicate blank '\n' ++ (showNat typecode ++ ':' :: '\n' :: body)

/-- Whether an operand is a string, an `int` or a `double`, and not a
manipulator. -/
def Item.isValue : Item → Bool
  | Item.setprecision _ => false
  | _ => true

/-- The text that one operand leaves in a stream of precision `precision`. -/
def renderItem (env : Env) (precision : Nat) (item : Item) : List Char :=
  render env precision [item]

/-- The type code in the head line of a message, if it has one: the digits
after the leading line ends, when a colon and a line end follow them. -/
def typecode (message : String) : Option Nat :=
  let text := message.data.dropWhile (fun c => c = '\n')
  let digits := text.takeWhile Char.isDigit
  match text.dropWhile Char.isDigit with
  | ':' :: '\n' :: _ =>
    if digits = [] then none else some (digits.foldl (fun n c => 10 * n + (c.toNat - 48)) 0)
  | _ => none

/-! ## Concrete objects of the exporter -/

/-- An environment in which every `double` is written as "1355233463.5" and
converted to 1355233463, and `CreateMessageList` writes nothing. -/
def demoEnv : Env :=
  { GetTime := fun k => Float.ofNat (1355233463 + k)
    GetPid := 4711
    GetStartTime := 1355230000
    StateUnknown := 3
    formatDouble := fun _ _ => "1355233463.5"
    toInt := fun _ => 1355233463
    CreateMessageList := fun _ _ => [] }

/-- An exporter that has sent nothing yet. -/
def demoExporter : Exporter := { sent := [], timeCalls := 0 }

/-- The host "web1" in the group "linux". -/
def demoHost : Host :=
  { GetName := "web1", GetAlias := "Web server 1", GetGroups := some ["linux"],
    IsReachable := true, IsUp := true }

/-- The service "http" of `demoHost`, with a check result. -/
def demoService : Service :=
  { GetHost := demoHost
    GetAlias := "http"
    GetGroups := none
    GetLastCheckResult := some
      { output := "HTTP OK: 200", schedule_start := 10, schedule_end := 12,
        execution_start := 10, execution_end := 11, performance_data_raw := "time=0.1s" }
    GetState := 0
    GetStateType := 1
    GetCurrentCheckAttempt := 1
    GetMaxCheckAttempts := 3
    GetNextCheck := 1355233500
    GetLastStateChange := 1355230000
    GetLastHardStateChange := 1355230000
    GetCheckInterval := 300
    GetRetryInterval := 60 }

/-! ## More states of the discovery component -/

/-- Daemon "A" with a directory that holds the configured peer "B" only,
last seen at time 990. -/
def configuredPeerState : State :=
  { meshState with
    components :=
      [ ("B", { Node := "10.0.0.2", Service := "5665", Subscriptions := [],
                Publications := [], LastSeen := 990 }) ] }

/-- Daemon "A" with a directory that holds "D" only, last seen at time 900;
"D" has an address and no endpoint. -/
def lonePeerState : State :=
  { meshState with
    components :=
      [ ("D", { Node := "10.0.0.4", Service := "5665", Subscriptions := [],
                Publications := [], LastSeen := 900 }) ] }

/-- What a tick ends with: `none` while it has not returned. -/
def faultAfter (r : Option (Except Fault State)) : Option (Option Fault) :=
  match r with
  | some (Except.ok _) => some none
  | some (Except.error f) => some (some f)
  | none => none

/-! ## Values -/

/-- Modelled from the spec: a `Value`, the variant that the configuration, the
request parameters and the responses hold: empty, a boolean, a number, a
string, an array, a dictionary, or a pointer to a configuration object, given
by the name of the object.  The classes `Value`, `Array` and `Dictionary` are
not part of the sources at hand. -/
inductive Value where
  | empty
  | boolean (b : Bool)
  | number (x : Float)
  | string (s : String)
  | array (items : List Value)
  | dictionary (entries : List (String × Value))
  | object (name : String)

/-- The contents of a `Dictionary` whose values are of class `Value`, in key
order. -/
abbrev ValueMap := List (String × Value)

/-- The call `Get(key)` on a dictionary: the value stored under the key, the
empty value if there is none. -/
def ValueMap.Get (d : ValueMap) (key : String) : Value := (mapFind d key).getD Value.empty

/-- The call `Set(key, value)` on a dictionary. -/
def ValueMap.Set (d : ValueMap) (key : String) (value : Value) : ValueMap := mapSet key value d

/-- The test `IsObjectType<Array>()`. -/
def Value.isArray : Value → Bool
  | Value.array _ => true
  | _ => false

/-- The test `GetType() != ValueEmpty`. -/
def Value.notEmptyType : Value → Bool
  | Value.empty => false
  | _ => true

/-- The test `GetReflectionType() == Dictionary::TypeInstance`. -/
def Value.isDictionary : Value → Bool
  | Value.dictionary _ => true
  | _ => false

/-! ## The configuration of the IDO sink -/

/-- The constant `DefaultSocketAddress`. -/
def DefaultSocketAddress : String := "127.0.0.1"

/-- The constant `DefaultSocketPort`. -/
def DefaultSocketPort : String := "5668"

/-- The constant `DefaultInstanceName`. -/
def DefaultInstanceName : String := "i2-default"

/-- The method `CompatIdoComponent::GetSocketAddress`; `config` is what
`GetConfig()` returns, `IsEmpty` the method `Value::IsEmpty` and `asString`
the conversion of a `Value` to a `String`, which the sources at hand do not
define. -/
def GetSocketAddress (IsEmpty : Value → Bool) (asString : Value → String) (config : ValueMap) :
    String :=
  let address := config.Get "socket_address"
  if IsEmpty address then DefaultSocketAddress else asString address

/-- The method `CompatIdoComponent::GetSocketPort`. -/
def GetSocketPort (IsEmpty : Value → Bool) (asString : Value → String) (config : ValueMap) :
    String :=
  let port := config.Get "socket_port"
  if IsEmpty port then DefaultSocketPort else asString port

/-- The method `CompatIdoComponent::GetInstanceName`; the local variable
`instance` is called `instanceName` here. -/
def GetInstanceName (IsEmpty : Value → Bool) (asString : Value → String) (config : ValueMap) :
    String :=
  let instanceName := config.Get "instance_name"
  if IsEmpty instanceName then DefaultInstanceName else asString instanceName

/-- A reading of `Value::IsEmpty`: the value is the empty variant. -/
def isEmptyVariant : Value → Bool
  | Value.empty => true
  | _ => false

/-- A conversion of a `Value` to a `String` that returns the text of a string
value. -/
def stringOf : Value → String
  | Value.string s => s
  | _ => ""

/-- A sink configuration that sets the port only. -/
def portOnlyConfig : ValueMap := [("socket_port", Value.string "5669")]

/-! ## The state of a host and the fields of a record -/

/-- The local variable `state` of `DumpHostStatus`: 2 for a host that is not
reachable, 1 for one that is reachable and not up, 0 else. -/
def hostStatusState (host : Host) : Int :=
  if !host.IsReachable then 2
  else if !host.IsUp then 1
  else 0

/-- The lines of a text: the pieces between its line ends. -/
def splitLines : List Char → List (List Char)
  | [] => [[]]
  | c :: cs =>
    if c = '\n' then [] :: splitLines cs
    else
      match splitLines cs with
      | l :: ls => (c :: l) :: ls
      | [] => [[c]]

/-- The value of a line `key=value`, if the line starts with the key and the
equals sign. -/
def lineValue (key : Nat) (line : List Char) : Option String :=
  if (showNat key ++ ['=']).isPrefixOf line then some ⟨line.drop ((showNat key).length + 1)⟩
  else none

/-- The value of the first line `key=value` of a record with the given key. -/
def fieldValue (key : Nat) (message : String) : Option String :=
  (splitLines message.data).findSome? (lineValue key)

/-- The messages that have been sent last, those after the first `n`. -/
def sentAfter (n : Nat) (k : Exporter) : List String := k.sent.drop n

/-- The names of the hosts that name `group` among their groups, in the
iteration order of the hosts, once for every time a host names it. -/
def groupMembers (hosts : List Host) (group : String) : List String :=
  (hosts.map (fun host =>
    ((host.GetGroups.getD []).filter (fun g => decide (g = group))).map
      (fun _ => host.GetName))).flatten

/-- A message of `DumpConfigObjects` for the host group `name` with the given
alias and members: the text of `hostGroupItems` for some state of the
exporter. -/
def IsHostGroupRecord (env : Env) (objects : Objects) (entry : String × List String)
    (message : String) : Prop :=
  ∃ (k : Exporter) (groupAlias : String),
    mapFind objects.hostGroups entry.1 = some groupAlias ∧
    message = messageStr env (hostGroupItems env k entry.1 groupAlias entry.2)

/-! ## More objects of the exporter -/

/-- The host "db1", which is reachable and down, in the groups "linux" and
"db". -/
def downHost : Host :=
  { GetName := "db1", GetAlias := "Database 1", GetGroups := some ["linux", "db"],
    IsReachable := true, IsUp := false }

/-- The host "edge1", which is not reachable and in no group. -/
def unreachableHost : Host :=
  { GetName := "edge1", GetAlias := "Edge router", GetGroups := none,
    IsReachable := false, IsUp := false }

/-- The hosts "web1", "db1" and "edge1", no services, and the host groups
"linux", "db" and "windows"; no host names "windows". -/
def demoObjects : Objects :=
  { hosts := [demoHost, downHost, unreachableHost]
    services := []
    hostGroups := [("db", "Databases"), ("linux", "Linux hosts"), ("windows", "Windows hosts")]
    serviceGroups := [] }

/-! ## The HTTP API (lib/remote) -/

/-- The request methods that the handlers tell apart. -/
inductive Verb where
  | get
  | post
  | put
  | delete_
  | other
  deriving DecidableEq, Repr

/-- Modelled from the spec: what the handlers read of an `HttpRequest`: the
path segments and the query of its URL, the method, the user and the
parameters.  The class `HttpRequest` is not part of the sources at hand. -/
structure HttpRequest where
  path : List String
  query : List (String × String)
  method : Verb
  user : String
  params : ValueMap

/-- Modelled from the spec: what the handlers write to an `HttpResponse`: the
status code, the content type, whether streaming was started, whether the
encoder was asked to indent, and the value handed to the JSON encoder.  The
class `HttpResponse` is not part of the sources at hand. -/
structure HttpResponse where
  result : Int
  contentType : Option String
  streaming : Bool
  pretty : Bool
  body : Option Value

/-- The call `response.Clear()`. -/
def HttpResponse.Clear (response : HttpResponse) : HttpResponse :=
  { response with contentType := none, streaming := false, pretty := false, body := none }

/-- The conversion of a `Value` to a `Dictionary::Ptr`: the null pointer for
the empty value, an exception for a value that is no dictionary. -/
def asDictionary : Value → Except Fault (Option ValueMap)
  | Value.empty => Except.ok none
  | Value.dictionary d => Except.ok (some d)
  | _ => Except.error (Fault.exception "bad cast")

/-- A `Dictionary` made from an initializer list. -/
def mkDictionary (entries : List (String × Value)) : ValueMap :=
  entries.foldl (fun d kv => d.Set kv.1 kv.2) []

/-- The method `HttpUtility::FetchRequestParameters`; `query` is what
`url->GetQuery()` returns and `JsonDecode` the function of that name. -/
def FetchRequestParameters (JsonDecode : String → Except Fault Value)
    (query : List (String × String)) (body : String) : Except Fault ValueMap :=
  let decoded : Except Fault (Option ValueMap) :=
    if body ≠ "" then
      match JsonDecode body with
      | Except.ok v => asDictionary v
      | Except.error f => Except.error f
    else Except.ok none
  match decoded with
  | Except.error f => Except.error f
  | Except.ok result =>
    let queryMap : List (String × List String) :=
      query.foldl (fun m kv => pushBack m kv.1 kv.2) []
    Except.ok
      (queryMap.foldl (fun r kv => r.Set kv.1 (Value.array (kv.2.map Value.string)))
        (result.getD []))

/-- The method `HttpUtility::GetLastParameter`. -/
def GetLastParameter (params : ValueMap) (key : String) : Value :=
  let varr := params.Get key
  match varr with
  | Value.array arr =>
    if arr.length = 0 then Value.empty else arr.getD (arr.length - 1) Value.empty
  | _ => varr

/-- The test `params && GetLastParameter(params, key)`; `ToBool` is the
conversion of a `Value` to `bool`. -/
def lastParameterSet (ToBool : Value → Bool) (params : Option ValueMap) (key : String) : Bool :=
  match params with
  | some p => ToBool (GetLastParameter p key)
  | none => false

/-- The method `HttpUtility::SendJsonBody` with a yield context. -/
def SendJsonBodyStreaming (ToBool : Value → Bool) (response : HttpResponse)
    (params : Option ValueMap) (val : Value) : HttpResponse :=
  { response with
    contentType := some "application/json"
    streaming := true
    pretty := lastParameterSet ToBool params "pretty"
    body := some val }

/-- The method `HttpUtility::SendJsonBody` without a yield context. -/
def SendJsonBody (ToBool : Value → Bool) (response : HttpResponse)
    (params : Option ValueMap) (val : Value) : HttpResponse :=
  { response with
    contentType := some "application/json"
    pretty := lastParameterSet ToBool params "pretty"
    body := some val }

/-- The method `HttpUtility::SendJsonError`; a call without the last argument
passes the empty string. -/
def SendJsonError (ToBool : Value → Bool) (response : HttpResponse) (params : Option ValueMap)
    (code : Int) (info : String) (diagnosticInformation : String) : HttpResponse :=
  let result : ValueMap := mkDictionary [("error", Value.number (Float.ofInt code))]
  let result1 := if info ≠ "" then result.Set "status" (Value.string info) else result
  let result2 :=
    if lastParameterSet ToBool params "verbose" && decide (diagnosticInformation ≠ "") then
      result1.Set "diagnostic_information" (Value.string diagnosticInformation)
    else result1
  SendJsonBody ToBool { response.Clear with result := code } params (Value.dictionary result2)

/-! ## Concrete requests -/

/-- A decoder that reads every body as the dictionary that sets "pretty" to
false and "attrs" to an empty dictionary. -/
def demoDecode (_ : String) : Except Fault Value :=
  Except.ok (Value.dictionary
    [("attrs", Value.dictionary []), ("pretty", Value.boolean false)])

/-- The query `pretty=1&verbose=x&pretty=0`. -/
def demoQuery : List (String × String) := [("pretty", "1"), ("verbose", "x"), ("pretty", "0")]

/-! ## The URL handlers -/

/-- Modelled from the spec: the interface `TargetProvider`; the class is not
part of the sources at hand. -/
structure TargetProvider where
  FindTargets : String → List Value
  GetTargetByName : String → String → Value
  IsValidType : String → Bool
  GetPluralName : String → String

/-- Modelled from the spec: the fields of a `QueryDescription` that the
handlers set; the class is not part of the sources at hand. -/
structure QueryDescription where
  Types : List String
  Permission : String
  Provider : Option TargetProvider

/-- Modelled from the spec: the configuration objects that the handlers
delete or modify, by name, with their attributes; the class `ConfigObject` is
not part of the sources at hand. -/
abbrev Store := List (String × ValueMap)

/-- What the handlers use and the sources at hand do not define, taken as
parameters: the conversions of a `Value` to `bool` and to `String`, its
comparison with a string literal, the name of its reflection type,
`Serialize(value, 0)`, the global variables of `ScriptGlobal`,
`FilterUtility::TypeFromPluralName` (the name of the type, or none),
`FilterUtility::GetFilterTargets` (the targets, or the exception it throws),
`DiagnosticInformation`, `boost::algorithm::to_lower`, the name of a
configuration object, `ConfigObjectUtility::DeleteObject` (whether it
succeeded, the objects afterwards, the errors and the diagnostic
information), `RestoreAttribute` and `ModifyAttribute` (the objects
afterwards, or the exception thrown). -/
structure Api where
  ToBool : Value → Bool
  asString : Value → String
  equalsString : Value → String → Bool
  TypeName : Value → String
  Serialize : Value → Value
  globals : List (String × Value)
  TypeFromPluralName : String → Option String
  GetFilterTargets :
    QueryDescription → ValueMap → String → Option String → Except String (List Value)
  DiagnosticInformation : String → Bool → String
  toLower : String → String
  objectName : Value → String
  DeleteObject : Store → Value → Bool → Bool × Store × List Value × List Value
  RestoreAttribute : Store → Value → String → Except String Store
  ModifyAttribute : Store → Value → String → Value → Except String Store

/-- The method `VariableTargetProvider::GetTargetForVar`. -/
def GetTargetForVar (api : Api) (name : String) (value : Value) : Value :=
  Value.dictionary (mkDictionary
    [ ("name", Value.string name),
      ("type", Value.string (api.TypeName value)),
      ("value", value) ])

/-- The class `VariableTargetProvider`. -/
def VariableTargetProvider (api : Api) : TargetProvider :=
  { FindTargets := fun _ => api.globals.map (fun kv => GetTargetForVar api kv.1 kv.2)
    GetTargetByName := fun _ name =>
      GetTargetForVar api name ((mapFind api.globals name).getD Value.empty)
    IsValidType := fun type => decide (type = "Variable")
    GetPluralName := fun _ => "variables" }

/-- The values that a `ValueGenerator` over `objs` yields: those of
`generatorFunc`, in order, without the entries it skips; an exception of
`generatorFunc` ends the generation. -/
def generate {σ : Type} (generatorFunc : σ → Value → Except Fault (σ × Option Value)) :
    σ → List Value → Except Fault (σ × List Value)
  | st, [] => Except.ok (st, [])
  | st, obj :: rest =>
    match generatorFunc st obj with
    | Except.error f => Except.error f
    | Except.ok (st1, none) => generate generatorFunc st1 rest
    | Except.ok (st1, some v) =>
      match generate generatorFunc st1 rest with
      | Except.error f => Except.error f
      | Except.ok (st2, vs) => Except.ok (st2, v :: vs)

/-- The lambda `generatorFunc` of `VariableQueryHandler::HandleRequest`. -/
def variableGeneratorFunc (api : Api) (st : Unit) (obj : Value) :
    Except Fault (Unit × Option Value) :=
  match asDictionary obj with
  | Except.error f => Except.error f
  | Except.ok none => Except.error Fault.nullDeref
  | Except.ok (some var) =>
    if api.equalsString (var.Get "name") "TicketSalt" then Except.ok (st, none)
    else
      Except.ok (st, some (Value.dictionary (mkDictionary
        [ ("name", var.Get "name"),
          ("type", var.Get "type"),
          ("value", api.Serialize (var.Get "value")) ])))

/-- The parameters with which `VariableQueryHandler::HandleRequest` calls
`GetFilterTargets`. -/
def variableParams (request : HttpRequest) : ValueMap :=
  let params := request.params.Set "type" (Value.string "Variable")
  if request.path.length ≥ 3 then
    params.Set "variable" (Value.string (request.path.getD 2 ""))
  else params

/-- The query description of `VariableQueryHandler::HandleRequest`. -/
def variableQuery (api : Api) : QueryDescription :=
  { Types := ["Variable"], Permission := "variables",
    Provider := some (VariableTargetProvider api) }

/-- The method `VariableQueryHandler::HandleRequest`: whether the request was
handled, and the response. -/
def VariableQueryHandler.HandleRequest (api : Api) (request : HttpRequest)
    (response : HttpResponse) : Except Fault (Bool × HttpResponse) :=
  if request.path.length > 3 then Except.ok (false, response)
  else if request.method ≠ Verb.get then Except.ok (false, response)
  else
    let params := variableParams request
    match api.GetFilterTargets (variableQuery api) params request.user (some "variable") with
    | Except.error ex =>
      Except.ok (true, SendJsonError api.ToBool response (some params) 404
        "No variables found." (api.DiagnosticInformation ex true))
    | Except.ok objs =>
      match generate (variableGeneratorFunc api) () objs with
      | Except.error f => Except.error f
      | Except.ok (_, results) =>
        Except.ok (true, SendJsonBodyStreaming api.ToBool { response with result := 200 }
          (some params) (Value.dictionary (mkDictionary [("results", Value.array results)])))

/-! ## Deleting and modifying objects -/

/-- The state of the locks when a request is handled: whether the try-lock
of `ConfigObjectsSharedLock` succeeds, whether the try-lock of the wait group
succeeds, and what `waitGroup->IsLockable()` returns when the generator
reaches the object number `i`. -/
structure Locks where
  configObjects : Bool
  waitGroup : Bool
  lockable : Nat → Bool

/-- What a handler leaves behind: whether the request was handled, the
response and the configuration objects. -/
structure Outcome where
  handled : Bool
  response : HttpResponse
  store : Store

/-- What the generators of the two handlers carry from object to object: the
configuration objects, whether `wgLock` is held, and the number of the next
object. -/
structure Progress where
  store : Store
  wgLock : Bool
  index : Nat

/-- The parameters with which the two handlers call `GetFilterTargets`. -/
def objectParams (api : Api) (request : HttpRequest) (type : String) : ValueMap :=
  let params := request.params.Set "type" (Value.string type)
  if request.path.length ≥ 4 then
    params.Set (api.toLower type) (Value.string (request.path.getD 3 ""))
  else params

/-- The lambda `generatorFunc` of `DeleteObjectHandler::HandleRequest`. -/
def deleteGeneratorFunc (api : Api) (locks : Locks) (type : String) (cascade verbose : Bool)
    (st : Progress) (obj : Value) : Except Fault (Progress × Option Value) :=
  if !locks.lockable st.index then
    Except.ok ({ st with wgLock := false, index := st.index + 1 },
      some (Value.dictionary (mkDictionary
        [ ("type", Value.string type),
          ("name", Value.string (api.objectName obj)),
          ("code", Value.number (Float.ofInt 503)),
          ("status", Value.string "Action skipped: Shutting down.") ])))
  else
    let deleted := api.DeleteObject st.store obj cascade
    let code : Int := if !deleted.1 then 500 else 200
    let status : String :=
      if !deleted.1 then "Object could not be deleted." else "Object was deleted."
    let result := mkDictionary
      [ ("type", Value.string type),
        ("name", Value.string (api.objectName obj)),
        ("code", Value.number (Float.ofInt code)),
        ("status", Value.string status),
        ("errors", Value.array deleted.2.2.1) ]
    let result1 :=
      if verbose then result.Set "diagnostic_information" (Value.array deleted.2.2.2)
      else result
    Except.ok ({ st with store := deleted.2.1, index := st.index + 1 },
      some (Value.dictionary result1))

/-- The method `DeleteObjectHandler::HandleRequest`. -/
def DeleteObjectHandler.HandleRequest (api : Api) (locks : Locks) (request : HttpRequest)
    (response : HttpResponse) (store : Store) : Except Fault Outcome :=
  if request.path.length < 3 ∨ request.path.length > 4 then
    Except.ok { handled := false, response := response, store := store }
  else if request.method ≠ Verb.delete_ then
    Except.ok { handled := false, response := response, store := store }
  else
    match api.TypeFromPluralName (request.path.getD 2 "") with
    | none =>
      Except.ok { handled := true, store := store,
                  response := SendJsonError api.ToBool response (some request.params) 400
                    "Invalid type specified." "" }
    | some type =>
      let qd : QueryDescription :=
        { Types := [type], Permission := "objects/delete/" ++ type, Provider := none }
      let params := objectParams api request type
      match api.GetFilterTargets qd params request.user none with
      | Except.error ex =>
        Except.ok { handled := true, store := store,
                    response := SendJsonError api.ToBool response (some params) 404
                      "No objects found." (api.DiagnosticInformation ex true) }
      | Except.ok objs =>
        let cascade := api.ToBool (GetLastParameter params "cascade")
        let verbose := api.ToBool (GetLastParameter params "verbose")
        if !locks.configObjects then
          Except.ok { handled := true, store := store,
                      response := SendJsonError api.ToBool response (some params) 503
                        "Icinga is reloading" "" }
        else if !locks.waitGroup then
          Except.ok { handled := true, store := store,
                      response := SendJsonError api.ToBool response (some params) 503
                        "Shutting down." "" }
        else
          match generate (deleteGeneratorFunc api locks type cascade verbose)
              { store := store, wgLock := true, index := 0 } objs with
          | Except.error f => Except.error f
          | Except.ok (st, results) =>
            Except.ok { handled := true, store := st.store,
                        response := SendJsonBodyStreaming api.ToBool
                          { response with result := 200 } (some params)
                          (Value.dictionary (mkDictionary
                            [("results", Value.array results)])) }

/-- The loop over `restoreAttrs` in `ModifyObjectHandler`: the objects
afterwards, or the key at which `RestoreAttribute` threw, the exception and
the objects at that point. -/
def restoreAll (api : Api) (obj : Value) :
    List Value → Store → Except (String × String × Store) Store
  | [], store => Except.ok store
  | attr :: rest, store =>
    match api.RestoreAttribute store obj (api.asString attr) with
    | Except.error ex => Except.error (api.asString attr, ex, store)
    | Except.ok store1 => restoreAll api obj rest store1

/-- The loop over `attrs` in `ModifyObjectHandler`: the objects afterwards, or
the key at which `ModifyAttribute` threw, the exception and the objects at
that point. -/
def modifyAll (api : Api) (obj : Value) :
    List (String × Value) → Store → Except (String × String × Store) Store
  | [], store => Except.ok store
  | kv :: rest, store =>
    match api.ModifyAttribute store obj kv.1 kv.2 with
    | Except.error ex => Except.error (kv.1, ex, store)
    | Except.ok store1 => modifyAll api obj rest store1

/-- The result that `generatorFunc` of `ModifyObjectHandler` returns after an
exception at `key`. -/
def modifyFailure (api : Api) (verbose : Bool) (result : ValueMap) (what key ex : String) :
    Value :=
  let result1 := (result.Set "code" (Value.number (Float.ofInt 500))).Set "status"
    (Value.string ("Attribute '" ++ key ++ "' could not be " ++ what ++ ": " ++
      api.DiagnosticInformation ex false))
  Value.dictionary
    (if verbose then
      result1.Set "diagnostic_information" (Value.string (api.DiagnosticInformation ex true))
    else result1)

/-- The lambda `generatorFunc` of `ModifyObjectHandler::HandleRequest`. -/
def modifyGeneratorFunc (api : Api) (locks : Locks) (type : String)
    (attrs : Option ValueMap) (restoreAttrs : Option (List Value)) (verbose : Bool)
    (st : Progress) (obj : Value) : Except Fault (Progress × Option Value) :=
  let result : ValueMap :=
    (ValueMap.Set [] "type" (Value.string type)).Set "name" (Value.string (api.objectName obj))
  if !locks.lockable st.index then
    Except.ok ({ st with wgLock := false, index := st.index + 1 },
      some (Value.dictionary
        ((result.Set "code" (Value.number (Float.ofInt 503))).Set "status"
          (Value.string "Action skipped: Shutting down."))))
  else
    match restoreAll api obj (restoreAttrs.getD []) st.store with
    | Except.error (key, ex, store1) =>
      Except.ok ({ st with store := store1, index := st.index + 1 },
        some (modifyFailure api verbose result "restored" key ex))
    | Except.ok store1 =>
      match modifyAll api obj (attrs.getD []) store1 with
      | Except.error (key, ex, store2) =>
        Except.ok ({ st with store := store2, index := st.index + 1 },
          some (modifyFailure api verbose result "set" key ex))
      | Except.ok store2 =>
        Except.ok ({ st with store := store2, index := st.index + 1 },
          some (Value.dictionary
            ((result.Set "code" (Value.number (Float.ofInt 200))).Set "status"
              (Value.string "Attributes updated."))))

/-- The conversion of a `Value` that is an array or empty to an
`Array::Ptr`. -/
def asArray : Value → Option (List Value)
  | Value.array items => some items
  | _ => none

/-- The conversion of a `Value` that is a dictionary or empty to a
`Dictionary::Ptr`. -/
def asAttributes : Value → Option ValueMap
  | Value.dictionary d => some d
  | _ => none

/-- The method `ModifyObjectHandler::HandleRequest`. -/
def ModifyObjectHandler.HandleRequest (api : Api) (locks : Locks) (request : HttpRequest)
    (response : HttpResponse) (store : Store) : Except Fault Outcome :=
  if request.path.length < 3 ∨ request.path.length > 4 then
    Except.ok { handled := false, response := response, store := store }
  else if request.method ≠ Verb.post then
    Except.ok { handled := false, response := response, store := store }
  else
    match api.TypeFromPluralName (request.path.getD 2 "") with
    | none =>
      Except.ok { handled := true, store := store,
                  response := SendJsonError api.ToBool response (some request.params) 400
                    "Invalid type specified." "" }
    | some type =>
      let qd : QueryDescription :=
        { Types := [type], Permission := "objects/modify/" ++ type, Provider := none }
      let params := objectParams api request type
      match api.GetFilterTargets qd params request.user none with
      | Except.error ex =>
        Except.ok { handled := true, store := store,
                    response := SendJsonError api.ToBool response (some params) 404
                      "No objects found." (api.DiagnosticInformation ex true) }
      | Except.ok objs =>
        let attrsVal := params.Get "attrs"
        if !attrsVal.isDictionary && attrsVal.notEmptyType then
          Except.ok { handled := true, store := store,
                      response := SendJsonError api.ToBool response (some params) 400
                        ("Invalid type for 'attrs' attribute specified. " ++
                          "Dictionary type is required." ++
                          "Or is this a POST query and you missed adding a " ++
                          "'X-HTTP-Method-Override: GET' header?") "" }
        else
          let attrs := asAttributes attrsVal
          let restoreAttrsVal := params.Get "restore_attrs"
          if !restoreAttrsVal.isArray && restoreAttrsVal.notEmptyType then
            Except.ok { handled := true, store := store,
                        response := SendJsonError api.ToBool response (some params) 400
                          ("Invalid type for 'restore_attrs' attribute specified. " ++
                            "Array type is required.") "" }
          else
            let restoreAttrs := asArray restoreAttrsVal
            if !(attrs.isSome || restoreAttrs.isSome) then
              Except.ok { handled := true, store := store,
                          response := SendJsonError api.ToBool response (some params) 400
                            ("Missing both 'attrs' and 'restore_attrs'. " ++
                              "Or is this a POST query and you missed adding a " ++
                              "'X-HTTP-Method-Override: GET' header?") "" }
            else
              let verbose := api.ToBool (GetLastParameter params "verbose")
              if !locks.configObjects then
                Except.ok { handled := true, store := store,
                            response := SendJsonError api.ToBool response (some params) 503
                              "Icinga is reloading" "" }
              else if !locks.waitGroup then
                Except.ok { handled := true, store := store,
                            response := SendJsonError api.ToBool response (some params) 503
                              "Shutting down." "" }
              else
                match generate (modifyGeneratorFunc api locks type attrs restoreAttrs verbose)
                    { store := store, wgLock := true, index := 0 } objs with
                | Except.error f => Except.error f
                | Except.ok (st, results) =>
                  Except.ok { handled := true, store := st.store,
                              response := SendJsonBodyStreaming api.ToBool
                                { response with result := 200 } (some params)
                                (Value.dictionary (mkDictionary
                                  [("results", Value.array results)])) }

/-! ## A concrete API environment -/

/-- The conversion of a `Value` to `bool` of the examples: false for the empty
value, for false, for the empty string and for the empty array, true else. -/
def demoToBool : Value → Bool
  | Value.empty => false
  | Value.boolean b => b
  | Value.string s => decide (s ≠ "")
  | Value.array items => !items.isEmpty
  | _ => true

/-- The type names of the examples. -/
def demoTypeName : Value → String
  | Value.empty => "Empty"
  | Value.boolean _ => "Boolean"
  | Value.number _ => "Number"
  | Value.string _ => "String"
  | Value.array _ => "Array"
  | Value.dictionary _ => "Dictionary"
  | Value.object _ => "Object"

/-- The name of a configuration object of the examples. -/
def demoObjectName : Value → String
  | Value.object name => name
  | _ => ""

/-- An environment with three global variables, among them "TicketSalt", and
the type "Host"; a query without provider yields the objects "web1" and
"db1", deleting an object removes it, modifying an attribute sets it. -/
def demoApi : Api :=
  { ToBool := demoToBool
    asString := stringOf
    equalsString := fun v text =>
      match v with
      | Value.string s => decide (s = text)
      | _ => false
    TypeName := demoTypeName
    Serialize := fun v => v
    globals :=
      [ ("Environment", Value.string "production"),
        ("TicketSalt", Value.string "secret"),
        ("NodeName", Value.string "master1") ]
    TypeFromPluralName := fun plural => if plural = "hosts" then some "Host" else none
    GetFilterTargets := fun qd _ _ _ =>
      match qd.Provider with
      | some provider => Except.ok (provider.FindTargets "Variable")
      | none => Except.ok [Value.object "web1", Value.object "db1"]
    DiagnosticInformation := fun ex _ => ex
    toLower := fun s => s.toLower
    objectName := demoObjectName
    DeleteObject := fun store obj _ => (true, mapErase store (demoObjectName obj), [], [])
    RestoreAttribute := fun store _ _ => Except.ok store
    ModifyAttribute := fun store obj key value =>
      Except.ok (mapSet (demoObjectName obj)
        (((mapFind store (demoObjectName obj)).getD []).Set key value) store) }

/-- The configuration objects "db1" and "web1", without attributes. -/
def demoStore : Store := [("db1", []), ("web1", [])]

/-- A response nothing has been written to. -/
def emptyResponse : HttpResponse :=
  { result := 0, contentType := none, streaming := false, pretty := false, body := none }

/-- The request `DELETE /v1/objects/hosts`. -/
def deleteRequest : HttpRequest :=
  { path := ["v1", "objects", "hosts"], query := [], method := Verb.delete_, user := "root",
    params := [] }

/-- The request `POST /v1/objects/hosts` that sets the attribute "notes". -/
def modifyRequest : HttpRequest :=
  { path := ["v1", "objects", "hosts"], query := [], method := Verb.post, user := "root",
    params := [("attrs", Value.dictionary [("notes", Value.string "checked")])] }

/-- The request `GET /v1/variables`. -/
def variablesRequest : HttpRequest :=
  { path := ["v1", "variables"], query := [], method := Verb.get, user := "root", params := [] }

/-- The locks during a reload: the try-lock of the configuration objects
fails. -/
def reloadLocks : Locks := { configObjects := false, waitGroup := true, lockable := fun _ => true }

/-- The locks when nothing else is going on. -/
def freeLocks : Locks := { configObjects := true, waitGroup := true, lockable := fun _ => true }

/-- The names of the configuration objects a handler leaves behind. -/
def namesAfter (r : Except Fault Outcome) : Option (List String) :=
  match r with
  | Except.ok o => some (o.store.map Prod.fst)
  | Except.error _ => none

/-- The configuration objects a handler leaves behind, each with the names
of its attributes. -/
def attributesAfter (r : Except Fault Outcome) : Option (List (String × List String)) :=
  match r with
  | Except.ok o => some (o.store.map (fun kv => (kv.1, kv.2.map Prod.fst)))
  | Except.error _ => none

/-- The status code a handler answers with. -/
def statusAfter (r : Except Fault Outcome) : Option Int :=
  match r with
  | Except.ok o => some o.response.result
  | Except.error _ => none

/-! ## The delegation engine -/

/-- Modelled from the spec: the assignment state of a service, `unassigned`,
`pending` or `assigned`; the implementation of `DelegationComponent` is not
part of the sources at hand, its header is. -/
inductive AssignmentState where
  | unassigned
  | pending
  | assigned
  deriving DecidableEq, Repr

/-- Modelled from the spec: one entry of the assignment map of the engine: the
service, the peer that the service was given to, whether that peer has
confirmed the assignment, and the deadline of the assignment.  That the map
holds at most one entry for a service is not part of the type; the handlers
have to see to it. -/
structure Assignment where
  service : String
  assignee : String
  confirmed : Bool
  deadline : Int
  deriving DecidableEq, Repr

/-- Modelled from the spec: the state of the delegation engine: the names of
the services (`m_AllServices`), in their order; the entries of the assignment
map, oldest first; the pairs of service and peer for which the peer is
ineligible for one tick; and the `delegation.assign` requests issued so far,
as pairs of peer and service, oldest first. -/
structure Delegation where
  services : List String
  assignments : List Assignment
  ineligible : List (String × String)
  requests : List (String × String)
  deriving DecidableEq, Repr

/-- Modelled from the spec: the constant `AssignTimeout`, 30 seconds by
default. -/
def AssignTimeout : Int := 30

/-- Modelled from the spec: the assignment state of a service: `unassigned`
when the map has no entry for it, `assigned` when the peer of its entry has
confirmed, `pending` otherwise. -/
def stateOf (assignments : List Assignment) (service : String) : AssignmentState :=
  match assignments.find? (fun e => decide (e.service = service)) with
  | none => AssignmentState.unassigned
  | some e => if e.confirmed then AssignmentState.assigned else AssignmentState.pending

/-- Modelled from the spec: whether the candidate `p` comes before the
candidate `q`: its load is smaller, or the loads are equal and its identity is
the smaller one. -/
def prefers (load : String → Nat) (p q : String) : Bool :=
  decide (load p < load q) || (decide (load p = load q) && strLt p q)

/-- Modelled from the spec: the candidate with the smallest load, ties broken
by identity. -/
def pickCandidate (load : String → Nat) : List String → Option String
  | [] => none
  | p :: rest =>
    match pickCandidate load rest with
    | none => some p
    | some q => if prefers load q p then some q else some p

/-- Modelled from the spec: step 1 of the tick: whether the entry stays, that
is, whether its peer still is a candidate for its service. -/
def stillCandidate (candidates : String → List String) (e : Assignment) : Bool :=
  decide (e.assignee ∈ candidates e.service)

/-- Modelled from the spec: step 2 of the tick: the load of a candidate is
the number of services that are currently assigned to it. -/
def loadOf (assignments : List Assignment) (p : String) : Nat :=
  assignments.countP (fun e => e.confirmed && decide (e.assignee = p))

/-- Modelled from the spec: `AssignService(checker, service)`: the request
`delegation.assign(service)` is issued to the checker, and the service becomes
`pending` with the deadline `now + AssignTimeout`: the map gets the entry of
the service and the checker. -/
def AssignService (now : Int) (checker service : String) (d : Delegation) : Delegation :=
  { d with
    assignments := d.assignments ++
      [{ service := service, assignee := checker, confirmed := false,
         deadline := now + AssignTimeout }]
    requests := d.requests ++ [(checker, service)] }

/-- Modelled from the spec: step 3 of the tick, over the services in their
order: for a service that is `unassigned` when its turn comes, the best
candidate that is not ineligible for it is picked and the service is assigned
to it. -/
def assignUnassigned (candidates : String → List String) (load : String → Nat) (now : Int) :
    List String → Delegation → Delegation
  | [], d => d
  | service :: rest, d =>
    if stateOf d.assignments service = AssignmentState.unassigned then
      match pickCandidate load
          ((candidates service).filter (fun p => decide ((service, p) ∉ d.ineligible))) with
      | some p => assignUnassigned candidates load now rest (AssignService now p service d)
      | none => assignUnassigned candidates load now rest d
    else assignUnassigned candidates load now rest d

/-- Modelled from the spec: whether step 4 of the tick reverts the entry: it
is not confirmed and its deadline has passed. -/
def timedOutAt (now : Int) (e : Assignment) : Bool :=
  !e.confirmed && decide (e.deadline < now)

/-- Modelled from the spec: `DelegationTimerHandler`, the tick of the
delegation engine at time `now`; `candidates` is `GetCheckerCandidates` at
that time.  Step 1 removes the entries whose peer is no longer a candidate,
step 2 computes the loads, step 3 assigns the `unassigned` services, step 4
removes the `pending` entries whose deadline has passed.  The peers that are
ineligible for one tick are forgotten at the end of the tick. -/
def DelegationTimerHandler (candidates : String → List String) (now : Int) (d : Delegation) :
    Delegation :=
  let kept : Delegation :=
    { d with assignments := d.assignments.filter (stillCandidate candidates) }
  let assigned := assignUnassigned candidates (loadOf kept.assignments) now kept.services kept
  { assigned with
    assignments := assigned.assignments.filter (fun e => !timedOutAt now e)
    ineligible := [] }

/-- Modelled from the spec: whether the entry is the one a reply of `sender`
for `service` is about: the service was given to that peer. -/
def repliedTo (service sender : String) (e : Assignment) : Bool :=
  decide (e.service = service) && decide (e.assignee = sender)

/-- Modelled from the spec: a success of `sender` for `service`, for one entry
of the map: the entry of the two is confirmed. -/
def confirmReply (service sender : String) (e : Assignment) : Assignment :=
  if repliedTo service sender e then { e with confirmed := true } else e

/-- Modelled from the spec: `AssignServiceResponseHandler(service, sender,
timedOut)`; `accepted` tells a success from a rejection.  A reply that timed
out, or that comes from a peer that is not the one the service was given to,
is ignored.  On success the service is `assigned` to the sender.  On
rejection the service returns to `unassigned` and the sender is ineligible
for the service for one tick. -/
def AssignServiceResponseHandler (service sender : String) (timedOut accepted : Bool)
    (d : Delegation) : Delegation :=
  if timedOut then d
  else if d.assignments.any (repliedTo service sender) then
    if accepted then
      { d with assignments := d.assignments.map (confirmReply service sender) }
    else
      { d with
        assignments := d.assignments.filter (fun e => !repliedTo service sender e)
        ineligible := (service, sender) :: d.ineligible }
  else d

/-- What the delegation engine reacts to: a tick with the candidates of that
time, or a reply. -/
inductive DelegationEvent where
  | tick (candidates : String → List String) (now : Int)
  | reply (service sender : String) (timedOut accepted : Bool)

/-- The state of the engine after one event. -/
def delegationStep (d : Delegation) : DelegationEvent → Delegation
  | DelegationEvent.tick candidates now => DelegationTimerHandler candidates now d
  | DelegationEvent.reply service sender timedOut accepted =>
    AssignServiceResponseHandler service sender timedOut accepted d

/-- The state of the engine after a sequence of events. -/
def delegationRun (events : List DelegationEvent) (d : Delegation) : Delegation :=
  events.foldl delegationStep d

/-- The engine has given the service to the peer: the map holds an entry of
the two, confirmed or not. -/
def GivenTo (d : Delegation) (service peer : String) : Prop :=
  ∃ e ∈ d.assignments, e.service = service ∧ e.assignee = peer

/-- The engine has the service assigned to the peer: the map holds a
confirmed entry of the two. -/
def AssignedTo (d : Delegation) (service peer : String) : Prop :=
  ∃ e ∈ d.assignments, e.service = service ∧ e.assignee = peer ∧ e.confirmed = true

/-- The services "s1", "s2" and "s3", none assigned. -/
def demoDelegation : Delegation :=
  { services := ["s1", "s2", "s3"]
    assignments := []
    ineligible := []
    requests := [] }

/-- A tick with the candidates "P1" and "P2", a success of "P1" for "s1", a
success of "P2" for "s1", which was not given to "P2", a tick after the
timeout with "P2" only, and a success of "P2" for "s1". -/
def demoDelegationEvents : List DelegationEvent :=
  [ DelegationEvent.tick (fun _ => ["P1", "P2"]) 100,
    DelegationEvent.reply "s1" "P1" false true,
    DelegationEvent.reply "s1" "P2" false true,
    DelegationEvent.tick (fun _ => ["P2"]) 200,
    DelegationEvent.reply "s1" "P2" false true ]

/-! ## The discovery component from its start -/

/-- Daemon "A" before its discovery component is started: no endpoint is
registered and the peer directory is empty. -/
def unstartedState : State :=
  { meshState with registry := [] }

/-- Daemon "A" after `Start` has made the discovery endpoint at address 5 and
the connection from "C" (3) has been registered. -/
def connectedState : State := RegisterEndpoint (Start unstartedState 5) 3

/-- What a handler has sent when it has returned; nothing if it threw. -/
def sentBy (r : Except Fault State) : List Sent :=
  match r with
  | Except.ok s => s.sent
  | Except.error _ => []

/-! ## The members of a service group -/

/-- The services that name `group` among their groups, in the iteration
order of the services, once for every time a service names it. -/
def serviceGroupMembers (services : List Service) (group : String) : List Service :=
  (services.map (fun service =>
    ((service.GetGroups.getD []).filter (fun g => decide (g = group))).map
      (fun _ => service))).flatten

/-- A message of `DumpConfigObjects` for the service group `name` with the
given alias and members: the text of `serviceGroupItems` for some state of
the exporter. -/
def IsServiceGroupRecord (env : Env) (objects : Objects) (entry : String × List Service)
    (message : String) : Prop :=
  ∃ (k : Exporter) (groupAlias : String),
    mapFind objects.serviceGroups entry.1 = some groupAlias ∧
    message = messageStr env (serviceGroupItems env k entry.1 groupAlias entry.2)

/-- A message of `DumpHostObject` for the host. -/
def IsHostRecord (env : Env) (host : Host) (message : String) : Prop :=
  ∃ k : Exporter, message = messageStr env (hostObjectItems env k host)

/-- A message of `DumpServiceObject` for the service. -/
def IsServiceRecord (env : Env) (service : Service) (message : String) : Prop :=
  ∃ k : Exporter, message = messageStr env (serviceObjectItems env k service)

/-- Whether a host group object of the name of the entry exists. -/
def hostGroupExists (objects : Objects) (entry : String × List String) : Bool :=
  (mapFind objects.hostGroups entry.1).isSome

/-- Whether a service group object of the name of the entry exists. -/
def serviceGroupExists (objects : Objects) (entry : String × List Service) : Bool :=
  (mapFind objects.serviceGroups entry.1).isSome

/-- The service "ssh" of `downHost`, in the groups "remote" and "unknown". -/
def sshService : Service :=
  { demoService with
    GetHost := downHost, GetAlias := "ssh", GetGroups := some ["remote", "unknown"] }

/-- The service "ping" of `demoHost`, in the group "remote". -/
def pingService : Service :=
  { demoService with GetAlias := "ping", GetGroups := some ["remote"] }

/-- The hosts "web1" and "db1" with the host group "linux", and the services
"http", "ssh" and "ping" with the service groups "remote" and "idle"; no
service names "idle", and no service group "unknown" exists. -/
def groupedObjects : Objects :=
  { hosts := [demoHost, downHost]
    services := [demoService, sshService, pingService]
    hostGroups := [("linux", "Linux hosts")]
    serviceGroups := [("idle", "Idle services"), ("remote", "Remote checks")] }

/-! ## Frame lemmas: which fields of the state an operation leaves alone -/

@[simp]
theorem updateEndpoint_localIdentity (s : State) (e : Nat) (f : Endpoint → Endpoint) :
    (s.updateEndpoint e f).localIdentity = s.localIdentity := rfl

@[simp]
theorem updateEndpoint_appNode (s : State) (e : Nat) (f : Endpoint → Endpoint) :
    (s.updateEndpoint e f).appNode = s.appNode := rfl

@[simp]
theorem updateEndpoint_appService (s : State) (e : Nat) (f : Endpoint → Endpoint) :
    (s.updateEndpoint e f).appService = s.appService := rfl

@[simp]
theorem updateEndpoint_discoveryEndpoint (s : State) (e : Nat) (f : Endpoint → Endpoint) :
    (s.updateEndpoint e f).discoveryEndpoint = s.discoveryEndpoint := rfl

@[simp]
theorem updateEndpoint_registry (s : State) (e : Nat) (f : Endpoint → Endpoint) :
    (s.updateEndpoint e f).registry = s.registry := rfl

@[simp]
theorem updateEndpoint_components (s : State) (e : Nat) (f : Endpoint → Endpoint) :
    (s.updateEndpoint e f).components = s.components := rfl

@[simp]
theorem updateEndpoint_sent (s : State) (e : Nat) (f : Endpoint → Endpoint) :
    (s.updateEndpoint e f).sent = s.sent := rfl

@[simp]
theorem updateEndpoint_dropped (s : State) (e : Nat) (f : Endpoint → Endpoint) :
    (s.updateEndpoint e f).dropped = s.dropped := rfl

@[simp]
theorem updateEndpoint_connections (s : State) (e : Nat) (f : Endpoint → Endpoint) :
    (s.updateEndpoint e f).connections = s.connections := rfl

@[simp]
theorem updateEndpoint_established (s : State) (e : Nat) (f : Endpoint → Endpoint) :
    (s.updateEndpoint e f).established = s.established := rfl

@[simp]
theorem updateEndpoint_heap_same (s : State) (e : Nat) (f : Endpoint → Endpoint) :
    (s.updateEndpoint e f).heap e = f (s.heap e) := by
  simp [State.updateEndpoint]

@[simp]
theorem updateEndpoint_heap_other (s : State) (e j : Nat) (f : Endpoint → Endpoint)
    (h : j ≠ e) : (s.updateEndpoint e f).heap j = s.heap j := by
  simp [State.updateEndpoint, h]

theorem updateEndpoint_heap (s : State) (e j : Nat) (f : Endpoint → Endpoint) :
    (s.updateEndpoint e f).heap j = if j = e then f (s.heap j) else s.heap j := rfl

@[simp]
theorem OnSessionEstablished_localIdentity (s : State) (e : Nat) :
    (OnSessionEstablished s e).localIdentity = s.localIdentity := rfl

@[simp]
theorem OnSessionEstablished_appNode (s : State) (e : Nat) :
    (OnSessionEstablished s e).appNode = s.appNode := rfl

@[simp]
theorem OnSessionEstablished_appService (s : State) (e : Nat) :
    (OnSessionEstablished s e).appService = s.appService := rfl

@[simp]
theorem OnSessionEstablished_discoveryEndpoint (s : State) (e : Nat) :
    (OnSessionEstablished s e).discoveryEndpoint = s.discoveryEndpoint := rfl

@[simp]
theorem OnSessionEstablished_heap (s : State) (e : Nat) :
    (OnSessionEstablished s e).heap = s.heap := rfl

@[simp]
theorem OnSessionEstablished_registry (s : State) (e : Nat) :
    (OnSessionEstablished s e).registry = s.registry := rfl

@[simp]
theorem OnSessionEstablished_components (s : State) (e : Nat) :
    (OnSessionEstablished s e).components = s.components := rfl

@[simp]
theorem OnSessionEstablished_sent (s : State) (e : Nat) :
    (OnSessionEstablished s e).sent = s.sent := rfl

@[simp]
theorem OnSessionEstablished_dropped (s : State) (e : Nat) :
    (OnSessionEstablished s e).dropped = s.dropped := rfl

@[simp]
theorem OnSessionEstablished_connections (s : State) (e : Nat) :
    (OnSessionEstablished s e).connections = s.connections := rfl

@[simp]
theorem SendUnicastMessage_localIdentity (s : State) (a b : Nat) (r : RequestMessage) :
    (SendUnicastMessage s a b r).localIdentity = s.localIdentity := by
  unfold SendUnicastMessage; split <;> rfl

@[simp]
theorem SendUnicastMessage_appNode (s : State) (a b : Nat) (r : RequestMessage) :
    (SendUnicastMessage s a b r).appNode = s.appNode := by
  unfold SendUnicastMessage; split <;> rfl

@[simp]
theorem SendUnicastMessage_appService (s : State) (a b : Nat) (r : RequestMessage) :
    (SendUnicastMessage s a b r).appService = s.appService := by
  unfold SendUnicastMessage; split <;> rfl

@[simp]
theorem SendUnicastMessage_discoveryEndpoint (s : State) (a b : Nat) (r : RequestMessage) :
    (SendUnicastMessage s a b r).discoveryEndpoint = s.discoveryEndpoint := by
  unfold SendUnicastMessage; split <;> rfl

@[simp]
theorem SendUnicastMessage_heap (s : State) (a b : Nat) (r : RequestMessage) :
    (SendUnicastMessage s a b r).heap = s.heap := by
  unfold SendUnicastMessage; split <;> rfl

@[simp]
theorem SendUnicastMessage_registry (s : State) (a b : Nat) (r : RequestMessage) :
    (SendUnicastMessage s a b r).registry = s.registry := by
  unfold SendUnicastMessage; split <;> rfl

@[simp]
theorem SendUnicastMessage_components (s : State) (a b : Nat) (r : RequestMessage) :
    (SendUnicastMessage s a b r).components = s.components := by
  unfold SendUnicastMessage; split <;> rfl

@[simp]
theorem SendUnicastMessage_connections (s : State) (a b : Nat) (r : RequestMessage) :
    (SendUnicastMessage s a b r).connections = s.connections := by
  unfold SendUnicastMessage; split <;> rfl

@[simp]
theorem SendUnicastMessage_established (s : State) (a b : Nat) (r : RequestMessage) :
    (SendUnicastMessage s a b r).established = s.established := by
  unfold SendUnicastMessage; split <;> rfl

@[simp]
theorem SendMulticastMessage_localIdentity (s : State) (a : Nat) (r : RequestMessage) :
    (SendMulticastMessage s a r).localIdentity = s.localIdentity := rfl

@[simp]
theorem SendMulticastMessage_appNode (s : State) (a : Nat) (r : RequestMessage) :
    (SendMulticastMessage s a r).appNode = s.appNode := rfl

@[simp]
theorem SendMulticastMessage_appService (s : State) (a : Nat) (r : RequestMessage) :
    (SendMulticastMessage s a r).appService = s.appService := rfl

@[simp]
theorem SendMulticastMessage_discoveryEndpoint (s : State) (a : Nat) (r : RequestMessage) :
    (SendMulticastMessage s a r).discoveryEndpoint = s.discoveryEndpoint := rfl

@[simp]
theorem SendMulticastMessage_heap (s : State) (a : Nat) (r : RequestMessage) :
    (SendMulticastMessage s a r).heap = s.heap := rfl

@[simp]
theorem SendMulticastMessage_registry (s : State) (a : Nat) (r : RequestMessage) :
    (SendMulticastMessage s a r).registry = s.registry := rfl

@[simp]
theorem SendMulticastMessage_components (s : State) (a : Nat) (r : RequestMessage) :
    (SendMulticastMessage s a r).components = s.components := rfl

@[simp]
theorem SendMulticastMessage_dropped (s : State) (a : Nat) (r : RequestMessage) :
    (SendMulticastMessage s a r).dropped = s.dropped := rfl

@[simp]
theorem SendMulticastMessage_connections (s : State) (a : Nat) (r : RequestMessage) :
    (SendMulticastMessage s a r).connections = s.connections := rfl

@[simp]
theorem SendMulticastMessage_established (s : State) (a : Nat) (r : RequestMessage) :
    (SendMulticastMessage s a r).established = s.established := rfl

@[simp]
theorem SendDiscoveryMessage_localIdentity (s : State) (m i : String) (r : Option Nat) :
    (SendDiscoveryMessage s m i r).localIdentity = s.localIdentity := by
  unfold SendDiscoveryMessage; split
  · rfl
  · split <;> simp

@[simp]
theorem SendDiscoveryMessage_appNode (s : State) (m i : String) (r : Option Nat) :
    (SendDiscoveryMessage s m i r).appNode = s.appNode := by
  unfold SendDiscoveryMessage; split
  · rfl
  · split <;> simp

@[simp]
theorem SendDiscoveryMessage_appService (s : State) (m i : String) (r : Option Nat) :
    (SendDiscoveryMessage s m i r).appService = s.appService := by
  unfold SendDiscoveryMessage; split
  · rfl
  · split <;> simp

@[simp]
theorem SendDiscoveryMessage_discoveryEndpoint (s : State) (m i : String) (r : Option Nat) :
    (SendDiscoveryMessage s m i r).discoveryEndpoint = s.discoveryEndpoint := by
  unfold SendDiscoveryMessage; split
  · rfl
  · split <;> simp

@[simp]
theorem SendDiscoveryMessage_heap (s : State) (m i : String) (r : Option Nat) :
    (SendDiscoveryMessage s m i r).heap = s.heap := by
  unfold SendDiscoveryMessage; split
  · rfl
  · split <;> simp

@[simp]
theorem SendDiscoveryMessage_registry (s : State) (m i : String) (r : Option Nat) :
    (SendDiscoveryMessage s m i r).registry = s.registry := by
  unfold SendDiscoveryMessage; split
  · rfl
  · split <;> simp

@[simp]
theorem SendDiscoveryMessage_components (s : State) (m i : String) (r : Option Nat) :
    (SendDiscoveryMessage s m i r).components = s.components := by
  unfold SendDiscoveryMessage; split
  · rfl
  · split <;> simp

@[simp]
theorem SendDiscoveryMessage_connections (s : State) (m i : String) (r : Option Nat) :
    (SendDiscoveryMessage s m i r).connections = s.connections := by
  unfold SendDiscoveryMessage; split
  · rfl
  · split <;> simp

@[simp]
theorem SendDiscoveryMessage_established (s : State) (m i : String) (r : Option Nat) :
    (SendDiscoveryMessage s m i r).established = s.established := by
  unfold SendDiscoveryMessage; split
  · rfl
  · split <;> simp

@[simp]
theorem UnregisterEndpoint_localIdentity (s : State) (e : Nat) :
    (UnregisterEndpoint s e).localIdentity = s.localIdentity := rfl

@[simp]
theorem UnregisterEndpoint_appNode (s : State) (e : Nat) :
    (UnregisterEndpoint s e).appNode = s.appNode := rfl

@[simp]
theorem UnregisterEndpoint_appService (s : State) (e : Nat) :
    (UnregisterEndpoint s e).appService = s.appService := rfl

@[simp]
theorem UnregisterEndpoint_discoveryEndpoint (s : State) (e : Nat) :
    (UnregisterEndpoint s e).discoveryEndpoint = s.discoveryEndpoint := rfl

@[simp]
theorem UnregisterEndpoint_components (s : State) (e : Nat) :
    (UnregisterEndpoint s e).components = s.components := rfl

@[simp]
theorem UnregisterEndpoint_sent (s : State) (e : Nat) :
    (UnregisterEndpoint s e).sent = s.sent := rfl

@[simp]
theorem UnregisterEndpoint_dropped (s : State) (e : Nat) :
    (UnregisterEndpoint s e).dropped = s.dropped := rfl

@[simp]
theorem UnregisterEndpoint_connections (s : State) (e : Nat) :
    (UnregisterEndpoint s e).connections = s.connections := rfl

@[simp]
theorem UnregisterEndpoint_established (s : State) (e : Nat) :
    (UnregisterEndpoint s e).established = s.established := rfl

theorem foldl_frame {α β : Type} (g : State → β) (f : State → α → State)
    (h : ∀ s x, g (f s x) = g s) (l : List α) (s : State) : g (l.foldl f s) = g s := by
  induction l generalizing s with
  | nil => rfl
  | cons x l ih => simp only [List.foldl_cons]; rw [ih, h]

@[simp]
theorem RegisterPublication_eq (s : State) (e : Nat) (t : String) :
    RegisterPublication s e t =
      s.updateEndpoint e (fun ep => { ep with publications := setInsert t ep.publications }) :=
  rfl

@[simp]
theorem RegisterSubscription_eq (s : State) (e : Nat) (t : String) :
    RegisterSubscription s e t =
      s.updateEndpoint e (fun ep => { ep with subscriptions := setInsert t ep.subscriptions }) :=
  rfl

@[simp]
theorem Stop_eq (s : State) (e : Nat) :
    Stop s e = s.updateEndpoint e (fun ep => { ep with conn := ConnState.closed }) := rfl

@[simp]
theorem CheckExistingEndpoint_established (s : State) (a b : Nat) :
    (CheckExistingEndpoint s a b).established = s.established := by
  unfold CheckExistingEndpoint
  split
  · rfl
  · split
    · rfl
    · split <;> simp

@[simp]
theorem CheckExistingEndpoint_sent (s : State) (a b : Nat) :
    (CheckExistingEndpoint s a b).sent = s.sent := by
  unfold CheckExistingEndpoint
  split
  · rfl
  · split
    · rfl
    · split <;> simp

@[simp]
theorem CheckExistingEndpoint_components (s : State) (a b : Nat) :
    (CheckExistingEndpoint s a b).components = s.components := by
  unfold CheckExistingEndpoint
  split
  · rfl
  · split
    · rfl
    · split <;> simp

@[simp]
theorem CheckExistingEndpoint_localIdentity (s : State) (a b : Nat) :
    (CheckExistingEndpoint s a b).localIdentity = s.localIdentity := by
  unfold CheckExistingEndpoint
  split
  · rfl
  · split
    · rfl
    · split <;> simp

@[simp]
theorem registerPublicationIf_localIdentity (o : Option Nat) (s : State) (t : String) :
    (registerPublicationIf o s t).localIdentity = s.localIdentity := by
  cases o <;> rfl

@[simp]
theorem registerPublicationIf_appNode (o : Option Nat) (s : State) (t : String) :
    (registerPublicationIf o s t).appNode = s.appNode := by
  cases o <;> rfl

@[simp]
theorem registerPublicationIf_appService (o : Option Nat) (s : State) (t : String) :
    (registerPublicationIf o s t).appService = s.appService := by
  cases o <;> rfl

@[simp]
theorem registerPublicationIf_discoveryEndpoint (o : Option Nat) (s : State) (t : String) :
    (registerPublicationIf o s t).discoveryEndpoint = s.discoveryEndpoint := by
  cases o <;> rfl

@[simp]
theorem registerPublicationIf_registry (o : Option Nat) (s : State) (t : String) :
    (registerPublicationIf o s t).registry = s.registry := by
  cases o <;> rfl

@[simp]
theorem registerPublicationIf_components (o : Option Nat) (s : State) (t : String) :
    (registerPublicationIf o s t).components = s.components := by
  cases o <;> rfl

@[simp]
theorem registerPublicationIf_sent (o : Option Nat) (s : State) (t : String) :
    (registerPublicationIf o s t).sent = s.sent := by
  cases o <;> rfl

@[simp]
theorem registerPublicationIf_dropped (o : Option Nat) (s : State) (t : String) :
    (registerPublicationIf o s t).dropped = s.dropped := by
  cases o <;> rfl

@[simp]
theorem registerPublicationIf_connections (o : Option Nat) (s : State) (t : String) :
    (registerPublicationIf o s t).connections = s.connections := by
  cases o <;> rfl

@[simp]
theorem registerPublicationIf_established (o : Option Nat) (s : State) (t : String) :
    (registerPublicationIf o s t).established = s.established := by
  cases o <;> rfl

@[simp]
theorem registerSubscriptionIf_localIdentity (o : Option Nat) (s : State) (t : String) :
    (registerSubscriptionIf o s t).localIdentity = s.localIdentity := by
  cases o <;> rfl

@[simp]
theorem registerSubscriptionIf_appNode (o : Option Nat) (s : State) (t : String) :
    (registerSubscriptionIf o s t).appNode = s.appNode := by
  cases o <;> rfl

@[simp]
theorem registerSubscriptionIf_appService (o : Option Nat) (s : State) (t : String) :
    (registerSubscriptionIf o s t).appService = s.appService := by
  cases o <;> rfl

@[simp]
theorem registerSubscriptionIf_discoveryEndpoint (o : Option Nat) (s : State) (t : String) :
    (registerSubscriptionIf o s t).discoveryEndpoint = s.discoveryEndpoint := by
  cases o <;> rfl

@[simp]
theorem registerSubscriptionIf_registry (o : Option Nat) (s : State) (t : String) :
    (registerSubscriptionIf o s t).registry = s.registry := by
  cases o <;> rfl

@[simp]
theorem registerSubscriptionIf_components (o : Option Nat) (s : State) (t : String) :
    (registerSubscriptionIf o s t).components = s.components := by
  cases o <;> rfl

@[simp]
theorem registerSubscriptionIf_sent (o : Option Nat) (s : State) (t : String) :
    (registerSubscriptionIf o s t).sent = s.sent := by
  cases o <;> rfl

@[simp]
theorem registerSubscriptionIf_dropped (o : Option Nat) (s : State) (t : String) :
    (registerSubscriptionIf o s t).dropped = s.dropped := by
  cases o <;> rfl

@[simp]
theorem registerSubscriptionIf_connections (o : Option Nat) (s : State) (t : String) :
    (registerSubscriptionIf o s t).connections = s.connections := by
  cases o <;> rfl

@[simp]
theorem registerSubscriptionIf_established (o : Option Nat) (s : State) (t : String) :
    (registerSubscriptionIf o s t).established = s.established := by
  cases o <;> rfl

@[simp]
theorem registerPublications_localIdentity (o : Option Nat) (l : List String) (s : State) :
    (registerPublications o l s).localIdentity = s.localIdentity := by
  unfold registerPublications
  exact foldl_frame (fun st => st.localIdentity) _ (by intro st x; simp) l s

@[simp]
theorem registerPublications_appNode (o : Option Nat) (l : List String) (s : State) :
    (registerPublications o l s).appNode = s.appNode := by
  unfold registerPublications
  exact foldl_frame (fun st => st.appNode) _ (by intro st x; simp) l s

@[simp]
theorem registerPublications_appService (o : Option Nat) (l : List String) (s : State) :
    (registerPublications o l s).appService = s.appService := by
  unfold registerPublications
  exact foldl_frame (fun st => st.appService) _ (by intro st x; simp) l s

@[simp]
theorem registerPublications_discoveryEndpoint (o : Option Nat) (l : List String) (s : State) :
    (registerPublications o l s).discoveryEndpoint = s.discoveryEndpoint := by
  unfold registerPublications
  exact foldl_frame (fun st => st.discoveryEndpoint) _ (by intro st x; simp) l s

@[simp]
theorem registerPublications_registry (o : Option Nat) (l : List String) (s : State) :
    (registerPublications o l s).registry = s.registry := by
  unfold registerPublications
  exact foldl_frame (fun st => st.registry) _ (by intro st x; simp) l s

@[simp]
theorem registerPublications_components (o : Option Nat) (l : List String) (s : State) :
    (registerPublications o l s).components = s.components := by
  unfold registerPublications
  exact foldl_frame (fun st => st.components) _ (by intro st x; simp) l s

@[simp]
theorem registerPublications_sent (o : Option Nat) (l : List String) (s : State) :
    (registerPublications o l s).sent = s.sent := by
  unfold registerPublications
  exact foldl_frame (fun st => st.sent) _ (by intro st x; simp) l s

@[simp]
theorem registerPublications_dropped (o : Option Nat) (l : List String) (s : State) :
    (registerPublications o l s).dropped = s.dropped := by
  unfold registerPublications
  exact foldl_frame (fun st => st.dropped) _ (by intro st x; simp) l s

@[simp]
theorem registerPublications_connections (o : Option Nat) (l : List String) (s : State) :
    (registerPublications o l s).connections = s.connections := by
  unfold registerPublications
  exact foldl_frame (fun st => st.connections) _ (by intro st x; simp) l s

@[simp]
theorem registerPublications_established (o : Option Nat) (l : List String) (s : State) :
    (registerPublications o l s).established = s.established := by
  unfold registerPublications
  exact foldl_frame (fun st => st.established) _ (by intro st x; simp) l s

@[simp]
theorem registerSubscriptions_localIdentity (o : Option Nat) (l : List String) (s : State) :
    (registerSubscriptions o l s).localIdentity = s.localIdentity := by
  unfold registerSubscriptions
  exact foldl_frame (fun st => st.localIdentity) _ (by intro st x; simp) l s

@[simp]
theorem registerSubscriptions_appNode (o : Option Nat) (l : List String) (s : State) :
    (registerSubscriptions o l s).appNode = s.appNode := by
  unfold registerSubscriptions
  exact foldl_frame (fun st => st.appNode) _ (by intro st x; simp) l s

@[simp]
theorem registerSubscriptions_appService (o : Option Nat) (l : List String) (s : State) :
    (registerSubscriptions o l s).appService = s.appService := by
  unfold registerSubscriptions
  exact foldl_frame (fun st => st.appService) _ (by intro st x; simp) l s

@[simp]
theorem registerSubscriptions_discoveryEndpoint (o : Option Nat) (l : List String) (s : State) :
    (registerSubscriptions o l s).discoveryEndpoint = s.discoveryEndpoint := by
  unfold registerSubscriptions
  exact foldl_frame (fun st => st.discoveryEndpoint) _ (by intro st x; simp) l s

@[simp]
theorem registerSubscriptions_registry (o : Option Nat) (l : List String) (s : State) :
    (registerSubscriptions o l s).registry = s.registry := by
  unfold registerSubscriptions
  exact foldl_frame (fun st => st.registry) _ (by intro st x; simp) l s

@[simp]
theorem registerSubscriptions_components (o : Option Nat) (l : List String) (s : State) :
    (registerSubscriptions o l s).components = s.components := by
  unfold registerSubscriptions
  exact foldl_frame (fun st => st.components) _ (by intro st x; simp) l s

@[simp]
theorem registerSubscriptions_sent (o : Option Nat) (l : List String) (s : State) :
    (registerSubscriptions o l s).sent = s.sent := by
  unfold registerSubscriptions
  exact foldl_frame (fun st => st.sent) _ (by intro st x; simp) l s

@[simp]
theorem registerSubscriptions_dropped (o : Option Nat) (l : List String) (s : State) :
    (registerSubscriptions o l s).dropped = s.dropped := by
  unfold registerSubscriptions
  exact foldl_frame (fun st => st.dropped) _ (by intro st x; simp) l s

@[simp]
theorem registerSubscriptions_connections (o : Option Nat) (l : List String) (s : State) :
    (registerSubscriptions o l s).connections = s.connections := by
  unfold registerSubscriptions
  exact foldl_frame (fun st => st.connections) _ (by intro st x; simp) l s

@[simp]
theorem registerSubscriptions_established (o : Option Nat) (l : List String) (s : State) :
    (registerSubscriptions o l s).established = s.established := by
  unfold registerSubscriptions
  exact foldl_frame (fun st => st.established) _ (by intro st x; simp) l s

/-! ## The welcome handshake -/

theorem firedCount_OnSessionEstablished (s : State) (e : Nat) :
    firedCount (OnSessionEstablished s e) e = firedCount s e + 1 := by
  simp [firedCount, OnSessionEstablished, List.filter_append]

theorem WelcomeMessageHandler_step (s : State) (e : Nat) :
    ((WelcomeMessageHandler s e).heap e).receivedWelcome = true ∧
    ((WelcomeMessageHandler s e).heap e).sentWelcome = (s.heap e).sentWelcome ∧
    firedCount (WelcomeMessageHandler s e) e = firedCount s e +
      (if (s.heap e).receivedWelcome = false ∧ (s.heap e).sentWelcome = true
       then 1 else 0) := by
  unfold WelcomeMessageHandler
  cases hr : (s.heap e).receivedWelcome <;> cases hs : (s.heap e).sentWelcome <;>
    simp [hr, hs, SetReceivedWelcome, firedCount_OnSessionEstablished] <;>
    simp [firedCount]

theorem FinishDiscoverySetup_step (s : State) (e : Nat) :
    ((FinishDiscoverySetup s e).heap e).sentWelcome = true ∧
    ((FinishDiscoverySetup s e).heap e).receivedWelcome = (s.heap e).receivedWelcome ∧
    firedCount (FinishDiscoverySetup s e) e = firedCount s e +
      (if (s.heap e).sentWelcome = false ∧ (s.heap e).receivedWelcome = true
       then 1 else 0) := by
  unfold FinishDiscoverySetup
  cases hr : (s.heap e).receivedWelcome <;> cases hs : (s.heap e).sentWelcome <;>
    simp [hr, hs, SetSentWelcome, RegisterSubscription, firedCount_OnSessionEstablished] <;>
    simp [firedCount]

/-- The state of the handshake after a sequence of calls, for arbitrary
starting flags. -/
theorem runHandshake_spec (e : Nat) (calls : List HandshakeCall) (s : State) :
    ((runHandshake e calls s).heap e).sentWelcome =
      ((s.heap e).sentWelcome || decide (HandshakeCall.finish ∈ calls)) ∧
    ((runHandshake e calls s).heap e).receivedWelcome =
      ((s.heap e).receivedWelcome || decide (HandshakeCall.welcome ∈ calls)) ∧
    firedCount (runHandshake e calls s) e = firedCount s e +
      (if ((s.heap e).sentWelcome = false ∨ (s.heap e).receivedWelcome = false) ∧
          ((s.heap e).sentWelcome = true ∨ HandshakeCall.finish ∈ calls) ∧
          ((s.heap e).receivedWelcome = true ∨ HandshakeCall.welcome ∈ calls)
       then 1 else 0) := by
  induction calls generalizing s with
  | nil =>
    cases hr : (s.heap e).receivedWelcome <;> cases hs : (s.heap e).sentWelcome <;>
      simp [runHandshake, hr, hs]
  | cons c calls ih =>
    cases c with
    | welcome =>
      obtain ⟨h1, h2, h3⟩ := WelcomeMessageHandler_step s e
      obtain ⟨i1, i2, i3⟩ := ih (WelcomeMessageHandler s e)
      simp only [runHandshake]
      rw [i1, i2, i3, h1, h2, h3]
      cases hr : (s.heap e).receivedWelcome <;> cases hs : (s.heap e).sentWelcome <;>
        by_cases hf : HandshakeCall.finish ∈ calls <;> simp [hf]
    | finish =>
      obtain ⟨h1, h2, h3⟩ := FinishDiscoverySetup_step s e
      obtain ⟨i1, i2, i3⟩ := ih (FinishDiscoverySetup s e)
      simp only [runHandshake]
      rw [i1, i2, i3, h1, h2, h3]
      cases hr : (s.heap e).receivedWelcome <;> cases hs : (s.heap e).sentWelcome <;>
        by_cases hf : HandshakeCall.welcome ∈ calls <;> simp [hf]

/-- C2: for an endpoint that starts with `sentWelcome` and `receivedWelcome`
both false, a sequence of `WelcomeMessageHandler` and `FinishDiscoverySetup`
calls fires `OnSessionEstablished` at most once, and exactly once if and only
if the sequence holds at least one call of each kind. -/
theorem C2_session_established_once (s : State) (e : Nat) (calls : List HandshakeCall)
    (hs : (s.heap e).sentWelcome = false) (hr : (s.heap e).receivedWelcome = false) :
    firedCount (runHandshake e calls s) e ≤ firedCount s e + 1 ∧
    (HandshakeCall.welcome ∈ calls ∧ HandshakeCall.finish ∈ calls →
      firedCount (runHandshake e calls s) e = firedCount s e + 1) ∧
    (¬ (HandshakeCall.welcome ∈ calls ∧ HandshakeCall.finish ∈ calls) →
      firedCount (runHandshake e calls s) e = firedCount s e) := by
  obtain ⟨_, _, h3⟩ := runHandshake_spec e calls s
  rw [h3, hs, hr]
  by_cases hw : HandshakeCall.welcome ∈ calls <;>
    by_cases hf : HandshakeCall.finish ∈ calls <;> simp [hw, hf]

/-- Instance of C2: endpoint 1 of `meshState` receives a welcome, is sent one,
and receives another. -/
theorem C2_session_established_once_witness :
    (meshState.heap 1).sentWelcome = false ∧ (meshState.heap 1).receivedWelcome = false ∧
    firedCount (runHandshake 1
      [HandshakeCall.welcome, HandshakeCall.finish, HandshakeCall.welcome] meshState) 1 =
      firedCount meshState 1 + 1 :=
  ⟨rfl, rfl,
    (C2_session_established_once meshState 1
      [HandshakeCall.welcome, HandshakeCall.finish, HandshakeCall.welcome] rfl rfl).2.1
      ⟨by decide, by decide⟩⟩

/-! ## Session establishment and the welcome flags -/

/-- What `WelcomeMessageHandler` adds to the record of firings. -/
theorem WelcomeMessageHandler_established (s : State) (e : Nat) :
    ∃ fired, (WelcomeMessageHandler s e).established = s.established ++ fired ∧
      ∀ r ∈ fired, r.1 = e ∧ r.2.sentWelcome = true ∧ r.2.receivedWelcome = true := by
  unfold WelcomeMessageHandler
  by_cases hr : (s.heap e).receivedWelcome = true
  · exact ⟨[], by simp [hr]⟩
  · by_cases hs : (s.heap e).sentWelcome = true
    · refine ⟨[(e, (SetReceivedWelcome s e true).heap e)], ?_, ?_⟩
      · simp [hr, hs, SetReceivedWelcome, OnSessionEstablished]
      · simp [SetReceivedWelcome, hs]
    · exact ⟨[], by simp [hr, hs, SetReceivedWelcome]⟩

/-- What `FinishDiscoverySetup` adds to the record of firings. -/
theorem FinishDiscoverySetup_established (s : State) (e : Nat) :
    ∃ fired, (FinishDiscoverySetup s e).established = s.established ++ fired ∧
      ∀ r ∈ fired, r.1 = e ∧ r.2.sentWelcome = true ∧ r.2.receivedWelcome = true := by
  unfold FinishDiscoverySetup
  by_cases hs : (s.heap e).sentWelcome = true
  · exact ⟨[], by simp [hs]⟩
  · by_cases hr : (s.heap e).receivedWelcome = true
    · refine ⟨[(e, { (s.heap e) with
          subscriptions := setInsert "discovery::Welcome" (s.heap e).subscriptions,
          sentWelcome := true })], ?_, ?_⟩
      · simp [hr, hs, SetSentWelcome, OnSessionEstablished]
      · simp [hr]
    · exact ⟨[], by simp [hr, hs, SetSentWelcome]⟩

/-- What `NewEndpointHandler` adds to the record of firings for a remote
endpoint. -/
theorem NewEndpointHandler_established (s : State) (e : Nat)
    (hremote : (s.heap e).isLocal = false) :
    ∃ fired, (NewEndpointHandler s e).established = s.established ++ fired ∧
      ∀ r ∈ fired, r.1 = e ∧ r.2.sentWelcome = true ∧ r.2.receivedWelcome = true := by
  unfold NewEndpointHandler
  simp only [hremote, Bool.false_eq_true, if_false]
  split
  · exact ⟨[], by simp⟩
  · split
    · refine ⟨[], ?_⟩
      simp only [List.append_nil, List.not_mem_nil, false_implies, implies_true, and_true]
      rw [foldl_frame (fun st => st.established) _ (by intro st x; simp)]
      simp [ForEachEndpoint]
      rw [foldl_frame (fun st => st.established) _ (by intro st x; simp)]
      simp
    · obtain ⟨fired, h1, h2⟩ := FinishDiscoverySetup_established
        (List.foldl (fun st t => RegisterSubscription st e t)
          (List.foldl (fun st t => RegisterPublication st e t) _ _) _) e
      refine ⟨fired, ?_, h2⟩
      rw [h1]
      congr 1
      rw [foldl_frame (fun st => st.established) _ (by intro st x; simp)]
      rw [foldl_frame (fun st => st.established) _ (by intro st x; simp)]
      rw [foldl_frame (fun st => st.established) _ (by intro st x; simp)]
      simp [ForEachEndpoint]
      rw [foldl_frame (fun st => st.established) _ (by intro st x; simp)]
      simp

/-- C3, as the code has it: `WelcomeMessageHandler` and `FinishDiscoverySetup`
on any endpoint, and `NewEndpointHandler` on a remote endpoint, fire the
endpoint's `OnSessionEstablished` only with `sentWelcome` and
`receivedWelcome` both set; `NewEndpointHandler` on a local endpoint fires it
at once, whatever the flags are. -/
theorem C3_fired_after_both_welcomes (s : State) (e : Nat) :
    (∃ fired, (WelcomeMessageHandler s e).established = s.established ++ fired ∧
      ∀ r ∈ fired, r.1 = e ∧ r.2.sentWelcome = true ∧ r.2.receivedWelcome = true) ∧
    (∃ fired, (FinishDiscoverySetup s e).established = s.established ++ fired ∧
      ∀ r ∈ fired, r.1 = e ∧ r.2.sentWelcome = true ∧ r.2.receivedWelcome = true) ∧
    ((s.heap e).isLocal = false →
      ∃ fired, (NewEndpointHandler s e).established = s.established ++ fired ∧
        ∀ r ∈ fired, r.1 = e ∧ r.2.sentWelcome = true ∧ r.2.receivedWelcome = true) ∧
    ((s.heap e).isLocal = true →
      (NewEndpointHandler s e).established = s.established ++ [(e, s.heap e)]) := by
  refine ⟨WelcomeMessageHandler_established s e, FinishDiscoverySetup_established s e,
    NewEndpointHandler_established s e, ?_⟩
  intro hlocal
  simp [NewEndpointHandler, hlocal, OnSessionEstablished]

/-- Instance of C3 on `meshState`: the remote endpoint 3 and the local
endpoint 0. -/
theorem C3_fired_after_both_welcomes_witness :
    (meshState.heap 3).isLocal = false ∧ (meshState.heap 0).isLocal = true ∧
    (∃ fired, (NewEndpointHandler meshState 3).established = meshState.established ++ fired ∧
        ∀ r ∈ fired, r.1 = 3 ∧ r.2.sentWelcome = true ∧ r.2.receivedWelcome = true) ∧
    (NewEndpointHandler meshState 0).established =
      meshState.established ++ [(0, meshState.heap 0)] :=
  ⟨rfl, rfl, (C3_fired_after_both_welcomes meshState 3).2.2.1 rfl,
    (C3_fired_after_both_welcomes meshState 0).2.2.2 rfl⟩

/-- C3 fails for the local endpoint: `NewEndpointHandler` fires
`OnSessionEstablished` for endpoint 0 of `meshState` although neither welcome
flag of that endpoint is set. -/
theorem C3_counterexample :
    (NewEndpointHandler meshState 0).established =
      meshState.established ++ [(0, meshState.heap 0)] ∧
    (meshState.heap 0).sentWelcome = false ∧ (meshState.heap 0).receivedWelcome = false :=
  ⟨by decide, rfl, rfl⟩

/-! ## Loop-back connections -/

/-- C4: `NewEndpointHandler` on a remote endpoint that carries the local
identity stops and unregisters that endpoint and returns: nothing is sent or
dropped, every other endpoint keeps its state and its registration, no welcome
flag changes, no session is established and the peer directory is the same. -/
theorem C4_loopback_suppression (s : State) (e : Nat)
    (hremote : (s.heap e).isLocal = false)
    (hloop : (s.heap e).identity = s.localIdentity) :
    e ∉ (NewEndpointHandler s e).registry ∧
    ((NewEndpointHandler s e).heap e).conn = ConnState.closed ∧
    (NewEndpointHandler s e).sent = s.sent ∧
    (NewEndpointHandler s e).dropped = s.dropped ∧
    (NewEndpointHandler s e).connections = s.connections ∧
    (NewEndpointHandler s e).registry = s.registry.filter (fun i => decide (i ≠ e)) ∧
    (∀ j, j ≠ e → (NewEndpointHandler s e).heap j = s.heap j) ∧
    ((NewEndpointHandler s e).heap e).sentWelcome = (s.heap e).sentWelcome ∧
    ((NewEndpointHandler s e).heap e).receivedWelcome = (s.heap e).receivedWelcome ∧
    (NewEndpointHandler s e).established = s.established ∧
    (NewEndpointHandler s e).components = s.components := by
  have h : NewEndpointHandler s e =
      UnregisterEndpoint (Stop (RegisterPublication
        (RegisterPublication s e "discovery::RegisterComponent") e "discovery::Welcome") e) e := by
    simp [NewEndpointHandler, hremote, hloop]
  rw [h]
  refine ⟨?_, ?_, ?_, ?_, ?_, ?_, ?_, ?_, ?_, ?_, ?_⟩
  · simp [UnregisterEndpoint]
  · simp [UnregisterEndpoint]
  · simp
  · simp
  · simp
  · simp [UnregisterEndpoint]
  · intro j hj
    simp [UnregisterEndpoint, hj]
  · simp [UnregisterEndpoint]
  · simp [UnregisterEndpoint]
  · simp
  · simp

/-- Instance of C4: endpoint 4 of `meshState` is a loop-back connection. -/
theorem C4_loopback_suppression_witness :
    (meshState.heap 4).isLocal = false ∧
    (meshState.heap 4).identity = meshState.localIdentity ∧
    4 ∉ (NewEndpointHandler meshState 4).registry ∧
    ((NewEndpointHandler meshState 4).heap 4).conn = ConnState.closed ∧
    (NewEndpointHandler meshState 4).sent = meshState.sent :=
  ⟨rfl, rfl, (C4_loopback_suppression meshState 4 rfl rfl).1,
    (C4_loopback_suppression meshState 4 rfl rfl).2.1,
    (C4_loopback_suppression meshState 4 rfl rfl).2.2.1⟩

/-! ## Duplicate identities -/

@[simp]
theorem FinishDiscoverySetup_registry (s : State) (e : Nat) :
    (FinishDiscoverySetup s e).registry = s.registry := by
  simp only [FinishDiscoverySetup]
  split
  · rfl
  · split <;> simp [SetSentWelcome]

@[simp]
theorem FinishDiscoverySetup_components (s : State) (e : Nat) :
    (FinishDiscoverySetup s e).components = s.components := by
  simp only [FinishDiscoverySetup]
  split
  · rfl
  · split <;> simp [SetSentWelcome]

@[simp]
theorem FinishDiscoverySetup_localIdentity (s : State) (e : Nat) :
    (FinishDiscoverySetup s e).localIdentity = s.localIdentity := by
  simp only [FinishDiscoverySetup]
  split
  · rfl
  · split <;> simp [SetSentWelcome]

theorem FinishDiscoverySetup_heap_other (s : State) (e j : Nat) (h : j ≠ e) :
    (FinishDiscoverySetup s e).heap j = s.heap j := by
  simp only [FinishDiscoverySetup]
  split
  · rfl
  · split <;> simp [SetSentWelcome, h]

theorem FinishDiscoverySetup_identity (s : State) (e j : Nat) :
    ((FinishDiscoverySetup s e).heap j).identity = (s.heap j).identity ∧
    ((FinishDiscoverySetup s e).heap j).conn = (s.heap j).conn := by
  by_cases h : j = e
  · subst h
    simp only [FinishDiscoverySetup]
    split
    · exact ⟨rfl, rfl⟩
    · split <;> simp [SetSentWelcome]
  · rw [FinishDiscoverySetup_heap_other s e j h]
    exact ⟨rfl, rfl⟩

theorem CheckExistingEndpoint_eq (s : State) (self other : Nat) :
    CheckExistingEndpoint s self other =
      if isDuplicate s self other then UnregisterEndpoint (Stop s other) other else s := by
  unfold CheckExistingEndpoint isDuplicate
  by_cases h1 : self = other
  · simp [h1]
  · by_cases h2 : (s.heap other).IsConnected = true
    · by_cases h3 : (s.heap self).identity = (s.heap other).identity <;> simp [h1, h2, h3]
    · simp [h1, h2]

theorem teardown_heap (s : State) (x j : Nat) :
    (UnregisterEndpoint (Stop s x) x).heap j = if j = x then stopped (s.heap j) else s.heap j := by
  by_cases h : j = x
  · subst h
    simp [UnregisterEndpoint, stopped]
  · simp [UnregisterEndpoint, h]

theorem teardown_registry (s : State) (x : Nat) :
    (UnregisterEndpoint (Stop s x) x).registry = s.registry.filter (fun i => decide (i ≠ x)) := by
  simp [UnregisterEndpoint]

/-- The effect of the `ForEachEndpoint` loop of `NewEndpointHandler` run over
the snapshot `l`. -/
theorem checkExisting_fold (e : Nat) (l : List Nat) (s : State) :
    (l.foldl (fun st other => CheckExistingEndpoint st e other) s).registry =
      s.registry.filter (fun j => !(decide (j ∈ l) && isDuplicate s e j)) ∧
    ∀ j, (l.foldl (fun st other => CheckExistingEndpoint st e other) s).heap j =
      if j ∈ l ∧ isDuplicate s e j = true then stopped (s.heap j) else s.heap j := by
  induction l generalizing s with
  | nil => simp
  | cons x l ih =>
    simp only [List.foldl_cons]
    obtain ⟨ih1, ih2⟩ := ih (CheckExistingEndpoint s e x)
    rw [CheckExistingEndpoint_eq] at ih1 ih2 ⊢
    by_cases hd : isDuplicate s e x = true
    · simp only [hd, if_true] at ih1 ih2 ⊢
      have hxe : e ≠ x := by
        intro h; subst h; simp [isDuplicate] at hd
      have hdup : ∀ j, isDuplicate (UnregisterEndpoint (Stop s x) x) e j =
          (isDuplicate s e j && decide (j ≠ x)) := by
        intro j
        unfold isDuplicate
        rw [teardown_heap, teardown_heap]
        by_cases hj : j = x
        · subst hj
          simp [stopped, Endpoint.IsConnected]
        · simp [hj, hxe]
      constructor
      · rw [ih1, teardown_registry, List.filter_filter]
        apply List.filter_congr
        intro j _
        rw [hdup]
        by_cases hj : j = x
        · subst hj; simp [hd]
        · simp [hj]
      · intro j
        rw [ih2, hdup, teardown_heap]
        by_cases hj : j = x
        · subst hj; simp [hd]
        · simp [hj]
    · simp only [hd, Bool.false_eq_true, if_false] at ih1 ih2 ⊢
      constructor
      · rw [ih1]
        apply List.filter_congr
        intro j _
        by_cases hj : j = x
        · subst hj; simp [hd]
        · simp [hj]
      · intro j
        rw [ih2]
        by_cases hj : j = x
        · subst hj; simp [hd]
        · simp [hj]

/-- The state in which `NewEndpointHandler` runs its loop over the existing
endpoints, for a remote endpoint that is not a loop-back connection. -/
theorem NewEndpointHandler_frame (s : State) (e : Nat)
    (hremote : (s.heap e).isLocal = false)
    (hid : (s.heap e).identity ≠ s.localIdentity) :
    (NewEndpointHandler s e).registry =
      (ForEachEndpoint
        (RegisterPublication (RegisterPublication s e "discovery::RegisterComponent") e
          "discovery::Welcome")
        (fun st other => CheckExistingEndpoint st e other)).registry ∧
    (∀ j, j ≠ e → (NewEndpointHandler s e).heap j =
      (ForEachEndpoint
        (RegisterPublication (RegisterPublication s e "discovery::RegisterComponent") e
          "discovery::Welcome")
        (fun st other => CheckExistingEndpoint st e other)).heap j) ∧
    ((NewEndpointHandler s e).heap e).identity =
      ((ForEachEndpoint
        (RegisterPublication (RegisterPublication s e "discovery::RegisterComponent") e
          "discovery::Welcome")
        (fun st other => CheckExistingEndpoint st e other)).heap e).identity ∧
    ((NewEndpointHandler s e).heap e).conn =
      ((ForEachEndpoint
        (RegisterPublication (RegisterPublication s e "discovery::RegisterComponent") e
          "discovery::Welcome")
        (fun st other => CheckExistingEndpoint st e other)).heap e).conn := by
  simp only [NewEndpointHandler, hremote, Bool.false_eq_true, if_false]
  have hid2 : ¬ ((RegisterPublication (RegisterPublication s e "discovery::RegisterComponent") e
      "discovery::Welcome").heap e).identity =
      (RegisterPublication (RegisterPublication s e "discovery::RegisterComponent") e
      "discovery::Welcome").localIdentity := by
    simpa using hid
  rw [if_neg hid2]
  split
  · refine ⟨?_, ?_, ?_, ?_⟩
    · rw [foldl_frame (fun st => st.registry) _ (by intro st x; simp)]
      simp
    · intro j hj
      rw [foldl_frame (fun st => st.heap j) _ (by intro st x; simp)]
      simp [hj]
    · rw [foldl_frame (fun st => (st.heap e).identity) _ (by intro st x; simp)]
      simp
    · rw [foldl_frame (fun st => (st.heap e).conn) _ (by intro st x; simp)]
      simp
  · refine ⟨?_, ?_, ?_, ?_⟩
    · rw [FinishDiscoverySetup_registry,
        foldl_frame (fun st => st.registry) _ (by intro st x; simp),
        foldl_frame (fun st => st.registry) _ (by intro st x; simp),
        foldl_frame (fun st => st.registry) _ (by intro st x; simp)]
      simp
    · intro j hj
      rw [FinishDiscoverySetup_heap_other _ _ _ hj,
        foldl_frame (fun st => st.heap j) _ (by intro st x; simp [hj]),
        foldl_frame (fun st => st.heap j) _ (by intro st x; simp [hj]),
        foldl_frame (fun st => st.heap j) _ (by intro st x; simp)]
      simp [hj]
    · rw [(FinishDiscoverySetup_identity _ e e).1,
        foldl_frame (fun st => (st.heap e).identity) _ (by intro st x; simp),
        foldl_frame (fun st => (st.heap e).identity) _ (by intro st x; simp),
        foldl_frame (fun st => (st.heap e).identity) _ (by intro st x; simp)]
      simp
    · rw [(FinishDiscoverySetup_identity _ e e).2,
        foldl_frame (fun st => (st.heap e).conn) _ (by intro st x; simp),
        foldl_frame (fun st => (st.heap e).conn) _ (by intro st x; simp),
        foldl_frame (fun st => (st.heap e).conn) _ (by intro st x; simp)]
      simp

theorem isDuplicate_after_publications (s : State) (e j : Nat) (a b : String) :
    isDuplicate (RegisterPublication (RegisterPublication s e a) e b) e j = isDuplicate s e j := by
  unfold isDuplicate
  by_cases hj : j = e
  · subst hj; simp
  · simp [hj, Endpoint.IsConnected]

/-- The registry and the other endpoints after `NewEndpointHandler`, for a
remote endpoint that is not a loop-back connection. -/
theorem NewEndpointHandler_duplicates (s : State) (e : Nat)
    (hremote : (s.heap e).isLocal = false)
    (hid : (s.heap e).identity ≠ s.localIdentity) :
    (NewEndpointHandler s e).registry =
      s.registry.filter (fun j => !(isDuplicate s e j)) ∧
    (∀ j, j ≠ e → (NewEndpointHandler s e).heap j =
      if j ∈ s.registry ∧ isDuplicate s e j = true then stopped (s.heap j) else s.heap j) ∧
    ((NewEndpointHandler s e).heap e).identity = (s.heap e).identity ∧
    ((NewEndpointHandler s e).heap e).conn = (s.heap e).conn := by
  obtain ⟨h1, h2, h3, h4⟩ := NewEndpointHandler_frame s e hremote hid
  obtain ⟨f1, f2⟩ := checkExisting_fold e
    (RegisterPublication (RegisterPublication s e "discovery::RegisterComponent") e
      "discovery::Welcome").registry
    (RegisterPublication (RegisterPublication s e "discovery::RegisterComponent") e
      "discovery::Welcome")
  unfold ForEachEndpoint at h1 h2 h3 h4
  have hself : isDuplicate s e e = false := by simp [isDuplicate]
  refine ⟨?_, ?_, ?_, ?_⟩
  · rw [h1, f1]
    apply List.filter_congr
    intro j hj
    rw [isDuplicate_after_publications]
    have hj2 : j ∈ s.registry := by simpa using hj
    simp [hj2]
  · intro j hj
    rw [h2 j hj, f2 j, isDuplicate_after_publications]
    simp [hj]
  · rw [h3, f2 e, isDuplicate_after_publications, hself]
    simp
  · rw [h4, f2 e, isDuplicate_after_publications, hself]
    simp

/-- C1: after `NewEndpointHandler(e)` for a remote endpoint `e` whose identity
is not the local one, every other registered endpoint that was connected and
has the identity of `e` is stopped and unregistered, `e` is still registered,
endpoints with another identity keep their state and registration, and every
connected registered endpoint with the identity of `e` is `e` itself. -/
theorem C1_duplicate_identity (s : State) (e : Nat)
    (hremote : (s.heap e).isLocal = false)
    (hid : (s.heap e).identity ≠ s.localIdentity) :
    (∀ o ∈ s.registry, o ≠ e → (s.heap o).IsConnected = true →
      (s.heap o).identity = (s.heap e).identity →
      o ∉ (NewEndpointHandler s e).registry ∧
      ((NewEndpointHandler s e).heap o).conn = ConnState.closed) ∧
    (e ∈ s.registry → e ∈ (NewEndpointHandler s e).registry) ∧
    (∀ j, (s.heap j).identity ≠ (s.heap e).identity →
      (NewEndpointHandler s e).heap j = s.heap j ∧
      (j ∈ (NewEndpointHandler s e).registry ↔ j ∈ s.registry)) ∧
    (∀ o ∈ (NewEndpointHandler s e).registry,
      ((NewEndpointHandler s e).heap o).IsConnected = true →
      ((NewEndpointHandler s e).heap o).identity =
        ((NewEndpointHandler s e).heap e).identity → o = e) := by
  obtain ⟨h1, h2, h3, h4⟩ := NewEndpointHandler_duplicates s e hremote hid
  refine ⟨?_, ?_, ?_, ?_⟩
  · intro o ho hoe hconn hsame
    have hd : isDuplicate s e o = true := by
      simp [isDuplicate, hconn, hsame, Ne.symm hoe]
    constructor
    · rw [h1]; simp [hd]
    · rw [h2 o hoe]; simp [ho, hd, stopped]
  · intro he
    rw [h1]
    simp [he, isDuplicate]
  · intro j hj
    have hje : j ≠ e := by
      intro h; subst h; exact hj rfl
    have hd : isDuplicate s e j = false := by
      simp [isDuplicate, Ne.symm hj]
    constructor
    · rw [h2 j hje]; simp [hd]
    · rw [h1]; simp [hd]
  · intro o ho hconn hsame
    by_contra hoe
    rw [h1] at ho
    have ho2 := List.mem_filter.mp ho
    rw [h2 o hoe, h3] at hsame
    rw [h2 o hoe] at hconn
    by_cases hd : isDuplicate s e o = true
    · simp [hd] at ho2
    · have hd2 : isDuplicate s e o = false := by simpa using hd
      simp only [hd2, Bool.false_eq_true, and_false, if_false] at hsame hconn
      apply hd
      simp [isDuplicate, hconn, hsame, Ne.symm hoe]

/-- Instance of C1 on `meshState`: the newer connection 2 from "B" displaces
the older connection 1. -/
theorem C1_duplicate_identity_witness :
    (meshState.heap 2).isLocal = false ∧
    (meshState.heap 2).identity ≠ meshState.localIdentity ∧
    1 ∉ (NewEndpointHandler meshState 2).registry ∧
    ((NewEndpointHandler meshState 2).heap 1).conn = ConnState.closed ∧
    2 ∈ (NewEndpointHandler meshState 2).registry :=
  ⟨rfl, by decide,
    ((C1_duplicate_identity meshState 2 rfl (by decide)).1 1 (by decide) (by decide)
      rfl rfl).1,
    ((C1_duplicate_identity meshState 2 rfl (by decide)).1 1 (by decide) (by decide)
      rfl rfl).2,
    (C1_duplicate_identity meshState 2 rfl (by decide)).2.1 (by decide)⟩

/-! ## Processing discovery messages -/

theorem mem_setInsert (a t : String) (l : List String) :
    a ∈ setInsert t l ↔ a = t ∨ a ∈ l := by
  induction l with
  | nil => simp [setInsert]
  | cons x l ih =>
    unfold setInsert
    split
    · simp
    · split
      · rename_i h; subst h; simp
      · simp [ih]; tauto

theorem mem_foldl_setInsert (a : String) (l acc : List String) :
    a ∈ l.foldl (fun acc t => setInsert t acc) acc ↔ a ∈ acc ∨ a ∈ l := by
  induction l generalizing acc with
  | nil => simp
  | cons x l ih => simp [ih, mem_setInsert]; tauto

theorem publicationsLoop_cons (cfg : Config) (Match : String → String → Bool)
    (roles : Option Dictionary) (trusted : Bool) (endpoint : Option Nat)
    (t : String) (rest : List String) (info : ComponentDiscoveryInfo) (s : State) :
    publicationsLoop cfg Match roles trusted endpoint (t :: rest) info s =
      match (if trusted then Except.ok true
             else HasMessagePermission cfg Match roles "publications" t) with
      | Except.error f => Except.error f
      | Except.ok permitted =>
        if permitted then
          publicationsLoop cfg Match roles trusted endpoint rest
            { info with Publications := setInsert t info.Publications }
            (registerPublicationIf endpoint s t)
        else publicationsLoop cfg Match roles trusted endpoint rest info s := rfl

theorem subscriptionsLoop_cons (cfg : Config) (Match : String → String → Bool)
    (roles : Option Dictionary) (trusted : Bool) (endpoint : Option Nat)
    (t : String) (rest : List String) (info : ComponentDiscoveryInfo) (s : State) :
    subscriptionsLoop cfg Match roles trusted endpoint (t :: rest) info s =
      match (if trusted then Except.ok true
             else HasMessagePermission cfg Match roles "subscriptions" t) with
      | Except.error f => Except.error f
      | Except.ok permitted =>
        if permitted then
          subscriptionsLoop cfg Match roles trusted endpoint rest
            { info with Subscriptions := setInsert t info.Subscriptions }
            (registerSubscriptionIf endpoint s t)
        else subscriptionsLoop cfg Match roles trusted endpoint rest info s := rfl

/-- The publications loop, when it returns, has inserted exactly the accepted
topics, in the directory entry and on the endpoint. -/
theorem publicationsLoop_ok (cfg : Config) (Match : String → String → Bool)
    (roles : Option Dictionary) (trusted : Bool) (endpoint : Option Nat)
    (topics : List String) (info : ComponentDiscoveryInfo) (s : State)
    (info' : ComponentDiscoveryInfo) (s' : State)
    (h : publicationsLoop cfg Match roles trusted endpoint topics info s = Except.ok (info', s')) :
    info' = addPublications
      (topics.filter (accepts cfg Match roles trusted "publications")) info ∧
    s' = registerPublications endpoint
      (topics.filter (accepts cfg Match roles trusted "publications")) s := by
  induction topics generalizing info s with
  | nil =>
    simp [publicationsLoop] at h
    simp [addPublications, registerPublications, h.1, h.2]
  | cons t rest ih =>
    rw [publicationsLoop_cons] at h
    cases trusted with
    | true =>
      simp only [if_true] at h
      have := ih _ _ h
      simpa [accepts, addPublications, registerPublications] using this
    | false =>
      simp only [Bool.false_eq_true, if_false] at h
      cases hp : HasMessagePermission cfg Match roles "publications" t with
      | error f => simp [hp] at h
      | ok b =>
        cases b with
        | true =>
          simp only [hp] at h
          have := ih _ _ h
          simpa [accepts, addPublications, registerPublications, hp] using this
        | false =>
          simp only [hp] at h
          have := ih _ _ h
          simpa [accepts, addPublications, registerPublications, hp] using this

/-- The subscriptions loop, when it returns, has inserted exactly the accepted
topics, in the directory entry and on the endpoint. -/
theorem subscriptionsLoop_ok (cfg : Config) (Match : String → String → Bool)
    (roles : Option Dictionary) (trusted : Bool) (endpoint : Option Nat)
    (topics : List String) (info : ComponentDiscoveryInfo) (s : State)
    (info' : ComponentDiscoveryInfo) (s' : State)
    (h : subscriptionsLoop cfg Match roles trusted endpoint topics info s =
      Except.ok (info', s')) :
    info' = addSubscriptions
      (topics.filter (accepts cfg Match roles trusted "subscriptions")) info ∧
    s' = registerSubscriptions endpoint
      (topics.filter (accepts cfg Match roles trusted "subscriptions")) s := by
  induction topics generalizing info s with
  | nil =>
    simp [subscriptionsLoop] at h
    simp [addSubscriptions, registerSubscriptions, h.1, h.2]
  | cons t rest ih =>
    rw [subscriptionsLoop_cons] at h
    cases trusted with
    | true =>
      simp only [if_true] at h
      have := ih _ _ h
      simpa [accepts, addSubscriptions, registerSubscriptions] using this
    | false =>
      simp only [Bool.false_eq_true, if_false] at h
      cases hp : HasMessagePermission cfg Match roles "subscriptions" t with
      | error f => simp [hp] at h
      | ok b =>
        cases b with
        | true =>
          simp only [hp] at h
          have := ih _ _ h
          simpa [accepts, addSubscriptions, registerSubscriptions, hp] using this
        | false =>
          simp only [hp] at h
          have := ih _ _ h
          simpa [accepts, addSubscriptions, registerSubscriptions, hp] using this

/-- A trusted message passes the publications loop whole. -/
theorem publicationsLoop_trusted (cfg : Config) (Match : String → String → Bool)
    (roles : Option Dictionary) (endpoint : Option Nat)
    (topics : List String) (info : ComponentDiscoveryInfo) (s : State) :
    publicationsLoop cfg Match roles true endpoint topics info s =
      Except.ok (addPublications topics info, registerPublications endpoint topics s) := by
  induction topics generalizing info s with
  | nil => simp [publicationsLoop, addPublications, registerPublications]
  | cons t rest ih =>
    rw [publicationsLoop_cons]
    simp only [if_true]
    rw [ih]
    simp [addPublications, registerPublications]

/-- A trusted message passes the subscriptions loop whole. -/
theorem subscriptionsLoop_trusted (cfg : Config) (Match : String → String → Bool)
    (roles : Option Dictionary) (endpoint : Option Nat)
    (topics : List String) (info : ComponentDiscoveryInfo) (s : State) :
    subscriptionsLoop cfg Match roles true endpoint topics info s =
      Except.ok (addSubscriptions topics info, registerSubscriptions endpoint topics s) := by
  induction topics generalizing info s with
  | nil => simp [subscriptionsLoop, addSubscriptions, registerSubscriptions]
  | cons t rest ih =>
    rw [subscriptionsLoop_cons]
    simp only [if_true]
    rw [ih]
    simp [addSubscriptions, registerSubscriptions]

/-- When `ProcessDiscoveryMessage` returns for a non-local identity, the roles
of the sender were read without exception and the final state is
`processResult`. -/
theorem ProcessDiscoveryMessage_ok (cfg : Config) (Match : String → String → Bool) (now : Int)
    (s : State) (identity : String) (message : DiscoveryMessage) (trusted : Bool) (s' : State)
    (hid : identity ≠ s.localIdentity)
    (h : ProcessDiscoveryMessage cfg Match now s identity message trusted = Except.ok s') :
    ∃ roles, senderRoles cfg identity = Except.ok roles ∧
      s' = processResult cfg Match now s identity message trusted roles := by
  unfold ProcessDiscoveryMessage at h
  rw [if_neg hid] at h
  cases hr : senderRoles cfg identity with
  | error f => simp [hr] at h
  | ok roles =>
    refine ⟨roles, rfl, ?_⟩
    simp only [hr] at h
    cases hp : publicationsLoop cfg Match roles trusted (GetEndpointByIdentity s identity)
        (message.publications.getD []) (freshInfo now message) s with
    | error f => simp [hp] at h
    | ok r1 =>
      obtain ⟨info1, s1⟩ := r1
      simp only [hp] at h
      obtain ⟨hi1, hs1⟩ := publicationsLoop_ok _ _ _ _ _ _ _ _ _ _ hp
      cases hq : subscriptionsLoop cfg Match roles trusted (GetEndpointByIdentity s identity)
          (message.subscriptions.getD []) info1 s1 with
      | error f => simp [hq] at h
      | ok r2 =>
        obtain ⟨info2, s2⟩ := r2
        simp only [hq] at h
        obtain ⟨hi2, hs2⟩ := subscriptionsLoop_ok _ _ _ _ _ _ _ _ _ _ hq
        subst hi1 hs1 hi2 hs2
        unfold processResult processInfo
        cases he : GetEndpointByIdentity s identity with
        | none =>
          simp only [he] at h
          injection h with h
          rw [← h]
        | some e =>
          simp only [he] at h
          cases trusted with
          | true =>
            simp only [Bool.not_true, Bool.false_eq_true, if_false] at h
            injection h with h
            rw [← h]
            simp
          | false =>
            simp only [Bool.not_false, if_true] at h
            injection h with h
            rw [← h]
            simp

/-- A trusted message for a non-local identity is processed without exception
as soon as the roles of the sender can be read. -/
theorem ProcessDiscoveryMessage_trusted (cfg : Config) (Match : String → String → Bool)
    (now : Int) (s : State) (identity : String) (message : DiscoveryMessage)
    (roles : Option Dictionary)
    (hid : identity ≠ s.localIdentity)
    (hr : senderRoles cfg identity = Except.ok roles) :
    ProcessDiscoveryMessage cfg Match now s identity message true =
      Except.ok (processResult cfg Match now s identity message true roles) := by
  unfold ProcessDiscoveryMessage
  rw [if_neg hid]
  simp only [hr, publicationsLoop_trusted, subscriptionsLoop_trusted]
  have hall : ∀ (mt : String) (l : List String),
      l.filter (accepts cfg Match roles true mt) = l := by
    intro mt l
    apply List.filter_eq_self.mpr
    intro a _
    simp [accepts]
  unfold processResult processInfo
  rw [hall, hall]
  cases he : GetEndpointByIdentity s identity <;> simp

theorem mapFind_mapSet_same {α : Type} (k : String) (v : α) (m : List (String × α)) :
    mapFind (mapSet k v m) k = some v := by
  induction m with
  | nil => simp [mapSet, mapFind]
  | cons kv m ih =>
    obtain ⟨k', v'⟩ := kv
    unfold mapSet
    split
    · simp [mapFind]
    · split
      · simp [mapFind]
      · rename_i h1 h2
        simp [mapFind, Ne.symm h2, ih]

theorem mapFind_mapSet_other {α : Type} (k k2 : String) (v : α) (m : List (String × α))
    (h : k2 ≠ k) : mapFind (mapSet k v m) k2 = mapFind m k2 := by
  induction m with
  | nil => simp [mapSet, mapFind, Ne.symm h]
  | cons kv m ih =>
    obtain ⟨k', v'⟩ := kv
    unfold mapSet
    split
    · simp [mapFind, Ne.symm h]
    · split
      · rename_i h1 h2
        subst h2
        simp [mapFind, Ne.symm h]
      · simp [mapFind, ih]

theorem mapErase_cons {α : Type} (k k' : String) (v' : α) (m : List (String × α)) :
    mapErase ((k', v') :: m) k = if k' = k then mapErase m k else (k', v') :: mapErase m k := by
  unfold mapErase
  by_cases hk : k' = k <;> simp [List.filter_cons, hk]

theorem mapFind_mapErase_other {α : Type} (k k2 : String) (m : List (String × α))
    (h : k2 ≠ k) : mapFind (mapErase m k) k2 = mapFind m k2 := by
  induction m with
  | nil => simp [mapErase, mapFind]
  | cons kv m ih =>
    obtain ⟨k', v'⟩ := kv
    rw [mapErase_cons]
    by_cases hk : k' = k
    · subst hk
      simp [mapFind, Ne.symm h, ih]
    · simp [hk, mapFind, ih]

theorem mapFind_mapErase_same {α : Type} (k : String) (m : List (String × α)) :
    mapFind (mapErase m k) k = none := by
  induction m with
  | nil => simp [mapErase, mapFind]
  | cons kv m ih =>
    obtain ⟨k', v'⟩ := kv
    rw [mapErase_cons]
    by_cases hk : k' = k
    · simp [hk, ih]
    · simp [hk, mapFind, ih]

theorem addPublications_fields (l : List String) (info : ComponentDiscoveryInfo) :
    (addPublications l info).Node = info.Node ∧
    (addPublications l info).Service = info.Service ∧
    (addPublications l info).LastSeen = info.LastSeen ∧
    (addPublications l info).Subscriptions = info.Subscriptions ∧
    (addPublications l info).Publications =
      l.foldl (fun acc t => setInsert t acc) info.Publications := by
  unfold addPublications
  induction l generalizing info with
  | nil => simp
  | cons t l ih =>
    simp only [List.foldl_cons]
    obtain ⟨h1, h2, h3, h4, h5⟩ := ih { info with Publications := setInsert t info.Publications }
    exact ⟨h1, h2, h3, h4, h5⟩

theorem addSubscriptions_fields (l : List String) (info : ComponentDiscoveryInfo) :
    (addSubscriptions l info).Node = info.Node ∧
    (addSubscriptions l info).Service = info.Service ∧
    (addSubscriptions l info).LastSeen = info.LastSeen ∧
    (addSubscriptions l info).Publications = info.Publications ∧
    (addSubscriptions l info).Subscriptions =
      l.foldl (fun acc t => setInsert t acc) info.Subscriptions := by
  unfold addSubscriptions
  induction l generalizing info with
  | nil => simp
  | cons t l ih =>
    simp only [List.foldl_cons]
    obtain ⟨h1, h2, h3, h4, h5⟩ := ih { info with Subscriptions := setInsert t info.Subscriptions }
    exact ⟨h1, h2, h3, h4, h5⟩

/-- The directory entry built by `ProcessDiscoveryMessage`: stamped with the
current time, and holding exactly the accepted topics of the message. -/
theorem processInfo_spec (cfg : Config) (Match : String → String → Bool) (now : Int)
    (message : DiscoveryMessage) (trusted : Bool) (roles : Option Dictionary) :
    (processInfo cfg Match now message trusted roles).LastSeen = now ∧
    (processInfo cfg Match now message trusted roles).Node = (freshInfo now message).Node ∧
    (processInfo cfg Match now message trusted roles).Service =
      (freshInfo now message).Service ∧
    (∀ t, t ∈ (processInfo cfg Match now message trusted roles).Publications ↔
      t ∈ message.publications.getD [] ∧
        accepts cfg Match roles trusted "publications" t = true) ∧
    (∀ t, t ∈ (processInfo cfg Match now message trusted roles).Subscriptions ↔
      t ∈ message.subscriptions.getD [] ∧
        accepts cfg Match roles trusted "subscriptions" t = true) := by
  unfold processInfo
  obtain ⟨p1, p2, p3, p4, p5⟩ := addPublications_fields
    ((message.publications.getD []).filter (accepts cfg Match roles trusted "publications"))
    (freshInfo now message)
  obtain ⟨q1, q2, q3, q4, q5⟩ := addSubscriptions_fields
    ((message.subscriptions.getD []).filter (accepts cfg Match roles trusted "subscriptions"))
    (addPublications
      ((message.publications.getD []).filter (accepts cfg Match roles trusted "publications"))
      (freshInfo now message))
  refine ⟨?_, ?_, ?_, ?_, ?_⟩
  · rw [q3, p3]; rfl
  · rw [q1, p1]
  · rw [q2, p2]
  · intro t
    rw [q4, p5, mem_foldl_setInsert]
    simp [freshInfo, List.mem_filter]
  · intro t
    rw [q5, p4, mem_foldl_setInsert]
    simp [freshInfo, List.mem_filter]

theorem registerPublications_heap (e : Nat) (l : List String) (s : State) (j : Nat) :
    (registerPublications (some e) l s).heap j =
      if j = e then
        { (s.heap j) with
          publications := l.foldl (fun acc t => setInsert t acc) (s.heap j).publications }
      else s.heap j := by
  unfold registerPublications
  induction l generalizing s with
  | nil => simp
  | cons t l ih =>
    simp only [List.foldl_cons]
    rw [ih]
    by_cases hj : j = e
    · subst hj; simp [registerPublicationIf]
    · simp [hj, registerPublicationIf]

theorem registerSubscriptions_heap (e : Nat) (l : List String) (s : State) (j : Nat) :
    (registerSubscriptions (some e) l s).heap j =
      if j = e then
        { (s.heap j) with
          subscriptions := l.foldl (fun acc t => setInsert t acc) (s.heap j).subscriptions }
      else s.heap j := by
  unfold registerSubscriptions
  induction l generalizing s with
  | nil => simp
  | cons t l ih =>
    simp only [List.foldl_cons]
    rw [ih]
    by_cases hj : j = e
    · subst hj; simp [registerSubscriptionIf]
    · simp [hj, registerSubscriptionIf]

theorem registerPublications_none (l : List String) (s : State) :
    registerPublications none l s = s := by
  unfold registerPublications
  induction l generalizing s with
  | nil => rfl
  | cons t l ih => simp [registerPublicationIf]

theorem registerSubscriptions_none (l : List String) (s : State) :
    registerSubscriptions none l s = s := by
  unfold registerSubscriptions
  induction l generalizing s with
  | nil => rfl
  | cons t l ih => simp [registerSubscriptionIf]

theorem FinishDiscoverySetup_heap_self (s : State) (e : Nat) :
    (FinishDiscoverySetup s e).heap e =
      if (s.heap e).sentWelcome = true then s.heap e
      else { (s.heap e) with
        subscriptions := setInsert "discovery::Welcome" (s.heap e).subscriptions,
        sentWelcome := true } := by
  simp only [FinishDiscoverySetup]
  split
  · rfl
  · split <;> simp [SetSentWelcome]

/-- The directory after `ProcessDiscoveryMessage`. -/
theorem processResult_components (cfg : Config) (Match : String → String → Bool) (now : Int)
    (s : State) (identity : String) (message : DiscoveryMessage) (trusted : Bool)
    (roles : Option Dictionary) :
    (processResult cfg Match now s identity message trusted roles).components =
      mapSet identity (processInfo cfg Match now message trusted roles)
        (mapErase s.components identity) := by
  unfold processResult
  cases GetEndpointByIdentity s identity with
  | none => simp
  | some e => cases trusted <;> simp

/-- The topic sets of the endpoint of `identity` after
`ProcessDiscoveryMessage`. -/
theorem processResult_topics (cfg : Config) (Match : String → String → Bool) (now : Int)
    (s : State) (identity : String) (message : DiscoveryMessage) (trusted : Bool)
    (roles : Option Dictionary) (e : Nat) (he : GetEndpointByIdentity s identity = some e) :
    (∀ t, t ∈ ((processResult cfg Match now s identity message trusted roles).heap e).publications ↔
      t ∈ (s.heap e).publications ∨
      (t ∈ message.publications.getD [] ∧
        accepts cfg Match roles trusted "publications" t = true)) ∧
    (∀ t, t ∈ ((processResult cfg Match now s identity message trusted roles).heap e).subscriptions ↔
      t ∈ (s.heap e).subscriptions ∨
      (t ∈ message.subscriptions.getD [] ∧
        accepts cfg Match roles trusted "subscriptions" t = true) ∨
      (t = "discovery::Welcome" ∧ trusted = false ∧ (s.heap e).sentWelcome = false)) := by
  unfold processResult
  simp only [he]
  cases trusted with
  | true =>
    simp [registerSubscriptions_heap, registerPublications_heap, mem_foldl_setInsert,
      List.mem_filter]
  | false =>
    simp only [Bool.not_false, if_true, FinishDiscoverySetup_heap_self,
      SendDiscoveryMessage_heap, registerSubscriptions_heap, registerPublications_heap]
    cases hs : (s.heap e).sentWelcome with
    | true =>
      simp [hs, mem_foldl_setInsert, List.mem_filter]
    | false =>
      simp [hs, mem_foldl_setInsert, mem_setInsert, List.mem_filter]
      intro t
      tauto

/-! ## Topic filtering -/

theorem accepts_iff (cfg : Config) (Match : String → String → Bool) (roles : Option Dictionary)
    (trusted : Bool) (messageType t : String) :
    accepts cfg Match roles trusted messageType t = true ↔
      (trusted = true ∨
        HasMessagePermission cfg Match roles messageType t = Except.ok true) := by
  unfold accepts
  cases trusted with
  | true => simp
  | false =>
    cases h : HasMessagePermission cfg Match roles messageType t with
    | error f => simp
    | ok b => cases b <;> simp

/-- C5, as the code has it: when `ProcessDiscoveryMessage` returns for a
non-local identity, the new directory entry of that identity holds a topic of
either kind if and only if the message lists it and the message is trusted or
`HasMessagePermission` grants it; the same topics are registered on the live
endpoint of that identity, whose publications afterwards are the previous ones
united with the surviving ones, and whose subscriptions afterwards are the
previous ones united with the surviving ones and with "discovery::Welcome"
when the message is untrusted and the endpoint had not been sent a welcome. -/
theorem C5_topic_filtering (cfg : Config) (Match : String → String → Bool) (now : Int)
    (s : State) (identity : String) (message : DiscoveryMessage) (trusted : Bool) (s' : State)
    (hid : identity ≠ s.localIdentity)
    (h : ProcessDiscoveryMessage cfg Match now s identity message trusted = Except.ok s') :
    ∃ roles info, senderRoles cfg identity = Except.ok roles ∧
      mapFind s'.components identity = some info ∧
      (∀ t, t ∈ info.Publications ↔
        t ∈ message.publications.getD [] ∧
        (trusted = true ∨
          HasMessagePermission cfg Match roles "publications" t = Except.ok true)) ∧
      (∀ t, t ∈ info.Subscriptions ↔
        t ∈ message.subscriptions.getD [] ∧
        (trusted = true ∨
          HasMessagePermission cfg Match roles "subscriptions" t = Except.ok true)) ∧
      (∀ e, GetEndpointByIdentity s identity = some e →
        (∀ t, t ∈ (s'.heap e).publications ↔
          t ∈ (s.heap e).publications ∨
          (t ∈ message.publications.getD [] ∧
            (trusted = true ∨
              HasMessagePermission cfg Match roles "publications" t = Except.ok true))) ∧
        (∀ t, t ∈ (s'.heap e).subscriptions ↔
          t ∈ (s.heap e).subscriptions ∨
          (t ∈ message.subscriptions.getD [] ∧
            (trusted = true ∨
              HasMessagePermission cfg Match roles "subscriptions" t = Except.ok true)) ∨
          (t = "discovery::Welcome" ∧ trusted = false ∧ (s.heap e).sentWelcome = false))) := by
  obtain ⟨roles, hr, hs'⟩ := ProcessDiscoveryMessage_ok cfg Match now s identity message
    trusted s' hid h
  obtain ⟨_, _, _, hp, hq⟩ := processInfo_spec cfg Match now message trusted roles
  refine ⟨roles, processInfo cfg Match now message trusted roles, hr, ?_, ?_, ?_, ?_⟩
  · rw [hs', processResult_components, mapFind_mapSet_same]
  · intro t
    rw [hp t, accepts_iff]
  · intro t
    rw [hq t, accepts_iff]
  · intro e he
    obtain ⟨h1, h2⟩ := processResult_topics cfg Match now s identity message trusted roles e he
    rw [hs']
    constructor
    · intro t
      rw [h1 t, accepts_iff]
    · intro t
      rw [h2 t, accepts_iff]

/-- Instance of C5: the endpoint 3 of `meshState`, identity "C", registers
the topics of `topicsMessage` under `roleConfig`. -/
theorem C5_topic_filtering_witness :
    "C" ≠ meshState.localIdentity ∧
    ProcessDiscoveryMessage roleConfig exactMatch 100 meshState "C" topicsMessage false =
      Except.ok (processResult roleConfig exactMatch 100 meshState "C" topicsMessage false
        (some [("_1", "checker")])) ∧
    ∃ roles info, senderRoles roleConfig "C" = Except.ok roles ∧
      mapFind (processResult roleConfig exactMatch 100 meshState "C" topicsMessage false
        (some [("_1", "checker")])).components "C" = some info ∧
      (∀ t, t ∈ info.Publications ↔
        t ∈ topicsMessage.publications.getD [] ∧
        (false = true ∨
          HasMessagePermission roleConfig exactMatch roles "publications" t =
            Except.ok true)) :=
  ⟨by decide, rfl,
    match C5_topic_filtering roleConfig exactMatch 100 meshState "C" topicsMessage false
      (processResult roleConfig exactMatch 100 meshState "C" topicsMessage false
        (some [("_1", "checker")])) (by decide) rfl with
    | ⟨roles, info, h1, h2, h3, _⟩ => ⟨roles, info, h1, h2, h3⟩⟩

/-- C5 fails for the subscriptions of the endpoint: after the untrusted
registration of `topicsMessage` by endpoint 3 of `meshState`, which had no
subscriptions, the endpoint is subscribed to "discovery::Welcome", a topic
that the message does not list. -/
theorem C5_counterexample :
    (endpointAfter (RegisterComponentMessageHandler roleConfig exactMatch 100 meshState 3
      { method := "discovery::RegisterComponent", params := some topicsMessage }) 3).map
        (fun ep => ep.subscriptions) = some ["checker::Assign", "discovery::Welcome"] ∧
    (meshState.heap 3).subscriptions = [] ∧
    topicsMessage.subscriptions = some ["checker::Assign"] :=
  ⟨by decide, rfl, rfl⟩

/-! ## Permissions and the roles of the sender -/

/-- C6, what the code does instead: `HasMessagePermission` never looks into
the roles dictionary of the sender, so any two dictionaries give the same
answer; under `roleConfig` the endpoint "C", whose only role is "checker",
registers the publication "admin::Shutdown" that only the role "admin" grants,
and the directory entry of "C" holds it. -/
theorem C6_roles_not_consulted :
    (∀ (cfg : Config) (Match : String → String → Bool) (roles1 roles2 : Dictionary)
        (messageType message : String),
      HasMessagePermission cfg Match (some roles1) messageType message =
        HasMessagePermission cfg Match (some roles2) messageType message) ∧
    senderRoles roleConfig "C" = Except.ok (some [("_1", "checker")]) ∧
    HasMessagePermission roleConfig exactMatch (some [("_1", "checker")]) "publications"
      "admin::Shutdown" = Except.ok true ∧
    (entryAfter (RegisterComponentMessageHandler roleConfig exactMatch 100 meshState 3
      { method := "discovery::RegisterComponent", params := some topicsMessage }) "C").map
        (fun info => info.Publications) = some ["admin::Shutdown", "checker::Result"] :=
  ⟨fun _ _ _ _ _ _ => rfl, rfl, rfl, by decide⟩

/-! ## One-hop authority of registrations -/

/-- C7: `RegisterComponentMessageHandler` processes the message under the
identity of the sending endpoint: two register messages that differ only in
the identity field of their payload give the same result (directory, endpoint
objects, messages sent, or the same exception), and when the handler returns
for a sender that does not carry the local identity, the directory has a fresh
entry under the identity of the sender and is unchanged under every other
identity. -/
theorem C7_register_one_hop_authority (cfg : Config) (Match : String → String → Bool)
    (now : Int) (s : State) (sender : Nat) (method : String) (message : DiscoveryMessage) :
    (∀ a b : Option String,
      RegisterComponentMessageHandler cfg Match now s sender
        { method := method, params := some { message with identity := a } } =
      RegisterComponentMessageHandler cfg Match now s sender
        { method := method, params := some { message with identity := b } }) ∧
    (∀ s', (s.heap sender).identity ≠ s.localIdentity →
      RegisterComponentMessageHandler cfg Match now s sender
        { method := method, params := some message } = Except.ok s' →
      (∃ info, mapFind s'.components (s.heap sender).identity = some info ∧
        info.LastSeen = now) ∧
      (∀ k, k ≠ (s.heap sender).identity →
        mapFind s'.components k = mapFind s.components k)) := by
  constructor
  · intro a b
    rfl
  · intro s' hid h
    unfold RegisterComponentMessageHandler at h
    obtain ⟨roles, _, hs'⟩ := ProcessDiscoveryMessage_ok cfg Match now s _ _ false s' hid h
    obtain ⟨hl, _⟩ := processInfo_spec cfg Match now message false roles
    constructor
    · refine ⟨_, ?_, hl⟩
      rw [hs', processResult_components, mapFind_mapSet_same]
      rfl
    · intro k hk
      rw [hs', processResult_components, mapFind_mapSet_other _ _ _ _ hk,
        mapFind_mapErase_other _ _ _ hk]

/-- Instance of C7: endpoint 3 of `meshState`, identity "C", sends
`topicsMessage` with the payload identity "B"; the entry is filed under
"C" and "B" gets none. -/
theorem C7_register_one_hop_authority_witness :
    (meshState.heap 3).identity ≠ meshState.localIdentity ∧
    RegisterComponentMessageHandler roleConfig exactMatch 100 meshState 3
        { method := "discovery::RegisterComponent",
          params := some { topicsMessage with identity := some "B" } } =
      Except.ok (processResult roleConfig exactMatch 100 meshState "C"
        { topicsMessage with identity := some "B" } false (some [("_1", "checker")])) ∧
    (∃ info, mapFind (processResult roleConfig exactMatch 100 meshState "C"
        { topicsMessage with identity := some "B" } false
        (some [("_1", "checker")])).components (meshState.heap 3).identity = some info ∧
      info.LastSeen = 100) ∧
    mapFind (processResult roleConfig exactMatch 100 meshState "C"
        { topicsMessage with identity := some "B" } false
        (some [("_1", "checker")])).components "B" = mapFind meshState.components "B" :=
  ⟨by decide, rfl,
    ((C7_register_one_hop_authority roleConfig exactMatch 100 meshState 3
      "discovery::RegisterComponent" { topicsMessage with identity := some "B" }).2
      _ (by decide) rfl).1,
    ((C7_register_one_hop_authority roleConfig exactMatch 100 meshState 3
      "discovery::RegisterComponent" { topicsMessage with identity := some "B" }).2
      _ (by decide) rfl).2 "B" (by decide)⟩

/-! ## Re-applying an announcement -/

theorem mapErase_mapSet {α : Type} (k : String) (v : α) (m : List (String × α)) :
    mapErase (mapSet k v m) k = mapErase m k := by
  induction m with
  | nil => simp [mapSet, mapErase]
  | cons kv m ih =>
    obtain ⟨k', v'⟩ := kv
    unfold mapSet
    split
    · rw [mapErase_cons]; simp
    · split
      · rename_i h1 h2
        subst h2
        rw [mapErase_cons, mapErase_cons]; simp
      · rename_i h1 h2
        rw [mapErase_cons, mapErase_cons, ih]

theorem mapErase_idem {α : Type} (k : String) (m : List (String × α)) :
    mapErase (mapErase m k) k = mapErase m k := by
  unfold mapErase
  rw [List.filter_filter]
  simp

theorem forgetLastSeen_cons (k k' : String) (v' : ComponentDiscoveryInfo)
    (m : List (String × ComponentDiscoveryInfo)) :
    forgetLastSeen k ((k', v') :: m) =
      (k', if k' = k then { v' with LastSeen := 0 } else v') :: forgetLastSeen k m := by
  unfold forgetLastSeen
  by_cases h : k' = k <;> simp [h]

theorem forgetLastSeen_mapSet (k : String) (v : ComponentDiscoveryInfo)
    (m : List (String × ComponentDiscoveryInfo)) :
    forgetLastSeen k (mapSet k v m) =
      mapSet k { v with LastSeen := 0 } (forgetLastSeen k m) := by
  induction m with
  | nil => simp [mapSet, forgetLastSeen]
  | cons kv m ih =>
    obtain ⟨k', v'⟩ := kv
    rw [forgetLastSeen_cons]
    unfold mapSet
    by_cases h1 : strLt k k' = true
    · simp only [h1, if_true]
      rw [forgetLastSeen_cons, forgetLastSeen_cons]
      simp
    · simp only [h1, Bool.false_eq_true, if_false]
      by_cases h2 : k = k'
      · simp only [h2, if_true]
        rw [forgetLastSeen_cons]
        simp
      · simp only [h2, if_false]
        rw [forgetLastSeen_cons, ih]

theorem addPublications_lastSeen (l : List String) (info : ComponentDiscoveryInfo) (x : Int) :
    addPublications l { info with LastSeen := x } =
      { addPublications l info with LastSeen := x } := by
  unfold addPublications
  induction l generalizing info with
  | nil => rfl
  | cons t l ih => simp only [List.foldl_cons]; rw [← ih]

theorem addSubscriptions_lastSeen (l : List String) (info : ComponentDiscoveryInfo) (x : Int) :
    addSubscriptions l { info with LastSeen := x } =
      { addSubscriptions l info with LastSeen := x } := by
  unfold addSubscriptions
  induction l generalizing info with
  | nil => rfl
  | cons t l ih => simp only [List.foldl_cons]; rw [← ih]

/-- The directory entry built at two different times differs in `LastSeen`
only. -/
theorem processInfo_lastSeen (cfg : Config) (Match : String → String → Bool) (now1 now2 : Int)
    (message : DiscoveryMessage) (trusted : Bool) (roles : Option Dictionary) :
    { processInfo cfg Match now1 message trusted roles with LastSeen := 0 } =
      { processInfo cfg Match now2 message trusted roles with LastSeen := 0 } := by
  have h : ∀ now, processInfo cfg Match now message trusted roles =
      { processInfo cfg Match 0 message trusted roles with LastSeen := now } := by
    intro now
    unfold processInfo
    rw [← addSubscriptions_lastSeen, ← addPublications_lastSeen]
    rfl
  rw [h now1, h now2]

@[simp]
theorem processResult_localIdentity (cfg : Config) (Match : String → String → Bool)
    (now : Int) (s : State) (identity : String) (message : DiscoveryMessage) (trusted : Bool)
    (roles : Option Dictionary) :
    (processResult cfg Match now s identity message trusted roles).localIdentity =
      s.localIdentity := by
  unfold processResult
  cases GetEndpointByIdentity s identity with
  | none => simp
  | some e => cases trusted <;> simp

/-- C8: when `NewComponentMessageHandler` returns for an announcement, it
returns for the same announcement processed again at any later time under the
same configuration, and the directory after the second processing equals the
directory after the first except for the `LastSeen` value of the entry of the
announced identity. -/
theorem C8_announce_idempotent (cfg : Config) (Match : String → String → Bool)
    (now1 now2 : Int) (s : State) (request : RequestMessage) (s1 : State)
    (h1 : NewComponentMessageHandler cfg Match now1 s request = Except.ok s1) :
    ∃ s2, NewComponentMessageHandler cfg Match now2 s1 request = Except.ok s2 ∧
      match (request.params.getD emptyMessage).identity with
      | some identity =>
        forgetLastSeen identity s2.components = forgetLastSeen identity s1.components
      | none => s2.components = s1.components := by
  unfold NewComponentMessageHandler at h1 ⊢
  cases hi : (request.params.getD emptyMessage).identity with
  | none =>
    simp only [hi] at h1 ⊢
    exact ⟨s1, rfl, rfl⟩
  | some identity =>
    simp only [hi] at h1 ⊢
    by_cases hid : identity = s.localIdentity
    · have hs1 : s1 = s := by
        unfold ProcessDiscoveryMessage at h1
        rw [if_pos hid] at h1
        injection h1 with h1
        exact h1.symm
      subst hs1
      refine ⟨s1, ?_, rfl⟩
      unfold ProcessDiscoveryMessage
      rw [if_pos hid]
    · obtain ⟨roles, hr, hs1⟩ := ProcessDiscoveryMessage_ok cfg Match now1 s identity _ true s1
        hid h1
      have hid1 : identity ≠ s1.localIdentity := by
        rw [hs1, processResult_localIdentity]; exact hid
      refine ⟨_, ProcessDiscoveryMessage_trusted cfg Match now2 s1 identity _ roles hid1 hr, ?_⟩
      rw [processResult_components, hs1, processResult_components, mapErase_mapSet,
        mapErase_idem, forgetLastSeen_mapSet, forgetLastSeen_mapSet,
        processInfo_lastSeen cfg Match now2 now1]

/-- Instance of C8: the announcement of `topicsMessage` for "C" is processed
in `meshState` at time 100 and again at time 130. -/
theorem C8_announce_idempotent_witness :
    NewComponentMessageHandler roleConfig exactMatch 100 meshState
        { method := "discovery::NewComponent", params := some topicsMessage } =
      Except.ok (processResult roleConfig exactMatch 100 meshState "C" topicsMessage true
        (some [("_1", "checker")])) ∧
    ∃ s2, NewComponentMessageHandler roleConfig exactMatch 130
        (processResult roleConfig exactMatch 100 meshState "C" topicsMessage true
          (some [("_1", "checker")]))
        { method := "discovery::NewComponent", params := some topicsMessage } = Except.ok s2 ∧
      forgetLastSeen "C" s2.components =
        forgetLastSeen "C" (processResult roleConfig exactMatch 100 meshState "C" topicsMessage
          true (some [("_1", "checker")])).components :=
  ⟨rfl, C8_announce_idempotent roleConfig exactMatch 100 130 meshState
    { method := "discovery::NewComponent", params := some topicsMessage } _ rfl⟩

/-! ## The discovery timer -/

theorem reconnectLoop_ok (connectFails : String → String → Bool) (objects : List ConfigObject)
    (s s1 : State) (h : reconnectLoop connectFails objects s = Except.ok s1) :
    s1.components = s.components ∧ s1.localIdentity = s.localIdentity ∧
    s1.registry = s.registry ∧ s1.heap = s.heap := by
  induction objects generalizing s with
  | nil =>
    simp [reconnectLoop] at h
    subst h
    exact ⟨rfl, rfl, rfl, rfl⟩
  | cons object rest ih =>
    simp only [reconnectLoop] at h
    split at h
    · exact ih s h
    · split at h
      · rename_i node service hn hs
        unfold AddConnection at h
        by_cases hf : connectFails node service = true
        · simp [hf] at h
        · simp only [hf, Bool.false_eq_true, if_false] at h
          obtain ⟨h1, h2, h3, h4⟩ := ih _ h
          exact ⟨h1, h2, h3, h4⟩
      · exact ih s h

theorem reconnectLoop_returns (connectFails : String → String → Bool)
    (hconn : ∀ node service, connectFails node service = false)
    (objects : List ConfigObject) (s : State) :
    ∃ s1, reconnectLoop connectFails objects s = Except.ok s1 := by
  induction objects generalizing s with
  | nil => exact ⟨s, rfl⟩
  | cons object rest ih =>
    simp only [reconnectLoop]
    split
    · exact ih s
    · split
      · simp only [AddConnection, hconn, Bool.false_eq_true, if_false]
        exact ih _
      · exact ih s

theorem map_touch_cons (identity : String) (now : Int) (k' : String)
    (v' : ComponentDiscoveryInfo) (m : List (String × ComponentDiscoveryInfo)) :
    List.map (fun kv : String × ComponentDiscoveryInfo =>
        if kv.1 = identity then (kv.1, { kv.2 with LastSeen := now }) else kv) ((k', v') :: m) =
      (k', if k' = identity then touch now v' else v') ::
        List.map (fun kv : String × ComponentDiscoveryInfo =>
          if kv.1 = identity then (kv.1, { kv.2 with LastSeen := now }) else kv) m := by
  by_cases h : k' = identity <;> simp [h, touch]

theorem mapFind_map_touch (identity : String) (now : Int)
    (m : List (String × ComponentDiscoveryInfo)) (k : String) :
    mapFind (m.map (fun kv =>
        if kv.1 = identity then (kv.1, { kv.2 with LastSeen := now }) else kv)) k =
      if k = identity then (mapFind m k).map (touch now) else mapFind m k := by
  induction m with
  | nil => simp [mapFind]
  | cons kv m ih =>
    obtain ⟨k', v'⟩ := kv
    rw [map_touch_cons]
    simp only [mapFind]
    rw [ih]
    by_cases h2 : k' = k
    · subst h2
      by_cases h1 : k' = identity <;> simp [h1]
    · simp [h2]

theorem mapFind_setLastSeen (s : State) (identity : String) (now : Int) (k : String) :
    mapFind (setLastSeen s identity now).components k =
      if k = identity then (mapFind s.components k).map (touch now)
      else mapFind s.components k := by
  unfold setLastSeen
  exact mapFind_map_touch identity now s.components k

theorem componentsLoop_nil (cfg : Config) (RegistrationTTL : Int)
    (connectFails : String → String → Bool) (now : Int) (fuel : Nat) (s : State) :
    componentsLoop cfg RegistrationTTL connectFails now fuel [] s = some (Except.ok s) := by
  cases fuel <;> rfl

theorem componentsLoop_zero (cfg : Config) (RegistrationTTL : Int)
    (connectFails : String → String → Bool) (now : Int)
    (kv : String × ComponentDiscoveryInfo) (rest : List (String × ComponentDiscoveryInfo))
    (s : State) :
    componentsLoop cfg RegistrationTTL connectFails now 0 (kv :: rest) s = none := rfl

theorem componentsLoop_succ (cfg : Config) (RegistrationTTL : Int)
    (connectFails : String → String → Bool) (now : Int) (fuel : Nat)
    (identity : String) (info : ComponentDiscoveryInfo)
    (rest : List (String × ComponentDiscoveryInfo)) (s : State) :
    componentsLoop cfg RegistrationTTL connectFails now (fuel + 1) ((identity, info) :: rest) s =
    if identity = s.localIdentity then
      componentsLoop cfg RegistrationTTL connectFails now fuel ((identity, info) :: rest) s
    else if (GetObject cfg "endpoint" identity).isSome then
      componentsLoop cfg RegistrationTTL connectFails now fuel ((identity, info) :: rest) s
    else if info.LastSeen < now - RegistrationTTL then
      componentsLoop cfg RegistrationTTL connectFails now fuel rest
        { s with components := mapErase s.components identity }
    else
      let s1 := SendDiscoveryMessage s "discovery::NewComponent" identity none
      let endpoint := GetEndpointByIdentity s1 identity
      if (match endpoint with
          | some e => (s1.heap e).IsConnected
          | none => false) then
        componentsLoop cfg RegistrationTTL connectFails now fuel rest (setLastSeen s1 identity now)
      else if info.Node ≠ "" ∧ info.Service ≠ "" then
        match AddConnection connectFails s1 info.Node info.Service with
        | Except.ok s2 => componentsLoop cfg RegistrationTTL connectFails now fuel rest s2
        | Except.error _ =>
          match endpoint with
          | none => some (Except.error Fault.nullDeref)
          | some _ => componentsLoop cfg RegistrationTTL connectFails now fuel rest s1
      else componentsLoop cfg RegistrationTTL connectFails now fuel rest s1 := rfl

theorem hasConnectedEndpoint_congr (s t : State) (identity : String)
    (hr : t.registry = s.registry) (hh : t.heap = s.heap) :
    hasConnectedEndpoint t identity = hasConnectedEndpoint s identity := by
  unfold hasConnectedEndpoint GetEndpointByIdentity
  rw [hr, hh]

/-- One pass of the loop body over an entry that is neither skipped nor
expired: the loop goes on with the rest, after `LastSeen` has been refreshed
if a connected endpoint exists, unless a failed reconnect makes the handler
touch a missing endpoint. -/
theorem componentsLoop_fresh (cfg : Config) (RegistrationTTL : Int)
    (connectFails : String → String → Bool) (now : Int) (fuel : Nat)
    (identity : String) (info : ComponentDiscoveryInfo)
    (rest : List (String × ComponentDiscoveryInfo)) (s : State)
    (h1 : identity ≠ s.localIdentity) (h2 : GetObject cfg "endpoint" identity = none)
    (h3 : ¬ info.LastSeen < now - RegistrationTTL) :
    ((∃ node service, connectFails node service = true) ∧
      componentsLoop cfg RegistrationTTL connectFails now (fuel + 1)
        ((identity, info) :: rest) s = some (Except.error Fault.nullDeref)) ∨
    ∃ s2, componentsLoop cfg RegistrationTTL connectFails now (fuel + 1)
        ((identity, info) :: rest) s =
        componentsLoop cfg RegistrationTTL connectFails now fuel rest s2 ∧
      s2.registry = s.registry ∧ s2.heap = s.heap ∧ s2.localIdentity = s.localIdentity ∧
      s2.components =
        if hasConnectedEndpoint s identity = true then (setLastSeen s identity now).components
        else s.components := by
  rw [componentsLoop_succ, if_neg h1]
  simp only [h2, Option.isSome_none, Bool.false_eq_true, if_false, h3]
  have hc : (match GetEndpointByIdentity
        (SendDiscoveryMessage s "discovery::NewComponent" identity none) identity with
      | some e => ((SendDiscoveryMessage s "discovery::NewComponent" identity none).heap e).IsConnected
      | none => false) = hasConnectedEndpoint s identity := by
    unfold hasConnectedEndpoint GetEndpointByIdentity
    simp
  rw [hc]
  by_cases hcon : hasConnectedEndpoint s identity = true
  · right
    refine ⟨_, by rw [if_pos hcon], ?_, ?_, ?_, ?_⟩
    · simp [setLastSeen]
    · simp [setLastSeen]
    · simp [setLastSeen]
    · simp [hcon, setLastSeen]
  · rw [if_neg hcon]
    by_cases haddr : info.Node ≠ "" ∧ info.Service ≠ ""
    · rw [if_pos haddr]
      unfold AddConnection
      by_cases hf : connectFails info.Node info.Service = true
      · simp only [hf, if_true]
        cases he : GetEndpointByIdentity
            (SendDiscoveryMessage s "discovery::NewComponent" identity none) identity with
        | none => left; exact ⟨⟨_, _, hf⟩, rfl⟩
        | some e =>
          right
          exact ⟨_, rfl, by simp, by simp, by simp, by simp [hcon]⟩
      · right
        simp only [hf, Bool.false_eq_true, if_false]
        exact ⟨_, rfl, by simp, by simp, by simp, by simp [hcon]⟩
    · right
      rw [if_neg haddr]
      exact ⟨_, rfl, by simp, by simp, by simp, by simp [hcon]⟩

theorem mapFind_refreshed (st s2 : State) (identity : String) (now : Int) (k : String)
    (h : s2.components =
      if hasConnectedEndpoint st identity = true then (setLastSeen st identity now).components
      else st.components) :
    mapFind s2.components k =
      if k = identity ∧ hasConnectedEndpoint st identity = true
      then (mapFind st.components k).map (touch now) else mapFind st.components k := by
  rw [h]
  by_cases hc : hasConnectedEndpoint st identity = true
  · rw [if_pos hc, mapFind_setLastSeen]
    by_cases hk : k = identity <;> simp [hk, hc]
  · rw [if_neg hc]
    simp [hc]

theorem not_mem_keys_of_nodup {α : Type} (k : String) (v : α) (rest : List (String × α))
    (h : (((k, v) :: rest).map Prod.fst).Nodup) :
    k ∉ rest.map Prod.fst ∧ (rest.map Prod.fst).Nodup := by
  simpa using h

theorem mem_keys {α : Type} (k : String) (v : α) (m : List (String × α)) (h : (k, v) ∈ m) :
    k ∈ m.map Prod.fst :=
  List.mem_map.mpr ⟨(k, v), h, rfl⟩

/-- What the loop over the directory has done to it when it returns: entries
outside the part still to be visited are untouched, visited expired entries
are gone, and visited live entries are kept, refreshed if a connected endpoint
exists. -/
theorem componentsLoop_spec (cfg : Config) (RegistrationTTL : Int)
    (connectFails : String → String → Bool) (now : Int) (fuel : Nat) :
    ∀ (pending : List (String × ComponentDiscoveryInfo)) (st s' : State),
    (pending.map Prod.fst).Nodup →
    componentsLoop cfg RegistrationTTL connectFails now fuel pending st = some (Except.ok s') →
    s'.registry = st.registry ∧ s'.heap = st.heap ∧ s'.localIdentity = st.localIdentity ∧
    (∀ k, k ∉ pending.map Prod.fst → mapFind s'.components k = mapFind st.components k) ∧
    (∀ k i, (k, i) ∈ pending → i.LastSeen < now - RegistrationTTL →
      mapFind s'.components k = none) ∧
    (∀ k i, (k, i) ∈ pending → ¬ i.LastSeen < now - RegistrationTTL →
      mapFind s'.components k =
        if hasConnectedEndpoint st k = true then (mapFind st.components k).map (touch now)
        else mapFind st.components k) := by
  induction fuel with
  | zero =>
    intro pending st s' _ h
    cases pending with
    | nil =>
      rw [componentsLoop_nil] at h
      injection h with h; injection h with h; subst h
      simp
    | cons kv rest => rw [componentsLoop_zero] at h; simp at h
  | succ fuel ih =>
    intro pending st s' hnd h
    cases pending with
    | nil =>
      rw [componentsLoop_nil] at h
      injection h with h; injection h with h; subst h
      simp
    | cons kv rest =>
      obtain ⟨identity, info⟩ := kv
      obtain ⟨hnotin, hnd'⟩ := not_mem_keys_of_nodup identity info rest hnd
      by_cases h1 : identity = st.localIdentity
      · rw [componentsLoop_succ, if_pos h1] at h
        exact ih _ st s' hnd h
      · by_cases h2 : (GetObject cfg "endpoint" identity).isSome = true
        · rw [componentsLoop_succ, if_neg h1, if_pos h2] at h
          exact ih _ st s' hnd h
        · by_cases h3 : info.LastSeen < now - RegistrationTTL
          · rw [componentsLoop_succ, if_neg h1, if_neg h2, if_pos h3] at h
            obtain ⟨r1, r2, r3, ra, rb, rc⟩ := ih rest _ s' hnd' h
            refine ⟨r1, r2, r3, ?_, ?_, ?_⟩
            · intro k hk
              have hk1 : k ≠ identity := by
                intro e; apply hk; simp [e]
              have hk2 : k ∉ rest.map Prod.fst := by
                intro e; apply hk; simp only [List.map_cons, List.mem_cons]; exact Or.inr e
              rw [ra k hk2]
              exact mapFind_mapErase_other _ _ _ hk1
            · intro k i hki hstale
              rcases List.mem_cons.mp hki with heq | hin
              · injection heq with e1 e2
                subst e1
                rw [ra k hnotin]
                exact mapFind_mapErase_same _ _
              · exact rb k i hin hstale
            · intro k i hki hfresh
              rcases List.mem_cons.mp hki with heq | hin
              · injection heq with e1 e2
                subst e2
                exact absurd h3 hfresh
              · have hk1 : k ≠ identity := by
                  intro e; subst e; exact hnotin (mem_keys _ _ _ hin)
                rw [rc k i hin hfresh]
                have hm : mapFind (mapErase st.components identity) k = mapFind st.components k :=
                  mapFind_mapErase_other _ _ _ hk1
                have hc : hasConnectedEndpoint
                    { st with components := mapErase st.components identity } k =
                    hasConnectedEndpoint st k := rfl
                rw [hc]
                simp only [hm]
          · have h2' : GetObject cfg "endpoint" identity = none := by
              cases hg : GetObject cfg "endpoint" identity with
              | none => rfl
              | some o => simp [hg] at h2
            rcases componentsLoop_fresh cfg RegistrationTTL connectFails now fuel identity info
              rest st h1 h2' h3 with ⟨_, hbad⟩ | ⟨s2, heq, q1, q2, q3, q4⟩
            · rw [hbad] at h; simp at h
            · rw [heq] at h
              obtain ⟨r1, r2, r3, ra, rb, rc⟩ := ih rest s2 s' hnd' h
              refine ⟨r1.trans q1, r2.trans q2, r3.trans q3, ?_, ?_, ?_⟩
              · intro k hk
                have hk1 : k ≠ identity := by
                  intro e; apply hk; simp [e]
                have hk2 : k ∉ rest.map Prod.fst := by
                  intro e; apply hk; simp only [List.map_cons, List.mem_cons]; exact Or.inr e
                rw [ra k hk2, mapFind_refreshed st s2 identity now k q4]
                simp [hk1]
              · intro k i hki hstale
                rcases List.mem_cons.mp hki with heq | hin
                · injection heq with e1 e2
                  subst e2
                  exact absurd hstale h3
                · exact rb k i hin hstale
              · intro k i hki hfresh
                rcases List.mem_cons.mp hki with heq | hin
                · injection heq with e1 e2
                  subst e1
                  rw [ra k hnotin, mapFind_refreshed st s2 k now k q4]
                  simp
                · have hk1 : k ≠ identity := by
                    intro e; subst e; exact hnotin (mem_keys _ _ _ hin)
                  rw [rc k i hin hfresh, hasConnectedEndpoint_congr st s2 k q1 q2,
                    mapFind_refreshed st s2 identity now k q4]
                  simp [hk1]

theorem componentsLoop_returns (cfg : Config) (RegistrationTTL : Int)
    (connectFails : String → String → Bool) (now : Int)
    (hconn : ∀ node service, connectFails node service = false) :
    ∀ (pending : List (String × ComponentDiscoveryInfo)) (fuel : Nat) (st : State),
    pending.length ≤ fuel →
    (∀ kv ∈ pending, kv.1 ≠ st.localIdentity ∧ GetObject cfg "endpoint" kv.1 = none) →
    ∃ s', componentsLoop cfg RegistrationTTL connectFails now fuel pending st =
      some (Except.ok s') := by
  intro pending
  induction pending with
  | nil =>
    intro fuel st _ _
    exact ⟨st, componentsLoop_nil _ _ _ _ _ _⟩
  | cons kv rest ih =>
    intro fuel st hlen hskip
    obtain ⟨identity, info⟩ := kv
    cases fuel with
    | zero => simp at hlen
    | succ fuel =>
      have hlen' : rest.length ≤ fuel := by simpa using hlen
      obtain ⟨h1, h2⟩ := hskip (identity, info) (List.mem_cons_self _ _)
      have hrest : ∀ st2 : State, st2.localIdentity = st.localIdentity →
          ∀ kv ∈ rest, kv.1 ≠ st2.localIdentity ∧ GetObject cfg "endpoint" kv.1 = none := by
        intro st2 hl kv hkv
        rw [hl]
        exact hskip kv (List.mem_cons_of_mem _ hkv)
      by_cases h3 : info.LastSeen < now - RegistrationTTL
      · rw [componentsLoop_succ, if_neg h1]
        simp only [h2, Option.isSome_none, Bool.false_eq_true, if_false, h3, if_true]
        exact ih fuel _ hlen' (hrest _ rfl)
      · rcases componentsLoop_fresh cfg RegistrationTTL connectFails now fuel identity info
          rest st h1 h2 h3 with ⟨⟨node, service, hf⟩, _⟩ | ⟨s2, heq, _, _, q3, _⟩
        · rw [hconn] at hf; simp at hf
        · rw [heq]
          exact ih fuel s2 hlen' (hrest s2 q3)

/-- The loop never gets past an entry of the local identity or of a
configured endpoint. -/
theorem componentsLoop_stuck (cfg : Config) (RegistrationTTL : Int)
    (connectFails : String → String → Bool) (now : Int) (identity : String)
    (info : ComponentDiscoveryInfo) (rest : List (String × ComponentDiscoveryInfo)) (st : State)
    (h : identity = st.localIdentity ∨ (GetObject cfg "endpoint" identity).isSome = true)
    (fuel : Nat) :
    componentsLoop cfg RegistrationTTL connectFails now fuel ((identity, info) :: rest) st =
      none := by
  induction fuel with
  | zero => rfl
  | succ fuel ih =>
    rw [componentsLoop_succ]
    by_cases h1 : identity = st.localIdentity
    · rw [if_pos h1]; exact ih
    · rw [if_neg h1]
      rcases h with h | h
      · exact absurd h h1
      · rw [if_pos h]; exact ih

theorem mapFind_mem {α : Type} (m : List (String × α)) (k : String) (v : α)
    (h : mapFind m k = some v) : (k, v) ∈ m := by
  induction m with
  | nil => simp [mapFind] at h
  | cons kv m ih =>
    obtain ⟨k', v'⟩ := kv
    simp only [mapFind] at h
    by_cases hk : k' = k
    · rw [if_pos hk] at h
      injection h with h
      subst hk; subst h
      exact List.mem_cons_self _ _
    · rw [if_neg hk] at h
      exact List.mem_cons_of_mem _ (ih h)

/-- C9, as the code has it: when the discovery timer handler returns at time
`now`, every directory entry whose `LastSeen` is below `now - RegistrationTTL`
has been removed and every other entry is still present; and the handler
does return, with fuel for one pass over the directory, when the directory
holds no entry of the local identity or of a configured endpoint and no
connection attempt throws. -/
theorem C9_ttl_eviction (cfg : Config) (RegistrationTTL : Int)
    (connectFails : String → String → Bool) (now : Int) (s : State)
    (hnodup : (s.components.map Prod.fst).Nodup) :
    (∀ fuel s', DiscoveryTimerHandler cfg RegistrationTTL connectFails now fuel s =
        some (Except.ok s') →
      (∀ k i, mapFind s.components k = some i → i.LastSeen < now - RegistrationTTL →
        mapFind s'.components k = none) ∧
      (∀ k i, mapFind s.components k = some i → ¬ i.LastSeen < now - RegistrationTTL →
        ∃ i', mapFind s'.components k = some i')) ∧
    ((∀ kv ∈ s.components, kv.1 ≠ s.localIdentity ∧ GetObject cfg "endpoint" kv.1 = none) →
      (∀ node service, connectFails node service = false) →
      ∀ fuel, s.components.length ≤ fuel →
        ∃ s', DiscoveryTimerHandler cfg RegistrationTTL connectFails now fuel s =
          some (Except.ok s')) := by
  constructor
  · intro fuel s' h
    unfold DiscoveryTimerHandler at h
    cases hr : reconnectLoop connectFails (GetObjects cfg "endpoint") s with
    | error f => simp [hr] at h
    | ok s1 =>
      simp only [hr] at h
      obtain ⟨c1, _, _, _⟩ := reconnectLoop_ok _ _ _ _ hr
      rw [c1] at h
      obtain ⟨_, _, _, _, rb, rc⟩ := componentsLoop_spec cfg RegistrationTTL connectFails now
        fuel s.components s1 s' hnodup h
      constructor
      · intro k i hk hstale
        exact rb k i (mapFind_mem _ _ _ hk) hstale
      · intro k i hk hfresh
        rw [rc k i (mapFind_mem _ _ _ hk) hfresh, c1, hk]
        by_cases hc : hasConnectedEndpoint s1 k = true
        · exact ⟨touch now i, by simp [hc]⟩
        · exact ⟨i, by simp [hc]⟩
  · intro hskip hconn fuel hlen
    unfold DiscoveryTimerHandler
    obtain ⟨s1, hr⟩ := reconnectLoop_returns connectFails hconn (GetObjects cfg "endpoint") s
    obtain ⟨c1, c2, _, _⟩ := reconnectLoop_ok _ _ _ _ hr
    simp only [hr]
    rw [c1]
    apply componentsLoop_returns cfg RegistrationTTL connectFails now hconn _ _ _ hlen
    intro kv hkv
    rw [c2]
    exact hskip kv hkv

/-- Instance of C9: a tick at time 1000 with a time to live of 300 over
`directoryState`, without configured endpoints; "C" is evicted, "D" stays. -/
theorem C9_ttl_eviction_witness :
    (directoryState.components.map Prod.fst).Nodup ∧
    (∃ s', DiscoveryTimerHandler [] 300 (fun _ _ => false) 1000 3 directoryState =
      some (Except.ok s') ∧
      mapFind s'.components "C" = none ∧ ∃ i', mapFind s'.components "D" = some i') :=
  ⟨by decide,
    match (C9_ttl_eviction [] 300 (fun _ _ => false) 1000 directoryState (by decide)).2
      (by decide) (fun _ _ => rfl) 3 (by decide) with
    | ⟨s', h⟩ =>
      ⟨s', h,
        ((C9_ttl_eviction [] 300 (fun _ _ => false) 1000 directoryState (by decide)).1
          3 s' h).1 "C" _ rfl (by decide),
        ((C9_ttl_eviction [] 300 (fun _ _ => false) 1000 directoryState (by decide)).1
          3 s' h).2 "D" _ rfl (by decide)⟩⟩

/-- C9 fails for the entry of a configured endpoint: `roleConfig` has an
endpoint object for "C", the entry of "C" in `directoryState` was last seen
at time 0, and the tick at time 1000 with a time to live of 300 never
returns, whatever the fuel, so that the entry is never removed. -/
theorem C9_counterexample :
    (∃ i, mapFind directoryState.components "C" = some i ∧ i.LastSeen < 1000 - 300) ∧
    ¬ ∃ fuel r, DiscoveryTimerHandler roleConfig 300 (fun _ _ => false) 1000 fuel
      directoryState = some r := by
  constructor
  · exact ⟨_, rfl, by decide⟩
  · rintro ⟨fuel, r, h⟩
    have hs : DiscoveryTimerHandler roleConfig 300 (fun _ _ => false) 1000 fuel
        directoryState = none := by
      unfold DiscoveryTimerHandler
      have hr : reconnectLoop (fun _ _ => false) (GetObjects roleConfig "endpoint")
          directoryState = Except.ok directoryState := by rfl
      simp only [hr]
      exact componentsLoop_stuck roleConfig 300 _ 1000 "C" _ _ directoryState
        (Or.inr (by rfl)) fuel
    rw [hs] at h
    simp at h

/-! ## The `LastSeen` time stamps -/

theorem touch_touch (now : Int) (i : ComponentDiscoveryInfo) :
    touch now (touch now i) = touch now i := rfl

/-- The loop over the directory creates no entry, and leaves an entry as it
was or with `LastSeen` set to the current time. -/
theorem componentsLoop_rel (cfg : Config) (RegistrationTTL : Int)
    (connectFails : String → String → Bool) (now : Int) (fuel : Nat) :
    ∀ (pending : List (String × ComponentDiscoveryInfo)) (st s' : State),
    componentsLoop cfg RegistrationTTL connectFails now fuel pending st = some (Except.ok s') →
    ∀ k i', mapFind s'.components k = some i' →
      ∃ i, mapFind st.components k = some i ∧ (i' = i ∨ i' = touch now i) := by
  induction fuel with
  | zero =>
    intro pending st s' h
    cases pending with
    | nil =>
      rw [componentsLoop_nil] at h
      injection h with h; injection h with h; subst h
      intro k i' hk
      exact ⟨i', hk, Or.inl rfl⟩
    | cons kv rest => rw [componentsLoop_zero] at h; simp at h
  | succ fuel ih =>
    intro pending st s' h
    cases pending with
    | nil =>
      rw [componentsLoop_nil] at h
      injection h with h; injection h with h; subst h
      intro k i' hk
      exact ⟨i', hk, Or.inl rfl⟩
    | cons kv rest =>
      obtain ⟨identity, info⟩ := kv
      by_cases h1 : identity = st.localIdentity
      · rw [componentsLoop_succ, if_pos h1] at h
        exact ih _ st s' h
      · by_cases h2 : (GetObject cfg "endpoint" identity).isSome = true
        · rw [componentsLoop_succ, if_neg h1, if_pos h2] at h
          exact ih _ st s' h
        · by_cases h3 : info.LastSeen < now - RegistrationTTL
          · rw [componentsLoop_succ, if_neg h1, if_neg h2, if_pos h3] at h
            intro k i' hk
            obtain ⟨i, hi, hor⟩ := ih rest _ s' h k i' hk
            refine ⟨i, ?_, hor⟩
            by_cases hkid : k = identity
            · subst hkid
              have hnone : mapFind (mapErase st.components k) k = none :=
                mapFind_mapErase_same _ _
              simp only [hnone] at hi
              exact absurd hi (by simp)
            · have hsame : mapFind (mapErase st.components identity) k =
                  mapFind st.components k := mapFind_mapErase_other _ _ _ hkid
              simp only [hsame] at hi
              exact hi
          · have h2' : GetObject cfg "endpoint" identity = none := by
              cases hg : GetObject cfg "endpoint" identity with
              | none => rfl
              | some o => simp [hg] at h2
            rcases componentsLoop_fresh cfg RegistrationTTL connectFails now fuel identity info
              rest st h1 h2' h3 with ⟨_, hbad⟩ | ⟨s2, heq, _, _, _, q4⟩
            · rw [hbad] at h; simp at h
            · rw [heq] at h
              intro k i' hk
              obtain ⟨i2, hi2, hor⟩ := ih rest s2 s' h k i' hk
              rw [mapFind_refreshed st s2 identity now k q4] at hi2
              by_cases hc : k = identity ∧ hasConnectedEndpoint st identity = true
              · rw [if_pos hc] at hi2
                cases hm : mapFind st.components k with
                | none => simp [hm] at hi2
                | some i =>
                  simp only [hm, Option.map_some', Option.some.injEq] at hi2
                  refine ⟨i, rfl, Or.inr ?_⟩
                  rcases hor with e | e
                  · rw [e, ← hi2]
                  · rw [e, ← hi2, touch_touch]
              · rw [if_neg hc] at hi2
                exact ⟨i2, hi2, hor⟩

/-- The timer handler creates no directory entry, and leaves an entry as it
was or with `LastSeen` set to the current time. -/
theorem DiscoveryTimerHandler_rel (cfg : Config) (RegistrationTTL : Int)
    (connectFails : String → String → Bool) (now : Int) (fuel : Nat) (s s' : State)
    (h : DiscoveryTimerHandler cfg RegistrationTTL connectFails now fuel s =
      some (Except.ok s')) :
    ∀ k i', mapFind s'.components k = some i' →
      ∃ i, mapFind s.components k = some i ∧ (i' = i ∨ i' = touch now i) := by
  unfold DiscoveryTimerHandler at h
  cases hr : reconnectLoop connectFails (GetObjects cfg "endpoint") s with
  | error f => simp [hr] at h
  | ok s1 =>
    simp only [hr] at h
    obtain ⟨c1, _, _, _⟩ := reconnectLoop_ok _ _ _ _ hr
    intro k i' hk
    obtain ⟨i, hi, hor⟩ := componentsLoop_rel cfg RegistrationTTL connectFails now fuel _ s1 s'
      h k i' hk
    exact ⟨i, by rw [← c1]; exact hi, hor⟩

/-- A discovery message about `identity` leaves the other entries alone and
stamps the entry of `identity` with the current time. -/
theorem ProcessDiscoveryMessage_rel (cfg : Config) (Match : String → String → Bool)
    (now : Int) (s : State) (identity : String) (message : DiscoveryMessage) (trusted : Bool)
    (s' : State)
    (h : ProcessDiscoveryMessage cfg Match now s identity message trusted = Except.ok s') :
    (∀ k, k ≠ identity → mapFind s'.components k = mapFind s.components k) ∧
    (identity ≠ s.localIdentity →
      ∃ i', mapFind s'.components identity = some i' ∧ i'.LastSeen = now) ∧
    (identity = s.localIdentity → s'.components = s.components) := by
  by_cases hid : identity = s.localIdentity
  · have hs : s' = s := by
      unfold ProcessDiscoveryMessage at h
      rw [if_pos hid] at h
      injection h with h
      exact h.symm
    subst hs
    exact ⟨fun _ _ => rfl, fun hn => absurd hid hn, fun _ => rfl⟩
  · obtain ⟨roles, _, hs'⟩ := ProcessDiscoveryMessage_ok cfg Match now s identity message
      trusted s' hid h
    obtain ⟨hl, _⟩ := processInfo_spec cfg Match now message trusted roles
    refine ⟨?_, ?_, fun e => absurd e hid⟩
    · intro k hk
      rw [hs', processResult_components, mapFind_mapSet_other _ _ _ _ hk,
        mapFind_mapErase_other _ _ _ hk]
    · intro _
      exact ⟨_, by rw [hs', processResult_components, mapFind_mapSet_same], hl⟩

/-- One event leaves a directory entry as it was or stamps it with the
current time, and it creates an entry only for the identity that a discovery
message is about. -/
theorem step_rel (cfg : Config) (Match : String → String → Bool) (RegistrationTTL : Int)
    (connectFails : String → String → Bool) (now : Int) (s : State) (ev : Event) (s' : State)
    (h : step cfg Match RegistrationTTL connectFails now s ev = some (Except.ok s')) :
    ∀ k i', mapFind s'.components k = some i' →
      mapFind s.components k = some i' ∨
      (i'.LastSeen = now ∧
        (writtenIdentity s ev = some k ∨ ∃ i, mapFind s.components k = some i)) := by
  intro k i' hk
  cases ev with
  | announce request =>
    simp only [step, Option.some.injEq] at h
    unfold NewComponentMessageHandler at h
    cases hi : (request.params.getD emptyMessage).identity with
    | none =>
      simp only [hi] at h
      injection h with h
      subst h
      exact Or.inl hk
    | some identity =>
      simp only [hi] at h
      obtain ⟨r1, r2, r3⟩ := ProcessDiscoveryMessage_rel cfg Match now s identity _ true s' h
      by_cases hkid : k = identity
      · subst hkid
        by_cases hloc : k = s.localIdentity
        · left; rw [← r3 hloc]; exact hk
        · obtain ⟨i2, hi2, hl⟩ := r2 hloc
          rw [hk] at hi2
          injection hi2 with hi2
          subst hi2
          exact Or.inr ⟨hl, Or.inl (by simp [writtenIdentity, hi])⟩
      · left; rw [← r1 k hkid]; exact hk
  | register sender request =>
    simp only [step, Option.some.injEq] at h
    unfold RegisterComponentMessageHandler at h
    obtain ⟨r1, r2, r3⟩ := ProcessDiscoveryMessage_rel cfg Match now s _ _ false s' h
    by_cases hkid : k = (s.heap sender).identity
    · by_cases hloc : (s.heap sender).identity = s.localIdentity
      · left; rw [← r3 hloc]; exact hk
      · obtain ⟨i2, hi2, hl⟩ := r2 hloc
        rw [← hkid, hk] at hi2
        injection hi2 with hi2
        subst hi2
        exact Or.inr ⟨hl, Or.inl (by simp [writtenIdentity, hkid])⟩
    · left; rw [← r1 k hkid]; exact hk
  | tick fuel =>
    simp only [step] at h
    obtain ⟨i, hi, hor⟩ := DiscoveryTimerHandler_rel cfg RegistrationTTL connectFails now fuel
      s s' h k i' hk
    rcases hor with e | e
    · left; rw [e]; exact hi
    · right
      exact ⟨by rw [e]; rfl, Or.inr ⟨i, hi⟩⟩

/-- Over a sequence of events under a clock that does not run backwards,
every directory entry is either the one of the starting state or stamped no
earlier than the starting time. -/
theorem run_rel (cfg : Config) (Match : String → String → Bool) (RegistrationTTL : Int)
    (connectFails : String → String → Bool) (events : List (Int × Event)) :
    ∀ (t : Int) (s s' : State), clockFrom t events → stampsAtMost t s →
    run cfg Match RegistrationTTL connectFails events s = some s' →
    stampsAtMost (endTime t events) s' ∧
    ∀ k i', mapFind s'.components k = some i' →
      mapFind s.components k = some i' ∨ t ≤ i'.LastSeen := by
  induction events with
  | nil =>
    intro t s s' _ hinv h
    simp only [run, Option.some.injEq] at h
    subst h
    exact ⟨hinv, fun k i' hk => Or.inl hk⟩
  | cons e rest ih =>
    intro t s s' hclock hinv h
    obtain ⟨now, ev⟩ := e
    obtain ⟨hle, hrest⟩ := hclock
    simp only [run] at h
    cases hst : step cfg Match RegistrationTTL connectFails now s ev with
    | none => simp [hst] at h
    | some r =>
      cases r with
      | error f => simp [hst] at h
      | ok s1 =>
        simp only [hst] at h
        have hrel := step_rel cfg Match RegistrationTTL connectFails now s ev s1 hst
        have hinv1 : stampsAtMost now s1 := by
          intro k i hk
          rcases hrel k i hk with h0 | ⟨h1, _⟩
          · exact le_trans (hinv k i h0) hle
          · exact le_of_eq h1
        obtain ⟨r1, r2⟩ := ih now s1 s' hrest hinv1 h
        refine ⟨r1, ?_⟩
        intro k i' hk
        rcases r2 k i' hk with h0 | h0
        · rcases hrel k i' h0 with h1 | ⟨h1, _⟩
          · exact Or.inl h1
          · exact Or.inr (by rw [h1]; exact hle)
        · exact Or.inr (le_trans hle h0)

/-- C10: under a clock that does not run backwards, over every sequence of
announce and register processing and timer ticks that return, starting from a
directory whose time stamps are not in the future, the `LastSeen` value of an
identity never decreases and no time stamp is in the future; every event
leaves an entry as it was or sets its `LastSeen` to the current time: a
discovery message does so for the identity it is about, a tick for every entry
that it keeps and whose endpoint is connected; and an identity without entry
gets none, and so no `LastSeen`, from any event but a discovery message about
that identity. -/
theorem C10_lastSeen_monotone (cfg : Config) (Match : String → String → Bool)
    (RegistrationTTL : Int) (connectFails : String → String → Bool) :
    (∀ (events : List (Int × Event)) (t : Int) (s s' : State),
      clockFrom t events → stampsAtMost t s →
      run cfg Match RegistrationTTL connectFails events s = some s' →
      stampsAtMost (endTime t events) s' ∧
      ∀ k i i', mapFind s.components k = some i → mapFind s'.components k = some i' →
        i.LastSeen ≤ i'.LastSeen) ∧
    (∀ (now : Int) (s : State) (ev : Event) (s' : State),
      step cfg Match RegistrationTTL connectFails now s ev = some (Except.ok s') →
      (∀ k i', mapFind s'.components k = some i' →
        mapFind s.components k = some i' ∨ i'.LastSeen = now) ∧
      (∀ k, writtenIdentity s ev = some k → k ≠ s.localIdentity →
        ∃ i', mapFind s'.components k = some i' ∧ i'.LastSeen = now) ∧
      (∀ k, mapFind s.components k = none → writtenIdentity s ev ≠ some k →
        mapFind s'.components k = none)) ∧
    (∀ (now : Int) (s : State) (fuel : Nat) (s' : State),
      (s.components.map Prod.fst).Nodup →
      DiscoveryTimerHandler cfg RegistrationTTL connectFails now fuel s = some (Except.ok s') →
      ∀ k i, mapFind s.components k = some i → ¬ i.LastSeen < now - RegistrationTTL →
        hasConnectedEndpoint s k = true → mapFind s'.components k = some (touch now i)) := by
  refine ⟨?_, ?_, ?_⟩
  · intro events t s s' hclock hinv h
    obtain ⟨r1, r2⟩ := run_rel cfg Match RegistrationTTL connectFails events t s s' hclock hinv h
    refine ⟨r1, ?_⟩
    intro k i i' hk hk'
    rcases r2 k i' hk' with h0 | h0
    · rw [hk] at h0
      injection h0 with h0
      rw [h0]
    · exact le_trans (hinv k i hk) h0
  · intro now s ev s' h
    have hrel := step_rel cfg Match RegistrationTTL connectFails now s ev s' h
    refine ⟨?_, ?_, ?_⟩
    · intro k i' hk
      rcases hrel k i' hk with h0 | ⟨h1, _⟩
      · exact Or.inl h0
      · exact Or.inr h1
    · intro k hw hloc
      cases ev with
      | announce request =>
        simp only [writtenIdentity] at hw
        simp only [step, Option.some.injEq] at h
        unfold NewComponentMessageHandler at h
        simp only [hw] at h
        exact (ProcessDiscoveryMessage_rel cfg Match now s k _ true s' h).2.1 hloc
      | register sender request =>
        simp only [writtenIdentity, Option.some.injEq] at hw
        simp only [step, Option.some.injEq] at h
        unfold RegisterComponentMessageHandler at h
        rw [hw] at h
        exact (ProcessDiscoveryMessage_rel cfg Match now s k _ false s' h).2.1 hloc
      | tick fuel => simp [writtenIdentity] at hw
    · intro k habsent hw
      cases hk' : mapFind s'.components k with
      | none => rfl
      | some i' =>
        rcases hrel k i' hk' with h0 | ⟨_, h1 | ⟨i, h1⟩⟩
        · rw [habsent] at h0; simp at h0
        · exact absurd h1 hw
        · rw [habsent] at h1; simp at h1
  · intro now s fuel s' hnodup h k i hk hfresh hconn
    unfold DiscoveryTimerHandler at h
    cases hr : reconnectLoop connectFails (GetObjects cfg "endpoint") s with
    | error f => simp [hr] at h
    | ok s1 =>
      simp only [hr] at h
      obtain ⟨c1, _, c3, c4⟩ := reconnectLoop_ok _ _ _ _ hr
      rw [c1] at h
      obtain ⟨_, _, _, _, _, rc⟩ := componentsLoop_spec cfg RegistrationTTL connectFails now
        fuel s.components s1 s' hnodup h
      rw [rc k i (mapFind_mem _ _ _ hk) hfresh, hasConnectedEndpoint_congr s s1 k c3 c4, hconn,
        c1, hk]
      rfl

theorem directoryState_stamps : stampsAtMost 950 directoryState := by
  intro k i h
  have hm := mapFind_mem _ _ _ h
  simp only [directoryState, List.mem_cons, Prod.mk.injEq, List.mem_singleton,
    List.not_mem_nil, or_false] at hm
  rcases hm with ⟨_, rfl⟩ | ⟨_, rfl⟩ | ⟨_, rfl⟩ <;> decide

theorem keepAliveEvents_clock : clockFrom 950 keepAliveEvents :=
  ⟨by decide, by decide, by decide, trivial⟩

/-- Instance of C10: `keepAliveEvents` run on `directoryState` without
configured endpoints; the entry of "D" keeps its time stamp or gains a later
one. -/
theorem C10_lastSeen_monotone_witness :
    clockFrom 950 keepAliveEvents ∧ stampsAtMost 950 directoryState ∧
    ∃ s', run [] exactMatch 300 (fun _ _ => false) keepAliveEvents directoryState = some s' ∧
      stampsAtMost 1030 s' ∧
      ∀ k i i', mapFind directoryState.components k = some i →
        mapFind s'.components k = some i' → i.LastSeen ≤ i'.LastSeen :=
  ⟨keepAliveEvents_clock, directoryState_stamps,
    match Option.isSome_iff_exists.mp
      (show (run [] exactMatch 300 (fun _ _ => false) keepAliveEvents
        directoryState).isSome = true from rfl) with
    | ⟨s', h⟩ =>
      ⟨s', h, (C10_lastSeen_monotone [] exactMatch 300 (fun _ _ => false)).1 keepAliveEvents
        950 directoryState s' keepAliveEvents_clock directoryState_stamps h⟩⟩

/-! ## Routing of the messages of the discovery component -/

theorem SendDiscoveryMessage_dropped_unicast (s : State) (method identity : String) (r : Nat)
    (h : method ∈ (s.heap r).subscriptions) :
    (SendDiscoveryMessage s method identity (some r)).dropped = s.dropped := by
  unfold SendDiscoveryMessage
  split
  · rfl
  · simp [SendUnicastMessage, h]

@[simp]
theorem SendDiscoveryMessage_dropped_multicast (s : State) (method identity : String) :
    (SendDiscoveryMessage s method identity none).dropped = s.dropped := by
  unfold SendDiscoveryMessage
  split
  · rfl
  · simp

@[simp]
theorem FinishDiscoverySetup_dropped (s : State) (e : Nat) :
    (FinishDiscoverySetup s e).dropped = s.dropped := by
  simp only [FinishDiscoverySetup]
  split
  · rfl
  · split <;> simp [SetSentWelcome, SendUnicastMessage, mem_setInsert]

@[simp]
theorem CheckExistingEndpoint_dropped (s : State) (a b : Nat) :
    (CheckExistingEndpoint s a b).dropped = s.dropped := by
  rw [CheckExistingEndpoint_eq]
  split <;> simp

theorem foldl_invariant {α : Type} (P : State → Prop) (f : State → α → State)
    (h : ∀ s x, P s → P (f s x)) (l : List α) (s : State) (hs : P s) : P (l.foldl f s) := by
  induction l generalizing s with
  | nil => exact hs
  | cons x l ih => exact ih _ (h s x hs)

/-- No unicast of `NewEndpointHandler` is dropped: the target has been
subscribed to the method before the message is sent. -/
theorem NewEndpointHandler_dropped (s : State) (e : Nat) :
    (NewEndpointHandler s e).dropped = s.dropped := by
  simp only [NewEndpointHandler]
  split
  · rfl
  · split
    · simp
    · have key : ∀ st : State,
          "discovery::NewComponent" ∈ (st.heap e).subscriptions →
          (List.foldl (fun st ic =>
            SendDiscoveryMessage st "discovery::NewComponent" ic.1 (some e)) st
            st.components).dropped = st.dropped ∧
          (List.foldl (fun st ic =>
            SendDiscoveryMessage st "discovery::NewComponent" ic.1 (some e)) st
            st.components).heap = st.heap := by
        intro st hsub
        exact foldl_invariant
          (fun t => t.dropped = st.dropped ∧ t.heap = st.heap) _
          (by
            intro t x ⟨h1, h2⟩
            refine ⟨?_, by simp [h2]⟩
            rw [SendDiscoveryMessage_dropped_unicast _ _ _ _ (by rw [h2]; exact hsub)]
            exact h1)
          st.components st ⟨rfl, rfl⟩
      have hd3 : (ForEachEndpoint
          (RegisterPublication (RegisterPublication s e "discovery::RegisterComponent") e
            "discovery::Welcome")
          (fun st other => CheckExistingEndpoint st e other)).dropped = s.dropped := by
        unfold ForEachEndpoint
        rw [foldl_frame (fun st => st.dropped) _ (by intro st x; simp)]
        simp
      have hsub5 : "discovery::NewComponent" ∈
          ((SendDiscoveryMessage
            (RegisterSubscription
              (SendDiscoveryMessage
                (RegisterSubscription
                  (ForEachEndpoint
                    (RegisterPublication
                      (RegisterPublication s e "discovery::RegisterComponent") e
                      "discovery::Welcome")
                    (fun st other => CheckExistingEndpoint st e other))
                  e "discovery::RegisterComponent")
                "discovery::RegisterComponent" s.localIdentity (some e))
              e "discovery::NewComponent")
            "discovery::NewComponent" s.localIdentity (some e)).heap e).subscriptions := by
        simp [mem_setInsert]
      have hd7 : (SendDiscoveryMessage
            (RegisterSubscription
              (SendDiscoveryMessage
                (RegisterSubscription
                  (ForEachEndpoint
                    (RegisterPublication
                      (RegisterPublication s e "discovery::RegisterComponent") e
                      "discovery::Welcome")
                    (fun st other => CheckExistingEndpoint st e other))
                  e "discovery::RegisterComponent")
                "discovery::RegisterComponent" s.localIdentity (some e))
              e "discovery::NewComponent")
            "discovery::NewComponent" s.localIdentity (some e)).dropped = s.dropped := by
        rw [SendDiscoveryMessage_dropped_unicast _ _ _ _ (by simp [mem_setInsert])]
        simp only [RegisterSubscription_eq, updateEndpoint_dropped]
        rw [SendDiscoveryMessage_dropped_unicast _ _ _ _ (by simp [mem_setInsert])]
        simp only [updateEndpoint_dropped]
        exact hd3
      have hloc : ∀ st : State, (ForEachEndpoint st
          (fun st other => CheckExistingEndpoint st e other)).localIdentity =
          st.localIdentity := by
        intro st
        unfold ForEachEndpoint
        exact foldl_frame (fun t => t.localIdentity) _ (by intro t x; simp) _ _
      simp only [RegisterSubscription_eq, updateEndpoint_localIdentity,
        SendDiscoveryMessage_localIdentity, hloc, RegisterPublication_eq] at *
      obtain ⟨k1, k2⟩ := key _ hsub5
      split
      · rw [k1]; exact hd7
      · rw [FinishDiscoverySetup_dropped,
          foldl_frame (fun st => st.dropped) _ (by intro st x; simp),
          foldl_frame (fun st => st.dropped) _ (by intro st x; simp), k1]
        exact hd7

/-- C11, what the code does instead: no unicast of `FinishDiscoverySetup` or
`NewEndpointHandler` goes to a target that is not subscribed (none is
dropped), but `Start` registers publications on the discovery endpoint for
"discovery::RegisterComponent" and "discovery::NewComponent" only.  Started
on `unstartedState` with the discovery endpoint at address 5, followed by the
connection from "C" (3), the directory is still empty and no welcome has been
sent; when "C" then registers with `topicsMessage`, the component sends a
"discovery::Welcome" from the discovery endpoint to endpoint 3, and the
publications of the discovery endpoint are still the two of `Start`. -/
theorem C11_welcome_without_publication :
    (∀ (s : State) (e : Nat),
      (FinishDiscoverySetup s e).dropped = s.dropped ∧
      (NewEndpointHandler s e).dropped = s.dropped) ∧
    unstartedState.components = [] ∧ unstartedState.registry = [] ∧
    connectedState.discoveryEndpoint = 5 ∧ connectedState.components = [] ∧
    welcomesTo 3 connectedState.sent = 0 ∧
    (connectedState.heap 5).publications =
      ["discovery::NewComponent", "discovery::RegisterComponent"] ∧
    Sent.unicast 5 3 { method := "discovery::Welcome", params := none } ∈
      sentBy (RegisterComponentMessageHandler roleConfig exactMatch 100 connectedState 3
        { method := "discovery::RegisterComponent", params := some topicsMessage }) ∧
    (endpointAfter (RegisterComponentMessageHandler roleConfig exactMatch 100 connectedState 3
        { method := "discovery::RegisterComponent", params := some topicsMessage }) 5).map
      (fun ep => ep.publications) =
      some ["discovery::NewComponent", "discovery::RegisterComponent"] := by
  refine ⟨fun s e => ⟨FinishDiscoverySetup_dropped s e, NewEndpointHandler_dropped s e⟩,
    rfl, rfl, rfl, by decide, by decide, by decide, by decide, by decide⟩

/-! ## What `NewEndpointHandler` registers on a new endpoint -/

/-- For a remote endpoint that is not a loop-back connection,
`NewEndpointHandler` ends where the directory knows nothing of the identity,
and else registers the cached topics and finishes the discovery setup. -/
theorem NewEndpointHandler_eq (s : State) (e : Nat)
    (hremote : (s.heap e).isLocal = false)
    (hid : (s.heap e).identity ≠ s.localIdentity) :
    NewEndpointHandler s e =
      match mapFind (beforeLookup s e).components ((beforeLookup s e).heap e).identity with
      | none => beforeLookup s e
      | some info => FinishDiscoverySetup (afterCachedTopics s e info) e := by
  simp only [NewEndpointHandler, hremote, Bool.false_eq_true, if_false]
  have hid2 : ¬ ((RegisterPublication (RegisterPublication s e "discovery::RegisterComponent") e
      "discovery::Welcome").heap e).identity =
      (RegisterPublication (RegisterPublication s e "discovery::RegisterComponent") e
      "discovery::Welcome").localIdentity := by
    simpa using hid
  rw [if_neg hid2]
  rfl

@[simp]
theorem beforeLookup_components (s : State) (e : Nat) :
    (beforeLookup s e).components = s.components := by
  simp only [beforeLookup]
  rw [foldl_frame (fun st => st.components) _ (by intro st x; simp)]
  simp [ForEachEndpoint]
  rw [foldl_frame (fun st => st.components) _ (by intro st x; simp)]
  simp

@[simp]
theorem beforeLookup_discoveryEndpoint (s : State) (e : Nat) :
    (beforeLookup s e).discoveryEndpoint = s.discoveryEndpoint := by
  simp only [beforeLookup]
  rw [foldl_frame (fun st => st.discoveryEndpoint) _ (by intro st x; simp)]
  simp [ForEachEndpoint]
  rw [foldl_frame (fun st => st.discoveryEndpoint) _
    (by intro st x; rw [CheckExistingEndpoint_eq]; split <;> simp)]
  simp

/-- The endpoint object of `e` at the point where `NewEndpointHandler` looks
the endpoint up in the directory. -/
theorem beforeLookup_heap_self (s : State) (e : Nat) :
    (beforeLookup s e).heap e =
      { (s.heap e) with
        publications := setInsert "discovery::Welcome"
          (setInsert "discovery::RegisterComponent" (s.heap e).publications)
        subscriptions := setInsert "discovery::NewComponent"
          (setInsert "discovery::RegisterComponent" (s.heap e).subscriptions) } := by
  simp only [beforeLookup]
  rw [foldl_frame (fun st => st.heap e) _ (by intro st x; simp)]
  obtain ⟨_, f2⟩ := checkExisting_fold e
    (RegisterPublication (RegisterPublication s e "discovery::RegisterComponent") e
      "discovery::Welcome").registry
    (RegisterPublication (RegisterPublication s e "discovery::RegisterComponent") e
      "discovery::Welcome")
  have hself : ∀ st : State, isDuplicate st e e = false := by
    intro st; simp [isDuplicate]
  simp only [SendDiscoveryMessage_heap, RegisterSubscription_eq, updateEndpoint_heap_same,
    ForEachEndpoint, f2 e, hself]
  simp

theorem afterCachedTopics_heap_self (s : State) (e : Nat) (info : ComponentDiscoveryInfo) :
    (afterCachedTopics s e info).heap e =
      { ((beforeLookup s e).heap e) with
        publications := info.Publications.foldl (fun acc t => setInsert t acc)
          ((beforeLookup s e).heap e).publications
        subscriptions := info.Subscriptions.foldl (fun acc t => setInsert t acc)
          ((beforeLookup s e).heap e).subscriptions } := by
  have h1 := registerPublications_heap e info.Publications (beforeLookup s e) e
  have h2 := registerSubscriptions_heap e info.Subscriptions
    (registerPublications (some e) info.Publications (beforeLookup s e)) e
  simp only [registerPublications, registerSubscriptions, registerPublicationIf,
    registerSubscriptionIf, if_true] at h1 h2
  unfold afterCachedTopics
  rw [h2, h1]

/-- C12, as the code has it: after `NewEndpointHandler(e)` for a remote
endpoint that is not a loop-back connection and whose identity is not in the
directory, the publications of `e` are the previous ones together with
"discovery::RegisterComponent" and "discovery::Welcome", and its subscriptions
are the previous ones together with "discovery::RegisterComponent" and
"discovery::NewComponent". -/
theorem C12_topics_of_new_endpoint (s : State) (e : Nat)
    (hremote : (s.heap e).isLocal = false)
    (hid : (s.heap e).identity ≠ s.localIdentity)
    (hunknown : mapFind s.components (s.heap e).identity = none) :
    (∀ t, t ∈ ((NewEndpointHandler s e).heap e).publications ↔
      t ∈ (s.heap e).publications ∨ t = "discovery::RegisterComponent" ∨
        t = "discovery::Welcome") ∧
    (∀ t, t ∈ ((NewEndpointHandler s e).heap e).subscriptions ↔
      t ∈ (s.heap e).subscriptions ∨ t = "discovery::RegisterComponent" ∨
        t = "discovery::NewComponent") := by
  rw [NewEndpointHandler_eq s e hremote hid]
  have hl : mapFind (beforeLookup s e).components ((beforeLookup s e).heap e).identity =
      none := by
    rw [beforeLookup_components, beforeLookup_heap_self]
    exact hunknown
  simp only [hl]
  simp only [beforeLookup_heap_self, mem_setInsert]
  constructor <;> intro t <;> tauto

/-- Instance of C12: endpoint 3 of `meshState`, identity "C", with the empty
directory. -/
theorem C12_topics_of_new_endpoint_witness :
    (meshState.heap 3).isLocal = false ∧
    (meshState.heap 3).identity ≠ meshState.localIdentity ∧
    mapFind meshState.components (meshState.heap 3).identity = none ∧
    (∀ t, t ∈ ((NewEndpointHandler meshState 3).heap 3).publications ↔
      t ∈ (meshState.heap 3).publications ∨ t = "discovery::RegisterComponent" ∨
        t = "discovery::Welcome") :=
  ⟨rfl, by decide, rfl, (C12_topics_of_new_endpoint meshState 3 rfl (by decide) rfl).1⟩

/-- C12 fails as stated: after `NewEndpointHandler` for endpoint 3 of
`meshState`, whose identity "C" is not in the directory, the endpoint has no
publication "discovery::NewComponent" and no subscription
"discovery::Welcome". -/
theorem C12_counterexample :
    (meshState.heap 3).isLocal = false ∧
    mapFind meshState.components (meshState.heap 3).identity = none ∧
    ((NewEndpointHandler meshState 3).heap 3).publications =
      ["discovery::RegisterComponent", "discovery::Welcome"] ∧
    ((NewEndpointHandler meshState 3).heap 3).subscriptions =
      ["discovery::NewComponent", "discovery::RegisterComponent"] :=
  ⟨rfl, rfl, by decide, by decide⟩

/-! ## The welcome on connect -/

theorem welcomesTo_append (e : Nat) (l1 l2 : List Sent) :
    welcomesTo e (l1 ++ l2) = welcomesTo e l1 + welcomesTo e l2 := by
  simp [welcomesTo, List.countP_append]

/-- A discovery message of another method is no welcome. -/
theorem SendDiscoveryMessage_welcomes (s : State) (method identity : String) (r : Option Nat)
    (e : Nat) (h : method ≠ "discovery::Welcome") :
    welcomesTo e (SendDiscoveryMessage s method identity r).sent = welcomesTo e s.sent := by
  unfold SendDiscoveryMessage
  split
  · rfl
  · split
    · simp only [SendUnicastMessage]
      split
      · simp [welcomesTo, isWelcomeTo, h]
      · rfl
    · simp [SendMulticastMessage, welcomesTo, isWelcomeTo]

@[simp]
theorem beforeLookup_welcomes (s : State) (e e2 : Nat) :
    welcomesTo e2 (beforeLookup s e).sent = welcomesTo e2 s.sent := by
  simp only [beforeLookup]
  rw [foldl_frame (fun st => welcomesTo e2 st.sent) _
    (by intro st x; exact SendDiscoveryMessage_welcomes _ _ _ _ _ (by decide))]
  rw [SendDiscoveryMessage_welcomes _ _ _ _ _ (by decide)]
  simp only [RegisterSubscription_eq, updateEndpoint_sent]
  rw [SendDiscoveryMessage_welcomes _ _ _ _ _ (by decide)]
  simp only [updateEndpoint_sent, ForEachEndpoint]
  rw [foldl_frame (fun st => st.sent) _ (by intro st x; simp)]
  simp

@[simp]
theorem afterCachedTopics_sent (s : State) (e : Nat) (info : ComponentDiscoveryInfo) :
    (afterCachedTopics s e info).sent = (beforeLookup s e).sent := by
  unfold afterCachedTopics
  rw [foldl_frame (fun st => st.sent) _ (by intro st x; simp),
    foldl_frame (fun st => st.sent) _ (by intro st x; simp)]

@[simp]
theorem afterCachedTopics_discoveryEndpoint (s : State) (e : Nat)
    (info : ComponentDiscoveryInfo) :
    (afterCachedTopics s e info).discoveryEndpoint = s.discoveryEndpoint := by
  unfold afterCachedTopics
  rw [foldl_frame (fun st => st.discoveryEndpoint) _ (by intro st x; simp),
    foldl_frame (fun st => st.discoveryEndpoint) _ (by intro st x; simp)]
  simp

/-- What `FinishDiscoverySetup` sends for an endpoint that has not been sent
a welcome: one "discovery::Welcome" to that endpoint. -/
theorem FinishDiscoverySetup_sent (s : State) (e : Nat) (h : (s.heap e).sentWelcome = false) :
    (FinishDiscoverySetup s e).sent =
      s.sent ++ [Sent.unicast s.discoveryEndpoint e
        { method := "discovery::Welcome", params := none }] := by
  simp only [FinishDiscoverySetup, h, Bool.false_eq_true, if_false]
  split <;> simp [SetSentWelcome, SendUnicastMessage, mem_setInsert]

/-- What `FinishDiscoverySetup` sends for an endpoint that has been sent a
welcome: nothing. -/
theorem FinishDiscoverySetup_idle (s : State) (e : Nat) (h : (s.heap e).sentWelcome = true) :
    FinishDiscoverySetup s e = s := by
  simp [FinishDiscoverySetup, h]

/-- C13: for a remote endpoint `e` that is not a loop-back connection and has
not been sent a welcome, `NewEndpointHandler` sends one "discovery::Welcome"
to `e` and sets `sentWelcome` when the identity of `e` has a directory entry,
after every cached publication and subscription of that entry has been
registered on `e`; when the identity has no entry, no welcome is sent and
`sentWelcome` stays false. -/
theorem C13_welcome_on_connect (s : State) (e : Nat)
    (hremote : (s.heap e).isLocal = false)
    (hid : (s.heap e).identity ≠ s.localIdentity)
    (hsw : (s.heap e).sentWelcome = false) :
    (∀ info, mapFind s.components (s.heap e).identity = some info →
      NewEndpointHandler s e = FinishDiscoverySetup (afterCachedTopics s e info) e ∧
      (∀ t ∈ info.Publications, t ∈ ((afterCachedTopics s e info).heap e).publications) ∧
      (∀ t ∈ info.Subscriptions, t ∈ ((afterCachedTopics s e info).heap e).subscriptions) ∧
      ((afterCachedTopics s e info).heap e).sentWelcome = false ∧
      welcomesTo e (afterCachedTopics s e info).sent = welcomesTo e s.sent ∧
      (NewEndpointHandler s e).sent = (afterCachedTopics s e info).sent ++
        [Sent.unicast s.discoveryEndpoint e
          { method := "discovery::Welcome", params := none }] ∧
      welcomesTo e (NewEndpointHandler s e).sent = welcomesTo e s.sent + 1 ∧
      ((NewEndpointHandler s e).heap e).sentWelcome = true ∧
      (∀ t ∈ info.Publications, t ∈ ((NewEndpointHandler s e).heap e).publications) ∧
      (∀ t ∈ info.Subscriptions, t ∈ ((NewEndpointHandler s e).heap e).subscriptions)) ∧
    (mapFind s.components (s.heap e).identity = none →
      welcomesTo e (NewEndpointHandler s e).sent = welcomesTo e s.sent ∧
      ((NewEndpointHandler s e).heap e).sentWelcome = false) := by
  have hidb : ((beforeLookup s e).heap e).identity = (s.heap e).identity := by
    rw [beforeLookup_heap_self]
  constructor
  · intro info hk
    have hl : mapFind (beforeLookup s e).components ((beforeLookup s e).heap e).identity =
        some info := by
      rw [beforeLookup_components, hidb]; exact hk
    have heq : NewEndpointHandler s e = FinishDiscoverySetup (afterCachedTopics s e info) e := by
      rw [NewEndpointHandler_eq s e hremote hid]
      simp only [hl]
    have hsw2 : ((afterCachedTopics s e info).heap e).sentWelcome = false := by
      rw [afterCachedTopics_heap_self, beforeLookup_heap_self]; exact hsw
    have hp : ∀ t ∈ info.Publications,
        t ∈ ((afterCachedTopics s e info).heap e).publications := by
      intro t ht
      rw [afterCachedTopics_heap_self]
      simp only [mem_foldl_setInsert]
      exact Or.inr ht
    have hq : ∀ t ∈ info.Subscriptions,
        t ∈ ((afterCachedTopics s e info).heap e).subscriptions := by
      intro t ht
      rw [afterCachedTopics_heap_self]
      simp only [mem_foldl_setInsert]
      exact Or.inr ht
    have hsent := FinishDiscoverySetup_sent (afterCachedTopics s e info) e hsw2
    rw [afterCachedTopics_discoveryEndpoint] at hsent
    have hheap := FinishDiscoverySetup_heap_self (afterCachedTopics s e info) e
    simp only [hsw2, Bool.false_eq_true, if_false] at hheap
    refine ⟨heq, hp, hq, hsw2, by rw [afterCachedTopics_sent, beforeLookup_welcomes],
      ?_, ?_, ?_, ?_, ?_⟩
    · rw [heq, hsent]
    · rw [heq, hsent, welcomesTo_append, afterCachedTopics_sent, beforeLookup_welcomes]
      simp [welcomesTo, isWelcomeTo]
    · rw [heq, hheap]
    · intro t ht
      rw [heq, hheap]
      exact hp t ht
    · intro t ht
      rw [heq, hheap]
      simp only [mem_setInsert]
      exact Or.inr (hq t ht)
  · intro hk
    have hl : mapFind (beforeLookup s e).components ((beforeLookup s e).heap e).identity =
        none := by
      rw [beforeLookup_components, hidb]; exact hk
    rw [NewEndpointHandler_eq s e hremote hid]
    simp only [hl]
    refine ⟨beforeLookup_welcomes s e e, ?_⟩
    rw [beforeLookup_heap_self]
    exact hsw

/-- Instance of C13: endpoint 3, identity "C", connects while the directory of
`directoryState` has an entry for "C", and while the directory of `meshState`
has none. -/
theorem C13_welcome_on_connect_witness :
    (directoryState.heap 3).isLocal = false ∧
    (directoryState.heap 3).identity ≠ directoryState.localIdentity ∧
    (directoryState.heap 3).sentWelcome = false ∧
    welcomesTo 3 (NewEndpointHandler directoryState 3).sent =
      welcomesTo 3 directoryState.sent + 1 ∧
    ((NewEndpointHandler directoryState 3).heap 3).sentWelcome = true ∧
    welcomesTo 3 (NewEndpointHandler meshState 3).sent = welcomesTo 3 meshState.sent ∧
    ((NewEndpointHandler meshState 3).heap 3).sentWelcome = false :=
  ⟨rfl, by decide, rfl,
    ((C13_welcome_on_connect directoryState 3 rfl (by decide) rfl).1 _ rfl).2.2.2.2.2.2.1,
    ((C13_welcome_on_connect directoryState 3 rfl (by decide) rfl).1 _ rfl).2.2.2.2.2.2.2.1,
    ((C13_welcome_on_connect meshState 3 rfl (by decide) rfl).2 rfl).1,
    ((C13_welcome_on_connect meshState 3 rfl (by decide) rfl).2 rfl).2⟩

/-! ## The deferred welcome -/

theorem registerTopics_flags (o : Option Nat) (l1 l2 : List String) (s : State) (j : Nat) :
    ((registerSubscriptions o l2 (registerPublications o l1 s)).heap j).sentWelcome =
      (s.heap j).sentWelcome ∧
    ((registerSubscriptions o l2 (registerPublications o l1 s)).heap j).receivedWelcome =
      (s.heap j).receivedWelcome := by
  cases o with
  | none => rw [registerSubscriptions_none, registerPublications_none]; exact ⟨rfl, rfl⟩
  | some e =>
    rw [registerSubscriptions_heap, registerPublications_heap]
    by_cases hj : j = e <;> simp [hj]

/-- A trusted discovery message changes no welcome flag and sends no
welcome. -/
theorem processResult_trusted_welcome (cfg : Config) (Match : String → String → Bool)
    (now : Int) (s : State) (identity : String) (message : DiscoveryMessage)
    (roles : Option Dictionary) (j : Nat) :
    ((processResult cfg Match now s identity message true roles).heap j).sentWelcome =
      (s.heap j).sentWelcome ∧
    ((processResult cfg Match now s identity message true roles).heap j).receivedWelcome =
      (s.heap j).receivedWelcome ∧
    welcomesTo j (processResult cfg Match now s identity message true roles).sent =
      welcomesTo j s.sent ∧
    (processResult cfg Match now s identity message true roles).established =
      s.established := by
  have hf := registerTopics_flags (GetEndpointByIdentity s identity)
    ((message.publications.getD []).filter (accepts cfg Match roles true "publications"))
    ((message.subscriptions.getD []).filter (accepts cfg Match roles true "subscriptions")) s j
  unfold processResult
  cases he : GetEndpointByIdentity s identity with
  | none =>
    simp only [he] at hf ⊢
    refine ⟨by simpa using hf.1, by simpa using hf.2, ?_, by simp⟩
    rw [SendDiscoveryMessage_welcomes _ _ _ _ _ (by decide)]
    simp
  | some e =>
    simp only [he] at hf ⊢
    simp only [Bool.not_true, Bool.false_eq_true, if_false]
    refine ⟨by simpa using hf.1, by simpa using hf.2, ?_, by simp⟩
    rw [SendDiscoveryMessage_welcomes _ _ _ _ _ (by decide)]
    simp

theorem processResult_eq_stage (cfg : Config) (Match : String → String → Bool)
    (now : Int) (s : State) (identity : String) (message : DiscoveryMessage) (trusted : Bool)
    (roles : Option Dictionary) :
    processResult cfg Match now s identity message trusted roles =
      match GetEndpointByIdentity s identity with
      | some e =>
        if !trusted then
          FinishDiscoverySetup
            (SendDiscoveryMessage (processStage cfg Match now s identity message trusted roles)
              "discovery::NewComponent" identity none) e
        else SendDiscoveryMessage (processStage cfg Match now s identity message trusted roles)
          "discovery::NewComponent" identity none
      | none => SendDiscoveryMessage (processStage cfg Match now s identity message trusted roles)
          "discovery::NewComponent" identity none := rfl

theorem processResult_trusted_eq (cfg : Config) (Match : String → String → Bool)
    (now : Int) (s : State) (identity : String) (message : DiscoveryMessage)
    (roles : Option Dictionary) :
    processResult cfg Match now s identity message true roles =
      SendDiscoveryMessage (processStage cfg Match now s identity message true roles)
        "discovery::NewComponent" identity none := by
  rw [processResult_eq_stage]
  cases GetEndpointByIdentity s identity <;> simp

theorem processStage_fields (cfg : Config) (Match : String → String → Bool)
    (now : Int) (s : State) (identity : String) (message : DiscoveryMessage) (trusted : Bool)
    (roles : Option Dictionary) :
    (processStage cfg Match now s identity message trusted roles).localIdentity =
      s.localIdentity ∧
    (processStage cfg Match now s identity message trusted roles).discoveryEndpoint =
      s.discoveryEndpoint ∧
    (processStage cfg Match now s identity message trusted roles).registry = s.registry ∧
    (processStage cfg Match now s identity message trusted roles).sent = s.sent ∧
    (processStage cfg Match now s identity message trusted roles).dropped = s.dropped ∧
    (processStage cfg Match now s identity message trusted roles).connections =
      s.connections ∧
    (processStage cfg Match now s identity message trusted roles).established =
      s.established ∧
    mapFind (processStage cfg Match now s identity message trusted roles).components identity =
      some (processInfo cfg Match now message trusted roles) := by
  unfold processStage
  simp only [registerSubscriptions_localIdentity, registerPublications_localIdentity,
    registerSubscriptions_discoveryEndpoint, registerPublications_discoveryEndpoint,
    registerSubscriptions_registry, registerPublications_registry,
    registerSubscriptions_sent, registerPublications_sent,
    registerSubscriptions_dropped, registerPublications_dropped,
    registerSubscriptions_connections, registerPublications_connections,
    registerSubscriptions_established, registerPublications_established,
    mapFind_mapSet_same, and_self]

/-- What `SendDiscoveryMessage` sends as a multicast about an identity of the
directory. -/
theorem SendDiscoveryMessage_multicast_sent (s : State) (identity : String)
    (info : ComponentDiscoveryInfo) (hid : identity ≠ s.localIdentity)
    (hm : mapFind s.components identity = some info) :
    SendDiscoveryMessage s "discovery::NewComponent" identity none =
      SendMulticastMessage s s.discoveryEndpoint
        (discoveryRequest "discovery::NewComponent" identity info) := by
  unfold SendDiscoveryMessage GetComponentDiscoveryInfo
  simp only [if_neg hid, hm]
  rfl

/-- What a trusted discovery message about a non-local identity sends: one
multicast "discovery::NewComponent" about that identity. -/
theorem processResult_trusted_sent (cfg : Config) (Match : String → String → Bool)
    (now : Int) (s : State) (identity : String) (message : DiscoveryMessage)
    (roles : Option Dictionary) (hid : identity ≠ s.localIdentity) :
    ∃ request,
      (processResult cfg Match now s identity message true roles).sent =
        s.sent ++ [Sent.multicast s.discoveryEndpoint request
          (s.registry.filter (fun i =>
            decide (i ≠ s.discoveryEndpoint) &&
            decide ("discovery::NewComponent" ∈
              ((processResult cfg Match now s identity message true roles).heap
                i).subscriptions)))] ∧
      request.method = "discovery::NewComponent" ∧
      request.params.bind (fun p => p.identity) = some identity := by
  obtain ⟨f1, f2, f3, f4, _, _, _, f8⟩ := processStage_fields cfg Match now s identity message
    true roles
  have h1 := SendDiscoveryMessage_multicast_sent
    (processStage cfg Match now s identity message true roles) identity _
    (by rw [f1]; exact hid) f8
  refine ⟨discoveryRequest "discovery::NewComponent" identity
    (processInfo cfg Match now message true roles), ?_, rfl, rfl⟩
  rw [processResult_trusted_eq, h1]
  simp only [SendMulticastMessage, f2, f3, f4, discoveryRequest]

/-- C17, as the code has it: whenever `NewComponentMessageHandler` returns for
an announcement about a non-local identity, it has multicast exactly one
"discovery::NewComponent" about that identity from the discovery endpoint, to
every other registered endpoint that is subscribed to it; neither the
directory entry of the identity nor its `LastSeen` is consulted. -/
theorem C17_announce_always_rebroadcast (cfg : Config) (Match : String → String → Bool)
    (now : Int) (s : State) (request : RequestMessage) (identity : String) (s' : State)
    (hi : (request.params.getD emptyMessage).identity = some identity)
    (hid : identity ≠ s.localIdentity)
    (h : NewComponentMessageHandler cfg Match now s request = Except.ok s') :
    (∃ sentRequest,
      s'.sent = s.sent ++ [Sent.multicast s.discoveryEndpoint sentRequest
        (s.registry.filter (fun i =>
          decide (i ≠ s.discoveryEndpoint) &&
          decide ("discovery::NewComponent" ∈ (s'.heap i).subscriptions)))] ∧
      sentRequest.method = "discovery::NewComponent" ∧
      sentRequest.params.bind (fun p => p.identity) = some identity) ∧
    announcesFor identity s'.sent = announcesFor identity s.sent + 1 := by
  unfold NewComponentMessageHandler at h
  simp only [hi] at h
  obtain ⟨roles, _, hs'⟩ := ProcessDiscoveryMessage_ok cfg Match now s identity _ true s' hid h
  obtain ⟨req, h1, h2, h3⟩ := processResult_trusted_sent cfg Match now s identity
    (request.params.getD emptyMessage) roles hid
  rw [← hs'] at h1
  refine ⟨⟨req, h1, h2, h3⟩, ?_⟩
  rw [h1]
  simp [announcesFor, List.countP_append, isAnnounceFor, h2, h3]

/-- Instance of C17: the announcement of "C" processed in `directoryState`,
whose entry for "C" is stale. -/
theorem C17_announce_always_rebroadcast_witness :
    ((({ method := "discovery::NewComponent", params := some topicsMessage } :
      RequestMessage).params.getD emptyMessage).identity = some "C") ∧
    "C" ≠ directoryState.localIdentity ∧
    NewComponentMessageHandler roleConfig exactMatch 1000 directoryState
        { method := "discovery::NewComponent", params := some topicsMessage } =
      Except.ok (processResult roleConfig exactMatch 1000 directoryState "C" topicsMessage true
        (some [("_1", "checker")])) ∧
    announcesFor "C" (processResult roleConfig exactMatch 1000 directoryState "C" topicsMessage
        true (some [("_1", "checker")])).sent = announcesFor "C" directoryState.sent + 1 :=
  ⟨rfl, by decide, rfl,
    (C17_announce_always_rebroadcast roleConfig exactMatch 1000 directoryState
      { method := "discovery::NewComponent", params := some topicsMessage } "C" _ rfl
      (by decide) rfl).2⟩

/-- C17 fails as stated: the announcement of "C" is processed twice at time
1000 in `meshState`; when the second one arrives the entry of "C" has just
been stamped with 1000, and yet the second one is broadcast as well. -/
theorem C17_counterexample :
    ((run [] exactMatch 300 (fun _ _ => false)
      [(1000, Event.announce
          { method := "discovery::NewComponent", params := some topicsMessage })]
      meshState).bind (fun s => (mapFind s.components "C").map (fun i => i.LastSeen))) =
      some 1000 ∧
    ((run [] exactMatch 300 (fun _ _ => false)
      [(1000, Event.announce
          { method := "discovery::NewComponent", params := some topicsMessage })]
      meshState).map (fun s => announcesFor "C" s.sent)) = some 1 ∧
    ((run [] exactMatch 300 (fun _ _ => false)
      [(1000, Event.announce
          { method := "discovery::NewComponent", params := some topicsMessage }),
       (1000, Event.announce
          { method := "discovery::NewComponent", params := some topicsMessage })]
      meshState).map (fun s => announcesFor "C" s.sent)) = some 2 :=
  ⟨by decide, by decide, by decide⟩

/-! ## Announcements about the local identity -/

@[simp]
theorem beforeLookup_localIdentity (s : State) (e : Nat) :
    (beforeLookup s e).localIdentity = s.localIdentity := by
  simp only [beforeLookup]
  rw [foldl_frame (fun st => st.localIdentity) _ (by intro st x; simp)]
  simp [ForEachEndpoint]
  rw [foldl_frame (fun st => st.localIdentity) _ (by intro st x; simp)]
  simp

theorem afterCachedTopics_directory (s : State) (e : Nat) (info : ComponentDiscoveryInfo) :
    (afterCachedTopics s e info).components = s.components ∧
    (afterCachedTopics s e info).localIdentity = s.localIdentity := by
  unfold afterCachedTopics
  constructor
  · rw [foldl_frame (fun st => st.components) _ (by intro st x; simp),
      foldl_frame (fun st => st.components) _ (by intro st x; simp)]
    simp
  · rw [foldl_frame (fun st => st.localIdentity) _ (by intro st x; simp),
      foldl_frame (fun st => st.localIdentity) _ (by intro st x; simp)]
    simp

/-- `NewEndpointHandler` leaves the directory and the local identity alone. -/
theorem NewEndpointHandler_directory (s : State) (e : Nat) :
    (NewEndpointHandler s e).components = s.components ∧
    (NewEndpointHandler s e).localIdentity = s.localIdentity := by
  by_cases hlocal : (s.heap e).isLocal = true
  · simp [NewEndpointHandler, hlocal]
  · have hremote : (s.heap e).isLocal = false := by simpa using hlocal
    by_cases hid : (s.heap e).identity = s.localIdentity
    · have h : NewEndpointHandler s e =
          UnregisterEndpoint (Stop (RegisterPublication
            (RegisterPublication s e "discovery::RegisterComponent") e
            "discovery::Welcome") e) e := by
        simp [NewEndpointHandler, hremote, hid]
      rw [h]
      simp
    · rw [NewEndpointHandler_eq s e hremote hid]
      split
      · simp
      · rename_i info _
        obtain ⟨h1, h2⟩ := afterCachedTopics_directory s e info
        simp [h1, h2]

theorem WelcomeMessageHandler_directory (s : State) (e : Nat) :
    (WelcomeMessageHandler s e).components = s.components ∧
    (WelcomeMessageHandler s e).localIdentity = s.localIdentity := by
  simp only [WelcomeMessageHandler]
  split
  · exact ⟨rfl, rfl⟩
  · split <;> simp [SetReceivedWelcome]

theorem componentsLoop_localIdentity (cfg : Config) (RegistrationTTL : Int)
    (connectFails : String → String → Bool) (now : Int) (fuel : Nat) :
    ∀ (pending : List (String × ComponentDiscoveryInfo)) (st s' : State),
    componentsLoop cfg RegistrationTTL connectFails now fuel pending st = some (Except.ok s') →
    s'.localIdentity = st.localIdentity := by
  induction fuel with
  | zero =>
    intro pending st s' h
    cases pending with
    | nil =>
      rw [componentsLoop_nil] at h
      injection h with h; injection h with h; subst h
      rfl
    | cons kv rest => rw [componentsLoop_zero] at h; simp at h
  | succ fuel ih =>
    intro pending st s' h
    cases pending with
    | nil =>
      rw [componentsLoop_nil] at h
      injection h with h; injection h with h; subst h
      rfl
    | cons kv rest =>
      obtain ⟨identity, info⟩ := kv
      by_cases h1 : identity = st.localIdentity
      · rw [componentsLoop_succ, if_pos h1] at h
        exact ih _ st s' h
      · by_cases h2 : (GetObject cfg "endpoint" identity).isSome = true
        · rw [componentsLoop_succ, if_neg h1, if_pos h2] at h
          exact ih _ st s' h
        · by_cases h3 : info.LastSeen < now - RegistrationTTL
          · rw [componentsLoop_succ, if_neg h1, if_neg h2, if_pos h3] at h
            have hrec := ih rest _ s' h
            exact hrec
          · have h2' : GetObject cfg "endpoint" identity = none := by
              cases hg : GetObject cfg "endpoint" identity with
              | none => rfl
              | some o => simp [hg] at h2
            rcases componentsLoop_fresh cfg RegistrationTTL connectFails now fuel identity info
              rest st h1 h2' h3 with ⟨_, hbad⟩ | ⟨s2, heq, _, _, q3, _⟩
            · rw [hbad] at h; simp at h
            · rw [heq] at h
              exact (ih rest s2 s' h).trans q3

/-- Every handler keeps the local identity, and keeps the local identity out
of the directory. -/
theorem stepInput_local (cfg : Config) (Match : String → String → Bool)
    (RegistrationTTL : Int) (connectFails : String → String → Bool) (now : Int) (s : State)
    (input : Input) (s' : State)
    (h : stepInput cfg Match RegistrationTTL connectFails now s input = some (Except.ok s'))
    (hinv : mapFind s.components s.localIdentity = none) :
    s'.localIdentity = s.localIdentity ∧ mapFind s'.components s'.localIdentity = none := by
  have process : ∀ identity message trusted,
      ProcessDiscoveryMessage cfg Match now s identity message trusted = Except.ok s' →
      s'.localIdentity = s.localIdentity ∧ mapFind s'.components s'.localIdentity = none := by
    intro identity message trusted hp
    obtain ⟨r1, _, r3⟩ := ProcessDiscoveryMessage_rel cfg Match now s identity message trusted
      s' hp
    by_cases hid : identity = s.localIdentity
    · have hs : s' = s := by
        unfold ProcessDiscoveryMessage at hp
        rw [if_pos hid] at hp
        injection hp with hp
        exact hp.symm
      subst hs
      exact ⟨rfl, hinv⟩
    · obtain ⟨roles, _, hs'⟩ := ProcessDiscoveryMessage_ok cfg Match now s identity message
        trusted s' hid hp
      have hl : s'.localIdentity = s.localIdentity := by
        rw [hs', processResult_localIdentity]
      refine ⟨hl, ?_⟩
      rw [hl, r1 _ (Ne.symm hid)]
      exact hinv
  cases input with
  | event ev =>
    cases ev with
    | announce request =>
      simp only [stepInput, step, Option.some.injEq] at h
      unfold NewComponentMessageHandler at h
      cases hi : (request.params.getD emptyMessage).identity with
      | none =>
        simp only [hi] at h
        injection h with h
        subst h
        exact ⟨rfl, hinv⟩
      | some identity =>
        simp only [hi] at h
        exact process _ _ _ h
    | register sender request =>
      simp only [stepInput, step, Option.some.injEq] at h
      exact process _ _ _ h
    | tick fuel =>
      simp only [stepInput, step] at h
      have hl : s'.localIdentity = s.localIdentity := by
        unfold DiscoveryTimerHandler at h
        cases hr : reconnectLoop connectFails (GetObjects cfg "endpoint") s with
        | error f => simp [hr] at h
        | ok s1 =>
          simp only [hr] at h
          obtain ⟨_, c2, _, _⟩ := reconnectLoop_ok _ _ _ _ hr
          exact (componentsLoop_localIdentity cfg RegistrationTTL connectFails now fuel _ s1
            s' h).trans c2
      refine ⟨hl, ?_⟩
      rw [hl]
      cases hk : mapFind s'.components s.localIdentity with
      | none => rfl
      | some i' =>
        obtain ⟨i, hi, _⟩ := DiscoveryTimerHandler_rel cfg RegistrationTTL connectFails now
          fuel s s' h _ i' hk
        rw [hinv] at hi
        simp at hi
  | welcome sender =>
    simp only [stepInput, Option.some.injEq, Except.ok.injEq] at h
    subst h
    obtain ⟨h1, h2⟩ := WelcomeMessageHandler_directory s sender
    rw [h2, h1]
    exact ⟨rfl, hinv⟩
  | newEndpoint endpoint =>
    simp only [stepInput, Option.some.injEq, Except.ok.injEq] at h
    subst h
    obtain ⟨h1, h2⟩ := NewEndpointHandler_directory s endpoint
    rw [h2, h1]
    exact ⟨rfl, hinv⟩

/-- C18: `ProcessDiscoveryMessage` under the local identity returns the state
it was given, so that nothing is changed and nothing is sent; and from an
empty directory, no sequence of announce, register and welcome messages, new
endpoints and timer ticks whose handlers return leaves a directory entry for
the local identity. -/
theorem C18_self_announcements_ignored (cfg : Config) (Match : String → String → Bool)
    (RegistrationTTL : Int) (connectFails : String → String → Bool) :
    (∀ (now : Int) (s : State) (message : DiscoveryMessage) (trusted : Bool),
      ProcessDiscoveryMessage cfg Match now s s.localIdentity message trusted = Except.ok s) ∧
    (∀ (inputs : List (Int × Input)) (s s' : State),
      s.components = [] →
      runInputs cfg Match RegistrationTTL connectFails inputs s = some s' →
      s'.localIdentity = s.localIdentity ∧ mapFind s'.components s.localIdentity = none) := by
  constructor
  · intro now s message trusted
    simp [ProcessDiscoveryMessage]
  · intro inputs s s' hempty h
    have gen : ∀ (inputs : List (Int × Input)) (s s' : State),
        mapFind s.components s.localIdentity = none →
        runInputs cfg Match RegistrationTTL connectFails inputs s = some s' →
        s'.localIdentity = s.localIdentity ∧ mapFind s'.components s'.localIdentity = none := by
      intro inputs
      induction inputs with
      | nil =>
        intro s s' hinv h
        simp only [runInputs, Option.some.injEq] at h
        subst h
        exact ⟨rfl, hinv⟩
      | cons x rest ih =>
        intro s s' hinv h
        obtain ⟨now, input⟩ := x
        simp only [runInputs] at h
        cases hst : stepInput cfg Match RegistrationTTL connectFails now s input with
        | none => simp [hst] at h
        | some r =>
          cases r with
          | error f => simp [hst] at h
          | ok s1 =>
            simp only [hst] at h
            obtain ⟨a1, a2⟩ := stepInput_local cfg Match RegistrationTTL connectFails now s
              input s1 hst hinv
            obtain ⟨b1, b2⟩ := ih s1 s' a2 h
            exact ⟨b1.trans a1, b2⟩
    obtain ⟨g1, g2⟩ := gen inputs s s' (by rw [hempty]; rfl) h
    exact ⟨g1, by rw [← g1]; exact g2⟩

/-- Instance of C18: `selfAnnounceInputs` run on `meshState`, whose directory
is empty. -/
theorem C18_self_announcements_ignored_witness :
    meshState.components = [] ∧
    ∃ s', runInputs roleConfig exactMatch 300 (fun _ _ => false) selfAnnounceInputs meshState =
        some s' ∧
      s'.localIdentity = meshState.localIdentity ∧
      mapFind s'.components meshState.localIdentity = none :=
  ⟨rfl,
    match Option.isSome_iff_exists.mp
      (show (runInputs roleConfig exactMatch 300 (fun _ _ => false) selfAnnounceInputs
        meshState).isSome = true from rfl) with
    | ⟨s', h⟩ =>
      ⟨s', h, (C18_self_announcements_ignored roleConfig exactMatch 300 (fun _ _ => false)).2
        selfAnnounceInputs meshState s' rfl h⟩⟩

/-! ## Reconnecting to the configured peers -/

/-- What the first loop of the timer handler does when no connection attempt
throws: it asks for the connections `reconnectTarget` names, in the order of
the configuration objects. -/
theorem reconnectLoop_connections (connectFails : String → String → Bool)
    (hconn : ∀ node service, connectFails node service = false)
    (objects : List ConfigObject) (s : State) :
    reconnectLoop connectFails objects s =
      Except.ok { s with connections := s.connections ++ objects.filterMap (reconnectTarget s) } := by
  induction objects generalizing s with
  | nil => simp [reconnectLoop]
  | cons object rest ih =>
    simp only [reconnectLoop, List.filterMap_cons, reconnectTarget]
    by_cases hreg : (GetEndpointByIdentity s object.name).isSome = true
    · simp only [hreg, if_true]
      exact ih s
    · simp only [hreg, Bool.false_eq_true, if_false]
      cases hn : object.GetPropertyString "node" with
      | none => simp only []; exact ih s
      | some node =>
        cases hs : object.GetPropertyString "service" with
        | none => simp only []; exact ih s
        | some service =>
          simp only [AddConnection, hconn, Bool.false_eq_true, if_false]
          rw [ih]
          have hcongr : reconnectTarget
              { s with connections := s.connections ++ [(node, service)] } =
              reconnectTarget s := funext (fun _ => rfl)
          simp [hcongr]

/-- C16, what the code does instead: the first loop of the timer handler skips
a configured peer as soon as an endpoint is registered under its name,
connected or not.  In `lostPeerState` the endpoint of the configured peer "B"
is registered but `disconnected`: the tick asks for a connection to "D" only,
not to "B". -/
theorem C16_disconnected_peer_not_reconnected :
    GetEndpointByIdentity lostPeerState "B" = some 1 ∧
    (lostPeerState.heap 1).IsConnected = false ∧
    reconnectTarget lostPeerState
      { typ := "endpoint", name := "B",
        properties := [("node", Property.str "10.0.0.2"), ("service", Property.str "5665")] } =
      none ∧
    connectionsAfter (DiscoveryTimerHandler peerConfig 300 (fun _ _ => false) 1000 0
      lostPeerState) = some [("10.0.0.4", "5665")] :=
  ⟨by decide, by decide, by decide, by decide⟩

/-! ## Keep-alive and reconnect in the timer tick -/

theorem digitChar_ne_newline : ∀ d, d < 10 → Nat.digitChar d ≠ '\n' := by
  decide

theorem toDigitsCore_noNL (fuel : Nat) : ∀ (n : Nat) (ds : List Char), '\n' ∉ ds →
    '\n' ∉ Nat.toDigitsCore 10 fuel n ds := by
  induction fuel with
  | zero => intro n ds h; simpa [Nat.toDigitsCore] using h
  | succ fuel ih =>
    intro n ds h
    have hds : '\n' ∉ Nat.digitChar (n % 10) :: ds := by
      intro hmem
      rcases List.mem_cons.mp hmem with e | e
      · exact digitChar_ne_newline _ (Nat.mod_lt n (by decide)) e.symm
      · exact h e
    simp only [Nat.toDigitsCore]
    split
    · exact hds
    · exact ih _ _ hds

theorem showNat_noNL (n : Nat) : '\n' ∉ showNat n :=
  toDigitsCore_noNL _ _ _ (by simp)

theorem showInt_noNL (n : Int) : '\n' ∉ showInt n := by
  cases n with
  | ofNat n => exact showNat_noNL n
  | negSucc n =>
    intro hmem
    rcases List.mem_cons.mp hmem with e | e
    · exact absurd e (by decide)
    · exact showNat_noNL _ e

theorem render_cons_value (env : Env) (p : Nat) (v : Item) (rest : List Item)
    (h : v.isValue = true) :
    render env p (v :: rest) = renderItem env p v ++ render env p rest := by
  cases v with
  | str text => simp [renderItem, render]
  | int n => simp [renderItem, render]
  | dbl x => simp [renderItem, render]
  | setprecision n => simp [Item.isValue] at h

theorem attributeLines_done (env : Env) (p : Nat) :
    AttributeLines (render env p [Item.int 999, Item.str "\n\n"]) :=
  ⟨[], by simp, rfl⟩

theorem attributeLines_cons (k : Nat) (v rest : List Char) (hv : '\n' ∉ v)
    (h : AttributeLines rest) : AttributeLines (showNat k ++ '=' :: (v ++ '\n' :: rest)) := by
  obtain ⟨attrs, hattrs, hrest⟩ := h
  refine ⟨(k, v) :: attrs, ?_, ?_⟩
  · intro a ha
    rcases List.mem_cons.mp ha with e | e
    · rw [e]; exact hv
    · exact hattrs a e
  · rw [hrest]
    simp [attrLine]

/-- An attribute line whose value is one operand. -/
theorem attr1 (env : Env) (p : Nat) (k : Nat) (v : Item) (rest : List Item)
    (hval : v.isValue = true) (hv : '\n' ∉ renderItem env p v)
    (h : AttributeLines (render env p rest)) :
    AttributeLines (render env p
      (Item.int (Int.ofNat k) :: Item.str "=" :: v :: Item.str "\n" :: rest)) := by
  have e : render env p (Item.int (Int.ofNat k) :: Item.str "=" :: v :: Item.str "\n" :: rest) =
      showNat k ++ '=' :: (renderItem env p v ++ '\n' :: render env p rest) := by
    simp only [render, showInt]
    rw [render_cons_value env p v _ hval]
    simp [render]
  rw [e]
  exact attributeLines_cons k _ _ hv h

/-- The attribute line of a time stamp: the precision is set, then a `double`
is written. -/
theorem attrTime (env : Env) (p q : Nat) (k : Nat) (x : Float) (rest : List Item)
    (hv : '\n' ∉ (env.formatDouble q x).data) (h : AttributeLines (render env q rest)) :
    AttributeLines (render env p
      (Item.int (Int.ofNat k) :: Item.str "=" :: Item.setprecision q :: Item.dbl x ::
        Item.str "\n" :: rest)) := by
  have e : render env p (Item.int (Int.ofNat k) :: Item.str "=" :: Item.setprecision q ::
      Item.dbl x :: Item.str "\n" :: rest) =
      showNat k ++ '=' :: ((env.formatDouble q x).data ++ '\n' :: render env q rest) := by
    simp [render, showInt]
  rw [e]
  exact attributeLines_cons k _ _ hv h

/-- An attribute line whose value is written with five operands. -/
theorem attr5 (env : Env) (p : Nat) (k : Nat) (v1 v2 v3 v4 v5 : Item) (rest : List Item)
    (h1 : v1.isValue = true) (h2 : v2.isValue = true) (h3 : v3.isValue = true)
    (h4 : v4.isValue = true) (h5 : v5.isValue = true)
    (n1 : '\n' ∉ renderItem env p v1) (n2 : '\n' ∉ renderItem env p v2)
    (n3 : '\n' ∉ renderItem env p v3) (n4 : '\n' ∉ renderItem env p v4)
    (n5 : '\n' ∉ renderItem env p v5) (h : AttributeLines (render env p rest)) :
    AttributeLines (render env p
      (Item.int (Int.ofNat k) :: Item.str "=" :: v1 :: v2 :: v3 :: v4 :: v5 ::
        Item.str "\n" :: rest)) := by
  have e : render env p (Item.int (Int.ofNat k) :: Item.str "=" :: v1 :: v2 :: v3 :: v4 ::
      v5 :: Item.str "\n" :: rest) =
      showNat k ++ '=' :: ((renderItem env p v1 ++ renderItem env p v2 ++ renderItem env p v3 ++
        renderItem env p v4 ++ renderItem env p v5) ++ '\n' :: render env p rest) := by
    simp only [render, showInt]
    rw [render_cons_value env p v1 _ h1, render_cons_value env p v2 _ h2,
      render_cons_value env p v3 _ h3, render_cons_value env p v4 _ h4,
      render_cons_value env p v5 _ h5]
    simp [render]
  rw [e]
  refine attributeLines_cons k _ _ ?_ h
  simp only [List.mem_append, not_or]
  exact ⟨⟨⟨⟨n1, n2⟩, n3⟩, n4⟩, n5⟩

/-- A record that starts with one line end. -/
theorem framed_one (env : Env) (p : Nat) (tc : Nat) (rest : List Item)
    (h : AttributeLines (render env p rest)) :
    Framed tc (render env p
      (Item.str "\n" :: Item.int (Int.ofNat tc) :: Item.str ":" :: Item.str "\n" :: rest)) :=
  ⟨1, by decide, _, h, by simp [render, showInt]⟩

/-- A record that starts with two line ends. -/
theorem framed_two (env : Env) (p : Nat) (tc : Nat) (rest : List Item)
    (h : AttributeLines (render env p rest)) :
    Framed tc (render env p
      (Item.str "\n\n" :: Item.int (Int.ofNat tc) :: Item.str ":" :: Item.str "\n" :: rest)) :=
  ⟨2, by decide, _, h, by simp [render, showInt]⟩

theorem renderItem_str (env : Env) (p : Nat) (text : String) :
    renderItem env p (Item.str text) = text.data := by
  simp [renderItem, render]

theorem renderItem_int (env : Env) (p : Nat) (n : Int) :
    renderItem env p (Item.int n) = showInt n := by
  simp [renderItem, render]

theorem renderItem_dbl (env : Env) (p : Nat) (x : Float) :
    renderItem env p (Item.dbl x) = (env.formatDouble p x).data := by
  simp [renderItem, render]

theorem str_noNL (env : Env) (p : Nat) (text : String) (h : '\n' ∉ text.data) :
    '\n' ∉ renderItem env p (Item.str text) := by
  rw [renderItem_str]; exact h

theorem int_noNL (env : Env) (p : Nat) (n : Int) : '\n' ∉ renderItem env p (Item.int n) := by
  rw [renderItem_int]; exact showInt_noNL n

theorem dbl_noNL (env : Env) (p : Nat) (x : Float)
    (hfmt : ∀ q y, '\n' ∉ (env.formatDouble q y).data) :
    '\n' ∉ renderItem env p (Item.dbl x) := by
  rw [renderItem_dbl]; exact hfmt p x

/-- The start record that `demoEnv` writes, as text. -/
theorem startConfigDump_demo :
    (StartConfigDump demoEnv demoExporter).sent =
      ["\n\n900:\n245=RETAINED\n4=1355233463.5\n999\n\n"] := by
  decide

theorem checkResultString_noNL (cr : Option CheckResult) (get : CheckResult → String)
    (h : ∀ c, cr = some c → '\n' ∉ (get c).data) :
    '\n' ∉ (checkResultString cr get).data := by
  cases cr with
  | none => simp [checkResultString]
  | some c => exact h c rfl

/-- C19: when the name and the alias of the host, the name of the host of the
service, the alias of the service and the output and the performance data of
its last check result hold no line end, and `operator<<` writes no line end
for a `double`, then each of `DumpHostStatus`, `DumpServiceStatus`,
`DumpProgramStatusData`, `DumpHostObject`, `DumpServiceObject`,
`StartConfigDump` and `EndConfigDump` sends one message, and that message is
empty lines, the line of its type code (212, 213, 211, 400, 402, 900, 901)
with a colon, lines `key=value` with an integer key, the line `999` and an
empty line. -/
theorem C19_record_framing (env : Env) (k : Exporter) (host : Host) (service : Service)
    (hfmt : ∀ p x, '\n' ∉ (env.formatDouble p x).data)
    (hname : '\n' ∉ host.GetName.data) (halias : '\n' ∉ host.GetAlias.data)
    (hshost : '\n' ∉ service.GetHost.GetName.data) (hsalias : '\n' ∉ service.GetAlias.data)
    (hcr : ∀ c, service.GetLastCheckResult = some c →
      '\n' ∉ c.output.data ∧ '\n' ∉ c.performance_data_raw.data) :
    (∃ m, (DumpHostStatus env k host).sent = k.sent ++ [m] ∧ Framed 212 m.data) ∧
    (∃ m, (DumpServiceStatus env k service).sent = k.sent ++ [m] ∧ Framed 213 m.data) ∧
    (∃ m, (DumpProgramStatusData env k).sent = k.sent ++ [m] ∧ Framed 211 m.data) ∧
    (∃ m, (DumpHostObject env k host).sent = k.sent ++ [m] ∧ Framed 400 m.data) ∧
    (∃ m, (DumpServiceObject env k service).sent = k.sent ++ [m] ∧ Framed 402 m.data) ∧
    (∃ m, (StartConfigDump env k).sent = k.sent ++ [m] ∧ Framed 900 m.data) ∧
    (∃ m, (EndConfigDump env k).sent = k.sent ++ [m] ∧ Framed 901 m.data) := by
  have hout := checkResultString_noNL service.GetLastCheckResult CheckResult.output
    (fun c hc => (hcr c hc).1)
  have hperf := checkResultString_noNL service.GetLastCheckResult
    CheckResult.performance_data_raw (fun c hc => (hcr c hc).2)
  refine ⟨⟨_, rfl, ?_⟩, ⟨_, rfl, ?_⟩, ⟨_, rfl, ?_⟩, ⟨_, rfl, ?_⟩, ⟨_, rfl, ?_⟩, ⟨_, rfl, ?_⟩,
    ⟨_, rfl, ?_⟩⟩ <;>
  (first
    | refine framed_one env 6 _ _ ?_
    | refine framed_two env 6 _ _ ?_) <;>
  repeat first
    | exact attributeLines_done env _
    | refine attr1 env _ _ _ _ rfl
        (by first
          | exact int_noNL env _ _
          | exact dbl_noNL env _ _ hfmt
          | exact str_noNL env _ _ (by first | assumption | decide)) ?_
    | refine attrTime env _ _ _ _ _ (hfmt _ _) ?_
    | refine attr5 env _ _ _ _ _ _ _ _ rfl rfl rfl rfl rfl
        (str_noNL env _ _ (by decide)) (str_noNL env _ _ (by decide))
        (by first | exact int_noNL env _ _ | exact str_noNL env _ _ (by decide))
        (str_noNL env _ _ (by decide)) (str_noNL env _ _ (by decide)) ?_

/-- Instance of C19: the records of `demoHost` and `demoService` in
`demoEnv`, sent by an exporter that has sent nothing before. -/
theorem C19_record_framing_witness :
    (∀ (p : Nat) (x : Float), '\n' ∉ (demoEnv.formatDouble p x).data) ∧
    '\n' ∉ demoHost.GetName.data ∧ '\n' ∉ demoHost.GetAlias.data ∧
    '\n' ∉ demoService.GetHost.GetName.data ∧ '\n' ∉ demoService.GetAlias.data ∧
    (∀ c, demoService.GetLastCheckResult = some c →
      '\n' ∉ c.output.data ∧ '\n' ∉ c.performance_data_raw.data) ∧
    ((∃ m, (DumpHostStatus demoEnv demoExporter demoHost).sent = demoExporter.sent ++ [m] ∧
        Framed 212 m.data) ∧
     (∃ m, (DumpServiceStatus demoEnv demoExporter demoService).sent =
        demoExporter.sent ++ [m] ∧ Framed 213 m.data) ∧
     (∃ m, (DumpProgramStatusData demoEnv demoExporter).sent = demoExporter.sent ++ [m] ∧
        Framed 211 m.data) ∧
     (∃ m, (DumpHostObject demoEnv demoExporter demoHost).sent = demoExporter.sent ++ [m] ∧
        Framed 400 m.data) ∧
     (∃ m, (DumpServiceObject demoEnv demoExporter demoService).sent =
        demoExporter.sent ++ [m] ∧ Framed 402 m.data) ∧
     (∃ m, (StartConfigDump demoEnv demoExporter).sent = demoExporter.sent ++ [m] ∧
        Framed 900 m.data) ∧
     (∃ m, (EndConfigDump demoEnv demoExporter).sent = demoExporter.sent ++ [m] ∧
        Framed 901 m.data)) :=
  have hfmt : ∀ (p : Nat) (x : Float), '\n' ∉ (demoEnv.formatDouble p x).data :=
    fun _ _ => (by decide : '\n' ∉ "1355233463.5".data)
  have hcr : ∀ c, demoService.GetLastCheckResult = some c →
      '\n' ∉ c.output.data ∧ '\n' ∉ c.performance_data_raw.data := by
    intro c hc
    cases hc
    exact ⟨by decide, by decide⟩
  ⟨hfmt, by decide, by decide, by decide, by decide, hcr,
    C19_record_framing demoEnv demoExporter demoHost demoService hfmt (by decide) (by decide)
      (by decide) (by decide) hcr⟩

/-! ## The records of a configuration dump -/

theorem typecode_startConfigDump (env : Env) (k : Exporter) :
    typecode (messageStr env (startConfigDumpItems env k)) = some 900 := rfl

theorem typecode_endConfigDump (env : Env) (k : Exporter) :
    typecode (messageStr env (endConfigDumpItems env k)) = some 901 := rfl

theorem typecode_hostObject (env : Env) (k : Exporter) (host : Host) :
    typecode (messageStr env (hostObjectItems env k host)) = some 400 := rfl

theorem typecode_serviceObject (env : Env) (k : Exporter) (service : Service) :
    typecode (messageStr env (serviceObjectItems env k service)) = some 402 := rfl

theorem typecode_hostGroup (env : Env) (k : Exporter) (name groupAlias : String)
    (hosts : List String) :
    typecode (messageStr env (hostGroupItems env k name groupAlias hosts)) = some 401 := rfl

theorem typecode_serviceGroup (env : Env) (k : Exporter) (name groupAlias : String)
    (services : List Service) :
    typecode (messageStr env (serviceGroupItems env k name groupAlias services)) = some 403 :=
  rfl

/-- The loop over the hosts sends one record of type 400 for every host. -/
theorem dumpHosts_sent (env : Env) (hosts : List Host) :
    ∀ acc : List (String × List String) × Exporter,
    ∃ records, (dumpHosts env hosts acc).2.sent = acc.2.sent ++ records ∧
      records.map typecode = List.replicate hosts.length (some 400) := by
  induction hosts with
  | nil => intro acc; exact ⟨[], by simp [dumpHosts], rfl⟩
  | cons host rest ih =>
    intro acc
    obtain ⟨records, h1, h2⟩ :=
      ih (collectGroups acc.1 host.GetGroups host.GetName, DumpHostObject env acc.2 host)
    refine ⟨messageStr env (hostObjectItems env acc.2 host) :: records, ?_, ?_⟩
    · rw [dumpHosts, h1]
      simp [DumpHostObject, SendMessage]
    · rw [List.map_cons, h2, typecode_hostObject]
      rfl

/-- The loop over the services sends one record of type 402 for every
service. -/
theorem dumpServices_sent (env : Env) (services : List Service) :
    ∀ acc : List (String × List Service) × Exporter,
    ∃ records, (dumpServices env services acc).2.sent = acc.2.sent ++ records ∧
      records.map typecode = List.replicate services.length (some 402) := by
  induction services with
  | nil => intro acc; exact ⟨[], by simp [dumpServices], rfl⟩
  | cons service rest ih =>
    intro acc
    obtain ⟨records, h1, h2⟩ :=
      ih (collectGroups acc.1 service.GetGroups service, DumpServiceObject env acc.2 service)
    refine ⟨messageStr env (serviceObjectItems env acc.2 service) :: records, ?_, ?_⟩
    · rw [dumpServices, h1]
      simp [DumpServiceObject, SendMessage]
    · rw [List.map_cons, h2, typecode_serviceObject]
      rfl

/-- The loop over the host groups sends records of type 401 only, at most
one for every group. -/
theorem dumpHostGroups_sent (env : Env) (objects : Objects)
    (groups : List (String × List String)) :
    ∀ k : Exporter, ∃ records, (dumpHostGroups env objects groups k).sent = k.sent ++ records ∧
      records.map typecode = List.replicate records.length (some 401) ∧
      records.length ≤ groups.length := by
  induction groups with
  | nil => intro k; exact ⟨[], by simp [dumpHostGroups], rfl, by simp⟩
  | cons hgt rest ih =>
    intro k
    cases hex : mapFind objects.hostGroups hgt.1 with
    | none =>
      obtain ⟨records, h1, h2, h3⟩ := ih k
      refine ⟨records, ?_, h2, ?_⟩
      · rw [dumpHostGroups]; simp only [hex]; exact h1
      · simp only [List.length_cons]; omega
    | some groupAlias =>
      obtain ⟨records, h1, h2, h3⟩ := ih (SendMessage { k with timeCalls := k.timeCalls + 1 }
        (messageStr env (hostGroupItems env k hgt.1 groupAlias hgt.2)))
      refine ⟨messageStr env (hostGroupItems env k hgt.1 groupAlias hgt.2) :: records,
        ?_, ?_, ?_⟩
      · rw [dumpHostGroups]; simp only [hex]; rw [h1]
        simp [SendMessage]
      · rw [List.map_cons, h2, typecode_hostGroup]
        rfl
      · simp only [List.length_cons]; omega

/-- The loop over the service groups sends records of type 403 only, at most
one for every group. -/
theorem dumpServiceGroups_sent (env : Env) (objects : Objects)
    (groups : List (String × List Service)) :
    ∀ k : Exporter,
    ∃ records, (dumpServiceGroups env objects groups k).sent = k.sent ++ records ∧
      records.map typecode = List.replicate records.length (some 403) ∧
      records.length ≤ groups.length := by
  induction groups with
  | nil => intro k; exact ⟨[], by simp [dumpServiceGroups], rfl, by simp⟩
  | cons sgt rest ih =>
    intro k
    cases hex : mapFind objects.serviceGroups sgt.1 with
    | none =>
      obtain ⟨records, h1, h2, h3⟩ := ih k
      refine ⟨records, ?_, h2, ?_⟩
      · rw [dumpServiceGroups]; simp only [hex]; exact h1
      · simp only [List.length_cons]; omega
    | some groupAlias =>
      obtain ⟨records, h1, h2, h3⟩ := ih (SendMessage { k with timeCalls := k.timeCalls + 1 }
        (messageStr env (serviceGroupItems env k sgt.1 groupAlias sgt.2)))
      refine ⟨messageStr env (serviceGroupItems env k sgt.1 groupAlias sgt.2) :: records,
        ?_, ?_, ?_⟩
      · rw [dumpServiceGroups]; simp only [hex]; rw [h1]
        simp [SendMessage]
      · rw [List.map_cons, h2, typecode_serviceGroup]
        rfl
      · simp only [List.length_cons]; omega

/-! ## The error path of a reconnect -/

/-- C24, what the code does instead: the `catch` block of the reconnect
writes `endpoint->GetIdentity()` to the log, and `endpoint` is the null
pointer when no endpoint is registered for the identity.  In `lonePeerState`
the entry of "D" has an address and no endpoint; when the connection attempt
throws, the tick ends with the dereference of the null pointer.  With an
endpoint that is registered and not connected (`lostPeerState` with an entry
for "B") the same failure is logged and the tick returns. -/
theorem C24_catch_dereferences_null_endpoint :
    GetEndpointByIdentity lonePeerState "D" = none ∧
    faultAfter (DiscoveryTimerHandler [] 300 (fun _ _ => true) 1000 1 lonePeerState) =
      some (some Fault.nullDeref) ∧
    GetEndpointByIdentity lostPeerState "B" = some 1 ∧
    faultAfter (DiscoveryTimerHandler [] 300 (fun _ _ => true) 1000 1
      { lostPeerState with components := configuredPeerState.components }) = some none :=
  ⟨by decide, by decide, by decide, by decide⟩

/-! ## Termination of the timer tick -/

/-- C26, what the code does instead: a pass of the loop over the directory
that meets an entry of a configured endpoint takes the `continue` before
`i++` and leaves the iterator where it is.  `peerConfig` has an endpoint
object for "B" and the directory of `configuredPeerState` holds "B": every
pass leaves the loop in the state it was in, and the tick returns for no
amount of fuel. -/
theorem C26_tick_never_advances :
    (GetObject peerConfig "endpoint" "B").isSome = true ∧
    (∀ fuel, componentsLoop peerConfig 300 (fun _ _ => false) 1000 (fuel + 1)
        configuredPeerState.components configuredPeerState =
      componentsLoop peerConfig 300 (fun _ _ => false) 1000 fuel
        configuredPeerState.components configuredPeerState) ∧
    ¬ ∃ fuel r, DiscoveryTimerHandler peerConfig 300 (fun _ _ => false) 1000 fuel
      configuredPeerState = some r := by
  refine ⟨rfl, fun fuel => rfl, ?_⟩
  rintro ⟨fuel, r, h⟩
  have hs : DiscoveryTimerHandler peerConfig 300 (fun _ _ => false) 1000 fuel
      configuredPeerState = none := by
    unfold DiscoveryTimerHandler
    rw [reconnectLoop_connections _ (fun _ _ => rfl)]
    exact componentsLoop_stuck peerConfig 300 _ 1000 "B" _ _ _ (Or.inr (by rfl)) fuel
  rw [hs] at h
  simp at h

/-! ## Announcements are trusted -/

theorem accepts_trusted (cfg : Config) (Match : String → String → Bool)
    (roles : Option Dictionary) (messageType : String) :
    accepts cfg Match roles true messageType = fun _ => true := by
  funext t
  simp [accepts]

theorem processInfo_trusted (cfg : Config) (Match : String → String → Bool) (now : Int)
    (message : DiscoveryMessage) (roles : Option Dictionary) :
    processInfo cfg Match now message true roles =
      addSubscriptions (message.subscriptions.getD [])
        (addPublications (message.publications.getD []) (freshInfo now message)) := by
  simp [processInfo, accepts_trusted]

theorem processResult_trusted_filter (cfg : Config) (Match Match' : String → String → Bool)
    (now : Int) (s : State) (identity : String) (message : DiscoveryMessage)
    (roles : Option Dictionary) :
    processResult cfg Match now s identity message true roles =
      processResult cfg Match' now s identity message true roles := by
  simp only [processResult, processInfo, accepts_trusted]

/-- C28: an announcement that carries a non-local identity, whoever sent it,
is processed by `NewComponentMessageHandler` with `trusted = true`: when the
roles of the identity can be read from the configuration the handler
returns, the outcome does not depend on what the role filter matches, the
directory entry of the identity is replaced by one that is built from the
message alone and holds every topic of the message, every topic of the
message is registered on the endpoint of the identity, and no welcome is sent
and no welcome flag changes. -/
theorem C28_announce_is_trusted (cfg : Config) (Match : String → String → Bool) (now : Int)
    (s : State) (request : RequestMessage) (identity : String) (roles : Option Dictionary)
    (hi : (request.params.getD emptyMessage).identity = some identity)
    (hid : identity ≠ s.localIdentity)
    (hr : senderRoles cfg identity = Except.ok roles) :
    ∃ s', NewComponentMessageHandler cfg Match now s request = Except.ok s' ∧
      (∀ Match', NewComponentMessageHandler cfg Match' now s request = Except.ok s') ∧
      mapFind s'.components identity =
        some (addSubscriptions ((request.params.getD emptyMessage).subscriptions.getD [])
          (addPublications ((request.params.getD emptyMessage).publications.getD [])
            (freshInfo now (request.params.getD emptyMessage)))) ∧
      (∃ info, mapFind s'.components identity = some info ∧ info.LastSeen = now ∧
        (∀ t, t ∈ info.Publications ↔
          t ∈ (request.params.getD emptyMessage).publications.getD []) ∧
        (∀ t, t ∈ info.Subscriptions ↔
          t ∈ (request.params.getD emptyMessage).subscriptions.getD [])) ∧
      (∀ e, GetEndpointByIdentity s identity = some e →
        (∀ t, t ∈ (request.params.getD emptyMessage).publications.getD [] →
          t ∈ (s'.heap e).publications) ∧
        (∀ t, t ∈ (request.params.getD emptyMessage).subscriptions.getD [] →
          t ∈ (s'.heap e).subscriptions)) ∧
      (∀ e, (s'.heap e).sentWelcome = (s.heap e).sentWelcome ∧
        (s'.heap e).receivedWelcome = (s.heap e).receivedWelcome ∧
        welcomesTo e s'.sent = welcomesTo e s.sent) := by
  have hrun : ∀ M : String → String → Bool,
      NewComponentMessageHandler cfg M now s request =
        Except.ok (processResult cfg Match now s identity (request.params.getD emptyMessage)
          true roles) := by
    intro M
    unfold NewComponentMessageHandler
    simp only [hi]
    rw [ProcessDiscoveryMessage_trusted cfg M now s identity _ roles hid hr,
      processResult_trusted_filter cfg M Match]
  have hentry : mapFind (processResult cfg Match now s identity
      (request.params.getD emptyMessage) true roles).components identity =
      some (processInfo cfg Match now (request.params.getD emptyMessage) true roles) := by
    rw [processResult_components, mapFind_mapSet_same]
  obtain ⟨p1, _, _, p4, p5⟩ := processInfo_spec cfg Match now
    (request.params.getD emptyMessage) true roles
  refine ⟨_, hrun Match, hrun, ?_, ⟨_, hentry, p1, ?_, ?_⟩, ?_, ?_⟩
  · rw [hentry, processInfo_trusted]
  · intro t; rw [p4 t]; simp [accepts]
  · intro t; rw [p5 t]; simp [accepts]
  · intro e he
    obtain ⟨q1, q2⟩ := processResult_topics cfg Match now s identity
      (request.params.getD emptyMessage) true roles e he
    constructor
    · intro t ht; rw [q1 t]; exact Or.inr ⟨ht, by simp [accepts]⟩
    · intro t ht; rw [q2 t]; exact Or.inr (Or.inl ⟨ht, by simp [accepts]⟩)
  · intro e
    obtain ⟨w1, w2, w3, _⟩ := processResult_trusted_welcome cfg Match now s identity
      (request.params.getD emptyMessage) roles e
    exact ⟨w1, w2, w3⟩

/-- Instance of C28: the announcement of "C" with `topicsMessage`, which
lists the topic "admin::Shutdown" that no role of "C" grants, processed in
`directoryState`. -/
theorem C28_announce_is_trusted_witness :
    ((({ method := "discovery::NewComponent", params := some topicsMessage } :
      RequestMessage).params.getD emptyMessage).identity = some "C") ∧
    "C" ≠ directoryState.localIdentity ∧
    senderRoles roleConfig "C" = Except.ok (some [("_1", "checker")]) ∧
    ∃ s', NewComponentMessageHandler roleConfig exactMatch 1000 directoryState
        { method := "discovery::NewComponent", params := some topicsMessage } = Except.ok s' ∧
      (mapFind s'.components "C").map (fun i => i.Publications) =
        some ["admin::Shutdown", "checker::Result", "other::Topic"] ∧
      welcomesTo 3 s'.sent = welcomesTo 3 directoryState.sent := by
  refine ⟨rfl, by decide, rfl, ?_⟩
  obtain ⟨s', h1, _, h3, _, _, h6⟩ := C28_announce_is_trusted roleConfig exactMatch 1000
    directoryState { method := "discovery::NewComponent", params := some topicsMessage } "C"
    (some [("_1", "checker")]) rfl (by decide) rfl
  refine ⟨s', h1, ?_, (h6 3).2.2⟩
  rw [h3]
  decide

/-! ## The configuration of the IDO sink -/

/-- C21: `GetSocketAddress`, `GetSocketPort` and `GetInstanceName` return
the value configured under "socket_address", "socket_port" and
"instance_name", converted to a string, when `IsEmpty` does not hold for it,
and "127.0.0.1", "5668" and "i2-default" when it does; a configuration that
sets the port only yields the port set and the two other defaults. -/
theorem C21_sink_defaults (IsEmpty : Value → Bool) (asString : Value → String)
    (config : ValueMap) :
    (IsEmpty (config.Get "socket_address") = false →
      GetSocketAddress IsEmpty asString config = asString (config.Get "socket_address")) ∧
    (IsEmpty (config.Get "socket_address") = true →
      GetSocketAddress IsEmpty asString config = "127.0.0.1") ∧
    (IsEmpty (config.Get "socket_port") = false →
      GetSocketPort IsEmpty asString config = asString (config.Get "socket_port")) ∧
    (IsEmpty (config.Get "socket_port") = true →
      GetSocketPort IsEmpty asString config = "5668") ∧
    (IsEmpty (config.Get "instance_name") = false →
      GetInstanceName IsEmpty asString config = asString (config.Get "instance_name")) ∧
    (IsEmpty (config.Get "instance_name") = true →
      GetInstanceName IsEmpty asString config = "i2-default") ∧
    GetSocketAddress isEmptyVariant stringOf portOnlyConfig = "127.0.0.1" ∧
    GetSocketPort isEmptyVariant stringOf portOnlyConfig = "5669" ∧
    GetInstanceName isEmptyVariant stringOf portOnlyConfig = "i2-default" := by
  refine ⟨?_, ?_, ?_, ?_, ?_, ?_, by decide, by decide, by decide⟩ <;> intro h <;>
    simp [GetSocketAddress, GetSocketPort, GetInstanceName, h, DefaultSocketAddress,
      DefaultSocketPort, DefaultInstanceName]

/-- Instance of C21: the configuration `portOnlyConfig`, read with
`isEmptyVariant` and `stringOf`. -/
theorem C21_sink_defaults_witness :
    isEmptyVariant (portOnlyConfig.Get "socket_port") = false ∧
    isEmptyVariant (portOnlyConfig.Get "socket_address") = true ∧
    GetSocketPort isEmptyVariant stringOf portOnlyConfig =
      stringOf (portOnlyConfig.Get "socket_port") ∧
    GetSocketAddress isEmptyVariant stringOf portOnlyConfig = "127.0.0.1" :=
  ⟨by decide, by decide,
    (C21_sink_defaults isEmptyVariant stringOf portOnlyConfig).2.2.1 (by decide),
    (C21_sink_defaults isEmptyVariant stringOf portOnlyConfig).2.1 (by decide)⟩

/-! ## The state in the host status record -/

/-- C30, what the code does instead: `DumpHostStatus` computes `state` and
then writes the empty string under key 27, whatever the host.  For the host
`downHost` the state is 1 and for `unreachableHost` it is 2; in both records
the value of key 27 is empty, while the name of the host under key 53 is
written. -/
theorem C30_state_not_written :
    (∀ (env : Env) (k : Exporter) (host : Host),
      ((hostStatusItems env k host).drop 37).take 4 =
        [Item.int 27, Item.str "=", Item.str "", Item.str "\n"]) ∧
    hostStatusState downHost = 1 ∧
    (sentAfter 0 (DumpHostStatus demoEnv demoExporter downHost)).map (fieldValue 27) =
      [some ""] ∧
    (sentAfter 0 (DumpHostStatus demoEnv demoExporter downHost)).map (fieldValue 53) =
      [some "db1"] ∧
    hostStatusState unreachableHost = 2 ∧
    (sentAfter 0 (DumpHostStatus demoEnv demoExporter unreachableHost)).map (fieldValue 27) =
      [some ""] ∧
    hostStatusState demoHost = 0 ∧
    (sentAfter 0 (DumpHostStatus demoEnv demoExporter demoHost)).map (fieldValue 27) =
      [some ""] := by
  refine ⟨fun env k host => rfl, by decide, by decide, by decide, by decide, by decide,
    by decide, by decide⟩

/-! ## Maps stay in key order -/

theorem char_toNat_inj (a b : Char) (h : a.toNat = b.toNat) : a = b := by
  rw [← Char.ofNat_toNat a, ← Char.ofNat_toNat b, h]

theorem ltChars_irrefl (a : List Char) : ltChars a a = false := by
  induction a with
  | nil => rfl
  | cons c cs ih => simp [ltChars, ih]

theorem ltChars_trans : ∀ (a b c : List Char), ltChars a b = true → ltChars b c = true →
    ltChars a c = true := by
  intro a
  induction a with
  | nil =>
    intro b c hab hbc
    cases b with
    | nil => simp [ltChars] at hab
    | cons y ys =>
      cases c with
      | nil => simp [ltChars] at hbc
      | cons z zs => simp [ltChars]
  | cons x xs ih =>
    intro b c hab hbc
    cases b with
    | nil => simp [ltChars] at hab
    | cons y ys =>
      cases c with
      | nil => simp [ltChars] at hbc
      | cons z zs =>
        simp only [ltChars] at hab hbc ⊢
        by_cases h1 : x.toNat < y.toNat
        · by_cases h2 : y.toNat < z.toNat
          · rw [if_pos (by omega)]
          · rw [if_neg h2] at hbc
            by_cases h3 : z.toNat < y.toNat
            · rw [if_pos h3] at hbc; simp at hbc
            · rw [if_pos (by omega)]
        · rw [if_neg h1] at hab
          by_cases h1' : y.toNat < x.toNat
          · rw [if_pos h1'] at hab; simp at hab
          · rw [if_neg h1'] at hab
            by_cases h2 : y.toNat < z.toNat
            · rw [if_pos (by omega)]
            · rw [if_neg h2] at hbc
              by_cases h3 : z.toNat < y.toNat
              · rw [if_pos h3] at hbc; simp at hbc
              · rw [if_neg h3] at hbc
                rw [if_neg (by omega), if_neg (by omega)]
                exact ih ys zs hab hbc

theorem ltChars_total : ∀ (a b : List Char), ltChars a b = false → a ≠ b →
    ltChars b a = true := by
  intro a
  induction a with
  | nil =>
    intro b hab hne
    cases b with
    | nil => exact absurd rfl hne
    | cons y ys => simp [ltChars] at hab
  | cons x xs ih =>
    intro b hab hne
    cases b with
    | nil => simp [ltChars]
    | cons y ys =>
      simp only [ltChars] at hab ⊢
      by_cases h1 : x.toNat < y.toNat
      · rw [if_pos h1] at hab; simp at hab
      · rw [if_neg h1] at hab
        by_cases h2 : y.toNat < x.toNat
        · rw [if_pos h2]
        · rw [if_neg h2] at hab
          rw [if_neg h2, if_neg h1]
          have hxy : x = y := char_toNat_inj x y (by omega)
          apply ih ys hab
          intro e
          apply hne
          rw [hxy, e]

theorem strLt_irrefl (a : String) : strLt a a = false := ltChars_irrefl a.data

theorem strLt_trans (a b c : String) (hab : strLt a b = true) (hbc : strLt b c = true) :
    strLt a c = true := ltChars_trans a.data b.data c.data hab hbc

theorem strLt_total (a b : String) (hab : strLt a b = false) (hne : a ≠ b) :
    strLt b a = true := by
  apply ltChars_total a.data b.data hab
  intro e
  exact hne (String.ext e)

theorem mem_keys_mapSet {α : Type} (k : String) (v : α) (m : List (String × α)) (x : String)
    (h : x ∈ (mapSet k v m).map Prod.fst) : x = k ∨ x ∈ m.map Prod.fst := by
  induction m with
  | nil => simpa [mapSet] using h
  | cons kv m ih =>
    obtain ⟨k', v'⟩ := kv
    unfold mapSet at h
    by_cases h1 : strLt k k' = true
    · rw [if_pos h1] at h
      simpa using h
    · rw [if_neg h1] at h
      by_cases h2 : k = k'
      · rw [if_pos h2] at h
        simp only [List.map_cons, List.mem_cons] at h ⊢
        rcases h with h | h
        · exact Or.inl h
        · exact Or.inr (Or.inr h)
      · rw [if_neg h2] at h
        simp only [List.map_cons, List.mem_cons] at h ⊢
        rcases h with h | h
        · exact Or.inr (Or.inl h)
        · rcases ih h with e | e
          · exact Or.inl e
          · exact Or.inr (Or.inr e)

/-- The assignment `m[k] = v` keeps a map in strict key order. -/
theorem mapSet_sorted {α : Type} (k : String) (v : α) (m : List (String × α))
    (h : (m.map Prod.fst).Pairwise (fun a b => strLt a b = true)) :
    ((mapSet k v m).map Prod.fst).Pairwise (fun a b => strLt a b = true) := by
  induction m with
  | nil => simp [mapSet]
  | cons kv m ih =>
    obtain ⟨k', v'⟩ := kv
    simp only [List.map_cons, List.pairwise_cons] at h
    obtain ⟨hhead, htail⟩ := h
    unfold mapSet
    by_cases h1 : strLt k k' = true
    · rw [if_pos h1]
      simp only [List.map_cons, List.pairwise_cons, List.mem_cons]
      refine ⟨?_, hhead, htail⟩
      intro x hx
      rcases hx with e | e
      · rw [e]; exact h1
      · exact strLt_trans k k' x h1 (hhead x e)
    · rw [if_neg h1]
      by_cases h2 : k = k'
      · rw [if_pos h2]
        simp only [List.map_cons, List.pairwise_cons]
        refine ⟨?_, htail⟩
        intro x hx
        rw [h2]
        exact hhead x hx
      · rw [if_neg h2]
        simp only [List.map_cons, List.pairwise_cons]
        refine ⟨?_, ih htail⟩
        intro x hx
        rcases mem_keys_mapSet k v m x hx with e | e
        · rw [e]
          exact strLt_total k k' (by simpa using h1) h2
        · exact hhead x e

theorem sorted_keys_nodup {α : Type} (m : List (String × α))
    (h : (m.map Prod.fst).Pairwise (fun a b => strLt a b = true)) :
    (m.map Prod.fst).Nodup := by
  apply List.Pairwise.imp _ h
  intro a b hab e
  rw [e, strLt_irrefl] at hab
  exact absurd hab (by decide)

/-! ## The host-group records of a configuration dump -/

theorem dumpHosts_groups (env : Env) (hosts : List Host) :
    ∀ acc : List (String × List String) × Exporter,
    (dumpHosts env hosts acc).1 =
      hosts.foldl (fun m host => collectGroups m host.GetGroups host.GetName) acc.1 := by
  induction hosts with
  | nil => intro acc; rfl
  | cons host rest ih => intro acc; rw [dumpHosts, ih]; rfl

theorem mapFind_pushBack {α : Type} (m : List (String × List α)) (key : String) (v : α)
    (g : String) :
    mapFind (pushBack m key v) g =
      if key = g then some ((mapFind m g).getD [] ++ [v]) else mapFind m g := by
  unfold pushBack
  by_cases h : key = g
  · rw [if_pos h, h, mapFind_mapSet_same]
  · rw [if_neg h, mapFind_mapSet_other key g _ m (Ne.symm h)]

/-- What `collectGroups` leaves under the key `g`: the members it found there,
then `v` once for every time the dictionary names `g`; no key holds an empty
list, and the map stays in key order. -/
theorem collectGroups_spec {α : Type} (dict : Option (List String)) (v : α) (g : String) :
    ∀ m : List (String × List α),
    (∀ x, mapFind m x ≠ some []) →
    (m.map Prod.fst).Pairwise (fun a b => strLt a b = true) →
    (∀ x, mapFind (collectGroups m dict v) x ≠ some []) ∧
    ((collectGroups m dict v).map Prod.fst).Pairwise (fun a b => strLt a b = true) ∧
    (mapFind (collectGroups m dict v) g).getD [] =
      (mapFind m g).getD [] ++
        ((dict.getD []).filter (fun x => decide (x = g))).map (fun _ => v) := by
  cases dict with
  | none => intro m h1 h2; exact ⟨h1, h2, by simp [collectGroups]⟩
  | some names =>
    simp only [collectGroups, Option.getD_some]
    induction names with
    | nil => intro m h1 h2; exact ⟨h1, h2, by simp⟩
    | cons name rest ih =>
      intro m h1 h2
      have h1' : ∀ x, mapFind (pushBack m name v) x ≠ some [] := by
        intro x
        rw [mapFind_pushBack]
        by_cases h : name = x
        · rw [if_pos h]; simp
        · rw [if_neg h]; exact h1 x
      have h2' : ((pushBack m name v).map Prod.fst).Pairwise (fun a b => strLt a b = true) :=
        mapSet_sorted _ _ _ h2
      obtain ⟨r1, r2, r3⟩ := ih (pushBack m name v) h1' h2'
      refine ⟨r1, r2, ?_⟩
      simp only [List.foldl_cons]
      rw [r3, mapFind_pushBack]
      by_cases h : name = g
      · simp [h]
      · simp [h]

/-- The map `hostgroups` after the loop over the hosts. -/
theorem collected_spec (hosts : List Host) (g : String) :
    ∀ m : List (String × List String),
    (∀ x, mapFind m x ≠ some []) →
    (m.map Prod.fst).Pairwise (fun a b => strLt a b = true) →
    (∀ x, mapFind (hosts.foldl (fun m host => collectGroups m host.GetGroups host.GetName) m)
      x ≠ some []) ∧
    ((hosts.foldl (fun m host => collectGroups m host.GetGroups host.GetName) m).map
      Prod.fst).Pairwise (fun a b => strLt a b = true) ∧
    (mapFind (hosts.foldl (fun m host => collectGroups m host.GetGroups host.GetName) m)
      g).getD [] = (mapFind m g).getD [] ++ groupMembers hosts g := by
  induction hosts with
  | nil => intro m h1 h2; exact ⟨h1, h2, by simp [groupMembers]⟩
  | cons host rest ih =>
    intro m h1 h2
    obtain ⟨c1, c2, c3⟩ := collectGroups_spec host.GetGroups host.GetName g m h1 h2
    obtain ⟨r1, r2, r3⟩ := ih (collectGroups m host.GetGroups host.GetName) c1 c2
    refine ⟨r1, r2, ?_⟩
    simp only [List.foldl_cons]
    rw [r3, c3]
    simp [groupMembers]

/-- The loop over `hostgroups` sends one record for every entry whose group
exists, in the order of the entries, and nothing else. -/
theorem dumpHostGroups_records (env : Env) (objects : Objects)
    (groups : List (String × List String)) :
    ∀ k : Exporter, ∃ records, (dumpHostGroups env objects groups k).sent = k.sent ++ records ∧
      List.Forall₂ (IsHostGroupRecord env objects)
        (groups.filter (fun e => (mapFind objects.hostGroups e.1).isSome)) records := by
  induction groups with
  | nil => intro k; exact ⟨[], by simp [dumpHostGroups], by simp⟩
  | cons hgt rest ih =>
    intro k
    cases hex : mapFind objects.hostGroups hgt.1 with
    | none =>
      obtain ⟨records, h1, h2⟩ := ih k
      refine ⟨records, ?_, ?_⟩
      · rw [dumpHostGroups]; simp only [hex]; exact h1
      · simpa [List.filter_cons, hex] using h2
    | some groupAlias =>
      obtain ⟨records, h1, h2⟩ := ih (SendMessage { k with timeCalls := k.timeCalls + 1 }
        (messageStr env (hostGroupItems env k hgt.1 groupAlias hgt.2)))
      refine ⟨messageStr env (hostGroupItems env k hgt.1 groupAlias hgt.2) :: records, ?_, ?_⟩
      · rw [dumpHostGroups]; simp only [hex]; rw [h1]
        simp [SendMessage]
      · simp only [List.filter_cons, hex, Option.isSome_some, if_true]
        exact List.Forall₂.cons ⟨k, groupAlias, hex, rfl⟩ h2

theorem typecode_of_hostGroupRecord (env : Env) (objects : Objects)
    (entry : String × List String) (message : String)
    (h : IsHostGroupRecord env objects entry message) : typecode message = some 401 := by
  obtain ⟨k, groupAlias, _, hm⟩ := h
  rw [hm]
  exact typecode_hostGroup env k entry.1 groupAlias entry.2

theorem mem_replicate_ne {α : Type} (n : Nat) (a b x : α) (hab : a ≠ b)
    (h : x ∈ List.replicate n a) : x ≠ b := by
  rw [(List.mem_replicate.mp h).2]
  exact hab

theorem typecode_ne_of_map {n : Nat} {c : Nat} (records : List String)
    (h : records.map typecode = List.replicate n (some c)) (hc : c ≠ 401) :
    ∀ m ∈ records, typecode m ≠ some 401 := by
  intro m hm
  have hmem : typecode m ∈ List.replicate n (some c) := by
    rw [← h]; exact List.mem_map_of_mem typecode hm
  rw [(List.mem_replicate.mp hmem).2]
  intro e
  injection e with e
  exact hc e

theorem forall₂_right {α β : Type} {R : α → β → Prop} {l1 : List α} {l2 : List β}
    (h : List.Forall₂ R l1 l2) : ∀ b ∈ l2, ∃ a, a ∈ l1 ∧ R a b := by
  induction h with
  | nil => intro b hb; simp at hb
  | cons hab _ ih =>
    intro b hb
    rcases List.mem_cons.mp hb with e | e
    · rw [e]; exact ⟨_, List.mem_cons_self _ _, hab⟩
    · obtain ⟨a, ha, hr⟩ := ih b e
      exact ⟨a, List.mem_cons_of_mem _ ha, hr⟩

/-- C25, as the code has it: the records of type 401 that `DumpConfigObjects`
sends come in one block; they are, in the key order of the group names, one
record for every group that at least one host names among its groups and for
which a host group object exists, and no other; the record of a group hands
to `CreateMessageList`, under key 171, the names of the hosts that name the
group, in the iteration order of the hosts, once for every time a host names
it. -/
theorem C25_host_group_records (env : Env) (objects : Objects) (k : Exporter) :
    ∃ (hostgroups : List (String × List String)) (before records after : List String),
      (DumpConfigObjects env objects k).sent = k.sent ++ before ++ records ++ after ∧
      (∀ m ∈ before ++ after, typecode m ≠ some 401) ∧
      (∀ m ∈ records, typecode m = some 401) ∧
      (hostgroups.map Prod.fst).Nodup ∧
      (hostgroups.map Prod.fst).Pairwise (fun a b => strLt a b = true) ∧
      (∀ group, mapFind hostgroups group =
        if groupMembers objects.hosts group = [] then none
        else some (groupMembers objects.hosts group)) ∧
      List.Forall₂ (IsHostGroupRecord env objects)
        (hostgroups.filter (fun e => (mapFind objects.hostGroups e.1).isSome)) records := by
  obtain ⟨r1, a1, b1⟩ := dumpHosts_sent env objects.hosts ([], StartConfigDump env k)
  obtain ⟨r2, a2, b2⟩ := dumpHostGroups_records env objects
    (dumpHosts env objects.hosts ([], StartConfigDump env k)).1
    (dumpHosts env objects.hosts ([], StartConfigDump env k)).2
  obtain ⟨r3, a3, b3⟩ := dumpServices_sent env objects.services
    ([], dumpHostGroups env objects (dumpHosts env objects.hosts ([], StartConfigDump env k)).1
      (dumpHosts env objects.hosts ([], StartConfigDump env k)).2)
  obtain ⟨r4, a4, b4, _⟩ := dumpServiceGroups_sent env objects
    (dumpServices env objects.services
      ([], dumpHostGroups env objects (dumpHosts env objects.hosts ([], StartConfigDump env k)).1
        (dumpHosts env objects.hosts ([], StartConfigDump env k)).2)).1
    (dumpServices env objects.services
      ([], dumpHostGroups env objects (dumpHosts env objects.hosts ([], StartConfigDump env k)).1
        (dumpHosts env objects.hosts ([], StartConfigDump env k)).2)).2
  have hspec : ∀ g, (∀ x, mapFind ((dumpHosts env objects.hosts
        ([], StartConfigDump env k)).1) x ≠ some []) ∧
      (((dumpHosts env objects.hosts ([], StartConfigDump env k)).1).map
        Prod.fst).Pairwise (fun a b => strLt a b = true) ∧
      (mapFind ((dumpHosts env objects.hosts ([], StartConfigDump env k)).1) g).getD [] =
        groupMembers objects.hosts g := by
    intro g
    rw [dumpHosts_groups]
    obtain ⟨c1, c2, c3⟩ := collected_spec objects.hosts g [] (by simp [mapFind]) (by simp)
    exact ⟨c1, c2, by simpa [mapFind] using c3⟩
  refine ⟨(dumpHosts env objects.hosts ([], StartConfigDump env k)).1,
    [messageStr env (startConfigDumpItems env k)] ++ r1, r2,
    r3 ++ r4 ++ [messageStr env (endConfigDumpItems env
      (dumpServiceGroups env objects
        (dumpServices env objects.services
          ([], dumpHostGroups env objects
            (dumpHosts env objects.hosts ([], StartConfigDump env k)).1
            (dumpHosts env objects.hosts ([], StartConfigDump env k)).2)).1
        (dumpServices env objects.services
          ([], dumpHostGroups env objects
            (dumpHosts env objects.hosts ([], StartConfigDump env k)).1
            (dumpHosts env objects.hosts ([], StartConfigDump env k)).2)).2))],
    ?_, ?_, ?_, ?_, ?_, ?_, b2⟩
  · show (EndConfigDump env _).sent = _
    simp only [EndConfigDump, SendMessage]
    rw [a4, a3, a2, a1]
    simp [StartConfigDump, SendMessage]
  · intro m hm
    simp only [List.mem_append, List.mem_singleton] at hm
    rcases hm with (hm | hm) | ((hm | hm) | hm)
    · rw [hm, typecode_startConfigDump]; decide
    · exact typecode_ne_of_map r1 b1 (by decide) m hm
    · exact typecode_ne_of_map r3 b3 (by decide) m hm
    · exact typecode_ne_of_map r4 b4 (by decide) m hm
    · rw [hm, typecode_endConfigDump]; decide
  · intro m hm
    obtain ⟨entry, _, hrec⟩ := forall₂_right b2 m hm
    exact typecode_of_hostGroupRecord env objects entry m hrec
  · exact sorted_keys_nodup _ (hspec "").2.1
  · exact (hspec "").2.1
  · intro group
    obtain ⟨h1, _, h3⟩ := hspec group
    cases hf : mapFind (dumpHosts env objects.hosts ([], StartConfigDump env k)).1 group with
    | none =>
      rw [hf] at h3
      simp only [Option.getD_none] at h3
      rw [← h3]; simp
    | some members =>
      rw [hf] at h3
      simp only [Option.getD_some] at h3
      have hne : members ≠ [] := by
        intro e
        apply h1 group
        rw [hf, e]
      rw [← h3, if_neg hne]

/-- C25 fails as stated: `demoObjects` has the host groups "db", "linux" and
"windows"; no host names "windows", and the dump holds two records of type
401, one for "db" and one for "linux", and none for "windows". -/
theorem C25_counterexample :
    mapFind demoObjects.hostGroups "windows" = some "Windows hosts" ∧
    groupMembers demoObjects.hosts "windows" = [] ∧
    demoObjects.hostGroups.length = 3 ∧
    ((sentAfter 0 (DumpConfigObjects demoEnv demoObjects demoExporter)).map typecode).count
      (some 401) = 2 ∧
    ((sentAfter 0 (DumpConfigObjects demoEnv demoObjects demoExporter)).filter
      (fun m => decide (typecode m = some 401))).map (fieldValue 172) =
      [some "db", some "linux"] := by
  refine ⟨by decide, by decide, by decide, by decide, by decide⟩

/-! ## The last parameter of a request -/

/-- The values that the query gives for `key`, in the order of the query. -/
theorem pushBack_fold_spec (key : String) (query : List (String × String)) :
    ∀ m : List (String × List String),
    (∀ x, mapFind m x ≠ some []) →
    (m.map Prod.fst).Pairwise (fun a b => strLt a b = true) →
    (∀ x, mapFind (query.foldl (fun m kv => pushBack m kv.1 kv.2) m) x ≠ some []) ∧
    ((query.foldl (fun m kv => pushBack m kv.1 kv.2) m).map Prod.fst).Pairwise
      (fun a b => strLt a b = true) ∧
    (mapFind (query.foldl (fun m kv => pushBack m kv.1 kv.2) m) key).getD [] =
      (mapFind m key).getD [] ++
        (query.filter (fun kv => decide (kv.1 = key))).map Prod.snd := by
  induction query with
  | nil => intro m h1 h2; exact ⟨h1, h2, by simp⟩
  | cons kv rest ih =>
    intro m h1 h2
    have h1' : ∀ x, mapFind (pushBack m kv.1 kv.2) x ≠ some [] := by
      intro x
      rw [mapFind_pushBack]
      by_cases h : kv.1 = x
      · rw [if_pos h]; simp
      · rw [if_neg h]; exact h1 x
    obtain ⟨r1, r2, r3⟩ := ih (pushBack m kv.1 kv.2) h1' (mapSet_sorted _ _ _ h2)
    refine ⟨r1, r2, ?_⟩
    simp only [List.foldl_cons]
    rw [r3, mapFind_pushBack]
    by_cases h : kv.1 = key
    · simp [h]
    · simp [h]

theorem setAll_absent {α : Type} (f : α → Value) (key : String) (m : List (String × α)) :
    ∀ base : ValueMap, key ∉ m.map Prod.fst →
    mapFind (m.foldl (fun (r : ValueMap) kv => r.Set kv.1 (f kv.2)) base) key = mapFind base key := by
  induction m with
  | nil => intro base _; rfl
  | cons kv rest ih =>
    intro base hnot
    simp only [List.map_cons, List.mem_cons, not_or] at hnot
    simp only [List.foldl_cons]
    rw [ih _ hnot.2]
    exact mapFind_mapSet_other kv.1 key _ base hnot.1

/-- What the loop `result->Set(kv.first, ...)` over a map leaves under `key`. -/
theorem setAll_spec {α : Type} (f : α → Value) (key : String) (m : List (String × α))
    (hnd : (m.map Prod.fst).Nodup) :
    ∀ base : ValueMap,
    mapFind (m.foldl (fun (r : ValueMap) kv => r.Set kv.1 (f kv.2)) base) key =
      match mapFind m key with
      | some v => some (f v)
      | none => mapFind base key := by
  induction m with
  | nil => intro base; rfl
  | cons kv rest ih =>
    intro base
    obtain ⟨k, v⟩ := kv
    obtain ⟨hnotin, hnd'⟩ := not_mem_keys_of_nodup k v rest hnd
    simp only [List.foldl_cons, mapFind]
    by_cases h : k = key
    · rw [if_pos h]
      rw [setAll_absent f key rest _ (by rw [← h]; exact hnotin)]
      rw [← h]
      exact mapFind_mapSet_same k (f v) base
    · rw [if_neg h, ih hnd']
      cases mapFind rest key with
      | some v' => rfl
      | none => exact mapFind_mapSet_other k key _ base (Ne.symm h)

/-- C29: `GetLastParameter` returns the stored value when it is no array, the
empty value for the empty array and the last element of an array that is not
empty; and when `FetchRequestParameters` returns, under a key for which the
query of the URL has values it has stored the array of those values, so that
`GetLastParameter` returns the last value of the query for the key, whatever
the JSON body holds for it.  `FetchRequestParameters` returns whenever the
body is empty or decodes to a dictionary. -/
theorem C29_last_parameter (JsonDecode : String → Except Fault Value) :
    (∀ (params : ValueMap) (key : String),
      ((params.Get key).isArray = false → GetLastParameter params key = params.Get key) ∧
      (params.Get key = Value.array [] → GetLastParameter params key = Value.empty) ∧
      (∀ items last, params.Get key = Value.array (items ++ [last]) →
        GetLastParameter params key = last)) ∧
    (∀ (query : List (String × String)) (body : String) (result : ValueMap)
      (key : String) (values : List String) (last : String),
      FetchRequestParameters JsonDecode query body = Except.ok result →
      (query.filter (fun kv => decide (kv.1 = key))).map Prod.snd = values ++ [last] →
      result.Get key = Value.array ((values ++ [last]).map Value.string) ∧
      GetLastParameter result key = Value.string last) ∧
    (∀ (query : List (String × String)) (body : String),
      (body = "" ∨ ∃ d, JsonDecode body = Except.ok (Value.dictionary d)) →
      ∃ result, FetchRequestParameters JsonDecode query body = Except.ok result) := by
  refine ⟨?_, ?_, ?_⟩
  · intro params key
    refine ⟨?_, ?_, ?_⟩
    · intro h
      unfold GetLastParameter
      cases hv : params.Get key <;> simp_all [Value.isArray]
    · intro h
      simp [GetLastParameter, h]
    · intro items last h
      simp [GetLastParameter, h]
  · intro query body result key values last h hq
    have hget : result.Get key = Value.array ((values ++ [last]).map Value.string) := by
      unfold FetchRequestParameters at h
      obtain ⟨p1, p2, p3⟩ := pushBack_fold_spec key query [] (by simp [mapFind]) (by simp)
      have hfind : mapFind (query.foldl (fun m kv => pushBack m kv.1 kv.2) []) key =
          some (values ++ [last]) := by
        cases hf : mapFind (query.foldl (fun m kv => pushBack m kv.1 kv.2) []) key with
        | none => rw [hf, hq] at p3; simp [mapFind] at p3
        | some vs => rw [hf, hq] at p3; simp [mapFind] at p3; rw [p3]
      have hset : ∀ base : ValueMap,
          ValueMap.Get ((query.foldl (fun m kv => pushBack m kv.1 kv.2) []).foldl
            (fun r kv => r.Set kv.1 (Value.array (kv.2.map Value.string))) base) key =
          Value.array ((values ++ [last]).map Value.string) := by
        intro base
        unfold ValueMap.Get
        rw [setAll_spec (fun vs => Value.array (vs.map Value.string)) key _
          (sorted_keys_nodup _ p2) base, hfind]
        rfl
      by_cases hb : body = ""
      · simp only [hb, ne_eq, not_true_eq_false, if_false, Except.ok.injEq] at h
        rw [← h]
        exact hset _
      · cases hj : JsonDecode body with
        | error f => simp [hb, hj] at h
        | ok v =>
          cases hd : asDictionary v with
          | error f => simp [hb, hj, hd] at h
          | ok r =>
            simp only [hb, hj, hd, ne_eq, not_false_eq_true, if_true, Except.ok.injEq] at h
            rw [← h]
            exact hset _
    refine ⟨hget, ?_⟩
    unfold GetLastParameter
    rw [hget]
    simp
  · intro query body h
    unfold FetchRequestParameters
    rcases h with h | ⟨d, h⟩
    · simp [h]
    · by_cases hb : body = ""
      · simp [hb]
      · simp [hb, h, asDictionary]

/-- Instance of C29: the query `pretty=1&verbose=x&pretty=0` with a body that
sets "pretty" to false; the last parameter "pretty" is the string "0". -/
theorem C29_last_parameter_witness :
    FetchRequestParameters demoDecode demoQuery "body" =
      Except.ok [("attrs", Value.dictionary []),
        ("pretty", Value.array [Value.string "1", Value.string "0"]),
        ("verbose", Value.array [Value.string "x"])] ∧
    (demoQuery.filter (fun kv => decide (kv.1 = "pretty"))).map Prod.snd = ["1"] ++ ["0"] ∧
    GetLastParameter [("attrs", Value.dictionary []),
        ("pretty", Value.array [Value.string "1", Value.string "0"]),
        ("verbose", Value.array [Value.string "x"])] "pretty" = Value.string "0" :=
  ⟨rfl, rfl,
    ((C29_last_parameter demoDecode).2.1 demoQuery "body" _ "pretty" ["1"] "0" rfl rfl).2⟩

/-! ## The variable query -/

/-- The entry that the variable query returns for a variable. -/
theorem variableGeneratorFunc_target (api : Api)
    (heq : ∀ s text, api.equalsString (Value.string s) text = decide (s = text))
    (name : String) (value : Value) :
    variableGeneratorFunc api () (GetTargetForVar api name value) =
      Except.ok ((), if name = "TicketSalt" then none
        else some (Value.dictionary
          [ ("name", Value.string name), ("type", Value.string (api.TypeName value)),
            ("value", api.Serialize value) ])) := by
  have hd : GetTargetForVar api name value = Value.dictionary
      [ ("name", Value.string name), ("type", Value.string (api.TypeName value)),
        ("value", value) ] := rfl
  rw [hd]
  have h1 : ValueMap.Get [ ("name", Value.string name),
      ("type", Value.string (api.TypeName value)), ("value", value) ] "name" =
      Value.string name := rfl
  have h2 : ValueMap.Get [ ("name", Value.string name),
      ("type", Value.string (api.TypeName value)), ("value", value) ] "type" =
      Value.string (api.TypeName value) := rfl
  have h3 : ValueMap.Get [ ("name", Value.string name),
      ("type", Value.string (api.TypeName value)), ("value", value) ] "value" = value := rfl
  simp only [variableGeneratorFunc, asDictionary, h1, h2, h3, heq]
  by_cases hn : name = "TicketSalt"
  · simp [hn]
  · simp only [hn, decide_False, Bool.false_eq_true, if_false]
    rfl

theorem generate_targets (api : Api)
    (heq : ∀ s text, api.equalsString (Value.string s) text = decide (s = text))
    (targets : List (String × Value)) :
    generate (variableGeneratorFunc api) ()
        (targets.map (fun t => GetTargetForVar api t.1 t.2)) =
      Except.ok ((), (targets.filter (fun t => decide (t.1 ≠ "TicketSalt"))).map
        (fun t => Value.dictionary
          [ ("name", Value.string t.1), ("type", Value.string (api.TypeName t.2)),
            ("value", api.Serialize t.2) ])) := by
  induction targets with
  | nil => rfl
  | cons t rest ih =>
    simp only [List.map_cons, generate, variableGeneratorFunc_target api heq]
    by_cases hn : t.1 = "TicketSalt"
    · simp only [hn, if_true, ih]
      simp [List.filter_cons, hn]
    · simp only [hn, if_false, ih]
      simp [List.filter_cons, hn]

/-- C27: when `GetFilterTargets` returns the targets of a list of variables,
`VariableQueryHandler::HandleRequest` answers a GET request with status 200
and the results: one entry for every variable whose name is not "TicketSalt",
in the order of the targets, with the name and the type of the target and its
serialized value, and no entry for "TicketSalt". -/
theorem C27_ticket_salt_redacted (api : Api) (request : HttpRequest) (response : HttpResponse)
    (targets : List (String × Value))
    (heq : ∀ s text, api.equalsString (Value.string s) text = decide (s = text))
    (hpath : request.path.length ≤ 3) (hmethod : request.method = Verb.get)
    (htargets : api.GetFilterTargets (variableQuery api) (variableParams request) request.user
      (some "variable") = Except.ok (targets.map (fun t => GetTargetForVar api t.1 t.2))) :
    ∃ r, VariableQueryHandler.HandleRequest api request response = Except.ok (true, r) ∧
      r.result = 200 ∧
      r.body = some (Value.dictionary [("results", Value.array
        ((targets.filter (fun t => decide (t.1 ≠ "TicketSalt"))).map
          (fun t => Value.dictionary
            [ ("name", Value.string t.1), ("type", Value.string (api.TypeName t.2)),
              ("value", api.Serialize t.2) ])))]) ∧
      (∀ t ∈ targets.filter (fun t => decide (t.1 ≠ "TicketSalt")), t.1 ≠ "TicketSalt") ∧
      (targets.filter (fun t => decide (t.1 ≠ "TicketSalt"))).map Prod.fst =
        (targets.map Prod.fst).filter (fun name => decide (name ≠ "TicketSalt")) := by
  refine ⟨SendJsonBodyStreaming api.ToBool { response with result := 200 }
    (some (variableParams request)) (Value.dictionary (mkDictionary [("results", Value.array
      ((targets.filter (fun (t : String × Value) => decide (t.1 ≠ "TicketSalt"))).map
        (fun (t : String × Value) => Value.dictionary
          [ ("name", Value.string t.1), ("type", Value.string (api.TypeName t.2)),
            ("value", api.Serialize t.2) ])))])), ?_, rfl, rfl, ?_, ?_⟩
  · unfold VariableQueryHandler.HandleRequest
    rw [if_neg (by omega), if_neg (by simp [hmethod])]
    simp only [htargets, generate_targets api heq]
  · intro t ht
    simpa using (List.mem_filter.mp ht).2
  · rw [List.filter_map]
    rfl

/-- Instance of C27: `GET /v1/variables` in `demoApi`, whose global variables
are "Environment", "TicketSalt" and "NodeName". -/
theorem C27_ticket_salt_redacted_witness :
    (∀ s text, demoApi.equalsString (Value.string s) text = decide (s = text)) ∧
    variablesRequest.path.length ≤ 3 ∧ variablesRequest.method = Verb.get ∧
    ∃ r, VariableQueryHandler.HandleRequest demoApi variablesRequest emptyResponse =
        Except.ok (true, r) ∧
      r.result = 200 ∧
      r.body = some (Value.dictionary [("results", Value.array
        [ Value.dictionary [("name", Value.string "Environment"),
            ("type", Value.string "String"), ("value", Value.string "production")],
          Value.dictionary [("name", Value.string "NodeName"),
            ("type", Value.string "String"), ("value", Value.string "master1")] ])]) := by
  refine ⟨fun _ _ => rfl, by decide, rfl, ?_⟩
  obtain ⟨r, h1, h2, h3, _⟩ := C27_ticket_salt_redacted demoApi variablesRequest emptyResponse
    demoApi.globals (fun _ _ => rfl) (by decide) rfl rfl
  exact ⟨r, h1, h2, h3⟩

/-! ## Requests during a reload -/

/-- The response of `SendJsonError` when no diagnostic information is
passed. -/
theorem SendJsonError_plain (ToBool : Value → Bool) (response : HttpResponse)
    (params : Option ValueMap) (code : Int) (info : String) (hinfo : info ≠ "") :
    (SendJsonError ToBool response params code info "").result = code ∧
    (SendJsonError ToBool response params code info "").body =
      some (Value.dictionary
        [("error", Value.number (Float.ofInt code)), ("status", Value.string info)]) := by
  constructor
  · rfl
  · simp only [SendJsonError, SendJsonBody, hinfo, ne_eq, not_false_eq_true, if_true,
      not_true_eq_false, decide_False, Bool.and_false, Bool.false_eq_true, if_false]
    rfl

/-- C22: while the try-lock of the configuration objects fails, the
delete-object and the modify-object handler return for every request and
leave every configuration object as it is; and for a request that gets as
far as the try-lock (path, method, type, targets and, for a modification,
the attributes are accepted) they answer with status 503, the body
`error = 503`, `status = "Icinga is reloading"`, and report the request as
handled. -/
theorem C22_reload_in_progress (api : Api) (locks : Locks) (request : HttpRequest)
    (response : HttpResponse) (store : Store) (hlock : locks.configObjects = false) :
    (∃ o, DeleteObjectHandler.HandleRequest api locks request response store = Except.ok o ∧
      o.store = store) ∧
    (∃ o, ModifyObjectHandler.HandleRequest api locks request response store = Except.ok o ∧
      o.store = store) ∧
    (∀ type objs,
      ¬ (request.path.length < 3 ∨ request.path.length > 4) →
      request.method = Verb.delete_ →
      api.TypeFromPluralName (request.path.getD 2 "") = some type →
      api.GetFilterTargets
        { Types := [type], Permission := "objects/delete/" ++ type, Provider := none }
        (objectParams api request type) request.user none = Except.ok objs →
      ∃ o, DeleteObjectHandler.HandleRequest api locks request response store = Except.ok o ∧
        o.handled = true ∧ o.store = store ∧ o.response.result = 503 ∧
        o.response.body = some (Value.dictionary
          [("error", Value.number (Float.ofInt 503)),
           ("status", Value.string "Icinga is reloading")])) ∧
    (∀ type objs,
      ¬ (request.path.length < 3 ∨ request.path.length > 4) →
      request.method = Verb.post →
      api.TypeFromPluralName (request.path.getD 2 "") = some type →
      api.GetFilterTargets
        { Types := [type], Permission := "objects/modify/" ++ type, Provider := none }
        (objectParams api request type) request.user none = Except.ok objs →
      (!((objectParams api request type).Get "attrs").isDictionary &&
        ((objectParams api request type).Get "attrs").notEmptyType) = false →
      (!((objectParams api request type).Get "restore_attrs").isArray &&
        ((objectParams api request type).Get "restore_attrs").notEmptyType) = false →
      ((asAttributes ((objectParams api request type).Get "attrs")).isSome ||
        (asArray ((objectParams api request type).Get "restore_attrs")).isSome) = true →
      ∃ o, ModifyObjectHandler.HandleRequest api locks request response store = Except.ok o ∧
        o.handled = true ∧ o.store = store ∧ o.response.result = 503 ∧
        o.response.body = some (Value.dictionary
          [("error", Value.number (Float.ofInt 503)),
           ("status", Value.string "Icinga is reloading")])) := by
  refine ⟨?_, ?_, ?_, ?_⟩
  · unfold DeleteObjectHandler.HandleRequest
    by_cases hpath : request.path.length < 3 ∨ request.path.length > 4
    · rw [if_pos hpath]; exact ⟨_, rfl, rfl⟩
    · rw [if_neg hpath]
      by_cases hmethod : request.method = Verb.delete_
      · rw [if_neg (by simp [hmethod])]
        cases htype : api.TypeFromPluralName (request.path.getD 2 "") with
        | none => exact ⟨_, rfl, rfl⟩
        | some type =>
          simp only []
          cases htargets : api.GetFilterTargets
              { Types := [type], Permission := "objects/delete/" ++ type, Provider := none }
              (objectParams api request type) request.user none with
          | error ex => exact ⟨_, rfl, rfl⟩
          | ok objs =>
            simp only [hlock, Bool.not_false, if_true]
            repeat (first | exact ⟨_, rfl, rfl⟩ | split)
      · rw [if_pos hmethod]; exact ⟨_, rfl, rfl⟩
  · unfold ModifyObjectHandler.HandleRequest
    by_cases hpath : request.path.length < 3 ∨ request.path.length > 4
    · rw [if_pos hpath]; exact ⟨_, rfl, rfl⟩
    · rw [if_neg hpath]
      by_cases hmethod : request.method = Verb.post
      · rw [if_neg (by simp [hmethod])]
        cases htype : api.TypeFromPluralName (request.path.getD 2 "") with
        | none => exact ⟨_, rfl, rfl⟩
        | some type =>
          simp only []
          cases htargets : api.GetFilterTargets
              { Types := [type], Permission := "objects/modify/" ++ type, Provider := none }
              (objectParams api request type) request.user none with
          | error ex => exact ⟨_, rfl, rfl⟩
          | ok objs =>
            simp only [hlock, Bool.not_false, if_true]
            repeat (first | exact ⟨_, rfl, rfl⟩ | split)
      · rw [if_pos hmethod]; exact ⟨_, rfl, rfl⟩
  · intro type objs hpath hmethod htype htargets
    obtain ⟨e1, e2⟩ := SendJsonError_plain api.ToBool response
      (some (objectParams api request type)) 503 "Icinga is reloading" (by decide)
    refine ⟨Outcome.mk true (SendJsonError api.ToBool response
      (some (objectParams api request type)) 503 "Icinga is reloading" "") store,
      ?_, rfl, rfl, e1, e2⟩
    unfold DeleteObjectHandler.HandleRequest
    rw [if_neg hpath, if_neg (by simp [hmethod])]
    simp only [htype, htargets, hlock, Bool.not_false, if_true]
  · intro type objs hpath hmethod htype htargets hattrs hrestore hsome
    obtain ⟨e1, e2⟩ := SendJsonError_plain api.ToBool response
      (some (objectParams api request type)) 503 "Icinga is reloading" (by decide)
    refine ⟨Outcome.mk true (SendJsonError api.ToBool response
      (some (objectParams api request type)) 503 "Icinga is reloading" "") store,
      ?_, rfl, rfl, e1, e2⟩
    unfold ModifyObjectHandler.HandleRequest
    rw [if_neg hpath, if_neg (by simp [hmethod])]
    simp only [htype, htargets, hattrs, hrestore, hsome, hlock, Bool.not_false, Bool.not_true,
      Bool.false_eq_true, if_true, if_false]

/-- Instance of C22: `DELETE /v1/objects/hosts` and a `POST` that sets an
attribute, during a reload; both are answered with 503 and the objects stay.
Without the reload the same requests delete both hosts and set the attribute
on both. -/
theorem C22_reload_in_progress_witness :
    reloadLocks.configObjects = false ∧
    (∃ o, DeleteObjectHandler.HandleRequest demoApi reloadLocks deleteRequest emptyResponse
        demoStore = Except.ok o ∧
      o.handled = true ∧ o.store = demoStore ∧ o.response.result = 503) ∧
    (∃ o, ModifyObjectHandler.HandleRequest demoApi reloadLocks modifyRequest emptyResponse
        demoStore = Except.ok o ∧
      o.handled = true ∧ o.store = demoStore ∧ o.response.result = 503) ∧
    namesAfter (DeleteObjectHandler.HandleRequest demoApi freeLocks deleteRequest emptyResponse
      demoStore) = some [] ∧
    attributesAfter (ModifyObjectHandler.HandleRequest demoApi freeLocks modifyRequest
      emptyResponse demoStore) = some [("db1", ["notes"]), ("web1", ["notes"])] := by
  have T := C22_reload_in_progress demoApi reloadLocks
  refine ⟨rfl, ?_, ?_, by decide, by decide⟩
  · obtain ⟨o, h1, h2, h3, h4, _⟩ := (T deleteRequest emptyResponse demoStore rfl).2.2.1
      "Host" [Value.object "web1", Value.object "db1"] (by decide) rfl rfl rfl
    exact ⟨o, h1, h2, h3, h4⟩
  · obtain ⟨o, h1, h2, h3, h4, _⟩ := (T modifyRequest emptyResponse demoStore rfl).2.2.2
      "Host" [Value.object "web1", Value.object "db1"] (by decide) rfl rfl rfl rfl rfl rfl
    exact ⟨o, h1, h2, h3, h4⟩

/-! ## Exclusive assignment -/

theorem stateOf_unassigned (l : List Assignment) (s : String) :
    stateOf l s = AssignmentState.unassigned ↔ ∀ e ∈ l, e.service ≠ s := by
  unfold stateOf
  cases h : l.find? (fun e => decide (e.service = s)) with
  | none =>
    simp only [true_iff]
    intro e he
    have h2 := List.find?_eq_none.mp h e he
    simpa using h2
  | some e =>
    have hm := List.mem_of_find?_eq_some h
    have hp := List.find?_some h
    simp only [decide_eq_true_eq] at hp
    constructor
    · intro h2
      simp only at h2
      split at h2 <;> cases h2
    · intro h2
      exact absurd hp (h2 e hm)

theorem pickCandidate_mem (load : String → Nat) :
    ∀ (l : List String) (p : String), pickCandidate load l = some p → p ∈ l
  | [], p, h => by simp [pickCandidate] at h
  | a :: rest, p, h => by
    simp only [pickCandidate] at h
    cases hr : pickCandidate load rest with
    | none =>
      rw [hr] at h
      simp only [Option.some.injEq] at h
      subst h
      exact List.mem_cons_self _ _
    | some q =>
      rw [hr] at h
      simp only at h
      split at h
      · simp only [Option.some.injEq] at h
        subst h
        exact List.mem_cons_of_mem _ (pickCandidate_mem load rest q hr)
      · simp only [Option.some.injEq] at h
        subst h
        exact List.mem_cons_self _ _

/-- Giving a service that has no entry to a checker keeps the map at one entry
for a service, and every entry backed by a request. -/
theorem AssignService_keeps (now : Int) (p s : String) (d : Delegation)
    (hfree : ∀ e ∈ d.assignments, e.service ≠ s)
    (hone : (d.assignments.map (fun e => e.service)).Nodup)
    (hasked : ∀ e ∈ d.assignments, (e.assignee, e.service) ∈ d.requests) :
    ((AssignService now p s d).assignments.map (fun e => e.service)).Nodup ∧
    ∀ e ∈ (AssignService now p s d).assignments,
      (e.assignee, e.service) ∈ (AssignService now p s d).requests := by
  simp only [AssignService]
  constructor
  · rw [List.map_append, List.nodup_append]
    refine ⟨hone, by simp, ?_⟩
    intro x hx hx2
    simp only [List.map_cons, List.map_nil, List.mem_singleton] at hx2
    obtain ⟨e, he, hes⟩ := List.mem_map.mp hx
    exact hfree e he (hes.trans hx2)
  · intro e he
    rcases List.mem_append.mp he with h | h
    · exact List.mem_append_left _ (hasked e h)
    · simp only [List.mem_singleton] at h
      subst h
      simp

theorem assignUnassigned_keeps (candidates : String → List String) (load : String → Nat)
    (now : Int) : ∀ (services : List String) (d : Delegation),
    (d.assignments.map (fun e => e.service)).Nodup →
    (∀ e ∈ d.assignments, (e.assignee, e.service) ∈ d.requests) →
    ((assignUnassigned candidates load now services d).assignments.map
      (fun e => e.service)).Nodup ∧
    ∀ e ∈ (assignUnassigned candidates load now services d).assignments,
      (e.assignee, e.service) ∈ (assignUnassigned candidates load now services d).requests
  | [], d, hone, hasked => ⟨hone, hasked⟩
  | s :: rest, d, hone, hasked => by
    simp only [assignUnassigned]
    by_cases hs : stateOf d.assignments s = AssignmentState.unassigned
    · rw [if_pos hs]
      cases hp : pickCandidate load
          ((candidates s).filter (fun p => decide ((s, p) ∉ d.ineligible))) with
      | none => exact assignUnassigned_keeps candidates load now rest d hone hasked
      | some p =>
        obtain ⟨h1, h2⟩ := AssignService_keeps now p s d
          ((stateOf_unassigned _ _).mp hs) hone hasked
        exact assignUnassigned_keeps candidates load now rest _ h1 h2
    · rw [if_neg hs]
      exact assignUnassigned_keeps candidates load now rest d hone hasked

/-- The requests that step 3 of a tick issues: each goes to a candidate of
its service that is not ineligible for it, for a service that had no entry
when the step began, and no two are for the same service. -/
theorem assignUnassigned_requests (candidates : String → List String) (load : String → Nat)
    (now : Int) : ∀ (services : List String) (d : Delegation),
    ∃ issued : List (String × String),
      (assignUnassigned candidates load now services d).requests = d.requests ++ issued ∧
      (issued.map Prod.snd).Nodup ∧
      ∀ r ∈ issued, r.1 ∈ candidates r.2 ∧ (r.2, r.1) ∉ d.ineligible ∧
        ∀ e ∈ d.assignments, e.service ≠ r.2
  | [], d => ⟨[], by simp [assignUnassigned], by simp, by simp⟩
  | s :: rest, d => by
    simp only [assignUnassigned]
    by_cases hs : stateOf d.assignments s = AssignmentState.unassigned
    · rw [if_pos hs]
      cases hp : pickCandidate load
          ((candidates s).filter (fun p => decide ((s, p) ∉ d.ineligible))) with
      | none => exact assignUnassigned_requests candidates load now rest d
      | some p =>
        obtain ⟨issued, h1, h2, h3⟩ :=
          assignUnassigned_requests candidates load now rest (AssignService now p s d)
        have hmem := List.mem_filter.mp (pickCandidate_mem load _ p hp)
        refine ⟨(p, s) :: issued, ?_, ?_, ?_⟩
        · show (assignUnassigned candidates load now rest (AssignService now p s d)).requests = _
          rw [h1]
          simp [AssignService]
        · rw [List.map_cons, List.nodup_cons]
          refine ⟨?_, h2⟩
          intro hin
          obtain ⟨r, hr, hrs⟩ := List.mem_map.mp hin
          have h4 := (h3 r hr).2.2
            { service := s, assignee := p, confirmed := false, deadline := now + AssignTimeout }
            (by simp [AssignService])
          exact h4 hrs.symm
        · intro r hr
          rcases List.mem_cons.mp hr with h | h
          · subst h
            refine ⟨hmem.1, ?_, (stateOf_unassigned _ _).mp hs⟩
            simpa using hmem.2
          · obtain ⟨c1, c2, c3⟩ := h3 r h
            exact ⟨c1, c2, fun e he => c3 e (by simp [AssignService, he])⟩
    · rw [if_neg hs]
      exact assignUnassigned_requests candidates load now rest d

theorem assignUnassigned_requests_prefix (candidates : String → List String)
    (load : String → Nat) (now : Int) (services : List String) (d : Delegation) :
    ∀ r ∈ d.requests, r ∈ (assignUnassigned candidates load now services d).requests := by
  obtain ⟨issued, h1, _⟩ := assignUnassigned_requests candidates load now services d
  intro r hr
  rw [h1]
  exact List.mem_append_left _ hr

/-- A tick keeps the map at one entry for a service, and every entry backed
by a request. -/
theorem DelegationTimerHandler_keeps (candidates : String → List String) (now : Int)
    (d : Delegation)
    (hone : (d.assignments.map (fun e => e.service)).Nodup)
    (hasked : ∀ e ∈ d.assignments, (e.assignee, e.service) ∈ d.requests) :
    ((DelegationTimerHandler candidates now d).assignments.map (fun e => e.service)).Nodup ∧
    ∀ e ∈ (DelegationTimerHandler candidates now d).assignments,
      (e.assignee, e.service) ∈ (DelegationTimerHandler candidates now d).requests := by
  obtain ⟨h1, h2⟩ := assignUnassigned_keeps candidates
    (loadOf (d.assignments.filter (stillCandidate candidates))) now d.services
    { d with assignments := d.assignments.filter (stillCandidate candidates) }
    (List.Nodup.sublist (List.Sublist.map _ (List.filter_sublist _)) hone)
    (fun e he => hasked e (List.mem_filter.mp he).1)
  simp only [DelegationTimerHandler]
  exact ⟨List.Nodup.sublist (List.Sublist.map _ (List.filter_sublist _)) h1,
    fun e he => h2 e (List.mem_filter.mp he).1⟩

/-- A reply keeps the map at one entry for a service, and every entry backed
by a request. -/
theorem AssignServiceResponseHandler_keeps (service sender : String)
    (timedOut accepted : Bool) (d : Delegation)
    (hone : (d.assignments.map (fun e => e.service)).Nodup)
    (hasked : ∀ e ∈ d.assignments, (e.assignee, e.service) ∈ d.requests) :
    ((AssignServiceResponseHandler service sender timedOut accepted d).assignments.map
      (fun e => e.service)).Nodup ∧
    ∀ e ∈ (AssignServiceResponseHandler service sender timedOut accepted d).assignments,
      (e.assignee, e.service) ∈
        (AssignServiceResponseHandler service sender timedOut accepted d).requests := by
  unfold AssignServiceResponseHandler
  by_cases ht : timedOut = true
  · rw [if_pos ht]; exact ⟨hone, hasked⟩
  · rw [if_neg ht]
    by_cases hany : d.assignments.any (repliedTo service sender) = true
    · rw [if_pos hany]
      by_cases ha : accepted = true
      · rw [if_pos ha]
        have hsame : ∀ e : Assignment, (confirmReply service sender e).service = e.service ∧
            (confirmReply service sender e).assignee = e.assignee := by
          intro e
          unfold confirmReply
          split <;> exact ⟨rfl, rfl⟩
        constructor
        · show ((d.assignments.map (confirmReply service sender)).map
            (fun e => e.service)).Nodup
          rw [List.map_map]
          have hm : d.assignments.map ((fun e => e.service) ∘ confirmReply service sender) =
              d.assignments.map (fun e => e.service) :=
            List.map_congr_left (fun e _ => (hsame e).1)
          rw [hm]; exact hone
        · intro e he
          obtain ⟨e0, he0, hee⟩ := List.mem_map.mp he
          subst hee
          rw [(hsame e0).1, (hsame e0).2]
          exact hasked e0 he0
      · rw [if_neg ha]
        exact ⟨List.Nodup.sublist (List.Sublist.map _ (List.filter_sublist _)) hone,
          fun e he => hasked e (List.mem_filter.mp he).1⟩
    · rw [if_neg hany]; exact ⟨hone, hasked⟩

theorem delegationRun_keeps (events : List DelegationEvent) :
    ∀ d : Delegation, (d.assignments.map (fun e => e.service)).Nodup →
    (∀ e ∈ d.assignments, (e.assignee, e.service) ∈ d.requests) →
    ((delegationRun events d).assignments.map (fun e => e.service)).Nodup ∧
    ∀ e ∈ (delegationRun events d).assignments,
      (e.assignee, e.service) ∈ (delegationRun events d).requests := by
  induction events with
  | nil => intro d hone hasked; exact ⟨hone, hasked⟩
  | cons ev rest ih =>
    intro d hone hasked
    show ((delegationRun rest (delegationStep d ev)).assignments.map _).Nodup ∧ _
    cases ev with
    | tick candidates now =>
      obtain ⟨h1, h2⟩ := DelegationTimerHandler_keeps candidates now d hone hasked
      exact ih _ h1 h2
    | reply service sender timedOut accepted =>
      obtain ⟨h1, h2⟩ :=
        AssignServiceResponseHandler_keeps service sender timedOut accepted d hone hasked
      exact ih _ h1 h2

/-- The requests of a tick: each goes to a candidate of its service, for a
service that no peer which still is a candidate holds an entry for, and no two
are for the same service. -/
theorem DelegationTimerHandler_requests (candidates : String → List String) (now : Int)
    (d : Delegation) :
    ∃ issued : List (String × String),
      (DelegationTimerHandler candidates now d).requests = d.requests ++ issued ∧
      (issued.map Prod.snd).Nodup ∧
      ∀ r ∈ issued, r.1 ∈ candidates r.2 ∧ (r.2, r.1) ∉ d.ineligible ∧
        ∀ p, GivenTo d r.2 p → p ∉ candidates r.2 := by
  obtain ⟨issued, h1, h2, h3⟩ := assignUnassigned_requests candidates
    (loadOf (d.assignments.filter (stillCandidate candidates))) now d.services
    { d with assignments := d.assignments.filter (stillCandidate candidates) }
  refine ⟨issued, h1, h2, ?_⟩
  intro r hr
  obtain ⟨c1, c2, c3⟩ := h3 r hr
  refine ⟨c1, c2, ?_⟩
  intro p hp hcand
  obtain ⟨e, he, hes, hea⟩ := hp
  refine c3 e (List.mem_filter.mpr ⟨he, ?_⟩) hes
  simp only [stillCandidate, decide_eq_true_eq]
  rw [hes, hea]
  exact hcand

/-- A reply of a peer that the service was not given to changes nothing. -/
theorem AssignServiceResponseHandler_other (service sender : String)
    (timedOut accepted : Bool) (d : Delegation) (h : ¬ GivenTo d service sender) :
    AssignServiceResponseHandler service sender timedOut accepted d = d := by
  unfold AssignServiceResponseHandler
  split
  · rfl
  · rw [if_neg]
    intro hany
    obtain ⟨e, he, hr⟩ := List.any_eq_true.mp hany
    simp only [repliedTo, Bool.and_eq_true, decide_eq_true_eq] at hr
    exact h ⟨e, he, hr.1, hr.2⟩

/-- C23, on the model of the spec, in which the assignment map is the list of
the entries that the handlers add and remove: from a state whose map has at
most one entry for a service, each backed by a request, every state that
ticks and replies reach has no service given to two distinct peers, pending
or confirmed, and so no service assigned to two distinct peers; a service is
given only to a peer that was sent a request for it; a tick issues at most one
request for a service, to a candidate of the service that is not ineligible
for it, and only when no peer that still is a candidate holds the service; and
a reply that timed out or comes from a peer that the service was not given to
changes nothing. -/
theorem C23_assignment_exclusive (events : List DelegationEvent) (d : Delegation)
    (hone : (d.assignments.map (fun e => e.service)).Nodup)
    (hasked : ∀ e ∈ d.assignments, (e.assignee, e.service) ∈ d.requests) :
    (∀ service p q, GivenTo (delegationRun events d) service p →
      GivenTo (delegationRun events d) service q → p = q) ∧
    (∀ service p q, AssignedTo (delegationRun events d) service p →
      AssignedTo (delegationRun events d) service q → p = q) ∧
    (∀ service p, GivenTo (delegationRun events d) service p →
      (p, service) ∈ (delegationRun events d).requests) ∧
    (∀ candidates now, ∃ issued,
      (DelegationTimerHandler candidates now (delegationRun events d)).requests =
        (delegationRun events d).requests ++ issued ∧
      (issued.map Prod.snd).Nodup ∧
      ∀ r ∈ issued, r.1 ∈ candidates r.2 ∧
        (r.2, r.1) ∉ (delegationRun events d).ineligible ∧
        ∀ p, GivenTo (delegationRun events d) r.2 p → p ∉ candidates r.2) ∧
    (∀ service sender accepted, ¬ GivenTo (delegationRun events d) service sender →
      AssignServiceResponseHandler service sender false accepted (delegationRun events d) =
        delegationRun events d) ∧
    (∀ service sender accepted,
      AssignServiceResponseHandler service sender true accepted (delegationRun events d) =
        delegationRun events d) := by
  obtain ⟨h1, h2⟩ := delegationRun_keeps events d hone hasked
  have hgiven : ∀ service p q, GivenTo (delegationRun events d) service p →
      GivenTo (delegationRun events d) service q → p = q := by
    intro service p q hp hq
    obtain ⟨a, ha, ha1, ha2⟩ := hp
    obtain ⟨b, hb, hb1, hb2⟩ := hq
    have hab : a = b := List.inj_on_of_nodup_map h1 ha hb (by rw [ha1, hb1])
    rw [← ha2, ← hb2, hab]
  refine ⟨hgiven, ?_, ?_, ?_, ?_, ?_⟩
  · intro service p q hp hq
    obtain ⟨a, ha, ha1, ha2, _⟩ := hp
    obtain ⟨b, hb, hb1, hb2, _⟩ := hq
    exact hgiven service p q ⟨a, ha, ha1, ha2⟩ ⟨b, hb, hb1, hb2⟩
  · intro service p hp
    obtain ⟨a, ha, ha1, ha2⟩ := hp
    have h3 := h2 a ha
    rw [ha1, ha2] at h3
    exact h3
  · intro candidates now
    exact DelegationTimerHandler_requests candidates now _
  · intro service sender accepted h
    exact AssignServiceResponseHandler_other service sender false accepted _ h
  · intro service sender accepted
    rfl

/-- Instance of C23: after `demoDelegationEvents`, in which "s1" is given to
"P1", "P1" accepts, "P2" accepts without having been asked, "P1" is lost, "s1"
is given to "P2" and "P2" accepts, the service "s1" is assigned to "P2" and to
no other peer, and "P2" was sent a request for it. -/
theorem C23_assignment_exclusive_witness :
    (demoDelegation.assignments.map (fun e => e.service)).Nodup ∧
    (∀ e ∈ demoDelegation.assignments, (e.assignee, e.service) ∈ demoDelegation.requests) ∧
    AssignedTo (delegationRun (demoDelegationEvents.take 3) demoDelegation) "s1" "P1" ∧
    AssignedTo (delegationRun demoDelegationEvents demoDelegation) "s1" "P2" ∧
    (∀ q, AssignedTo (delegationRun demoDelegationEvents demoDelegation) "s1" q → q = "P2") ∧
    ("P2", "s1") ∈ (delegationRun demoDelegationEvents demoDelegation).requests :=
  have hP1 : AssignedTo (delegationRun (demoDelegationEvents.take 3) demoDelegation)
      "s1" "P1" :=
    ⟨{ service := "s1", assignee := "P1", confirmed := true, deadline := 130 },
      by decide, rfl, rfl, rfl⟩
  have hP2 : AssignedTo (delegationRun demoDelegationEvents demoDelegation) "s1" "P2" :=
    ⟨{ service := "s1", assignee := "P2", confirmed := true, deadline := 230 },
      by decide, rfl, rfl, rfl⟩
  have hrun := C23_assignment_exclusive demoDelegationEvents demoDelegation (by decide)
    (by decide)
  ⟨by decide, by decide, hP1, hP2, fun q hq => hrun.2.1 "s1" q "P2" hq hP2,
    hrun.2.2.1 "s1" "P2"
      ⟨{ service := "s1", assignee := "P2", confirmed := true, deadline := 230 },
        by decide, rfl, rfl⟩⟩

/-! ## Every record of a configuration dump -/

theorem dumpServices_groups (env : Env) (services : List Service) :
    ∀ acc : List (String × List Service) × Exporter,
    (dumpServices env services acc).1 =
      services.foldl (fun m service => collectGroups m service.GetGroups service) acc.1 := by
  induction services with
  | nil => intro acc; rfl
  | cons service rest ih => intro acc; rw [dumpServices, ih]; rfl

/-- The map `servicegroups` after the loop over the services. -/
theorem collectedServices_spec (services : List Service) (g : String) :
    ∀ m : List (String × List Service),
    (∀ x, mapFind m x ≠ some []) →
    (m.map Prod.fst).Pairwise (fun a b => strLt a b = true) →
    (∀ x, mapFind (services.foldl (fun m service => collectGroups m service.GetGroups service)
      m) x ≠ some []) ∧
    ((services.foldl (fun m service => collectGroups m service.GetGroups service) m).map
      Prod.fst).Pairwise (fun a b => strLt a b = true) ∧
    (mapFind (services.foldl (fun m service => collectGroups m service.GetGroups service) m)
      g).getD [] = (mapFind m g).getD [] ++ serviceGroupMembers services g := by
  induction services with
  | nil => intro m h1 h2; exact ⟨h1, h2, by simp [serviceGroupMembers]⟩
  | cons service rest ih =>
    intro m h1 h2
    obtain ⟨c1, c2, c3⟩ := collectGroups_spec service.GetGroups service g m h1 h2
    obtain ⟨r1, r2, r3⟩ := ih (collectGroups m service.GetGroups service) c1 c2
    refine ⟨r1, r2, ?_⟩
    simp only [List.foldl_cons]
    rw [r3, c3]
    simp [serviceGroupMembers]

/-- The loop over the hosts sends the record of every host, in order. -/
theorem dumpHosts_records (env : Env) (hosts : List Host) :
    ∀ acc : List (String × List String) × Exporter,
    ∃ records, (dumpHosts env hosts acc).2.sent = acc.2.sent ++ records ∧
      List.Forall₂ (IsHostRecord env) hosts records := by
  induction hosts with
  | nil => intro acc; exact ⟨[], by simp [dumpHosts], List.Forall₂.nil⟩
  | cons host rest ih =>
    intro acc
    obtain ⟨records, h1, h2⟩ :=
      ih (collectGroups acc.1 host.GetGroups host.GetName, DumpHostObject env acc.2 host)
    refine ⟨messageStr env (hostObjectItems env acc.2 host) :: records, ?_,
      List.Forall₂.cons ⟨acc.2, rfl⟩ h2⟩
    rw [dumpHosts, h1]
    simp [DumpHostObject, SendMessage]

/-- The loop over the services sends the record of every service, in
order. -/
theorem dumpServices_records (env : Env) (services : List Service) :
    ∀ acc : List (String × List Service) × Exporter,
    ∃ records, (dumpServices env services acc).2.sent = acc.2.sent ++ records ∧
      List.Forall₂ (IsServiceRecord env) services records := by
  induction services with
  | nil => intro acc; exact ⟨[], by simp [dumpServices], List.Forall₂.nil⟩
  | cons service rest ih =>
    intro acc
    obtain ⟨records, h1, h2⟩ :=
      ih (collectGroups acc.1 service.GetGroups service, DumpServiceObject env acc.2 service)
    refine ⟨messageStr env (serviceObjectItems env acc.2 service) :: records, ?_,
      List.Forall₂.cons ⟨acc.2, rfl⟩ h2⟩
    rw [dumpServices, h1]
    simp [DumpServiceObject, SendMessage]

/-- The loop over `servicegroups` sends one record for every entry whose
group exists, in the order of the entries, and nothing else. -/
theorem dumpServiceGroups_records (env : Env) (objects : Objects)
    (groups : List (String × List Service)) :
    ∀ k : Exporter,
    ∃ records, (dumpServiceGroups env objects groups k).sent = k.sent ++ records ∧
      List.Forall₂ (IsServiceGroupRecord env objects)
        (groups.filter (serviceGroupExists objects)) records := by
  induction groups with
  | nil => intro k; exact ⟨[], by simp [dumpServiceGroups], by simp⟩
  | cons sgt rest ih =>
    intro k
    cases hex : mapFind objects.serviceGroups sgt.1 with
    | none =>
      obtain ⟨records, h1, h2⟩ := ih k
      refine ⟨records, ?_, ?_⟩
      · rw [dumpServiceGroups]; simp only [hex]; exact h1
      · simpa [List.filter_cons, serviceGroupExists, hex] using h2
    | some groupAlias =>
      obtain ⟨records, h1, h2⟩ := ih (SendMessage { k with timeCalls := k.timeCalls + 1 }
        (messageStr env (serviceGroupItems env k sgt.1 groupAlias sgt.2)))
      refine ⟨messageStr env (serviceGroupItems env k sgt.1 groupAlias sgt.2) :: records,
        ?_, ?_⟩
      · rw [dumpServiceGroups]; simp only [hex]; rw [h1]
        simp [SendMessage]
      · simp only [List.filter_cons, serviceGroupExists, hex, Option.isSome_some, if_true]
        exact List.Forall₂.cons ⟨k, groupAlias, hex, rfl⟩ h2

/-- The type codes of records that stand in a relation with the entries of a
list, when every related record has the type code `c`. -/
theorem typecodes_of_forall₂ {α : Type} {R : α → String → Prop} {c : Nat}
    (hR : ∀ a m, R a m → typecode m = some c) {l : List α} {records : List String}
    (h : List.Forall₂ R l records) :
    records.map typecode = List.replicate l.length (some c) := by
  induction h with
  | nil => rfl
  | cons hab _ ih =>
    rw [List.map_cons, hR _ _ hab, ih]
    rfl

theorem typecode_of_hostRecord (env : Env) (host : Host) (message : String)
    (h : IsHostRecord env host message) : typecode message = some 400 := by
  obtain ⟨k, hm⟩ := h
  rw [hm]
  exact typecode_hostObject env k host

theorem typecode_of_serviceRecord (env : Env) (service : Service) (message : String)
    (h : IsServiceRecord env service message) : typecode message = some 402 := by
  obtain ⟨k, hm⟩ := h
  rw [hm]
  exact typecode_serviceObject env k service

theorem typecode_of_serviceGroupRecord (env : Env) (objects : Objects)
    (entry : String × List Service) (message : String)
    (h : IsServiceGroupRecord env objects entry message) : typecode message = some 403 := by
  obtain ⟨k, groupAlias, _, hm⟩ := h
  rw [hm]
  exact typecode_serviceGroup env k entry.1 groupAlias entry.2

/-- C20: for every set of objects, what `DumpConfigObjects` sends is, in this
order: one record of type 900; the record of type 400 of every host, in the
order of the hosts; one record of type 401 for every group that a host names
and for which a host group object exists, in the key order of the names; the
record of type 402 of every service, in the order of the services; one record
of type 403 for every group that a service names and for which a service
group object exists, in the key order of the names, with the services that
name the group as members; and one record of type 901.  Nothing else is
sent.  For `groupedObjects` the type codes are 900, 400, 400, 401, 402, 402,
402, 403, 901. -/
theorem C20_config_dump_framing (env : Env) (objects : Objects) (k : Exporter) :
    (∃ (hostgroups : List (String × List String))
      (servicegroups : List (String × List Service)) (startRecord endRecord : String)
      (hostRecords hostGroupRecords serviceRecords serviceGroupRecords : List String),
      (DumpConfigObjects env objects k).sent =
        k.sent ++ (startRecord :: (hostRecords ++ hostGroupRecords ++ serviceRecords ++
          serviceGroupRecords ++ [endRecord])) ∧
      typecode startRecord = some 900 ∧ typecode endRecord = some 901 ∧
      List.Forall₂ (IsHostRecord env) objects.hosts hostRecords ∧
      List.Forall₂ (IsServiceRecord env) objects.services serviceRecords ∧
      (hostgroups.map Prod.fst).Pairwise (fun a b => strLt a b = true) ∧
      (∀ group, mapFind hostgroups group ≠ some [] ∧
        (mapFind hostgroups group).getD [] = groupMembers objects.hosts group) ∧
      List.Forall₂ (IsHostGroupRecord env objects)
        (hostgroups.filter (hostGroupExists objects)) hostGroupRecords ∧
      (servicegroups.map Prod.fst).Pairwise (fun a b => strLt a b = true) ∧
      (∀ group, mapFind servicegroups group ≠ some [] ∧
        (mapFind servicegroups group).getD [] = serviceGroupMembers objects.services group) ∧
      List.Forall₂ (IsServiceGroupRecord env objects)
        (servicegroups.filter (serviceGroupExists objects)) serviceGroupRecords ∧
      (startRecord :: (hostRecords ++ hostGroupRecords ++ serviceRecords ++
          serviceGroupRecords ++ [endRecord])).map typecode =
        [some 900] ++ List.replicate objects.hosts.length (some 400) ++
        List.replicate (hostgroups.filter (hostGroupExists objects)).length (some 401) ++
        List.replicate objects.services.length (some 402) ++
        List.replicate (servicegroups.filter (serviceGroupExists objects)).length
          (some 403) ++ [some 901]) ∧
    (sentAfter 0 (DumpConfigObjects demoEnv groupedObjects demoExporter)).map typecode =
      [some 900, some 400, some 400, some 401, some 402, some 402, some 402, some 403,
        some 901] ∧
    ((sentAfter 0 (DumpConfigObjects demoEnv groupedObjects demoExporter)).filter
      (fun m => decide (typecode m = some 403))).map (fieldValue 220) = [some "remote"] := by
  refine ⟨?_, by decide, by decide⟩
  obtain ⟨r1, a1, b1⟩ := dumpHosts_records env objects.hosts ([], StartConfigDump env k)
  obtain ⟨r2, a2, b2⟩ := dumpHostGroups_records env objects
    (dumpHosts env objects.hosts ([], StartConfigDump env k)).1
    (dumpHosts env objects.hosts ([], StartConfigDump env k)).2
  obtain ⟨r3, a3, b3⟩ := dumpServices_records env objects.services
    ([], dumpHostGroups env objects (dumpHosts env objects.hosts ([], StartConfigDump env k)).1
      (dumpHosts env objects.hosts ([], StartConfigDump env k)).2)
  obtain ⟨r4, a4, b4⟩ := dumpServiceGroups_records env objects
    (dumpServices env objects.services
      ([], dumpHostGroups env objects (dumpHosts env objects.hosts ([], StartConfigDump env k)).1
        (dumpHosts env objects.hosts ([], StartConfigDump env k)).2)).1
    (dumpServices env objects.services
      ([], dumpHostGroups env objects (dumpHosts env objects.hosts ([], StartConfigDump env k)).1
        (dumpHosts env objects.hosts ([], StartConfigDump env k)).2)).2
  have hh : ∀ g, (∀ x, mapFind ((dumpHosts env objects.hosts
        ([], StartConfigDump env k)).1) x ≠ some []) ∧
      (((dumpHosts env objects.hosts ([], StartConfigDump env k)).1).map
        Prod.fst).Pairwise (fun a b => strLt a b = true) ∧
      (mapFind ((dumpHosts env objects.hosts ([], StartConfigDump env k)).1) g).getD [] =
        groupMembers objects.hosts g := by
    intro g
    rw [dumpHosts_groups]
    obtain ⟨c1, c2, c3⟩ := collected_spec objects.hosts g [] (by simp [mapFind]) (by simp)
    exact ⟨c1, c2, by simpa [mapFind] using c3⟩
  have hs : ∀ g (acc : Exporter), (∀ x, mapFind ((dumpServices env objects.services
        ([], acc)).1) x ≠ some []) ∧
      (((dumpServices env objects.services ([], acc)).1).map
        Prod.fst).Pairwise (fun a b => strLt a b = true) ∧
      (mapFind ((dumpServices env objects.services ([], acc)).1) g).getD [] =
        serviceGroupMembers objects.services g := by
    intro g acc
    rw [dumpServices_groups]
    obtain ⟨c1, c2, c3⟩ := collectedServices_spec objects.services g []
      (by simp [mapFind]) (by simp)
    exact ⟨c1, c2, by simpa [mapFind] using c3⟩
  have b2 : List.Forall₂ (IsHostGroupRecord env objects)
      (((dumpHosts env objects.hosts ([], StartConfigDump env k)).1).filter
        (hostGroupExists objects)) r2 := b2
  refine ⟨(dumpHosts env objects.hosts ([], StartConfigDump env k)).1,
    (dumpServices env objects.services
      ([], dumpHostGroups env objects (dumpHosts env objects.hosts ([], StartConfigDump env k)).1
        (dumpHosts env objects.hosts ([], StartConfigDump env k)).2)).1,
    messageStr env (startConfigDumpItems env k),
    messageStr env (endConfigDumpItems env
      (dumpServiceGroups env objects
        (dumpServices env objects.services
          ([], dumpHostGroups env objects
            (dumpHosts env objects.hosts ([], StartConfigDump env k)).1
            (dumpHosts env objects.hosts ([], StartConfigDump env k)).2)).1
        (dumpServices env objects.services
          ([], dumpHostGroups env objects
            (dumpHosts env objects.hosts ([], StartConfigDump env k)).1
            (dumpHosts env objects.hosts ([], StartConfigDump env k)).2)).2)),
    r1, r2, r3, r4, ?_, typecode_startConfigDump env k, typecode_endConfigDump env _,
    b1, b3, (hh "").2.1, fun g => ⟨(hh g).1 g, (hh g).2.2⟩, b2,
    (hs "" _).2.1, fun g => ⟨(hs g _).1 g, (hs g _).2.2⟩, b4, ?_⟩
  · show (EndConfigDump env _).sent = _
    simp only [EndConfigDump, SendMessage]
    rw [a4, a3, a2, a1]
    simp [StartConfigDump, SendMessage]
  · simp only [List.map_cons, List.map_append, List.map_nil,
      typecode_startConfigDump, typecode_endConfigDump,
      typecodes_of_forall₂ (typecode_of_hostRecord env) b1,
      typecodes_of_forall₂ (typecode_of_hostGroupRecord env objects) b2,
      typecodes_of_forall₂ (typecode_of_serviceRecord env) b3,
      typecodes_of_forall₂ (typecode_of_serviceGroupRecord env objects) b4]
    simp

end Icinga
